import Mathlib

/-!
PKA device bring-up core (`src/lib/pka_dev.c`): shallow embedding.

The kernel half of `pka_dev.c` is embedded as pure functions over an explicit
`World`.  Pointers to the `pka_dev_res_t` members embedded in a shim or a ring
are `res_ptr_t` values, the structures they point to live in `World.res`, and
every call that leaves the driver (memory-region reservation, `ioremap`,
MMIO access, the cycle counter, the allocator) is appended to `World.trace`;
what such a call returns is read from an `Env`, a family of functions of the
history so far.  A `none` result of a function stands for a NULL-pointer
dereference (or an out-of-bounds table read) in the C code, or, in a function
with a polling loop, for a loop that used up the given `fuel`.
-/

namespace PKA

/-! ## errno values -/

def EPERM : Int := 1
def ENXIO : Int := 6
def EAGAIN : Int := 11
def ENOMEM : Int := 12
def EBUSY : Int := 16
def EINVAL : Int := 22
def EWOULDBLOCK : Int := 11

/-! ## Data model -/

/-- Modelled from the spec: the resource status enumeration of the missing
header `pka_dev.h` (spec: status is unmapped or mapped). -/
inductive pka_dev_res_status_t
  | PKA_DEV_RES_STATUS_UNMAPPED
  | PKA_DEV_RES_STATUS_MAPPED
  deriving DecidableEq, Repr

/-- Modelled from the spec: the resource kind enumeration of the missing
header `pka_dev.h` (spec: kind is register-block or memory-block). -/
inductive pka_dev_res_type_t
  | PKA_DEV_RES_TYPE_MEM
  | PKA_DEV_RES_TYPE_REG
  deriving DecidableEq, Repr

export pka_dev_res_status_t (PKA_DEV_RES_STATUS_UNMAPPED PKA_DEV_RES_STATUS_MAPPED)
export pka_dev_res_type_t (PKA_DEV_RES_TYPE_MEM PKA_DEV_RES_TYPE_REG)

/-- The record `pka_dev_res_t`; `ioaddr = 0` is the NULL pointer. -/
structure pka_dev_res_t where
  base : Nat
  size : Nat
  type : pka_dev_res_type_t
  status : pka_dev_res_status_t
  name : String
  ioaddr : Nat
  deriving DecidableEq, Repr

/-- Members of `shim->resources`. -/
inductive shim_res_field
  | buffer_ram
  | master_prog_ram
  | master_seq_ctrl
  | aic_csr
  | trng_csr
  deriving DecidableEq, Repr

/-- Members of `ring->resources`. -/
inductive ring_res_field
  | info_words
  | counters
  | window_ram
  deriving DecidableEq, Repr

/-- A `pka_dev_res_t *`: the address of a resource member of the shim or of
the ring stored at the given address. -/
inductive res_ptr_t
  | of_shim (shim : Nat) (field : shim_res_field)
  | of_ring (ring : Nat) (field : ring_res_field)
  deriving DecidableEq, Repr

/-- One element of `pka_gbl_res_tbl` (`pka_dev_gbl_shim_res_info_t`): the slot
array `res_tbl` of `PKA_DEV_SHIM_RES_CNT` resource pointers (`none` is NULL)
and the `uint8_t` counter `res_cnt`.  The array length plays the part of the
constant `PKA_DEV_SHIM_RES_CNT`. -/
structure pka_dev_gbl_shim_res_info_t where
  res_tbl : List (Option res_ptr_t)
  res_cnt : Nat
  deriving DecidableEq, Repr

/-- The zero-initialised table of a static global: `cap` NULL slots, count 0. -/
def empty_res_info (cap : Nat) : pka_dev_gbl_shim_res_info_t :=
  { res_tbl := List.replicate cap none, res_cnt := 0 }

/-- Number of non-NULL slots of a table. -/
def nonEmptySlots (t : pka_dev_gbl_shim_res_info_t) : Nat :=
  t.res_tbl.countP Option.isSome

/-! ## Resource table: `pka_dev_add_resource`, `pka_dev_put_resource`,
`pka_dev_get_resource_ioaddr` -/

/-- `pka_dev_add_resource`: store the pointer at index `res_cnt` and increment
the `uint8_t` counter, or return `-ENOMEM` when `res_cnt >= PKA_DEV_SHIM_RES_CNT`. -/
def pka_dev_add_resource (tbl : Nat → pka_dev_gbl_shim_res_info_t)
    (res_ptr : res_ptr_t) (shim_idx : Nat) :
    Int × (Nat → pka_dev_gbl_shim_res_info_t) :=
  let res_cnt := (tbl shim_idx).res_cnt
  if res_cnt ≥ (tbl shim_idx).res_tbl.length then (-ENOMEM, tbl)
  else
    (0, Function.update tbl shim_idx
      { res_tbl := (tbl shim_idx).res_tbl.set res_cnt (some res_ptr),
        res_cnt := ((tbl shim_idx).res_cnt + 1) % 256 })

/-- First loop of `pka_dev_put_resource`: clear the first non-NULL slot whose
resource has the given name; `none` when no slot matches. -/
def put_clear_name (res : res_ptr_t → pka_dev_res_t) (name : String) :
    List (Option res_ptr_t) → Option (List (Option res_ptr_t))
  | [] => none
  | none :: rest => (put_clear_name res name rest).map (fun l => none :: l)
  | some q :: rest =>
    if (res q).name = name then some (none :: rest)
    else (put_clear_name res name rest).map (fun l => some q :: l)

/-- Second loop of `pka_dev_put_resource`: is there a non-NULL slot whose
resource has the given base? -/
def put_base_shared (res : res_ptr_t → pka_dev_res_t) (base : Nat) :
    List (Option res_ptr_t) → Bool
  | [] => false
  | none :: rest => put_base_shared res base rest
  | some q :: rest => if (res q).base = base then true else put_base_shared res base rest

/-- `pka_dev_put_resource`: clear the first slot with the name of `*r` and
decrement the `uint8_t` counter, then return `-EBUSY` when a remaining slot has
the base of `*r`, else 0. -/
def pka_dev_put_resource (res : res_ptr_t → pka_dev_res_t)
    (tbl : Nat → pka_dev_gbl_shim_res_info_t) (r : res_ptr_t) (shim_idx : Nat) :
    Int × (Nat → pka_dev_gbl_shim_res_info_t) :=
  let tbl1 :=
    match put_clear_name res (res r).name (tbl shim_idx).res_tbl with
    | some l => Function.update tbl shim_idx
        { res_tbl := l, res_cnt := ((tbl shim_idx).res_cnt + 255) % 256 }
    | none => tbl
  if put_base_shared res (res r).base (tbl1 shim_idx).res_tbl then (-EBUSY, tbl1)
  else (0, tbl1)

/-- Loop of `pka_dev_get_resource_ioaddr` over the slots it visits: the
`ioaddr` of the first resource with the given base, 0 (NULL) when there is
none, and `none` when a visited slot is NULL (the loop reads `res_ptr->base`
without a NULL test). -/
def ioaddr_scan (res : res_ptr_t → pka_dev_res_t) (res_base : Nat) :
    List (Option res_ptr_t) → Option Nat
  | [] => some 0
  | none :: _ => none
  | some q :: rest =>
    if (res q).base = res_base then some (res q).ioaddr
    else ioaddr_scan res res_base rest

/-- `pka_dev_get_resource_ioaddr`: scan slots `0 .. res_cnt - 1`. -/
def pka_dev_get_resource_ioaddr (res : res_ptr_t → pka_dev_res_t)
    (tbl : Nat → pka_dev_gbl_shim_res_info_t) (res_base : Nat) (shim_idx : Nat) :
    Option Nat :=
  let res_cnt := (tbl shim_idx).res_cnt
  if res_cnt = 0 then some 0
  else if res_cnt > (tbl shim_idx).res_tbl.length then none
  else ioaddr_scan res res_base ((tbl shim_idx).res_tbl.take res_cnt)

/-- Table states reachable from the zero-initialised global table (with `cap`
slots per shim) by calls of `pka_dev_add_resource` and `pka_dev_put_resource`,
whatever the resource structures hold at the time of each call. -/
inductive TblReachable (cap : Nat) : (Nat → pka_dev_gbl_shim_res_info_t) → Prop
  | init : TblReachable cap (fun _ => empty_res_info cap)
  | add (tbl : Nat → pka_dev_gbl_shim_res_info_t) (res_ptr : res_ptr_t) (shim_idx : Nat) :
      TblReachable cap tbl → TblReachable cap (pka_dev_add_resource tbl res_ptr shim_idx).2
  | put (tbl : Nat → pka_dev_gbl_shim_res_info_t) (res : res_ptr_t → pka_dev_res_t)
      (r : res_ptr_t) (shim_idx : Nat) :
      TblReachable cap tbl → TblReachable cap (pka_dev_put_resource res tbl r shim_idx).2

/-! ## The world outside the driver -/

/-- One call that leaves the driver, with the value it returned. -/
inductive Event
  | request_mem_region (base size : Nat) (name : String) (ok : Bool)
  | release_mem_region (base size : Nat)
  | ioremap_nocache (base size : Nat) (ret : Nat)
  | iounmap (addr : Nat)
  | pka_mmio_write (addr value : Nat)
  | pka_mmio_read (addr value : Nat)
  | get_cycles (value : Nat)
  | kzalloc (ret : Nat)
  | kfree (ptr : Nat)
  deriving DecidableEq, Repr

/-- What the kernel and the hardware answer, as functions of the history of
calls made so far (oldest first) and of the arguments of the call. -/
structure Env where
  request_mem_region : List Event → Nat → Nat → String → Bool
  ioremap_nocache : List Event → Nat → Nat → Nat
  pka_mmio_read : List Event → Nat → Nat
  get_cycles : List Event → Nat
  kzalloc : List Event → Nat
  pka_early_cpu_speed : Nat

/-- Modelled from the spec: the shim status enumeration of the missing header
`pka_dev.h` (spec: undefined, created, initialized, running, stopped,
finalized). -/
inductive pka_shim_status_t
  | PKA_SHIM_STATUS_UNDEFINED
  | PKA_SHIM_STATUS_CREATED
  | PKA_SHIM_STATUS_INITIALIZED
  | PKA_SHIM_STATUS_RUNNING
  | PKA_SHIM_STATUS_STOPPED
  | PKA_SHIM_STATUS_FINALIZED
  deriving DecidableEq, Repr

export pka_shim_status_t (PKA_SHIM_STATUS_UNDEFINED PKA_SHIM_STATUS_CREATED
  PKA_SHIM_STATUS_INITIALIZED PKA_SHIM_STATUS_RUNNING PKA_SHIM_STATUS_STOPPED
  PKA_SHIM_STATUS_FINALIZED)

/-- The scalar members of `pka_dev_shim_t` (its `resources` members live in
`World.res` under `res_ptr_t.of_shim`).  `rings` is the pointer to the array
allocated by `pka_dev_create_shim` (0 is NULL); the array itself is
`World.ring_bank` at that address. -/
structure pka_dev_shim_t where
  shim_id : Nat
  base : Nat
  size : Nat
  window_ram_split : Nat
  ring_type : Nat
  ring_priority : Nat
  status : pka_shim_status_t
  rings : Nat
  rings_num : Nat
  busy_ring_num : Nat
  trng_enabled : Nat
  trng_err_cycle : Nat
  deriving DecidableEq, Repr

/-- Modelled from the spec: the ring status enumeration of the missing header
`pka_dev.h` (spec: undefined, initialized, ready, busy). -/
inductive pka_dev_ring_status_t
  | PKA_DEV_RING_STATUS_UNDEFINED
  | PKA_DEV_RING_STATUS_INITIALIZED
  | PKA_DEV_RING_STATUS_READY
  | PKA_DEV_RING_STATUS_BUSY
  deriving DecidableEq, Repr

export pka_dev_ring_status_t (PKA_DEV_RING_STATUS_UNDEFINED PKA_DEV_RING_STATUS_INITIALIZED
  PKA_DEV_RING_STATUS_READY PKA_DEV_RING_STATUS_BUSY)

/-- The record `pka_dev_hw_ring_info_t` filled by `pka_dev_partition_mem`. -/
structure pka_dev_hw_ring_info_t where
  cmmd_base : Nat
  rslt_base : Nat
  size : Nat
  host_desc_size : Nat
  in_order : Nat
  cmmd_rd_ptr : Nat
  rslt_wr_ptr : Nat
  cmmd_rd_stats : Nat
  rslt_wr_stats : Nat
  deriving DecidableEq, Repr

/-- The scalar members of `pka_dev_ring_t` (its `resources` members live in
`World.res` under `res_ptr_t.of_ring`); `shim` and `ring_info` are pointers
(0 is NULL). -/
structure pka_dev_ring_t where
  ring_id : Nat
  shim : Nat
  resources_num : Nat
  status : pka_dev_ring_status_t
  num_cmd_desc : Nat
  ring_info : Nat
  deriving DecidableEq, Repr

/-- The global `pka_gbl_config`: registered shims and rings (pointers, 0 is
NULL) and their counts. -/
structure pka_dev_gbl_config_t where
  dev_shims : Nat → Nat
  dev_rings : Nat → Nat
  dev_shims_cnt : Nat
  dev_rings_cnt : Nat

/-- Driver state: the resource structures, the global table
`pka_gbl_res_tbl`, the shim and ring structures by address, the ring-pointer
arrays allocated for `shim->rings` by address, the `pka_dev_hw_ring_info_t`
records by address, the global `pka_gbl_config`, and the history of outside
calls (oldest first). -/
structure World where
  res : res_ptr_t → pka_dev_res_t
  pka_gbl_res_tbl : Nat → pka_dev_gbl_shim_res_info_t
  shim : Nat → pka_dev_shim_t
  ring : Nat → pka_dev_ring_t
  ring_bank : Nat → List Nat
  ring_info : Nat → pka_dev_hw_ring_info_t
  pka_gbl_config : pka_dev_gbl_config_t
  trace : List Event

/-! ## Resources: `pka_dev_set_resource_config`, `pka_dev_unset_resource_config` -/

/-- The base stored by `pka_dev_set_resource_config`: `res_base` for a register
resource, `shim->base + res_base` (64-bit) for a memory resource. -/
def config_base (shim_base res_base : Nat) : pka_dev_res_type_t → Nat
  | PKA_DEV_RES_TYPE_REG => res_base
  | PKA_DEV_RES_TYPE_MEM => (shim_base + res_base) % 2 ^ 64

/-- Tail of `pka_dev_set_resource_config` once `res_ptr->ioaddr` is decided:
set the status to mapped, then register the resource unless `ioaddr` is NULL;
on failure release the region and return `-ENOMEM`. -/
def set_resource_config_register (w : World) (shim_id : Nat) (res_ptr : res_ptr_t) :
    Int × World :=
  let r := { w.res res_ptr with status := PKA_DEV_RES_STATUS_MAPPED }
  let w1 : World := { w with res := Function.update w.res res_ptr r }
  if r.ioaddr = 0 then
    (-ENOMEM, { w1 with trace := w1.trace ++ [Event.release_mem_region r.base r.size] })
  else
    let a := pka_dev_add_resource w1.pka_gbl_res_tbl res_ptr shim_id
    if a.1 ≠ 0 then
      (-ENOMEM, { w1 with pka_gbl_res_tbl := a.2,
                          trace := w1.trace ++ [Event.release_mem_region r.base r.size] })
    else (0, { w1 with pka_gbl_res_tbl := a.2 })

/-- `pka_dev_set_resource_config`. -/
def pka_dev_set_resource_config (env : Env) (w : World) (shim : Nat) (res_ptr : res_ptr_t)
    (res_base res_size : Nat) (res_type : pka_dev_res_type_t) (res_name : String) :
    Option (Int × World) :=
  if (w.res res_ptr).status = PKA_DEV_RES_STATUS_MAPPED then some (-EPERM, w)
  else
    let base := config_base (w.shim shim).base res_base res_type
    let r0 : pka_dev_res_t :=
      { base := base, size := res_size, type := res_type,
        status := PKA_DEV_RES_STATUS_UNMAPPED, name := res_name,
        ioaddr := (w.res res_ptr).ioaddr }
    let res0 := Function.update w.res res_ptr r0
    match pka_dev_get_resource_ioaddr res0 w.pka_gbl_res_tbl base (w.shim shim).shim_id with
    | none => none
    | some ioaddr =>
      let r1 := { r0 with ioaddr := ioaddr }
      if ioaddr = 0 then
        let ok := env.request_mem_region w.trace base res_size res_name
        let tr1 := w.trace ++ [Event.request_mem_region base res_size res_name ok]
        if ok = false then
          some (-EPERM, { w with res := Function.update w.res res_ptr r1, trace := tr1 })
        else
          let m := env.ioremap_nocache tr1 base res_size
          let tr2 := tr1 ++ [Event.ioremap_nocache base res_size m]
          some (set_resource_config_register
            { w with res := Function.update w.res res_ptr { r1 with ioaddr := m }, trace := tr2 }
            (w.shim shim).shim_id res_ptr)
      else
        some (set_resource_config_register
          { w with res := Function.update w.res res_ptr r1 } (w.shim shim).shim_id res_ptr)

/-- `pka_dev_unset_resource_config`. -/
def pka_dev_unset_resource_config (w : World) (shim : Nat) (res_ptr : res_ptr_t) : World :=
  let r := w.res res_ptr
  if r.status ≠ PKA_DEV_RES_STATUS_MAPPED then w
  else
    let w1 : World :=
      if r.ioaddr = 0 then w
      else
        let p := pka_dev_put_resource w.res w.pka_gbl_res_tbl res_ptr (w.shim shim).shim_id
        if p.1 ≠ -EBUSY then
          { w with pka_gbl_res_tbl := p.2,
                   trace := w.trace ++ [Event.iounmap r.ioaddr,
                                        Event.release_mem_region r.base r.size] }
        else { w with pka_gbl_res_tbl := p.2 }
    { w1 with res := Function.update w1.res res_ptr
                { r with status := PKA_DEV_RES_STATUS_UNMAPPED } }

/-! ## Constants of the missing headers -/

/-- The constants of `pka_dev.h`, `pka_addr.h`, `pka_config.h` and
`pka_firmware.h` that `pka_dev.c` uses; the headers are not part of the
sources, so the values are parameters.  `PAGE_SHIFT` gives the kernel macros
`PAGE_SIZE = 1 << PAGE_SHIFT` and `PAGE_MASK = ~(PAGE_SIZE - 1)`. -/
structure Consts where
  PKA_MAX_NUM_IO_BLOCKS : Nat
  PKA_MAX_NUM_IO_BLOCK_RINGS : Nat
  PKA_MAX_NUM_RINGS : Nat
  PKA_SHIM_WINDOW_RAM_SPLIT_ENABLED : Nat
  PKA_SHIM_WINDOW_RAM_SPLIT_DISABLED : Nat
  PKA_SPLIT_WINDOW_RAM_MODE : Nat
  PKA_RING_TYPE_IN_ORDER : Nat
  PKA_RING_OPTIONS_PRIORITY : Nat
  PKA_RING_OPTIONS_SIGNATURE_BYTE : Nat
  PKA_RING_OPTIONS_ADDR : Nat
  PKA_BUFFER_RAM_BASE : Nat
  PKA_BUFFER_RAM_SIZE : Nat
  PKA_MASTER_PROG_RAM_BASE : Nat
  PKA_MASTER_PROG_RAM_SIZE : Nat
  PAGE_SHIFT : Nat
  PKA_MASTER_SEQ_CTRL_ADDR : Nat
  PKA_MASTER_SEQ_CTRL_RESET_VAL : Nat
  PKA_MASTER_SEQ_CTRL_MASTER_IRQ_BIT : Nat
  PKA_MASTER_SEQ_CTRL_STATUS_BYTE : Nat
  AIC_POL_CTRL_ADDR : Nat
  AIC_TYPE_CTRL_ADDR : Nat
  AIC_ENABLE_CTRL_ADDR : Nat
  AIC_ENABLED_STAT_ADDR : Nat
  PKA_AIC_POL_CTRL_REG_VAL : Nat
  PKA_AIC_TYPE_CTRL_REG_VAL : Nat
  PKA_AIC_ENABLE_CTRL_REG_VAL : Nat
  PKA_AIC_ENABLE_STAT_REG_VAL : Nat
  PKA_AIC_ENABLED_STAT_MASTER_IRQ_MASK : Nat
  PKA_CLK_FORCE_ADDR : Nat
  PKA_CLK_FORCE_TRNG_ON : Nat
  TRNG_OUTPUT_0_ADDR : Nat
  TRNG_STATUS_ADDR : Nat
  TRNG_INTACK_ADDR : Nat
  TRNG_CONTROL_ADDR : Nat
  TRNG_CONFIG_ADDR : Nat
  TRNG_ALARMCNT_ADDR : Nat
  TRNG_FROENABLE_ADDR : Nat
  TRNG_FRODETUNE_ADDR : Nat
  TRNG_ALARMMASK_ADDR : Nat
  TRNG_ALARMSTOP_ADDR : Nat
  PKA_TRNG_CONFIG_REG_VAL : Nat
  PKA_TRNG_ALARMCNT_REG_VAL : Nat
  PKA_TRNG_FROENABLE_REG_VAL : Nat
  PKA_TRNG_CONTROL_REG_VAL : Nat
  PKA_SHIM_TRNG_ENABLED : Nat
  PKA_SHIM_TRNG_DISABLED : Nat
  farm_image_data_buf : List Nat
  boot_image_data_buf : List Nat
  master_image_data_buf : List Nat
  PKA_MAX_NUM_RING_RESOURCES : Nat
  PKA_RING_WORDS_SPACING : Nat
  PKA_RING_WORDS_ADDR : Nat
  PKA_RING_WORDS_SIZE : Nat
  PKA_RING_CNTRS_SPACING : Nat
  PKA_RING_CNTRS_ADDR : Nat
  PKA_RING_CNTRS_SIZE : Nat
  PKA_RING_MEM_0_SPACING : Nat
  PKA_RING_MEM_0_BASE : Nat
  PKA_RING_MEM_0_SIZE : Nat
  PKA_RING_MEM_1_SPACING : Nat
  PKA_RING_MEM_1_BASE : Nat
  PKA_RING_MEM_1_SIZE : Nat
  PKA_WINDOW_RAM_RING_MEM_SIZE : Nat
  PKA_WINDOW_RAM_DATA_MEM_SIZE : Nat
  CMD_DESC_SIZE : Nat
  RING_CMMD_BASE_0_ADDR : Nat
  RING_RSLT_BASE_0_ADDR : Nat
  RING_SIZE_TYPE_0_ADDR : Nat
  RING_RW_PTRS_0_ADDR : Nat
  RING_RW_STAT_0_ADDR : Nat
  PKA_TRNG_OUTPUT_CNT : Nat
  PKA_TRNG_STATUS_SHUTDOWN_OFLO : Nat
  PKA_TRNG_STATUS_READY : Nat

/-- Kernel macro `PAGE_SIZE`. -/
def Consts.PAGE_SIZE (K : Consts) : Nat := 2 ^ K.PAGE_SHIFT

/-- Kernel macro `PAGE_MASK`, as a 64-bit value. -/
def Consts.PAGE_MASK (K : Consts) : Nat := 2 ^ 64 - 2 ^ K.PAGE_SHIFT

/-- The 64-bit value `~PAGE_MASK`. -/
def Consts.NOT_PAGE_MASK (K : Consts) : Nat := 2 ^ K.PAGE_SHIFT - 1

/-- Modelled from the spec: `BYTES_PER_WORD` of the missing header (spec:
32-bit words). -/
def BYTES_PER_WORD : Nat := 4

/-- Modelled from the spec: `BYTES_PER_DOUBLE_WORD` of the missing header
(spec: one word per 64-bit slot, 8-byte stride). -/
def BYTES_PER_DOUBLE_WORD : Nat := 8

/-! ## Timer, register addresses, MMIO -/

/-- `pka_dev_timer_start`: `get_cycles() + (pka_early_cpu_speed() * usec) / 1000000`. -/
def pka_dev_timer_start (env : Env) (w : World) (usec : Nat) : Nat × World :=
  let cur_time := env.get_cycles w.trace % 2 ^ 64
  ((cur_time + (env.pka_early_cpu_speed * usec) % 2 ^ 64 / 1000000) % 2 ^ 64,
   { w with trace := w.trace ++ [Event.get_cycles cur_time] })

/-- `pka_dev_timer_done`: `get_cycles() >= timer`. -/
def pka_dev_timer_done (env : Env) (w : World) (timer : Nat) : Bool × World :=
  let cur_time := env.get_cycles w.trace % 2 ^ 64
  (decide (cur_time ≥ timer), { w with trace := w.trace ++ [Event.get_cycles cur_time] })

/-- `pka_dev_get_register_base`: `(base + reg_addr) & PAGE_MASK`. -/
def pka_dev_get_register_base (K : Consts) (base reg_addr : Nat) : Nat :=
  ((base + reg_addr) % 2 ^ 64) &&& K.PAGE_MASK

/-- `pka_dev_get_register_offset`: `(base + reg_addr) & ~PAGE_MASK`. -/
def pka_dev_get_register_offset (K : Consts) (base reg_addr : Nat) : Nat :=
  ((base + reg_addr) % 2 ^ 64) &&& K.NOT_PAGE_MASK

/-- `pka_dev_get_word_offset`: `(mem_base + word_addr) & (mem_size - 1)`. -/
def pka_dev_get_word_offset (mem_base word_addr mem_size : Nat) : Nat :=
  ((mem_base + word_addr) % 2 ^ 64) &&& ((mem_size + (2 ^ 64 - 1)) % 2 ^ 64)

/-- `pka_dev_io_read`: one `pka_mmio_read` at `mem_ptr + mem_off`. -/
def pka_dev_io_read (env : Env) (w : World) (mem_ptr mem_off : Nat) : Nat × World :=
  let data := env.pka_mmio_read w.trace (mem_ptr + mem_off) % 2 ^ 64
  (data, { w with trace := w.trace ++ [Event.pka_mmio_read (mem_ptr + mem_off) data] })

/-- `pka_dev_io_write`: one `pka_mmio_write` at `mem_ptr + mem_off`. -/
def pka_dev_io_write (w : World) (mem_ptr mem_off value : Nat) : World :=
  { w with trace := w.trace ++ [Event.pka_mmio_write (mem_ptr + mem_off) value] }

/-- The C idiom `ret = f(...); if (ret) return ret;` followed by the rest of
the function. -/
def and_then (r : Option (Int × World)) (k : World → Option (Int × World)) :
    Option (Int × World) :=
  match r with
  | none => none
  | some x => if x.1 ≠ 0 then some x else k x.2

/-! ## Shim: `pka_dev_create_shim`, `pka_dev_delete_shim` -/

/-- The `pka_dev_set_resource_config` call that `pka_dev_create_shim` makes for
the given member of `shim->resources`. -/
def create_shim_config (K : Consts) (env : Env) (w : World) (shim : Nat) :
    shim_res_field → Option (Int × World)
  | .buffer_ram =>
    pka_dev_set_resource_config env w shim (.of_shim shim .buffer_ram)
      K.PKA_BUFFER_RAM_BASE K.PKA_BUFFER_RAM_SIZE PKA_DEV_RES_TYPE_MEM "PKA_BUFFER_RAM"
  | .master_prog_ram =>
    pka_dev_set_resource_config env w shim (.of_shim shim .master_prog_ram)
      K.PKA_MASTER_PROG_RAM_BASE K.PKA_MASTER_PROG_RAM_SIZE PKA_DEV_RES_TYPE_MEM
      "PKA_MASTER_PROG_RAM"
  | .master_seq_ctrl =>
    pka_dev_set_resource_config env w shim (.of_shim shim .master_seq_ctrl)
      (pka_dev_get_register_base K (w.shim shim).base K.PKA_MASTER_SEQ_CTRL_ADDR)
      K.PAGE_SIZE PKA_DEV_RES_TYPE_REG "PKA_MASTER_SEQ_CTRL"
  | .aic_csr =>
    pka_dev_set_resource_config env w shim (.of_shim shim .aic_csr)
      (pka_dev_get_register_base K (w.shim shim).base K.AIC_POL_CTRL_ADDR)
      K.PAGE_SIZE PKA_DEV_RES_TYPE_REG "PKA_AIC_CSR"
  | .trng_csr =>
    pka_dev_set_resource_config env w shim (.of_shim shim .trng_csr)
      (pka_dev_get_register_base K (w.shim shim).base K.TRNG_OUTPUT_0_ADDR)
      K.PAGE_SIZE PKA_DEV_RES_TYPE_REG "PKA_TRNG_CSR"

/-- The world in which `pka_dev_create_shim` returns 0: `shim->status = CREATED`. -/
def create_shim_done (w : World) (shim : Nat) : World :=
  { w with
    shim := Function.update w.shim shim
      { w.shim shim with status := PKA_SHIM_STATUS_CREATED } }

/-- The five `pka_dev_set_resource_config` calls of `pka_dev_create_shim`, each
followed by `if (ret) return ret;`, then `shim->status = CREATED; return ret`. -/
def create_shim_resources (K : Consts) (env : Env) (w : World) (shim : Nat) :
    Option (Int × World) :=
  and_then (create_shim_config K env w shim .buffer_ram) fun w1 =>
  and_then (create_shim_config K env w1 shim .master_prog_ram) fun w2 =>
  and_then (create_shim_config K env w2 shim .master_seq_ctrl) fun w3 =>
  and_then (create_shim_config K env w3 shim .aic_csr) fun w4 =>
  and_then (create_shim_config K env w4 shim .trng_csr) fun w5 =>
  some (0, create_shim_done w5 shim)

/-- The state of `pka_dev_create_shim` after the parameters are stored and
`shim->rings` is allocated (`kzalloc` returned `rings`, 0 when it failed). -/
def create_shim_params (K : Consts) (w : World) (shim shim_id shim_base shim_size split : Nat)
    (rings : Nat) : World :=
  { w with
    shim := Function.update w.shim shim
      { w.shim shim with
        shim_id := shim_id, base := shim_base, size := shim_size,
        window_ram_split :=
          if split ≠ 0 then K.PKA_SHIM_WINDOW_RAM_SPLIT_ENABLED
          else K.PKA_SHIM_WINDOW_RAM_SPLIT_DISABLED,
        ring_type := K.PKA_RING_TYPE_IN_ORDER,
        ring_priority := K.PKA_RING_OPTIONS_PRIORITY,
        rings_num := K.PKA_MAX_NUM_IO_BLOCK_RINGS,
        rings := rings },
    ring_bank :=
      if rings = 0 then w.ring_bank
      else Function.update w.ring_bank rings (List.replicate K.PKA_MAX_NUM_IO_BLOCK_RINGS 0),
    trace := w.trace ++ [Event.kzalloc rings] }

/-- `pka_dev_create_shim`. -/
def pka_dev_create_shim (K : Consts) (env : Env) (w : World)
    (shim shim_id shim_base shim_size split : Nat) : Option (Int × World) :=
  if (w.shim shim).status = PKA_SHIM_STATUS_CREATED then some (0, w)
  else if (w.shim shim).status ≠ PKA_SHIM_STATUS_UNDEFINED then some (-EPERM, w)
  else if shim_id > K.PKA_MAX_NUM_IO_BLOCKS - 1 then some (-EINVAL, w)
  else
    let rings := env.kzalloc w.trace
    let w0 := create_shim_params K w shim shim_id shim_base shim_size split rings
    if rings = 0 then
      some (-ENOMEM, { w0 with trace := w0.trace ++ [Event.kfree 0] })
    else create_shim_resources K env w0 shim

/-- `pka_dev_delete_shim`. -/
def pka_dev_delete_shim (w : World) (shim : Nat) : Int × World :=
  if (w.shim shim).status = PKA_SHIM_STATUS_UNDEFINED then (0, w)
  else if (w.shim shim).status ≠ PKA_SHIM_STATUS_FINALIZED ∧
      (w.shim shim).status ≠ PKA_SHIM_STATUS_CREATED then (-EPERM, w)
  else
    let w1 := pka_dev_unset_resource_config w shim (.of_shim shim .buffer_ram)
    let w2 := pka_dev_unset_resource_config w1 shim (.of_shim shim .master_prog_ram)
    let w3 := pka_dev_unset_resource_config w2 shim (.of_shim shim .master_seq_ctrl)
    let w4 := pka_dev_unset_resource_config w3 shim (.of_shim shim .aic_csr)
    let w5 := pka_dev_unset_resource_config w4 shim (.of_shim shim .trng_csr)
    (0, { w5 with
      shim := Function.update w5.shim shim
        { w5.shim shim with status := PKA_SHIM_STATUS_UNDEFINED },
      trace := w5.trace ++ [Event.kfree (w5.shim shim).rings] })

/-! ## Shim bring-up: `pka_dev_init_shim` and what it calls -/

/-- `pka_dev_config_aic_interrupts`. -/
def pka_dev_config_aic_interrupts (K : Consts) (w : World) (aic_csr_ptr : res_ptr_t) :
    Int × World :=
  let r := w.res aic_csr_ptr
  if r.status ≠ PKA_DEV_RES_STATUS_MAPPED ∨ r.type ≠ PKA_DEV_RES_TYPE_REG then (-EPERM, w)
  else
    let w1 := pka_dev_io_write w r.ioaddr
      (pka_dev_get_register_offset K r.base K.AIC_POL_CTRL_ADDR) K.PKA_AIC_POL_CTRL_REG_VAL
    let w2 := pka_dev_io_write w1 r.ioaddr
      (pka_dev_get_register_offset K r.base K.AIC_TYPE_CTRL_ADDR) K.PKA_AIC_TYPE_CTRL_REG_VAL
    let w3 := pka_dev_io_write w2 r.ioaddr
      (pka_dev_get_register_offset K r.base K.AIC_ENABLE_CTRL_ADDR)
      K.PKA_AIC_ENABLE_CTRL_REG_VAL
    let w4 := pka_dev_io_write w3 r.ioaddr
      (pka_dev_get_register_offset K r.base K.AIC_ENABLED_STAT_ADDR)
      K.PKA_AIC_ENABLE_STAT_REG_VAL
    (0, w4)

/-- Wrap-around of a C `int` (32 bits, two's complement). -/
def int32 (x : Int) : Int := (x + 2 ^ 31) % 2 ^ 32 - 2 ^ 31

/-- The `uint64_t` argument `mem_off` that `i * BYTES_PER_DOUBLE_WORD` (an
`int` product) is converted to. -/
def image_off (i : Nat) : Nat := (int32 ((i : Int) * BYTES_PER_DOUBLE_WORD) % 2 ^ 64).toNat

/-- Element `i` of a `const uint32_t *` buffer, as the value `(uint64_t) data_buf[i]`. -/
def image_word (data_buf : Nat → Nat) (i : Nat) : Nat := data_buf i % 2 ^ 32

/-- First loop of `pka_dev_load_image`: write the words `0 .. size - 1`. -/
def load_image_write (w : World) (ioaddr : Nat) (data_buf : Nat → Nat) (size : Nat) : World :=
  (List.range size).foldl
    (fun w i => pka_dev_io_write w ioaddr (image_off i) (image_word data_buf i)) w

/-- Second loop of `pka_dev_load_image`: read the words back and count the
mismatches in the `int` counter. -/
def load_image_verify (env : Env) (w : World) (ioaddr : Nat) (data_buf : Nat → Nat)
    (size : Nat) : Int × World :=
  (List.range size).foldl
    (fun (acc : Int × World) i =>
      let rd := pka_dev_io_read env acc.2 ioaddr (image_off i)
      (if rd.1 ≠ image_word data_buf i then int32 (acc.1 + 1) else acc.1, rd.2))
    (0, w)

/-- `pka_dev_load_image`; `size` is the number of 32-bit words of the image
(the loop index is a C `int`, followed here for `size < 2 ^ 31`). -/
def pka_dev_load_image (env : Env) (w : World) (res_ptr : res_ptr_t) (data_buf : Nat → Nat)
    (size : Nat) : Int × World :=
  let r := w.res res_ptr
  if r.status ≠ PKA_DEV_RES_STATUS_MAPPED ∨ r.type ≠ PKA_DEV_RES_TYPE_MEM then (-EPERM, w)
  else if r.size < size then (-EINVAL, w)
  else
    let w1 := load_image_write w r.ioaddr data_buf size
    let v := load_image_verify env w1 r.ioaddr data_buf size
    if v.1 > 0 then (-EAGAIN, v.2) else (0, v.2)

/-- A firmware array of `pka_firmware.h` as a `const uint32_t *`. -/
def image_buf (l : List Nat) : Nat → Nat := fun i => l.getD i 0

/-- The polling loops of `pka_dev_config_master_seq_controller` and
`pka_dev_config_trng_clk`:
`while (bit == 0) { bit |= read & mask; if (timer_done) return -EAGAIN; }`
with a `uint32_t` accumulator.  `some true`: the bit was seen before the
deadline; `some false`: the deadline passed; `none`: the fuel ran out. -/
def poll_bit (env : Env) (mem_ptr mem_off mask timer : Nat) : Nat → World → Option (Bool × World)
  | 0, _ => none
  | fuel + 1, w =>
    let rd := pka_dev_io_read env w mem_ptr mem_off
    let bit := (rd.1 &&& mask) % 2 ^ 32
    let d := pka_dev_timer_done env rd.2 timer
    if d.1 then some (false, d.2)
    else if bit ≠ 0 then some (true, d.2)
    else poll_bit env mem_ptr mem_off mask timer fuel d.2

/-- `pka_dev_config_master_seq_controller`, from the test of the AIC resource
on (after the boot image is loaded and the controller is out of reset). -/
def config_master_seq_after_boot (K : Consts) (env : Env) (fuel : Nat) (w : World) (shim : Nat)
    (master_reg_ptr master_reg_off : Nat) : Option (Int × World) :=
  let aic := w.res (.of_shim shim .aic_csr)
  if aic.status ≠ PKA_DEV_RES_STATUS_MAPPED ∨ aic.type ≠ PKA_DEV_RES_TYPE_REG then
    some (-EPERM, w)
  else
    let aic_reg_off := pka_dev_get_register_offset K aic.base K.AIC_ENABLED_STAT_ADDR
    let t := pka_dev_timer_start env w 100000
    match poll_bit env aic.ioaddr aic_reg_off K.PKA_AIC_ENABLED_STAT_MASTER_IRQ_MASK t.1 fuel t.2
    with
    | none => none
    | some (false, w1) => some (-EAGAIN, w1)
    | some (true, w1) =>
      let rd := pka_dev_io_read env w1 master_reg_ptr master_reg_off
      let status_bits := (rd.1 >>> K.PKA_MASTER_SEQ_CTRL_MASTER_IRQ_BIT) &&& 0xff
      if status_bits ≠ K.PKA_MASTER_SEQ_CTRL_STATUS_BYTE ∧
          status_bits >>> (K.PKA_MASTER_SEQ_CTRL_MASTER_IRQ_BIT - 1) = 1 then
        some (-EAGAIN, rd.2)
      else
        let w2 := pka_dev_io_write rd.2 master_reg_ptr master_reg_off
          K.PKA_MASTER_SEQ_CTRL_RESET_VAL
        and_then (some (pka_dev_load_image env w2 (.of_shim shim .master_prog_ram)
          (image_buf K.master_image_data_buf) K.master_image_data_buf.length))
        fun w3 => some (0, pka_dev_io_write w3 master_reg_ptr master_reg_off 0)

/-- `pka_dev_config_master_seq_controller`. -/
def pka_dev_config_master_seq_controller (K : Consts) (env : Env) (fuel : Nat) (w : World)
    (shim : Nat) (master_seq_ctrl_ptr : res_ptr_t) : Option (Int × World) :=
  let r := w.res master_seq_ctrl_ptr
  if r.status ≠ PKA_DEV_RES_STATUS_MAPPED ∨ r.type ≠ PKA_DEV_RES_TYPE_REG then some (-EPERM, w)
  else
    let master_reg_off := pka_dev_get_register_offset K r.base K.PKA_MASTER_SEQ_CTRL_ADDR
    let w1 := pka_dev_io_write w r.ioaddr master_reg_off K.PKA_MASTER_SEQ_CTRL_RESET_VAL
    and_then (some (pka_dev_load_image env w1 (.of_shim shim .master_prog_ram)
      (image_buf K.boot_image_data_buf) K.boot_image_data_buf.length))
    fun w2 =>
      config_master_seq_after_boot K env fuel (pka_dev_io_write w2 r.ioaddr master_reg_off 0)
        shim r.ioaddr master_reg_off

/-- `pka_dev_config_ring_options`. -/
def pka_dev_config_ring_options (K : Consts) (w : World) (buffer_ram_ptr : res_ptr_t)
    (rings_num ring_priority : Nat) : Int × World :=
  let r := w.res buffer_ram_ptr
  if r.status ≠ PKA_DEV_RES_STATUS_MAPPED ∨ r.type ≠ PKA_DEV_RES_TYPE_MEM then (-EPERM, w)
  else if rings_num > K.PKA_MAX_NUM_RINGS ∨ rings_num < 1 then (-EINVAL, w)
  else
    let control_word :=
      (ring_priority &&& 0xff) |||
      ((((rings_num - 1) <<< 8) % 2 ^ 32) &&& 0xff00) |||
      ((K.PKA_RING_OPTIONS_SIGNATURE_BYTE <<< 24) &&& 0xff000000)
    let word_off := pka_dev_get_word_offset r.base K.PKA_RING_OPTIONS_ADDR K.PKA_BUFFER_RAM_SIZE
    (0, pka_dev_io_write w r.ioaddr word_off control_word)

/-- `pka_dev_config_trng_clk`. -/
def pka_dev_config_trng_clk (K : Consts) (env : Env) (fuel : Nat) (w : World)
    (aic_csr_ptr : res_ptr_t) : Option (Int × World) :=
  let r := w.res aic_csr_ptr
  if r.status ≠ PKA_DEV_RES_STATUS_MAPPED ∨ r.type ≠ PKA_DEV_RES_TYPE_REG then some (-EPERM, w)
  else
    let csr_reg_off := pka_dev_get_register_offset K r.base K.PKA_CLK_FORCE_ADDR
    let w1 := pka_dev_io_write w r.ioaddr csr_reg_off K.PKA_CLK_FORCE_TRNG_ON
    let t := pka_dev_timer_start env w1 100000
    match poll_bit env r.ioaddr csr_reg_off K.PKA_CLK_FORCE_TRNG_ON t.1 fuel t.2 with
    | none => none
    | some (false, w2) => some (-EAGAIN, w2)
    | some (true, w2) => some (0, w2)

/-- The register writes of `pka_dev_config_trng` after the clock is on. -/
def config_trng_registers (K : Consts) (w : World) (trng_csr_ptr : res_ptr_t) : World :=
  let r := w.res trng_csr_ptr
  let off := pka_dev_get_register_offset K r.base
  let w1 := pka_dev_io_write w r.ioaddr (off K.TRNG_CONTROL_ADDR) 0
  let w2 := pka_dev_io_write w1 r.ioaddr (off K.TRNG_FROENABLE_ADDR) 0
  let w3 := pka_dev_io_write w2 r.ioaddr (off K.TRNG_FRODETUNE_ADDR) 0
  let w4 := pka_dev_io_write w3 r.ioaddr (off K.TRNG_CONFIG_ADDR) K.PKA_TRNG_CONFIG_REG_VAL
  let w5 := pka_dev_io_write w4 r.ioaddr (off K.TRNG_ALARMCNT_ADDR) K.PKA_TRNG_ALARMCNT_REG_VAL
  let w6 := pka_dev_io_write w5 r.ioaddr (off K.TRNG_ALARMMASK_ADDR) 0
  let w7 := pka_dev_io_write w6 r.ioaddr (off K.TRNG_ALARMSTOP_ADDR) 0
  let w8 := pka_dev_io_write w7 r.ioaddr (off K.TRNG_FROENABLE_ADDR)
    K.PKA_TRNG_FROENABLE_REG_VAL
  pka_dev_io_write w8 r.ioaddr (off K.TRNG_CONTROL_ADDR) K.PKA_TRNG_CONTROL_REG_VAL

/-- `pka_dev_config_trng`. -/
def pka_dev_config_trng (K : Consts) (env : Env) (fuel : Nat) (w : World)
    (aic_csr_ptr trng_csr_ptr : res_ptr_t) : Option (Int × World) :=
  let r := w.res trng_csr_ptr
  if r.status ≠ PKA_DEV_RES_STATUS_MAPPED ∨ r.type ≠ PKA_DEV_RES_TYPE_REG then some (-EPERM, w)
  else
    and_then (pka_dev_config_trng_clk K env fuel w aic_csr_ptr)
    fun w1 => some (0, config_trng_registers K w1 trng_csr_ptr)

/-- End of `pka_dev_init_shim`, from `shim->trng_enabled = PKA_SHIM_TRNG_ENABLED`
on: the TRNG is configured, the flag is cleared when that fails, the busy-ring
count and the status are set, and `ret` is returned as the TRNG call left it. -/
def init_shim_trng (K : Consts) (env : Env) (fuel : Nat) (w : World) (shim : Nat) :
    Option (Int × World) :=
  let w1 : World := { w with
    shim := Function.update w.shim shim
      { w.shim shim with trng_enabled := K.PKA_SHIM_TRNG_ENABLED, trng_err_cycle := 0 } }
  match pka_dev_config_trng K env fuel w1 (.of_shim shim .aic_csr) (.of_shim shim .trng_csr) with
  | none => none
  | some (ret, w2) =>
    let w3 : World :=
      if ret ≠ 0 then
        { w2 with
          shim := Function.update w2.shim shim
            { w2.shim shim with trng_enabled := K.PKA_SHIM_TRNG_DISABLED } }
      else w2
    some (ret, { w3 with
      shim := Function.update w3.shim shim
        { w3.shim shim with busy_ring_num := 0, status := PKA_SHIM_STATUS_INITIALIZED } })

/-- `pka_dev_init_shim`; `fuel` bounds the iterations of each polling loop. -/
def pka_dev_init_shim (K : Consts) (env : Env) (fuel : Nat) (w : World) (shim : Nat) :
    Option (Int × World) :=
  if (w.shim shim).status ≠ PKA_SHIM_STATUS_CREATED then some (-EPERM, w)
  else
    and_then (some (pka_dev_config_aic_interrupts K w (.of_shim shim .aic_csr)))
    fun w1 =>
    and_then (some (pka_dev_load_image env w1 (.of_shim shim .buffer_ram)
      (image_buf K.farm_image_data_buf) K.farm_image_data_buf.length))
    fun w2 =>
    and_then (pka_dev_config_master_seq_controller K env fuel w2 shim
      (.of_shim shim .master_seq_ctrl))
    fun w3 =>
    and_then (some (pka_dev_config_ring_options K w3 (.of_shim shim .buffer_ram)
      (w3.shim shim).rings_num (w3.shim shim).ring_priority))
    fun w4 => init_shim_trng K env fuel w4 shim

/-- `pka_dev_has_trng`. -/
def pka_dev_has_trng (K : Consts) (w : World) (shim : Nat) : Bool :=
  if shim = 0 then false
  else decide ((w.shim shim).trng_enabled = K.PKA_SHIM_TRNG_ENABLED)

/-! ## Release and registration -/

/-- `pka_dev_release_ring`; `none` when `ring`, `ring->shim` or `shim->rings`
is NULL where the code dereferences it. -/
def pka_dev_release_ring (K : Consts) (w : World) (ring : Nat) : Option (Int × World) :=
  if ring = 0 then none
  else if (w.ring ring).status = PKA_DEV_RING_STATUS_UNDEFINED then some (0, w)
  else if (w.ring ring).status = PKA_DEV_RING_STATUS_BUSY then some (-EBUSY, w)
  else
    let shim := (w.ring ring).shim
    if shim = 0 then none
    else if (w.shim shim).status = PKA_SHIM_STATUS_RUNNING then some (-EPERM, w)
    else
      let w1 := pka_dev_unset_resource_config w shim (.of_ring ring .info_words)
      let w2 := pka_dev_unset_resource_config w1 shim (.of_ring ring .counters)
      let w3 := pka_dev_unset_resource_config w2 shim (.of_ring ring .window_ram)
      if (w3.shim shim).rings = 0 then none
      else
        let shim_ring_id := (w3.ring ring).ring_id % K.PKA_MAX_NUM_IO_BLOCK_RINGS
        some (0, { w3 with
          ring := Function.update w3.ring ring
            { w3.ring ring with status := PKA_DEV_RING_STATUS_UNDEFINED },
          ring_bank := Function.update w3.ring_bank (w3.shim shim).rings
            ((w3.ring_bank (w3.shim shim).rings).set shim_ring_id 0),
          shim := Function.update w3.shim shim
            { w3.shim shim with rings_num := ((w3.shim shim).rings_num + (2 ^ 32 - 1)) % 2 ^ 32 },
          trace := w3.trace ++ [Event.kfree (w3.ring ring).ring_info] })

/-- The loop of `pka_dev_release_shim`:
`for (; ring_idx < shim->rings_num; ring_idx++)` releasing `shim->rings[ring_idx]`,
the bound being read again at every iteration. -/
def release_shim_rings (K : Consts) (shim : Nat) : Nat → Nat → World → Option (Int × World)
  | 0, ring_idx, w => if ring_idx < (w.shim shim).rings_num then none else some (0, w)
  | fuel + 1, ring_idx, w =>
    if ring_idx < (w.shim shim).rings_num then
      if (w.shim shim).rings = 0 then none
      else
        and_then
          (pka_dev_release_ring K w ((w.ring_bank (w.shim shim).rings).getD ring_idx 0))
          fun w1 => release_shim_rings K shim fuel (ring_idx + 1) w1
    else some (0, w)

/-- `pka_dev_release_shim`. -/
def pka_dev_release_shim (K : Consts) (w : World) (shim : Nat) : Option (Int × World) :=
  if (w.shim shim).status ≠ PKA_SHIM_STATUS_INITIALIZED ∧
      (w.shim shim).status ≠ PKA_SHIM_STATUS_STOPPED then some (-EPERM, w)
  else
    and_then
      (if w.pka_gbl_config.dev_rings_cnt ≠ 0 then
        release_shim_rings K shim (w.shim shim).rings_num 0 w
      else some (0, w))
      fun w1 => some (0, { w1 with
        shim := Function.update w1.shim shim
          { w1.shim shim with busy_ring_num := 0, status := PKA_SHIM_STATUS_FINALIZED } })

/-- A zeroed `pka_dev_res_t` (not mapped). -/
def zero_res : pka_dev_res_t :=
  { base := 0, size := 0, type := PKA_DEV_RES_TYPE_MEM,
    status := PKA_DEV_RES_STATUS_UNMAPPED, name := "", ioaddr := 0 }

/-- A zeroed `pka_dev_shim_t` with status undefined. -/
def zero_shim : pka_dev_shim_t :=
  { shim_id := 0, base := 0, size := 0, window_ram_split := 0, ring_type := 0,
    ring_priority := 0, status := PKA_SHIM_STATUS_UNDEFINED, rings := 0, rings_num := 0,
    busy_ring_num := 0, trng_enabled := 0, trng_err_cycle := 0 }

/-- The `kfree(shim); return NULL;` of `__pka_dev_register_shim`. -/
def register_shim_fail (w : World) (shim : Nat) : Nat × World :=
  (0, { w with trace := w.trace ++ [Event.kfree shim] })

/-- `__pka_dev_register_shim`: the address of the new shim, or 0 (NULL). -/
def __pka_dev_register_shim (K : Consts) (env : Env) (fuel : Nat) (w : World)
    (shim_id shim_base shim_size : Nat) : Option (Nat × World) :=
  let shim := env.kzalloc w.trace
  let w0 : World := { w with trace := w.trace ++ [Event.kzalloc shim] }
  if shim = 0 then some (0, w0)
  else
    let w1 : World := { w0 with
      shim := Function.update w0.shim shim zero_shim,
      res := fun q =>
        match q with
        | .of_shim s _ => if s = shim then zero_res else w0.res q
        | .of_ring _ _ => w0.res q }
    match pka_dev_create_shim K env w1 shim shim_id shim_base shim_size
      K.PKA_SPLIT_WINDOW_RAM_MODE with
    | none => none
    | some (ret, w2) =>
      if ret ≠ 0 then some (register_shim_fail (pka_dev_delete_shim w2 shim).2 shim)
      else
        match pka_dev_init_shim K env fuel w2 shim with
        | none => none
        | some (ret, w3) =>
          if ret ≠ 0 then
            match pka_dev_release_shim K w3 shim with
            | none => none
            | some (_, w4) => some (register_shim_fail (pka_dev_delete_shim w4 shim).2 shim)
          else some (shim, w3)

/-! ## Predicates used in the statements -/

/-- What holds of every reachable table: `cap` slots, a count within the
capacity, and at most `res_cnt` non-NULL slots. -/
def TblInv (cap : Nat) (t : pka_dev_gbl_shim_res_info_t) : Prop :=
  t.res_tbl.length = cap ∧ t.res_cnt ≤ cap ∧ nonEmptySlots t ≤ t.res_cnt

/-- No entry of the shim's table is the resource itself or has the name or
the base it is being configured with. -/
def TblFresh (w : World) (shim_id : Nat) (res_ptr : res_ptr_t) (name : String) (base : Nat) :
    Prop :=
  ∀ q, some q ∈ (w.pka_gbl_res_tbl shim_id).res_tbl →
    q ≠ res_ptr ∧ (w.res q).name ≠ name ∧ (w.res q).base ≠ base

/-! ### Small scenario used for concrete evaluations -/

/-- Three differently named resources A, B, C of shim 0 (members `buffer_ram`,
`master_prog_ram`, `master_seq_ctrl`); everything else is a zeroed record. -/
def demo_res : res_ptr_t → pka_dev_res_t
  | .of_shim 0 .buffer_ram =>
    { base := 0x1000, size := 0x100, type := PKA_DEV_RES_TYPE_REG,
      status := PKA_DEV_RES_STATUS_UNMAPPED, name := "A", ioaddr := 0 }
  | .of_shim 0 .master_prog_ram =>
    { base := 0x2000, size := 0x100, type := PKA_DEV_RES_TYPE_REG,
      status := PKA_DEV_RES_STATUS_UNMAPPED, name := "B", ioaddr := 0 }
  | .of_shim 0 .master_seq_ctrl =>
    { base := 0x3000, size := 0x100, type := PKA_DEV_RES_TYPE_REG,
      status := PKA_DEV_RES_STATUS_UNMAPPED, name := "C", ioaddr := 0 }
  | _ =>
    { base := 0, size := 0, type := PKA_DEV_RES_TYPE_MEM,
      status := PKA_DEV_RES_STATUS_UNMAPPED, name := "", ioaddr := 0 }

/-- Table after: add A, add B, remove A, add C (shim 0, six slots). -/
def demo_tbl_add_put_add : Nat → pka_dev_gbl_shim_res_info_t :=
  let t0 : Nat → pka_dev_gbl_shim_res_info_t := fun _ => empty_res_info 6
  let t1 := (pka_dev_add_resource t0 (.of_shim 0 .buffer_ram) 0).2
  let t2 := (pka_dev_add_resource t1 (.of_shim 0 .master_prog_ram) 0).2
  let t3 := (pka_dev_put_resource demo_res t2 (.of_shim 0 .buffer_ram) 0).2
  (pka_dev_add_resource t3 (.of_shim 0 .master_seq_ctrl) 0).2

/-- The value last written to `addr` in a history (0 when never written): a
device that behaves as plain memory. -/
def last_write (addr : Nat) (tr : List Event) : Nat :=
  tr.foldl
    (fun acc e =>
      match e with
      | Event.pka_mmio_write a v => if a = addr then v else acc
      | _ => acc)
    0

/-- An environment in which every reservation and mapping succeeds (a region
at `base` is mapped at `0x80000000 + base`), the device reads back what was
written, and the cycle counter advances by one per call made. -/
def demo_env : Env :=
  { request_mem_region := fun _ _ _ _ => true,
    ioremap_nocache := fun _ base _ => 0x80000000 + base,
    pka_mmio_read := fun tr addr => last_write addr tr,
    get_cycles := fun tr => tr.length,
    kzalloc := fun tr => 0x1000 * (tr.length + 1),
    pka_early_cpu_speed := 1000000 }

/-- A zeroed `pka_dev_ring_t` with status undefined. -/
def zero_ring : pka_dev_ring_t :=
  { ring_id := 0, shim := 0, resources_num := 0, status := PKA_DEV_RING_STATUS_UNDEFINED,
    num_cmd_desc := 0, ring_info := 0 }

/-- A zeroed `pka_dev_hw_ring_info_t`. -/
def zero_ring_info : pka_dev_hw_ring_info_t :=
  { cmmd_base := 0, rslt_base := 0, size := 0, host_desc_size := 0, in_order := 0,
    cmmd_rd_ptr := 0, rslt_wr_ptr := 0, cmmd_rd_stats := 0, rslt_wr_stats := 0 }

/-- Start of the scenario: resources A, B, C unmapped, six-slot tables empty. -/
def demo_world : World :=
  { res := demo_res, pka_gbl_res_tbl := fun _ => empty_res_info 6,
    shim := fun _ => zero_shim, ring := fun _ => zero_ring, ring_bank := fun _ => [],
    ring_info := fun _ => zero_ring_info,
    pka_gbl_config :=
      { dev_shims := fun _ => 0, dev_rings := fun _ => 0, dev_shims_cnt := 0,
        dev_rings_cnt := 0 },
    trace := [] }

/-- The world of a result, or the given world when the call faulted. -/
def world_of (r : Option (Int × World)) (w : World) : World :=
  match r with
  | some x => x.2
  | none => w

/-- Scenario: B configured at base 0x2000. -/
def demo_world_B : World :=
  world_of (pka_dev_set_resource_config demo_env demo_world 0 (.of_shim 0 .master_prog_ram)
    0x2000 0x100 PKA_DEV_RES_TYPE_REG "B") demo_world

/-- Scenario: B, then A configured at base 0x1000. -/
def demo_world_BA : World :=
  world_of (pka_dev_set_resource_config demo_env demo_world_B 0 (.of_shim 0 .buffer_ram)
    0x1000 0x100 PKA_DEV_RES_TYPE_REG "A") demo_world_B

/-- Scenario: A configured at base 0x1000 (slot 0). -/
def demo_world_A : World :=
  world_of (pka_dev_set_resource_config demo_env demo_world 0 (.of_shim 0 .buffer_ram)
    0x1000 0x100 PKA_DEV_RES_TYPE_REG "A") demo_world

/-- Scenario: A, then B configured at base 0x2000 (slot 1). -/
def demo_world_AB : World :=
  world_of (pka_dev_set_resource_config demo_env demo_world_A 0 (.of_shim 0 .master_prog_ram)
    0x2000 0x100 PKA_DEV_RES_TYPE_REG "B") demo_world_A

/-- Scenario: A, B configured, then A released. -/
def demo_world_AB_relA : World :=
  pka_dev_unset_resource_config demo_world_AB 0 (.of_shim 0 .buffer_ram)

/-- Sample values for the constants (4 KiB pages, 16 KiB buffer RAM, images
of two or three words). -/
def demo_consts : Consts :=
  { PKA_MAX_NUM_IO_BLOCKS := 8, PKA_MAX_NUM_IO_BLOCK_RINGS := 4, PKA_MAX_NUM_RINGS := 32,
    PKA_SHIM_WINDOW_RAM_SPLIT_ENABLED := 1, PKA_SHIM_WINDOW_RAM_SPLIT_DISABLED := 2,
    PKA_SPLIT_WINDOW_RAM_MODE := 0, PKA_RING_TYPE_IN_ORDER := 1,
    PKA_RING_OPTIONS_PRIORITY := 0, PKA_RING_OPTIONS_SIGNATURE_BYTE := 0x46,
    PKA_RING_OPTIONS_ADDR := 0x07FF8,
    PKA_BUFFER_RAM_BASE := 0, PKA_BUFFER_RAM_SIZE := 0x4000,
    PKA_MASTER_PROG_RAM_BASE := 0x30000, PKA_MASTER_PROG_RAM_SIZE := 0x8000,
    PAGE_SHIFT := 12,
    PKA_MASTER_SEQ_CTRL_ADDR := 0x27F90, PKA_MASTER_SEQ_CTRL_RESET_VAL := 0x80000000,
    PKA_MASTER_SEQ_CTRL_MASTER_IRQ_BIT := 8, PKA_MASTER_SEQ_CTRL_STATUS_BYTE := 1,
    AIC_POL_CTRL_ADDR := 0x11E00, AIC_TYPE_CTRL_ADDR := 0x11E08,
    AIC_ENABLE_CTRL_ADDR := 0x11E10, AIC_ENABLED_STAT_ADDR := 0x11E20,
    PKA_AIC_POL_CTRL_REG_VAL := 0x7FF, PKA_AIC_TYPE_CTRL_REG_VAL := 0x7FF,
    PKA_AIC_ENABLE_CTRL_REG_VAL := 0x7FF, PKA_AIC_ENABLE_STAT_REG_VAL := 0x7FF,
    PKA_AIC_ENABLED_STAT_MASTER_IRQ_MASK := 0x100,
    PKA_CLK_FORCE_ADDR := 0x11C80, PKA_CLK_FORCE_TRNG_ON := 0x8,
    TRNG_OUTPUT_0_ADDR := 0x12000, TRNG_STATUS_ADDR := 0x12020, TRNG_INTACK_ADDR := 0x12020,
    TRNG_CONTROL_ADDR := 0x12028, TRNG_CONFIG_ADDR := 0x12030, TRNG_ALARMCNT_ADDR := 0x12038,
    TRNG_FROENABLE_ADDR := 0x12040, TRNG_FRODETUNE_ADDR := 0x12048,
    TRNG_ALARMMASK_ADDR := 0x12050, TRNG_ALARMSTOP_ADDR := 0x12058,
    PKA_TRNG_CONFIG_REG_VAL := 0x00020008, PKA_TRNG_ALARMCNT_REG_VAL := 0x000200FF,
    PKA_TRNG_FROENABLE_REG_VAL := 0x00FFFFFF, PKA_TRNG_CONTROL_REG_VAL := 0x00001400,
    PKA_SHIM_TRNG_ENABLED := 1, PKA_SHIM_TRNG_DISABLED := 0,
    farm_image_data_buf := [0x11, 0x22],
    boot_image_data_buf := [0xB0, 0xB1, 0xB2],
    master_image_data_buf := [0xA0, 0xA1],
    PKA_MAX_NUM_RING_RESOURCES := 3,
    PKA_RING_WORDS_SPACING := 0x40, PKA_RING_WORDS_ADDR := 0, PKA_RING_WORDS_SIZE := 0x40,
    PKA_RING_CNTRS_SPACING := 0x10000, PKA_RING_CNTRS_ADDR := 0x80080,
    PKA_RING_CNTRS_SIZE := 0x2000,
    PKA_RING_MEM_0_SPACING := 0x4000, PKA_RING_MEM_0_BASE := 0x10000,
    PKA_RING_MEM_0_SIZE := 0x4000,
    PKA_RING_MEM_1_SPACING := 0x10000, PKA_RING_MEM_1_BASE := 0x20000,
    PKA_RING_MEM_1_SIZE := 0x4000,
    PKA_WINDOW_RAM_RING_MEM_SIZE := 0x800, PKA_WINDOW_RAM_DATA_MEM_SIZE := 0x3800,
    CMD_DESC_SIZE := 64,
    RING_CMMD_BASE_0_ADDR := 0x00, RING_RSLT_BASE_0_ADDR := 0x10,
    RING_SIZE_TYPE_0_ADDR := 0x20, RING_RW_PTRS_0_ADDR := 0x28, RING_RW_STAT_0_ADDR := 0x30,
    PKA_TRNG_OUTPUT_CNT := 4, PKA_TRNG_STATUS_SHUTDOWN_OFLO := 0x2,
    PKA_TRNG_STATUS_READY := 0x1 }

/-- The environment `demo_env` with a TRNG clock that never comes on: the
`PKA_CLK_FORCE` register (mapped at `0x82011C80` for a shim at `0x2000000`)
always reads 0, and once that register has been written the cycle counter
advances by a million cycles per call, so the 100 ms deadline passes. -/
def demo_env_no_trng_clk : Env :=
  { demo_env with
    pka_mmio_read := fun tr addr => if addr = 0x82011C80 then 0 else last_write addr tr,
    get_cycles := fun tr =>
      if tr.any (fun e =>
          match e with
          | Event.pka_mmio_write a _ => decide (a = 0x82011C80)
          | _ => false) then
        1000000 * tr.length
      else tr.length }

/-- Scenario: the shim at address 1 created with id 0 at base `0x2000000`
(all five mappings succeed). -/
def demo_created : World :=
  world_of (pka_dev_create_shim demo_consts demo_env_no_trng_clk demo_world 1 0 0x2000000
    0x40000 0) demo_world

/-- Scenario: `pka_dev_init_shim` on `demo_created` with the TRNG clock that
never comes on. -/
def demo_inited : World :=
  world_of (pka_dev_init_shim demo_consts demo_env_no_trng_clk 8 demo_created 1) demo_created

/-- Scenario of `pka_dev_create_shim` on the shim at address 1 (id 0, base
`0x2000000`) in `demo_env`: the state after the parameters are stored. -/
def demo_c0 : World := create_shim_params demo_consts demo_world 1 0 0x2000000 0x40000 0 0x1000

/-- The state after the buffer RAM is mapped. -/
def demo_c1 : World :=
  world_of (create_shim_config demo_consts demo_env demo_c0 1 .buffer_ram) demo_c0

/-- The state after the master-program RAM is mapped. -/
def demo_c2 : World :=
  world_of (create_shim_config demo_consts demo_env demo_c1 1 .master_prog_ram) demo_c1

/-- The state after the master-sequencer registers are mapped. -/
def demo_c3 : World :=
  world_of (create_shim_config demo_consts demo_env demo_c2 1 .master_seq_ctrl) demo_c2

/-- The state after the interrupt-controller registers are mapped. -/
def demo_c4 : World :=
  world_of (create_shim_config demo_consts demo_env demo_c3 1 .aic_csr) demo_c3

/-- The state after the TRNG registers are mapped. -/
def demo_c5 : World :=
  world_of (create_shim_config demo_consts demo_env demo_c4 1 .trng_csr) demo_c4

/-- The environment `demo_env`, except that the region named `PKA_AIC_CSR`
cannot be reserved. -/
def demo_env_no_aic : Env :=
  { demo_env with
    request_mem_region := fun _ _ _ name => decide (name ≠ "PKA_AIC_CSR") }

/-- The state in which the reservation for `PKA_AIC_CSR` has failed. -/
def demo_c4_failed : World :=
  world_of (create_shim_config demo_consts demo_env_no_aic demo_c3 1 .aic_csr) demo_c3

/-- The environment `demo_env` with a memory array that always reads 0. -/
def demo_env_dead_ram : Env :=
  { demo_env with pka_mmio_read := fun _ _ => 0 }

/-- Scenario: resource A of shim 0 mapped as a memory resource of 16 bytes at
base `0x1000`. -/
def demo_world_small : World :=
  world_of (pka_dev_set_resource_config demo_env demo_world 0 (.of_shim 0 .buffer_ram)
    0x1000 16 PKA_DEV_RES_TYPE_MEM "A") demo_world

/-- Bring-up of `demo_created` with the TRNG clock that never comes on: the
state after `pka_dev_config_aic_interrupts`. -/
def demo_i1 : World :=
  (pka_dev_config_aic_interrupts demo_consts demo_created (.of_shim 1 .aic_csr)).2

/-- The state after the farm image is loaded. -/
def demo_i2 : World :=
  (pka_dev_load_image demo_env_no_trng_clk demo_i1 (.of_shim 1 .buffer_ram)
    (image_buf demo_consts.farm_image_data_buf) demo_consts.farm_image_data_buf.length).2

/-- The state after `pka_dev_config_master_seq_controller`. -/
def demo_i3 : World :=
  world_of (pka_dev_config_master_seq_controller demo_consts demo_env_no_trng_clk 8 demo_i2 1
    (.of_shim 1 .master_seq_ctrl)) demo_i2

/-- The state after `pka_dev_config_ring_options`. -/
def demo_i4 : World :=
  (pka_dev_config_ring_options demo_consts demo_i3 (.of_shim 1 .buffer_ram)
    (demo_i3.shim 1).rings_num (demo_i3.shim 1).ring_priority).2

/-- The state in which `pka_dev_config_trng` is called. -/
def demo_i5 : World :=
  { demo_i4 with
    shim := Function.update demo_i4.shim 1
      { demo_i4.shim 1 with
        trng_enabled := demo_consts.PKA_SHIM_TRNG_ENABLED, trng_err_cycle := 0 } }

/-- The state `pka_dev_config_trng` leaves when the clock poll times out. -/
def demo_i6 : World :=
  world_of (pka_dev_config_trng demo_consts demo_env_no_trng_clk 8 demo_i5 (.of_shim 1 .aic_csr)
    (.of_shim 1 .trng_csr)) demo_i5

/-! ## Rings: `pka_dev_init_ring`, `pka_dev_partition_mem`, `pka_dev_set_ring_info` -/

/-- Slot of a ring in its shim: `ring_id % PKA_MAX_NUM_IO_BLOCK_RINGS`. -/
def shim_ring_slot (K : Consts) (ring_id : Nat) : Nat := ring_id % K.PKA_MAX_NUM_IO_BLOCK_RINGS

/-- Base of the window-RAM slice that `pka_dev_init_ring` computes in its
`uint32_t` locals: offset `slot * spacing` plus the base of the layout chosen
by the split mode of the shim. -/
def init_ring_mem_base (K : Consts) (window_ram_split slot : Nat) : Nat :=
  if window_ram_split = K.PKA_SHIM_WINDOW_RAM_SPLIT_ENABLED then
    ((slot * K.PKA_RING_MEM_1_SPACING) % 2 ^ 32 + K.PKA_RING_MEM_1_BASE) % 2 ^ 32
  else
    ((slot * K.PKA_RING_MEM_0_SPACING) % 2 ^ 32 + K.PKA_RING_MEM_0_BASE) % 2 ^ 32

/-- Size of the window-RAM slice that `pka_dev_init_ring` stores. -/
def init_ring_mem_size (K : Consts) (window_ram_split : Nat) : Nat :=
  if window_ram_split = K.PKA_SHIM_WINDOW_RAM_SPLIT_ENABLED then K.PKA_RING_MEM_1_SIZE % 2 ^ 32
  else K.PKA_RING_MEM_0_SIZE % 2 ^ 32

/-- The three resource records `pka_dev_init_ring` fills in (base, size, type,
status and name; `ioaddr` is not written). -/
def init_ring_resources (K : Consts) (w : World) (ring shim slot : Nat) :
    res_ptr_t → pka_dev_res_t :=
  fun q =>
    if q = .of_ring ring .info_words then
      { w.res q with
        base := ((slot * K.PKA_RING_WORDS_SPACING) % 2 ^ 32 + K.PKA_RING_WORDS_ADDR) % 2 ^ 32,
        size := K.PKA_RING_WORDS_SIZE, type := PKA_DEV_RES_TYPE_MEM,
        status := PKA_DEV_RES_STATUS_UNMAPPED, name := "PKA_RING_INFO" }
    else if q = .of_ring ring .counters then
      { w.res q with
        base := ((slot * K.PKA_RING_CNTRS_SPACING) % 2 ^ 32 + K.PKA_RING_CNTRS_ADDR) % 2 ^ 32,
        size := K.PKA_RING_CNTRS_SIZE, type := PKA_DEV_RES_TYPE_REG,
        status := PKA_DEV_RES_STATUS_UNMAPPED, name := "PKA_RING_CNTRS" }
    else if q = .of_ring ring .window_ram then
      { w.res q with
        base := init_ring_mem_base K (w.shim shim).window_ram_split slot,
        size := init_ring_mem_size K (w.shim shim).window_ram_split,
        type := PKA_DEV_RES_TYPE_MEM,
        status := PKA_DEV_RES_STATUS_UNMAPPED, name := "PKA_RING_WINDOW" }
    else w.res q

/-- `pka_dev_init_ring`; `none` when `ring`, `shim` or `shim->rings` is NULL
where the code dereferences it. -/
def pka_dev_init_ring (K : Consts) (env : Env) (w : World) (ring ring_id shim : Nat) :
    Option (Int × World) :=
  if ring = 0 then none
  else if (w.ring ring).status ≠ PKA_DEV_RING_STATUS_UNDEFINED then some (-EPERM, w)
  else if ring_id > K.PKA_MAX_NUM_RINGS - 1 then some (-EINVAL, w)
  else if shim = 0 then none
  else if (w.shim shim).rings = 0 then none
  else
    let slot := shim_ring_slot K ring_id
    let ring_info := env.kzalloc w.trace
    let w1 : World := { w with
      ring := Function.update w.ring ring
        { w.ring ring with
          ring_id := ring_id, shim := shim,
          resources_num := K.PKA_MAX_NUM_RING_RESOURCES, ring_info := ring_info },
      ring_bank := Function.update w.ring_bank (w.shim shim).rings
        ((w.ring_bank (w.shim shim).rings).set slot ring),
      res := init_ring_resources K w ring shim slot,
      ring_info :=
        if ring_info = 0 then w.ring_info
        else Function.update w.ring_info ring_info
          { cmmd_base := 0, rslt_base := 0, size := 0, host_desc_size := 0, in_order := 0,
            cmmd_rd_ptr := 0, rslt_wr_ptr := 0, cmmd_rd_stats := 0, rslt_wr_stats := 0 },
      trace := w.trace ++ [Event.kzalloc ring_info] }
    if ring_info = 0 then
      some (-ENOMEM, { w1 with trace := w1.trace ++ [Event.kfree 0] })
    else
      some (0, { w1 with
        ring := Function.update w1.ring ring
          { w1.ring ring with status := PKA_DEV_RING_STATUS_INITIALIZED } })

/-- Modelled from the spec: the macro `PKA_RING_MEM_ADDR(addr, size)` of the
missing header `pka_addr.h` (spec: the ring base addresses are wrapped modulo
the window size). -/
def PKA_RING_MEM_ADDR (addr size : Nat) : Nat := addr % size

/-- The record `pka_dev_partition_mem` stores in `*ring->ring_info`, computed
in the types of its locals (`uint32_t` sizes and bases, `uint16_t`
`num_cmd_desc` and `host_desc_size`) from the window base and size and the ring
type of the shim. -/
def partition_ring_info (K : Consts) (window_ram_base window_ram_size ring_in_order : Nat) :
    pka_dev_hw_ring_info_t :=
  let ring_mem_size := (K.PKA_WINDOW_RAM_RING_MEM_SIZE / 2) % 2 ^ 32
  let data_mem_size := K.PKA_WINDOW_RAM_DATA_MEM_SIZE % 2 ^ 32
  let data_mem_base := window_ram_base % 2 ^ 32
  let ring_mem_base := (data_mem_base + data_mem_size) % 2 ^ 32
  let num_cmd_desc := (ring_mem_size / K.CMD_DESC_SIZE) % 2 ^ 16
  let host_desc_size := (K.CMD_DESC_SIZE / BYTES_PER_WORD) % 2 ^ 16
  let cmd_desc_ring_size := (num_cmd_desc * K.CMD_DESC_SIZE) % 2 ^ 32
  { cmmd_base := PKA_RING_MEM_ADDR ring_mem_base window_ram_size,
    rslt_base := PKA_RING_MEM_ADDR ((ring_mem_base + cmd_desc_ring_size) % 2 ^ 32)
      window_ram_size,
    size := (num_cmd_desc + (2 ^ 16 - 1)) % 2 ^ 16,
    host_desc_size := host_desc_size,
    in_order := ring_in_order,
    cmmd_rd_ptr := 0, rslt_wr_ptr := 0, cmmd_rd_stats := 0, rslt_wr_stats := 0 }

/-- The `uint16_t` descriptor count of `pka_dev_partition_mem`:
`(PKA_WINDOW_RAM_RING_MEM_SIZE / 2) / CMD_DESC_SIZE`. -/
def partition_num_cmd_desc (K : Consts) : Nat :=
  (((K.PKA_WINDOW_RAM_RING_MEM_SIZE / 2) % 2 ^ 32) / K.CMD_DESC_SIZE) % 2 ^ 16

/-- `pka_dev_partition_mem`; `none` when `ring` or `ring->ring_info` is NULL. -/
def pka_dev_partition_mem (K : Consts) (w : World) (ring : Nat) : Option (Int × World) :=
  if ring = 0 then none
  else if (w.ring ring).shim = 0 ∨
      (w.ring ring).status ≠ PKA_DEV_RING_STATUS_INITIALIZED then some (-EPERM, w)
  else if (w.ring ring).ring_info = 0 then none
  else
    some (0, { w with
      ring := Function.update w.ring ring
        { w.ring ring with num_cmd_desc := partition_num_cmd_desc K },
      ring_info := Function.update w.ring_info (w.ring ring).ring_info
        (partition_ring_info K (w.res (.of_ring ring .window_ram)).base
          (w.res (.of_ring ring .window_ram)).size
          (w.shim (w.ring ring).shim).ring_type) })

/-- Word offset used by `pka_dev_write_ring_info` for the field at
`field_addr`: `pka_dev_get_word_offset(base, field_addr + ring_spacing,
PKA_BUFFER_RAM_SIZE)` with the `uint32_t` `ring_spacing = ring_id *
PKA_RING_WORDS_SPACING`. -/
def ring_info_word_off (K : Consts) (base ring_id field_addr : Nat) : Nat :=
  pka_dev_get_word_offset base
    ((field_addr + (ring_id * K.PKA_RING_WORDS_SPACING) % 2 ^ 32) % 2 ^ 32)
    K.PKA_BUFFER_RAM_SIZE

/-- `pka_dev_write_ring_info`. -/
def pka_dev_write_ring_info (K : Consts) (w : World) (buffer_ram_ptr : res_ptr_t)
    (ring_id ring_cmmd_base_val ring_rslt_base_val ring_size_type_val : Nat) : Int × World :=
  let r := w.res buffer_ram_ptr
  if r.status ≠ PKA_DEV_RES_STATUS_MAPPED ∨ r.type ≠ PKA_DEV_RES_TYPE_MEM then (-EPERM, w)
  else
    let w1 := pka_dev_io_write w r.ioaddr
      (ring_info_word_off K r.base ring_id K.RING_CMMD_BASE_0_ADDR) ring_cmmd_base_val
    let w2 := pka_dev_io_write w1 r.ioaddr
      (ring_info_word_off K r.base ring_id K.RING_RSLT_BASE_0_ADDR) ring_rslt_base_val
    let w3 := pka_dev_io_write w2 r.ioaddr
      (ring_info_word_off K r.base ring_id K.RING_SIZE_TYPE_0_ADDR) ring_size_type_val
    let w4 := pka_dev_io_write w3 r.ioaddr
      (ring_info_word_off K r.base ring_id K.RING_RW_PTRS_0_ADDR) 0
    let w5 := pka_dev_io_write w4 r.ioaddr
      (ring_info_word_off K r.base ring_id K.RING_RW_STAT_0_ADDR) 0
    (0, w5)

/-- The `uint32_t` size/type word packed by `pka_dev_set_ring_info`:
`(in_order & 0x0001) << 31 | (host_desc_size & 0x03FF) << 18 |
(num_cmd_desc - 1) & 0xFFFF`. -/
def ring_size_type_val (in_order host_desc_size num_cmd_desc : Nat) : Nat :=
  (((in_order &&& 0x0001) <<< 31) % 2 ^ 32) |||
  (((host_desc_size &&& 0x03FF) <<< 18) % 2 ^ 32) |||
  (((num_cmd_desc + (2 ^ 32 - 1)) % 2 ^ 32) &&& 0xFFFF)

/-- `pka_dev_set_ring_info`; `none` when `ring` or `ring->shim` is NULL. -/
def pka_dev_set_ring_info (K : Consts) (w : World) (ring : Nat) : Option (Int × World) :=
  if ring = 0 then none
  else if (w.ring ring).shim = 0 then none
  else if ((w.shim (w.ring ring).shim).status ≠ PKA_SHIM_STATUS_INITIALIZED ∧
        (w.shim (w.ring ring).shim).status ≠ PKA_SHIM_STATUS_RUNNING ∧
        (w.shim (w.ring ring).shim).status ≠ PKA_SHIM_STATUS_STOPPED) ∨
      (w.ring ring).status ≠ PKA_DEV_RING_STATUS_INITIALIZED then some (-EPERM, w)
  else
    let ring_id := (shim_ring_slot K (w.ring ring).ring_id) % 2 ^ 8
    and_then (pka_dev_partition_mem K w ring) fun w1 =>
      let ring_info := w1.ring_info (w1.ring ring).ring_info
      and_then
        (some (pka_dev_write_ring_info K w1 (.of_shim (w1.ring ring).shim .buffer_ram) ring_id
          (ring_info.cmmd_base % 2 ^ 32) (ring_info.rslt_base % 2 ^ 32)
          (ring_size_type_val ring_info.in_order ring_info.host_desc_size
            (w1.ring ring).num_cmd_desc)))
        fun w2 =>
          some (0, { w2 with
            ring := Function.update w2.ring ring
              { w2.ring ring with status := PKA_DEV_RING_STATUS_READY } })

/-- `pka_dev_get_ring`: `pka_gbl_config.dev_rings[ring_id]`. -/
def pka_dev_get_ring (w : World) (ring_id : Nat) : Nat := w.pka_gbl_config.dev_rings ring_id

/-- `pka_dev_get_shim`: `pka_gbl_config.dev_shims[shim_id]`. -/
def pka_dev_get_shim (w : World) (shim_id : Nat) : Nat := w.pka_gbl_config.dev_shims shim_id

/-- `__pka_dev_open_ring`; the `uint32_t` counter `busy_ring_num` is
incremented modulo `2 ^ 32`. -/
def __pka_dev_open_ring (K : Consts) (w : World) (ring_id : Nat) : Option (Int × World) :=
  if w.pka_gbl_config.dev_rings_cnt = 0 then some (-EPERM, w)
  else
    let ring := pka_dev_get_ring w ring_id
    if ring = 0 ∨ (w.ring ring).shim = 0 then some (- ENXIO, w)
    else
      let shim := (w.ring ring).shim
      if (w.shim shim).status = PKA_SHIM_STATUS_UNDEFINED ∨
          (w.shim shim).status = PKA_SHIM_STATUS_CREATED ∨
          (w.shim shim).status = PKA_SHIM_STATUS_FINALIZED then some (-EPERM, w)
      else if (w.ring ring).status ≠ PKA_DEV_RING_STATUS_INITIALIZED then some (-EPERM, w)
      else
        match pka_dev_set_ring_info K w ring with
        | none => none
        | some (ret, w1) =>
          if ret ≠ 0 then some (-EWOULDBLOCK, w1)
          else
            let st :=
              if (w1.shim shim).busy_ring_num = 0 then PKA_SHIM_STATUS_RUNNING
              else (w1.shim shim).status
            some (0, { w1 with
              ring := Function.update w1.ring ring
                { w1.ring ring with status := PKA_DEV_RING_STATUS_BUSY },
              shim := Function.update w1.shim shim
                { w1.shim shim with
                  status := st,
                  busy_ring_num := ((w1.shim shim).busy_ring_num + 1) % 2 ^ 32 } })

/-- `__pka_dev_close_ring`; the `uint32_t` counter `busy_ring_num` is
decremented modulo `2 ^ 32`. -/
def __pka_dev_close_ring (w : World) (ring_id : Nat) : Int × World :=
  if w.pka_gbl_config.dev_rings_cnt = 0 then (-EPERM, w)
  else
    let ring := pka_dev_get_ring w ring_id
    if ring = 0 ∨ (w.ring ring).shim = 0 then (- ENXIO, w)
    else
      let shim := (w.ring ring).shim
      if (w.shim shim).status ≠ PKA_SHIM_STATUS_RUNNING ∧
          (w.ring ring).status ≠ PKA_DEV_RING_STATUS_BUSY then (-EPERM, w)
      else
        let busy := ((w.shim shim).busy_ring_num + (2 ^ 32 - 1)) % 2 ^ 32
        (0, { w with
          ring := Function.update w.ring ring
            { w.ring ring with status := PKA_DEV_RING_STATUS_INITIALIZED },
          shim := Function.update w.shim shim
            { w.shim shim with
              status := if busy = 0 then PKA_SHIM_STATUS_STOPPED else (w.shim shim).status,
              busy_ring_num := busy } })

/-! ## Registration of shims and rings -/

/-- `pka_dev_register_shim`: `__pka_dev_register_shim`, then the entry in
`pka_gbl_config.dev_shims` when a shim was returned. -/
def pka_dev_register_shim (K : Consts) (env : Env) (fuel : Nat) (w : World)
    (shim_id shim_base shim_size : Nat) : Option (Nat × World) :=
  match __pka_dev_register_shim K env fuel w shim_id shim_base shim_size with
  | none => none
  | some (shim, w1) =>
    if shim = 0 then some (shim, w1)
    else
      some (shim, { w1 with
        pka_gbl_config :=
          { w1.pka_gbl_config with
            dev_shims := Function.update w1.pka_gbl_config.dev_shims (w1.shim shim).shim_id shim,
            dev_shims_cnt := (w1.pka_gbl_config.dev_shims_cnt + 1) % 2 ^ 32 } })

/-- `__pka_dev_register_ring`: the address of the new ring, or 0 (NULL). -/
def __pka_dev_register_ring (K : Consts) (env : Env) (w : World) (ring_id shim_id : Nat) :
    Option (Nat × World) :=
  let shim := pka_dev_get_shim w shim_id
  if shim = 0 then some (0, w)
  else
    let ring := env.kzalloc w.trace
    let w0 : World := { w with trace := w.trace ++ [Event.kzalloc ring] }
    if ring = 0 then some (0, w0)
    else
      let w1 : World := { w0 with
        ring := Function.update w0.ring ring zero_ring,
        res := fun q =>
          match q with
          | .of_ring r _ => if r = ring then zero_res else w0.res q
          | .of_shim _ _ => w0.res q }
      match pka_dev_init_ring K env w1 ring ring_id shim with
      | none => none
      | some (ret, w2) =>
        if ret ≠ 0 then
          match pka_dev_release_ring K w2 ring with
          | none => none
          | some (_, w3) => some (0, { w3 with trace := w3.trace ++ [Event.kfree ring] })
        else some (ring, w2)

/-- `pka_dev_register_ring`: `__pka_dev_register_ring`, then the entry in
`pka_gbl_config.dev_rings` when a ring was returned. -/
def pka_dev_register_ring (K : Consts) (env : Env) (w : World) (ring_id shim_id : Nat) :
    Option (Nat × World) :=
  match __pka_dev_register_ring K env w ring_id shim_id with
  | none => none
  | some (ring, w1) =>
    if ring = 0 then some (ring, w1)
    else
      some (ring, { w1 with
        pka_gbl_config :=
          { w1.pka_gbl_config with
            dev_rings := Function.update w1.pka_gbl_config.dev_rings (w1.ring ring).ring_id ring,
            dev_rings_cnt := (w1.pka_gbl_config.dev_rings_cnt + 1) % 2 ^ 32 } })

/-! ## TRNG: `pka_dev_trng_shutdown_oflo`, `pka_dev_trng_read` -/

/-- The re-enabling of stopped FROs in `pka_dev_trng_shutdown_oflo`, done when
`fro_stopped_mask` is not 0. -/
def trng_reenable_fros (K : Consts) (env : Env) (w : World) (trng_csr_ptr : res_ptr_t)
    (fro_stopped_mask : Nat) : World :=
  let r := w.res trng_csr_ptr
  let rd := pka_dev_io_read env w r.ioaddr
    (pka_dev_get_register_offset K r.base K.TRNG_FROENABLE_ADDR)
  let w1 := pka_dev_io_write rd.2 r.ioaddr
    (pka_dev_get_register_offset K r.base K.TRNG_FRODETUNE_ADDR) fro_stopped_mask
  pka_dev_io_write w1 r.ioaddr
    (pka_dev_get_register_offset K r.base K.TRNG_FROENABLE_ADDR) (fro_stopped_mask ||| rd.1)

/-- `pka_dev_trng_shutdown_oflo(trng_csr_ptr, &shim->trng_err_cycle)`; the
result is the `bool` returned and the new state. -/
def pka_dev_trng_shutdown_oflo (K : Consts) (env : Env) (w : World) (trng_csr_ptr : res_ptr_t)
    (shim : Nat) : Bool × World :=
  let r := w.res trng_csr_ptr
  let st := pka_dev_io_read env w r.ioaddr
    (pka_dev_get_register_offset K r.base K.TRNG_STATUS_ADDR)
  if st.1 &&& K.PKA_TRNG_STATUS_SHUTDOWN_OFLO = 0 then (true, st.2)
  else
    let curr_cycle_cnt := env.get_cycles st.2.trace % 2 ^ 64
    let w1 : World := { st.2 with trace := st.2.trace ++ [Event.get_cycles curr_cycle_cnt] }
    let stopped := pka_dev_io_read env w1 r.ioaddr
      (pka_dev_get_register_offset K r.base K.TRNG_ALARMSTOP_ADDR)
    let w2 :=
      if stopped.1 ≠ 0 then trng_reenable_fros K env stopped.2 trng_csr_ptr stopped.1
      else stopped.2
    let w3 := pka_dev_io_write w2 r.ioaddr
      (pka_dev_get_register_offset K r.base K.TRNG_ALARMMASK_ADDR) 0
    let w4 := pka_dev_io_write w3 r.ioaddr
      (pka_dev_get_register_offset K r.base K.TRNG_ALARMSTOP_ADDR) 0
    let w5 := pka_dev_io_write w4 r.ioaddr
      (pka_dev_get_register_offset K r.base K.TRNG_INTACK_ADDR) K.PKA_TRNG_STATUS_SHUTDOWN_OFLO
    let err_cycle := (w5.shim shim).trng_err_cycle
    if err_cycle ≠ 0 ∧ (curr_cycle_cnt + (2 ^ 64 - err_cycle)) % 2 ^ 64 < 1000000000 then
      let ctl := pka_dev_io_read env w5 r.ioaddr
        (pka_dev_get_register_offset K r.base K.TRNG_CONTROL_ADDR)
      (false, pka_dev_io_write ctl.2 r.ioaddr
        (pka_dev_get_register_offset K r.base K.TRNG_CONTROL_ADDR)
        (ctl.1 &&& (2 ^ 64 - 1 - K.PKA_TRNG_CONTROL_REG_VAL)))
    else
      (true, { w5 with
        shim := Function.update w5.shim shim
          { w5.shim shim with trng_err_cycle := curr_cycle_cnt } })

/-- The loop `while (trng_ready == 0)` of `pka_dev_trng_read`, entered with the
current value of the `uint8_t` variable `trng_ready`: `some (some v, _)` when
the loop is left with `trng_ready = v`, `some (none, _)` when the deadline
passed (`return -EBUSY`), `none` when the fuel ran out. -/
def trng_wait_ready (K : Consts) (env : Env) (mem_ptr mem_off timer : Nat) :
    Nat → Nat → World → Option (Option Nat × World)
  | 0, trng_ready, w => if trng_ready ≠ 0 then some (some trng_ready, w) else none
  | fuel + 1, trng_ready, w =>
    if trng_ready ≠ 0 then some (some trng_ready, w)
    else
      let rd := pka_dev_io_read env w mem_ptr mem_off
      let d := pka_dev_timer_done env rd.2 timer
      if d.1 then some (none, d.2)
      else trng_wait_ready K env mem_ptr mem_off timer fuel
        ((rd.1 &&& K.PKA_TRNG_STATUS_READY) % 2 ^ 8) d.2

/-- The `for` loop of `pka_dev_trng_read` with `n` words still to read, from
index `data_idx`; `trng_ready` is the variable declared once before the loop
and `data` the contents of the caller's buffer. -/
def trng_read_words (K : Consts) (env : Env) (fuel : Nat) (trng_csr_ptr : res_ptr_t) :
    Nat → Nat → Nat → (Nat → Nat) → World → Option (Int × (Nat → Nat) × World)
  | 0, _, _, data, w => some (0, data, w)
  | n + 1, data_idx, trng_ready, data, w =>
    let r := w.res trng_csr_ptr
    let output_idx := (data_idx % K.PKA_TRNG_OUTPUT_CNT) % 2 ^ 8
    let w1 :=
      if output_idx = 0 then
        pka_dev_io_write w r.ioaddr (pka_dev_get_register_offset K r.base K.TRNG_INTACK_ADDR)
          K.PKA_TRNG_STATUS_READY
      else w
    let t := pka_dev_timer_start env w1 1000000
    match trng_wait_ready K env r.ioaddr
      (pka_dev_get_register_offset K r.base K.TRNG_STATUS_ADDR) t.1 fuel trng_ready t.2 with
    | none => none
    | some (none, w2) => some (-EBUSY, data, w2)
    | some (some ready, w2) =>
      let rd := pka_dev_io_read env w2 r.ioaddr
        (pka_dev_get_register_offset K r.base (K.TRNG_OUTPUT_0_ADDR + output_idx * 0x8))
      trng_read_words K env fuel trng_csr_ptr n (data_idx + 1) ready
        (Function.update data data_idx (rd.1 % 2 ^ 32)) rd.2

/-- `pka_dev_trng_read(shim, data, cnt)`: `data_ptr` is the pointer `data` (0
is NULL) and `data` the contents of the buffer; the result is the value
returned, the buffer and the new state. -/
def pka_dev_trng_read (K : Consts) (env : Env) (fuel : Nat) (w : World) (shim data_ptr : Nat)
    (data : Nat → Nat) (cnt : Nat) : Option (Int × (Nat → Nat) × World) :=
  if shim = 0 ∨ data_ptr = 0 ∨ cnt % K.PKA_TRNG_OUTPUT_CNT ≠ 0 then some (-EINVAL, data, w)
  else if cnt = 0 then some (0, data, w)
  else
    let r := w.res (.of_shim shim .trng_csr)
    if r.status ≠ PKA_DEV_RES_STATUS_MAPPED ∨ r.type ≠ PKA_DEV_RES_TYPE_REG then
      some (-EPERM, data, w)
    else
      let o := pka_dev_trng_shutdown_oflo K env w (.of_shim shim .trng_csr) shim
      if o.1 = false then some (-EWOULDBLOCK, data, o.2)
      else trng_read_words K env fuel (.of_shim shim .trng_csr) (cnt >>> 2) 0 0 data o.2

/-! ## Conditions on the constants used in the statements -/

/-- The constants used by `pka_dev_partition_mem` fit the C types of the
locals that receive them: `uint32_t` sizes, a non-zero descriptor size, and
`uint16_t` descriptor count (at least 1) and host descriptor size. -/
@[reducible] def partition_consts_ok (K : Consts) : Prop :=
  K.PKA_WINDOW_RAM_RING_MEM_SIZE / 2 < 2 ^ 32 ∧
  K.PKA_WINDOW_RAM_DATA_MEM_SIZE < 2 ^ 32 ∧
  0 < K.CMD_DESC_SIZE ∧
  1 ≤ (K.PKA_WINDOW_RAM_RING_MEM_SIZE / 2) / K.CMD_DESC_SIZE ∧
  (K.PKA_WINDOW_RAM_RING_MEM_SIZE / 2) / K.CMD_DESC_SIZE < 2 ^ 16 ∧
  K.CMD_DESC_SIZE / BYTES_PER_WORD < 2 ^ 16

/-! ### Scenario with rings -/

/-- The world of a registration result, or the given world when the call
faulted. -/
def world_of_reg (r : Option (Nat × World)) (w : World) : World :=
  match r with
  | some x => x.2
  | none => w

/-- Scenario: shim 0 registered at base `0x2000000` in `demo_env`; the shim
structure is at address `0x1000` and its status is initialized. -/
def demo_shim_world : World :=
  world_of_reg (pka_dev_register_shim demo_consts demo_env 8 demo_world 0 0x2000000 0x40000)
    demo_world

/-- Scenario: ring 0 registered on shim 0; the ring structure is at address
`0x35000`. -/
def demo_rings1 : World :=
  world_of_reg (pka_dev_register_ring demo_consts demo_env demo_shim_world 0 0) demo_shim_world

/-- Scenario: ring 1 registered next; the ring structure is at address
`0x37000`. -/
def demo_rings2 : World :=
  world_of_reg (pka_dev_register_ring demo_consts demo_env demo_rings1 1 0) demo_rings1

/-- Scenario: ring 2 registered next; the ring structure is at address
`0x39000`. -/
def demo_rings3 : World :=
  world_of_reg (pka_dev_register_ring demo_consts demo_env demo_rings2 2 0) demo_rings2

/-- Scenario: ring 3 registered next; the ring structure is at address
`0x3B000`.  All four slots of the bank of shim 0 now hold a ring. -/
def demo_rings4 : World :=
  world_of_reg (pka_dev_register_ring demo_consts demo_env demo_rings3 3 0) demo_rings3

/-- Scenario: ring 0 opened in `demo_rings2`. -/
def demo_open1 : World :=
  world_of (__pka_dev_open_ring demo_consts demo_rings2 0) demo_rings2

/-- The constants used by `pka_dev_write_ring_info` and the slot number fit
the C types that receive them: a `uint8_t` slot (at most 256 rings per block,
at least one) and `uint32_t` word addresses `field address + slot * spacing`
for the five fields. -/
@[reducible] def ring_words_consts_ok (K : Consts) : Prop :=
  0 < K.PKA_MAX_NUM_IO_BLOCK_RINGS ∧ K.PKA_MAX_NUM_IO_BLOCK_RINGS ≤ 2 ^ 8 ∧
  K.RING_CMMD_BASE_0_ADDR + (K.PKA_MAX_NUM_IO_BLOCK_RINGS - 1) * K.PKA_RING_WORDS_SPACING
    < 2 ^ 32 ∧
  K.RING_RSLT_BASE_0_ADDR + (K.PKA_MAX_NUM_IO_BLOCK_RINGS - 1) * K.PKA_RING_WORDS_SPACING
    < 2 ^ 32 ∧
  K.RING_SIZE_TYPE_0_ADDR + (K.PKA_MAX_NUM_IO_BLOCK_RINGS - 1) * K.PKA_RING_WORDS_SPACING
    < 2 ^ 32 ∧
  K.RING_RW_PTRS_0_ADDR + (K.PKA_MAX_NUM_IO_BLOCK_RINGS - 1) * K.PKA_RING_WORDS_SPACING
    < 2 ^ 32 ∧
  K.RING_RW_STAT_0_ADDR + (K.PKA_MAX_NUM_IO_BLOCK_RINGS - 1) * K.PKA_RING_WORDS_SPACING
    < 2 ^ 32

/-- Scenario: `pka_dev_set_ring_info` on ring 1 (structure at `0x37000`) in
`demo_rings2`. -/
def demo_ready2 : World :=
  world_of (pka_dev_set_ring_info demo_consts demo_rings2 0x37000) demo_rings2

/-! ## Unregistration of rings -/

/-- `__pka_dev_unregister_ring`. -/
def __pka_dev_unregister_ring (K : Consts) (w : World) (ring : Nat) : Option (Int × World) :=
  if ring = 0 then some (-EINVAL, w)
  else
    and_then (pka_dev_release_ring K w ring)
      fun w1 => some (0, { w1 with trace := w1.trace ++ [Event.kfree ring] })

/-- `pka_dev_unregister_ring`: the registry entry `dev_rings[ring->ring_id]`
is cleared and the `uint32_t` count decremented before
`__pka_dev_unregister_ring` is called; `none` when `ring` is NULL (the id is
read through it). -/
def pka_dev_unregister_ring (K : Consts) (w : World) (ring : Nat) : Option (Int × World) :=
  if ring = 0 then none
  else
    __pka_dev_unregister_ring K
      { w with
        pka_gbl_config :=
          { w.pka_gbl_config with
            dev_rings := Function.update w.pka_gbl_config.dev_rings (w.ring ring).ring_id 0,
            dev_rings_cnt := (w.pka_gbl_config.dev_rings_cnt + (2 ^ 32 - 1)) % 2 ^ 32 } }
      ring

/-! ## User space: `pka_dev_get_ring_info` -/

/-- The members of `ring_info->ring_desc` that `pka_dev_get_ring_info` writes.
The structure is declared in a header that is not part of the sources, so the
widths of the members are not known: each member holds the value of the
expression the code assigns to it. -/
structure pka_ring_desc_t where
  cmd_ring_base : Nat
  rslt_ring_base : Nat
  cmd_idx : Nat
  rslt_idx : Nat
  desc_size : Nat
  num_descs : Nat
  cmd_desc_cnt : Nat
  rslt_desc_cnt : Nat
  cmd_desc_mask : Nat
  operands_base : Nat
  operands_end : Nat
  deriving DecidableEq, Repr

/-- The members of `pka_ring_info_t` that `pka_dev_get_ring_info` uses: the
file descriptor, the size of the mapped window and the ring descriptor. -/
structure pka_ring_info_t where
  fd : Int
  ring_id : Nat
  mem_size : Nat
  ring_desc : pka_ring_desc_t
  deriving DecidableEq, Repr

/-- `pka_dev_get_ring_info(ring_info)`: `ring_info_ptr` is the pointer (0 is
NULL), `ring_info` the structure it points to, and `ioctl_ret`, `hw_ring_info`
what the `ioctl(fd, PKA_VFIO_GET_RING_INFO, &hw_ring_info)` call returned and
stored.  `desc_size`, `operand_base` and `operand_ring_len` are `uint32_t`
locals; `~(mem_size - 1)` is taken in 64 bits. -/
def pka_dev_get_ring_info (K : Consts) (ioctl_ret : Int) (hw_ring_info : pka_dev_hw_ring_info_t)
    (ring_info_ptr : Nat) (ring_info : pka_ring_info_t) : Int × pka_ring_info_t :=
  if ring_info_ptr = 0 then (-EINVAL, ring_info)
  else if ioctl_ret ≠ 0 then (ioctl_ret, ring_info)
  else
    let desc_size := (hw_ring_info.host_desc_size * BYTES_PER_WORD) % 2 ^ 32
    let operand_base :=
      (hw_ring_info.cmmd_base &&&
        (2 ^ 64 - 1 - (ring_info.mem_size + (2 ^ 64 - 1)) % 2 ^ 64)) % 2 ^ 32
    let operand_ring_len := K.PKA_WINDOW_RAM_DATA_MEM_SIZE % 2 ^ 32
    (0, { ring_info with
      ring_desc :=
        { cmd_ring_base := hw_ring_info.cmmd_base,
          rslt_ring_base := hw_ring_info.rslt_base,
          cmd_idx := 0,
          rslt_idx := 0,
          desc_size := desc_size,
          num_descs := hw_ring_info.size + 1,
          cmd_desc_cnt := 0,
          rslt_desc_cnt := 0,
          cmd_desc_mask := 0,
          operands_base := operand_base,
          operands_end := (operand_base + operand_ring_len) % 2 ^ 32 } })

/-! ## Further conditions and notions used in the statements -/

/-- The constants of the window-RAM layout selected by `window_ram_split` fit
the `uint32_t` locals of `pka_dev_init_ring` for every slot (at least one ring
per block), and the per-slot spacing is at least the slice size. -/
@[reducible] def ring_mem_consts_ok (K : Consts) (window_ram_split : Nat) : Prop :=
  0 < K.PKA_MAX_NUM_IO_BLOCK_RINGS ∧
  if window_ram_split = K.PKA_SHIM_WINDOW_RAM_SPLIT_ENABLED then
    K.PKA_RING_MEM_1_SIZE ≤ K.PKA_RING_MEM_1_SPACING ∧
    (K.PKA_MAX_NUM_IO_BLOCK_RINGS - 1) * K.PKA_RING_MEM_1_SPACING + K.PKA_RING_MEM_1_BASE
      < 2 ^ 32 ∧
    K.PKA_RING_MEM_1_SIZE < 2 ^ 32
  else
    K.PKA_RING_MEM_0_SIZE ≤ K.PKA_RING_MEM_0_SPACING ∧
    (K.PKA_MAX_NUM_IO_BLOCK_RINGS - 1) * K.PKA_RING_MEM_0_SPACING + K.PKA_RING_MEM_0_BASE
      < 2 ^ 32 ∧
    K.PKA_RING_MEM_0_SIZE < 2 ^ 32

/-- The non-NULL entries of the resource table of the shim with index
`shim_idx`, in slot order. -/
def tbl_entries (w : World) (shim_idx : Nat) : List res_ptr_t :=
  (w.pka_gbl_res_tbl shim_idx).res_tbl.filterMap id

/-- The events of a history that write the register at `addr`. -/
def writes_at (addr : Nat) (tr : List Event) : List Event :=
  tr.filter fun e =>
    match e with
    | Event.pka_mmio_write a _ => decide (a = addr)
    | _ => false

/-- The offsets of the five registers that `pka_dev_trng_shutdown_oflo` writes
while it resets the error are different from the offset of `TRNG_CONTROL`,
for a register block at `base`. -/
@[reducible] def trng_control_apart (K : Consts) (base : Nat) : Prop :=
  pka_dev_get_register_offset K base K.TRNG_FRODETUNE_ADDR ≠
    pka_dev_get_register_offset K base K.TRNG_CONTROL_ADDR ∧
  pka_dev_get_register_offset K base K.TRNG_FROENABLE_ADDR ≠
    pka_dev_get_register_offset K base K.TRNG_CONTROL_ADDR ∧
  pka_dev_get_register_offset K base K.TRNG_ALARMMASK_ADDR ≠
    pka_dev_get_register_offset K base K.TRNG_CONTROL_ADDR ∧
  pka_dev_get_register_offset K base K.TRNG_ALARMSTOP_ADDR ≠
    pka_dev_get_register_offset K base K.TRNG_CONTROL_ADDR ∧
  pka_dev_get_register_offset K base K.TRNG_INTACK_ADDR ≠
    pka_dev_get_register_offset K base K.TRNG_CONTROL_ADDR

/-! ### The blocks of `pka_dev_trng_shutdown_oflo` -/

/-- The statement `curr_cycle_cnt = get_cycles()` of
`pka_dev_trng_shutdown_oflo`. -/
def oflo_cycle_read (env : Env) (w : World) : Nat × World :=
  (env.get_cycles w.trace % 2 ^ 64,
   { w with trace := w.trace ++ [Event.get_cycles (env.get_cycles w.trace % 2 ^ 64)] })

/-- The statements of `pka_dev_trng_shutdown_oflo` from the read of
`TRNG_ALARMSTOP` to the acknowledge written to `TRNG_INTACK`, for the register
block `*trng_csr_ptr = r`. -/
def oflo_reset_error (K : Consts) (env : Env) (w : World) (trng_csr_ptr : res_ptr_t)
    (r : pka_dev_res_t) : World :=
  let stopped := pka_dev_io_read env w r.ioaddr
    (pka_dev_get_register_offset K r.base K.TRNG_ALARMSTOP_ADDR)
  let w2 :=
    if stopped.1 ≠ 0 then trng_reenable_fros K env stopped.2 trng_csr_ptr stopped.1
    else stopped.2
  let w3 := pka_dev_io_write w2 r.ioaddr
    (pka_dev_get_register_offset K r.base K.TRNG_ALARMMASK_ADDR) 0
  let w4 := pka_dev_io_write w3 r.ioaddr
    (pka_dev_get_register_offset K r.base K.TRNG_ALARMSTOP_ADDR) 0
  pka_dev_io_write w4 r.ioaddr
    (pka_dev_get_register_offset K r.base K.TRNG_INTACK_ADDR) K.PKA_TRNG_STATUS_SHUTDOWN_OFLO

/-- The statements of `pka_dev_trng_shutdown_oflo` that disable the TRNG:
`TRNG_CONTROL` of the register block `r` is read and written back with the bits
of `PKA_TRNG_CONTROL_REG_VAL` cleared. -/
def oflo_disable (K : Consts) (env : Env) (w : World) (r : pka_dev_res_t) : World :=
  let ctl := pka_dev_io_read env w r.ioaddr
    (pka_dev_get_register_offset K r.base K.TRNG_CONTROL_ADDR)
  pka_dev_io_write ctl.2 r.ioaddr
    (pka_dev_get_register_offset K r.base K.TRNG_CONTROL_ADDR)
    (ctl.1 &&& (2 ^ 64 - 1 - K.PKA_TRNG_CONTROL_REG_VAL))

/-! ### Scenario for the TRNG -/

/-- Scenario: the shim at address 1 with only its TRNG register block mapped
(base `0x12000`, at `0x90000000`), no fault recorded, nothing called yet.  With
the sample constants the status (and acknowledge) register is at `0x90000020`,
the control register at `0x90000028` and the output registers at `0x90000000`,
`0x90000008`, ... -/
def demo_trng_world : World :=
  { demo_world with
    res := fun q =>
      if q = .of_shim 1 .trng_csr then
        { base := 0x12000, size := 0x1000, type := PKA_DEV_RES_TYPE_REG,
          status := PKA_DEV_RES_STATUS_MAPPED, name := "PKA_TRNG_CSR", ioaddr := 0x90000000 }
      else demo_res q }

/-- An environment in which the TRNG status register always shows both the
shutdown-overflow bit and the ready bit (value 3), every other register reads
`0x1400`, and the cycle counter reads `t1` the first time and `t2` from then
on. -/
def oflo_env (t1 t2 : Nat) : Env :=
  { demo_env with
    pka_mmio_read := fun _ addr => if addr = 0x90000020 then 3 else 0x1400,
    get_cycles := fun tr =>
      if tr.any (fun e => match e with
          | Event.get_cycles _ => true
          | _ => false) then t2
      else t1 }

/-- The first overflow check of the scenario, with counter readings `t1`, `t2`. -/
def demo_oflo1 (t1 t2 : Nat) : Bool × World :=
  pka_dev_trng_shutdown_oflo demo_consts (oflo_env t1 t2) demo_trng_world
    (.of_shim 1 .trng_csr) 1

/-- The second overflow check of the scenario. -/
def demo_oflo2 (t1 t2 : Nat) : Bool × World :=
  pka_dev_trng_shutdown_oflo demo_consts (oflo_env t1 t2) (demo_oflo1 t1 t2).2
    (.of_shim 1 .trng_csr) 1

/-- An environment in which the TRNG status register always shows the ready
bit and no fault (value 1), every other register reads `0xABCD`, and the cycle
counter advances by one per call made. -/
def ready_env : Env :=
  { demo_env with
    pka_mmio_read := fun _ addr => if addr = 0x90000020 then 1 else 0xABCD }

/-- An environment in which no register ever shows a bit and the cycle
counter advances by a hundred thousand cycles per call made. -/
def dead_env : Env :=
  { demo_env with
    pka_mmio_read := fun _ _ => 0,
    get_cycles := fun tr => 100000 * tr.length }

/-- Scenario: ring 1 (never opened) closed in `demo_open1`, where ring 0 is
open. -/
def demo_open1_close2 : Int × World := __pka_dev_close_ring demo_open1 1

/-! ## Further notions for the statements on the window partition -/

/-- The `uint32_t` locals `data_mem_base` and `data_mem_size` of
`pka_dev_partition_mem`: the data region starts at the window base and has
`PKA_WINDOW_RAM_DATA_MEM_SIZE` bytes. -/
def partition_data_mem (K : Consts) (window_ram_base : Nat) : Nat × Nat :=
  (window_ram_base % 2 ^ 32, K.PKA_WINDOW_RAM_DATA_MEM_SIZE % 2 ^ 32)

/-- The `uint32_t` local `cmd_desc_ring_size` of `pka_dev_partition_mem`
(`rslt_desc_ring_size` is set to the same value): `num_cmd_desc * CMD_DESC_SIZE`. -/
def partition_desc_ring_size (K : Consts) : Nat :=
  (partition_num_cmd_desc K * K.CMD_DESC_SIZE) % 2 ^ 32

/-- A `pka_ring_info_t` for the scenarios: ring 0 behind file descriptor 3,
with a mapped window of 16 KiB and a zeroed descriptor. -/
def demo_ring_info : pka_ring_info_t :=
  { fd := 3, ring_id := 0, mem_size := 0x4000, ring_desc := ⟨0, 0, 0, 0, 0, 0, 0, 0, 0, 0, 0⟩ }

/-! ## Reservations held, and scenarios of failing configuration -/

/-- The memory regions reserved and not released in a history of outside
calls: a successful `request_mem_region` adds its region, a
`release_mem_region` removes one reservation of its region. -/
def reservations (tr : List Event) : List (Nat × Nat) :=
  tr.foldl
    (fun acc e =>
      match e with
      | Event.request_mem_region b s _ true => acc ++ [(b, s)]
      | Event.release_mem_region b s => acc.erase (b, s)
      | _ => acc)
    []

/-- The environment `demo_env`, except that `ioremap_nocache` always fails
(returns NULL). -/
def demo_env_no_ioremap : Env :=
  { demo_env with ioremap_nocache := fun _ _ _ => 0 }

/-- Scenario: tables of two slots; A configured at base `0x1000` and B at base
`0x2000`, so that the table of shim 0 is full. -/
def demo_world_full : World :=
  world_of (pka_dev_set_resource_config demo_env
    (world_of (pka_dev_set_resource_config demo_env
      { demo_world with pka_gbl_res_tbl := fun _ => empty_res_info 2 } 0
      (.of_shim 0 .buffer_ram) 0x1000 0x100 PKA_DEV_RES_TYPE_REG "A") demo_world)
    0 (.of_shim 0 .master_prog_ram) 0x2000 0x100 PKA_DEV_RES_TYPE_REG "B") demo_world

/-! ## User-space half: `pka_dev_has_avail_ring` -/

/-- One call that `pka_dev_has_avail_ring` makes on a ring, with the value it
returned. -/
inductive ring_call
  | open_ring (ring_id : Nat) (ret : Int)
  | mmap_ring (ring_id : Nat) (ret : Int)
  | close_ring (ring_id : Nat)
  | get_ring_info (ring_id : Nat) (ret : Int)
  deriving DecidableEq, Repr

/-- What the ring devices answer to the user-space calls, as functions of the
history of calls made so far (oldest first) and of the ring identifier:
the values returned by `pka_dev_open_ring` and `pka_dev_mmap_ring` (whose
bodies are sequences of system calls on the VFIO device files), and what the
`ioctl` of `pka_dev_get_ring_info` returns and stores. -/
structure ring_backend where
  open_ring : List ring_call → Nat → Int
  mmap_ring : List ring_call → Nat → Int
  ring_info_ioctl : List ring_call → Nat → Int × pka_dev_hw_ring_info_t

/-- State of the user-space half: the `static uint32_t next_ring_id`, the
caller's `pka_ring_info_t` and the history of calls on ring devices. -/
structure avail_state where
  next_ring_id : Nat
  ring_info : pka_ring_info_t
  calls : List ring_call
  deriving DecidableEq, Repr

/-- The ring identifier that an iteration of `pka_dev_has_avail_ring` stores
in `ring_info->ring_id` and the new value of `next_ring_id` (32-bit unsigned
arithmetic; `PKA_MAX_NUM_RINGS - 1` is not 0). -/
def has_avail_ring_next (K : Consts) (next_ring_id : Nat) : Nat × Nat :=
  if next_ring_id = (K.PKA_MAX_NUM_RINGS + (2 ^ 32 - 1)) % 2 ^ 32 then (next_ring_id, 0)
  else
    (((next_ring_id * K.PKA_MAX_NUM_IO_BLOCKS) % 2 ^ 32) %
        ((K.PKA_MAX_NUM_RINGS + (2 ^ 32 - 1)) % 2 ^ 32),
      (next_ring_id + 1) % 2 ^ 32)

/-- The test `(PKA_MAX_NUM_RINGS - errors) >= rings_num` of the `while` loop,
in the 32-bit unsigned arithmetic of its operands (`errors` and `rings_num`
are `uint32_t`). -/
def has_avail_ring_cond (K : Consts) (errors rings_num : Nat) : Bool :=
  decide ((K.PKA_MAX_NUM_RINGS % 2 ^ 32 + (2 ^ 32 - errors % 2 ^ 32)) % 2 ^ 32 ≥ rings_num)

/-- `pka_dev_has_avail_ring(ring_info, rings_num)` from the loop test on, with
the current value of the `uint32_t` counter `errors`; `ring_info_ptr` is the
pointer `ring_info` (0 is NULL).  `none` when the pointer is NULL where the
code dereferences it, or when the loop used up the `fuel` (one unit per
iteration). -/
def pka_dev_has_avail_ring (K : Consts) (be : ring_backend) (ring_info_ptr rings_num : Nat) :
    Nat → Nat → avail_state → Option (Bool × avail_state)
  | 0, errors, s => if has_avail_ring_cond K errors rings_num then none else some (false, s)
  | fuel + 1, errors, s =>
    if has_avail_ring_cond K errors rings_num then
      if ring_info_ptr = 0 then none
      else
        let n := has_avail_ring_next K s.next_ring_id
        let o := be.open_ring s.calls n.1
        let s1 : avail_state :=
          { next_ring_id := n.2, ring_info := { s.ring_info with ring_id := n.1 },
            calls := s.calls ++ [ring_call.open_ring n.1 o] }
        if o ≠ 0 then
          pka_dev_has_avail_ring K be ring_info_ptr rings_num fuel ((errors + 1) % 2 ^ 32)
            { s1 with calls := s1.calls ++ [ring_call.close_ring n.1] }
        else
          let m := be.mmap_ring s1.calls n.1
          let s2 : avail_state := { s1 with calls := s1.calls ++ [ring_call.mmap_ring n.1 m] }
          if m ≠ 0 then
            pka_dev_has_avail_ring K be ring_info_ptr rings_num fuel ((errors + 1) % 2 ^ 32)
              { s2 with calls := s2.calls ++ [ring_call.close_ring n.1] }
          else
            let io := be.ring_info_ioctl s2.calls n.1
            let g := pka_dev_get_ring_info K io.1 io.2 ring_info_ptr s2.ring_info
            some (true,
              { s2 with ring_info := g.2,
                        calls := s2.calls ++ [ring_call.get_ring_info n.1 g.1] })
    else some (false, s)

/-- Number of `pka_dev_open_ring` attempts in a history. -/
def open_attempts (calls : List ring_call) : Nat :=
  calls.countP fun c =>
    match c with
    | ring_call.open_ring _ _ => true
    | _ => false

/-- A backend on which no ring can be opened: `pka_dev_open_ring` returns
`-EWOULDBLOCK` for every ring. -/
def closed_backend : ring_backend :=
  { open_ring := fun _ _ => -EWOULDBLOCK,
    mmap_ring := fun _ _ => -ENOMEM,
    ring_info_ioctl := fun _ _ => (-1, zero_ring_info) }

/-- Start of the user-space scenario: `next_ring_id = 0`, no call made. -/
def demo_avail_state : avail_state :=
  { next_ring_id := 0, ring_info := demo_ring_info, calls := [] }

/-! ## Notions for the statement on the words read by `pka_dev_trng_read` -/

/-- Address at which `pka_dev_trng_read` reads the output register of word
`i`: `TRNG_OUTPUT_0_ADDR + (i mod PKA_TRNG_OUTPUT_CNT) * 8` in the register
block `r`. -/
def trng_output_addr (K : Consts) (r : pka_dev_res_t) (i : Nat) : Nat :=
  r.ioaddr +
    pka_dev_get_register_offset K r.base
      (K.TRNG_OUTPUT_0_ADDR + (i % K.PKA_TRNG_OUTPUT_CNT) * 0x8)

/-- The ready acknowledge: the write of `PKA_TRNG_STATUS_READY` at
`TRNG_INTACK_ADDR` in the register block `r`. -/
def trng_ack_event (K : Consts) (r : pka_dev_res_t) : Event :=
  Event.pka_mmio_write (r.ioaddr + pka_dev_get_register_offset K r.base K.TRNG_INTACK_ADDR)
    K.PKA_TRNG_STATUS_READY

/-- Is the call a read of one of the `PKA_TRNG_OUTPUT_CNT` output registers of
the block `r`, or a register write? -/
def trng_word_call (K : Consts) (r : pka_dev_res_t) (e : Event) : Bool :=
  match e with
  | Event.pka_mmio_read a _ =>
    (List.range K.PKA_TRNG_OUTPUT_CNT).any fun idx => decide (a = trng_output_addr K r idx)
  | Event.pka_mmio_write _ _ => true
  | _ => false

/-- Is the call one of the polling loop: a read of the cycle counter or a read
at the address `addr` of the status register? -/
def trng_poll_call (addr : Nat) (e : Event) : Bool :=
  match e with
  | Event.get_cycles _ => true
  | Event.pka_mmio_read a _ => decide (a = addr)
  | _ => false

/-- The register writes and output-register reads that the words
`i, .., i + n - 1` call for: for each word, the ready acknowledge when
`i mod PKA_TRNG_OUTPUT_CNT = 0`, then one read of the output register of the
word, returning `vals i`. -/
def trng_expected_calls (K : Consts) (r : pka_dev_res_t) (vals : Nat → Nat) :
    Nat → Nat → List Event
  | 0, _ => []
  | n + 1, i =>
    (if i % K.PKA_TRNG_OUTPUT_CNT = 0 then [trng_ack_event K r] else []) ++
      [Event.pka_mmio_read (trng_output_addr K r i) (vals i)] ++
      trng_expected_calls K r vals n (i + 1)

/-- The offset of the status register differs from the offsets of the
`PKA_TRNG_OUTPUT_CNT` output registers in a block at `base`. -/
@[reducible] def trng_output_apart (K : Consts) (base : Nat) : Prop :=
  ∀ idx, idx < K.PKA_TRNG_OUTPUT_CNT →
    pka_dev_get_register_offset K base K.TRNG_STATUS_ADDR ≠
      pka_dev_get_register_offset K base (K.TRNG_OUTPUT_0_ADDR + idx * 0x8)

/-- Is the call a register read? -/
def is_mmio_read (e : Event) : Bool :=
  match e with
  | Event.pka_mmio_read _ _ => true
  | _ => false

/-- Number of word indices in `i, .., i + n - 1` that start an output cycle
(`j mod PKA_TRNG_OUTPUT_CNT = 0`). -/
def trng_cycle_starts (K : Consts) : Nat → Nat → Nat
  | 0, _ => 0
  | n + 1, i => (if i % K.PKA_TRNG_OUTPUT_CNT = 0 then 1 else 0) + trng_cycle_starts K n (i + 1)

/-! # Properties -/

/-! ## Resource-table invariant -/

theorem countP_isSome_set_le (l : List (Option res_ptr_t)) (i : Nat) (p : res_ptr_t) :
    (l.set i (some p)).countP Option.isSome ≤ l.countP Option.isSome + 1 := by
  induction l generalizing i with
  | nil => simp
  | cons a l ih =>
    cases i with
    | zero => cases a <;> simp [List.countP_cons]
    | succ i =>
      have := ih i
      cases a <;> simp [List.countP_cons] <;> omega

theorem put_clear_name_some (res : res_ptr_t → pka_dev_res_t) (name : String)
    (l l1 : List (Option res_ptr_t)) (h : put_clear_name res name l = some l1) :
    l1.length = l.length ∧ l1.countP Option.isSome + 1 = l.countP Option.isSome := by
  induction l generalizing l1 with
  | nil => simp [put_clear_name] at h
  | cons a l ih =>
    cases a with
    | none =>
      simp only [put_clear_name, Option.map_eq_some'] at h
      obtain ⟨l2, h2, rfl⟩ := h
      have := ih l2 h2
      simpa [List.countP_cons] using this
    | some q =>
      simp only [put_clear_name] at h
      split at h
      · cases h
        simp [List.countP_cons]
      · simp only [Option.map_eq_some'] at h
        obtain ⟨l2, h2, rfl⟩ := h
        have := ih l2 h2
        simp only [List.length_cons, List.countP_cons, Option.isSome_some, if_true]
        omega

theorem tblInv_add (cap : Nat) (hcap : cap ≤ 255) (tbl : Nat → pka_dev_gbl_shim_res_info_t)
    (res_ptr : res_ptr_t) (shim_idx : Nat) (h : ∀ i, TblInv cap (tbl i)) :
    ∀ i, TblInv cap ((pka_dev_add_resource tbl res_ptr shim_idx).2 i) := by
  intro i
  unfold pka_dev_add_resource
  obtain ⟨hl, hc, hn⟩ := h shim_idx
  by_cases hfull : (tbl shim_idx).res_cnt ≥ (tbl shim_idx).res_tbl.length
  · simpa [hfull] using h i
  · simp only [hfull, if_false]
    by_cases hi : i = shim_idx
    · subst hi
      have hlt : (tbl i).res_cnt < cap := by omega
      have hmod : ((tbl i).res_cnt + 1) % 256 = (tbl i).res_cnt + 1 := by omega
      have hset := countP_isSome_set_le (tbl i).res_tbl (tbl i).res_cnt res_ptr
      simp only [Function.update_same, TblInv, nonEmptySlots, List.length_set, hmod] at *
      exact ⟨hl, by omega, by omega⟩
    · simpa [Function.update_noteq hi] using h i

theorem tblInv_put (cap : Nat) (hcap : cap ≤ 255) (tbl : Nat → pka_dev_gbl_shim_res_info_t)
    (res : res_ptr_t → pka_dev_res_t) (r : res_ptr_t) (shim_idx : Nat)
    (h : ∀ i, TblInv cap (tbl i)) :
    ∀ i, TblInv cap ((pka_dev_put_resource res tbl r shim_idx).2 i) := by
  intro i
  have key : TblInv cap ((match put_clear_name res (res r).name (tbl shim_idx).res_tbl with
      | some l => Function.update tbl shim_idx
          { res_tbl := l, res_cnt := ((tbl shim_idx).res_cnt + 255) % 256 }
      | none => tbl) i) := by
    cases hput : put_clear_name res (res r).name (tbl shim_idx).res_tbl with
    | none => simpa using h i
    | some l =>
      simp only
      by_cases hi : i = shim_idx
      · subst hi
        obtain ⟨hl, hc, hn⟩ := h i
        obtain ⟨h1, h2⟩ := put_clear_name_some res _ _ _ hput
        simp only [Function.update_same, TblInv, nonEmptySlots] at *
        have hpos : 1 ≤ (tbl i).res_cnt := by omega
        have hmod : ((tbl i).res_cnt + 255) % 256 = (tbl i).res_cnt - 1 := by omega
        rw [hmod]
        exact ⟨by omega, by omega, by omega⟩
      · simpa [Function.update_noteq hi] using h i
  unfold pka_dev_put_resource
  simp only
  split <;> exact key

theorem tblInv_of_reachable (cap : Nat) (hcap : cap ≤ 255)
    (tbl : Nat → pka_dev_gbl_shim_res_info_t) (h : TblReachable cap tbl) :
    ∀ i, TblInv cap (tbl i) := by
  induction h with
  | init => intro i; simp [TblInv, empty_res_info, nonEmptySlots, List.countP_replicate]
  | add tbl res_ptr shim_idx _ ih => exact tblInv_add cap hcap tbl res_ptr shim_idx ih
  | put tbl res r shim_idx _ ih => exact tblInv_put cap hcap tbl res r shim_idx ih

/-! ## Lemmas on the table scans -/

theorem ioaddr_scan_fresh (res : res_ptr_t → pka_dev_res_t) (b a : Nat)
    (l : List (Option res_ptr_t)) (hfresh : ∀ q, some q ∈ l → (res q).base ≠ b)
    (h : ioaddr_scan res b l = some a) : a = 0 ∧ ∀ s ∈ l, s.isSome = true := by
  induction l with
  | nil => simp [ioaddr_scan] at h; simp [h]
  | cons s l ih =>
    cases s with
    | none => simp [ioaddr_scan] at h
    | some q =>
      have hq : (res q).base ≠ b := hfresh q (by simp)
      simp only [ioaddr_scan, hq, if_false] at h
      obtain ⟨h0, hall⟩ := ih (fun q hq => hfresh q (List.mem_cons_of_mem _ hq)) h
      refine ⟨h0, ?_⟩
      intro s hs
      rcases List.mem_cons.1 hs with rfl | hs
      · rfl
      · exact hall s hs

theorem set_none_of_full_front (l : List (Option res_ptr_t)) (n : Nat) (hn : n < l.length)
    (hall : ∀ s ∈ l.take n, s.isSome = true) (hcount : l.countP Option.isSome ≤ n) :
    l.set n none = l := by
  induction l generalizing n with
  | nil => simp at hn
  | cons a l ih =>
    cases n with
    | zero =>
      cases a with
      | none => rfl
      | some q => simp [List.countP_cons] at hcount
    | succ n =>
      have ha : a.isSome = true := hall a (by simp)
      have hc : l.countP Option.isSome ≤ n := by
        simp only [List.countP_cons, ha, if_true] at hcount
        omega
      have := ih n (by simpa using hn)
        (fun s hs => hall s (by simp only [List.take_succ_cons]; exact List.mem_cons_of_mem _ hs))
        hc
      simp [this]

theorem put_clear_name_set (res : res_ptr_t → pka_dev_res_t) (name : String)
    (p : res_ptr_t) (l : List (Option res_ptr_t)) (n : Nat) (hn : n < l.length)
    (hall : ∀ s ∈ l.take n, s.isSome = true)
    (hpre : ∀ q, some q ∈ l.take n → (res q).name ≠ name) (hp : (res p).name = name) :
    put_clear_name res name (l.set n (some p)) = some (l.set n none) := by
  induction l generalizing n with
  | nil => simp at hn
  | cons a l ih =>
    cases n with
    | zero => simp [put_clear_name, hp]
    | succ n =>
      cases a with
      | none =>
        have := hall none (by simp)
        simp at this
      | some q =>
        have hq : (res q).name ≠ name := hpre q (by simp)
        have := ih n (by simpa using hn)
          (fun s hs => hall s (by simp only [List.take_succ_cons]; exact List.mem_cons_of_mem _ hs))
          (fun q hq => hpre q (by simp only [List.take_succ_cons]; exact List.mem_cons_of_mem _ hq))
        simp [put_clear_name, hq, this]

theorem put_base_shared_false (res : res_ptr_t → pka_dev_res_t) (b : Nat)
    (l : List (Option res_ptr_t)) (hfresh : ∀ q, some q ∈ l → (res q).base ≠ b) :
    put_base_shared res b l = false := by
  induction l with
  | nil => rfl
  | cons s l ih =>
    have ih1 := ih (fun q hq => hfresh q (List.mem_cons_of_mem _ hq))
    cases s with
    | none => simpa [put_base_shared] using ih1
    | some q =>
      have hq : (res q).base ≠ b := hfresh q (by simp)
      simpa [put_base_shared, hq] using ih1

/-! ## Successful configuration of a resource that shares nothing -/

theorem get_resource_ioaddr_fresh (res : res_ptr_t → pka_dev_res_t)
    (tbl : Nat → pka_dev_gbl_shim_res_info_t) (b shim_idx a : Nat)
    (hfresh : ∀ q, some q ∈ (tbl shim_idx).res_tbl → (res q).base ≠ b)
    (h : pka_dev_get_resource_ioaddr res tbl b shim_idx = some a) :
    a = 0 ∧ ∀ s ∈ (tbl shim_idx).res_tbl.take (tbl shim_idx).res_cnt, s.isSome = true := by
  unfold pka_dev_get_resource_ioaddr at h
  simp only at h
  split at h
  · rename_i h0
    simp at h
    simp [h0, h.symm]
  · split at h
    · simp at h
    · exact ioaddr_scan_fresh res b a _
        (fun q hq => hfresh q (List.mem_of_mem_take hq)) h

theorem set_resource_config_fresh_ok (env : Env) (w w1 : World) (shim : Nat)
    (res_ptr : res_ptr_t) (res_base res_size : Nat) (res_type : pka_dev_res_type_t)
    (res_name : String)
    (hfresh : TblFresh w (w.shim shim).shim_id res_ptr res_name
      (config_base (w.shim shim).base res_base res_type))
    (hok : pka_dev_set_resource_config env w shim res_ptr res_base res_size res_type res_name
      = some (0, w1)) :
    ∃ m, m ≠ 0 ∧
      (w.pka_gbl_res_tbl (w.shim shim).shim_id).res_cnt
        < (w.pka_gbl_res_tbl (w.shim shim).shim_id).res_tbl.length ∧
      (∀ s ∈ (w.pka_gbl_res_tbl (w.shim shim).shim_id).res_tbl.take
          (w.pka_gbl_res_tbl (w.shim shim).shim_id).res_cnt, s.isSome = true) ∧
      w1 =
        { w with
          res := Function.update w.res res_ptr
            { base := config_base (w.shim shim).base res_base res_type, size := res_size,
              type := res_type, status := PKA_DEV_RES_STATUS_MAPPED, name := res_name,
              ioaddr := m },
          pka_gbl_res_tbl := Function.update w.pka_gbl_res_tbl (w.shim shim).shim_id
            { res_tbl := (w.pka_gbl_res_tbl (w.shim shim).shim_id).res_tbl.set
                (w.pka_gbl_res_tbl (w.shim shim).shim_id).res_cnt (some res_ptr),
              res_cnt := ((w.pka_gbl_res_tbl (w.shim shim).shim_id).res_cnt + 1) % 256 },
          trace := w.trace ++
            [Event.request_mem_region (config_base (w.shim shim).base res_base res_type)
                res_size res_name true,
             Event.ioremap_nocache (config_base (w.shim shim).base res_base res_type)
                res_size m] } := by
  unfold pka_dev_set_resource_config at hok
  split at hok
  · simp [EPERM] at hok
  · simp only at hok
    split at hok
    · simp at hok
    · rename_i a ha
      have hfr : ∀ q, some q ∈ (w.pka_gbl_res_tbl (w.shim shim).shim_id).res_tbl →
          (Function.update w.res res_ptr
            { base := config_base (w.shim shim).base res_base res_type, size := res_size,
              type := res_type, status := PKA_DEV_RES_STATUS_UNMAPPED, name := res_name,
              ioaddr := (w.res res_ptr).ioaddr } q).base
            ≠ config_base (w.shim shim).base res_base res_type := by
        intro q hq
        obtain ⟨h1, _, h3⟩ := hfresh q hq
        simpa [Function.update_noteq h1] using h3
      obtain ⟨ha0, hall⟩ := get_resource_ioaddr_fresh _ _ _ _ _ hfr ha
      subst ha0
      simp only [if_true] at hok
      split at hok
      · simp [EPERM] at hok
      · rename_i hreq
        simp only [Bool.not_eq_false] at hreq
        unfold set_resource_config_register pka_dev_add_resource at hok
        simp only [Function.update_same, Function.update_idem] at hok
        split at hok
        · simp [ENOMEM] at hok
        · rename_i hm
          split at hok
          · simp [ENOMEM] at hok
          · rename_i hlen
            refine ⟨_, hm, by omega, hall, ?_⟩
            simp only [ne_eq, not_true_eq_false, if_false, Option.some.injEq, Prod.mk.injEq,
              true_and] at hok
            rw [← hok]
            simp [hreq]

/-! ## C1 -/

/-- C1 (fails on the code): after add A, add B, remove A, add C on the empty
six-slot table of shim 0, a reachable state, `res_cnt` is 2 while only one slot
is non-empty: `pka_dev_add_resource` wrote C at index `res_cnt = 1`, over the
live entry of B. -/
theorem add_put_add_count_differs :
    TblReachable 6 demo_tbl_add_put_add ∧
    demo_tbl_add_put_add 0 =
      { res_tbl := [none, some (.of_shim 0 .master_seq_ctrl), none, none, none, none],
        res_cnt := 2 } ∧
    (demo_tbl_add_put_add 0).res_cnt = 2 ∧
    nonEmptySlots (demo_tbl_add_put_add 0) = 1 ∧
    (demo_tbl_add_put_add 0).res_cnt ≠ nonEmptySlots (demo_tbl_add_put_add 0) := by
  refine ⟨?_, by decide, by decide, by decide, by decide⟩
  exact TblReachable.add _ _ _ (TblReachable.put _ demo_res _ _
    (TblReachable.add _ _ _ (TblReachable.add _ _ _ TblReachable.init)))

/-! ## C2 -/

/-- C2: in a reachable table state (capacity at most 255, so that the
`uint8_t` counter does not wrap), when `pka_dev_set_resource_config` succeeds
on an unmapped resource and the shim's table holds no entry with the same name
or base, `pka_dev_unset_resource_config` leaves the resource unmapped and the
table exactly as it was before the configure (unmapping and releasing the
region); a second release changes nothing. -/
theorem configure_release_restores (env : Env) (w w1 : World) (cap shim : Nat)
    (res_ptr : res_ptr_t) (res_base res_size : Nat) (res_type : pka_dev_res_type_t)
    (res_name : String) (hcap : cap ≤ 255)
    (hreach : TblReachable cap w.pka_gbl_res_tbl)
    (hfresh : TblFresh w (w.shim shim).shim_id res_ptr res_name
      (config_base (w.shim shim).base res_base res_type))
    (hok : pka_dev_set_resource_config env w shim res_ptr res_base res_size res_type res_name
      = some (0, w1)) :
    ((pka_dev_unset_resource_config w1 shim res_ptr).res res_ptr).status
        = PKA_DEV_RES_STATUS_UNMAPPED ∧
    (pka_dev_unset_resource_config w1 shim res_ptr).pka_gbl_res_tbl = w.pka_gbl_res_tbl ∧
    (pka_dev_unset_resource_config w1 shim res_ptr).trace =
      w1.trace ++ [Event.iounmap (w1.res res_ptr).ioaddr,
                   Event.release_mem_region (w1.res res_ptr).base (w1.res res_ptr).size] ∧
    pka_dev_unset_resource_config (pka_dev_unset_resource_config w1 shim res_ptr) shim res_ptr
      = pka_dev_unset_resource_config w1 shim res_ptr := by
  obtain ⟨m, hm, hlt, hall, rfl⟩ :=
    set_resource_config_fresh_ok env w w1 shim res_ptr res_base res_size res_type res_name
      hfresh hok
  obtain ⟨hlen, hcnt, hne⟩ := tblInv_of_reachable cap hcap _ hreach (w.shim shim).shim_id
  have hput : pka_dev_put_resource
      (Function.update w.res res_ptr
        { base := config_base (w.shim shim).base res_base res_type, size := res_size,
          type := res_type, status := PKA_DEV_RES_STATUS_MAPPED, name := res_name,
          ioaddr := m })
      (Function.update w.pka_gbl_res_tbl (w.shim shim).shim_id
        { res_tbl := (w.pka_gbl_res_tbl (w.shim shim).shim_id).res_tbl.set
            (w.pka_gbl_res_tbl (w.shim shim).shim_id).res_cnt (some res_ptr),
          res_cnt := ((w.pka_gbl_res_tbl (w.shim shim).shim_id).res_cnt + 1) % 256 })
      res_ptr (w.shim shim).shim_id = (0, w.pka_gbl_res_tbl) := by
    have h1 := put_clear_name_set
      (Function.update w.res res_ptr
        { base := config_base (w.shim shim).base res_base res_type, size := res_size,
          type := res_type, status := PKA_DEV_RES_STATUS_MAPPED, name := res_name,
          ioaddr := m })
      res_name res_ptr (w.pka_gbl_res_tbl (w.shim shim).shim_id).res_tbl
      (w.pka_gbl_res_tbl (w.shim shim).shim_id).res_cnt hlt hall
      (by
        intro q hq
        obtain ⟨hq1, hq2, _⟩ := hfresh q (List.mem_of_mem_take hq)
        simpa [Function.update_noteq hq1] using hq2)
      (by simp)
    rw [set_none_of_full_front _ _ hlt hall hne] at h1
    have h2 := put_base_shared_false
      (Function.update w.res res_ptr
        { base := config_base (w.shim shim).base res_base res_type, size := res_size,
          type := res_type, status := PKA_DEV_RES_STATUS_MAPPED, name := res_name,
          ioaddr := m })
      (config_base (w.shim shim).base res_base res_type)
      (w.pka_gbl_res_tbl (w.shim shim).shim_id).res_tbl
      (by
        intro q hq
        obtain ⟨hq1, _, hq3⟩ := hfresh q hq
        simpa [Function.update_noteq hq1] using hq3)
    have hmod : (((w.pka_gbl_res_tbl (w.shim shim).shim_id).res_cnt + 1) % 256 + 255) % 256
        = (w.pka_gbl_res_tbl (w.shim shim).shim_id).res_cnt := by omega
    unfold pka_dev_put_resource
    simp only [Function.update_same, h1, Function.update_idem, hmod, Function.update_eq_self,
      h2]
    simp
  have hbusy : (0 : Int) ≠ -EBUSY := by simp [EBUSY]
  refine ⟨?_, ?_, ?_, ?_⟩
  · simp [pka_dev_unset_resource_config]
  · simp [pka_dev_unset_resource_config, hm, hput, hbusy]
  · simp [pka_dev_unset_resource_config, hm, hput, hbusy]
  · simp [pka_dev_unset_resource_config, hm, hput, hbusy]

theorem demo_world_B_reachable : TblReachable 6 demo_world_B.pka_gbl_res_tbl :=
  TblReachable.add _ (.of_shim 0 .master_prog_ram) 0 TblReachable.init

/-- Witness of C2: with B already in the table of shim 0, A is configured at
base 0x1000 and released again. -/
theorem configure_release_restores_witness :
    pka_dev_set_resource_config demo_env demo_world_B 0 (.of_shim 0 .buffer_ram)
        0x1000 0x100 PKA_DEV_RES_TYPE_REG "A" = some (0, demo_world_BA) ∧
    ((pka_dev_unset_resource_config demo_world_BA 0 (.of_shim 0 .buffer_ram)).res
        (.of_shim 0 .buffer_ram)).status = PKA_DEV_RES_STATUS_UNMAPPED ∧
    (pka_dev_unset_resource_config demo_world_BA 0 (.of_shim 0 .buffer_ram)).pka_gbl_res_tbl
        = demo_world_B.pka_gbl_res_tbl ∧
    (pka_dev_unset_resource_config demo_world_BA 0 (.of_shim 0 .buffer_ram)).trace =
      demo_world_BA.trace ++
        [Event.iounmap (demo_world_BA.res (.of_shim 0 .buffer_ram)).ioaddr,
         Event.release_mem_region (demo_world_BA.res (.of_shim 0 .buffer_ram)).base
           (demo_world_BA.res (.of_shim 0 .buffer_ram)).size] ∧
    pka_dev_unset_resource_config
        (pka_dev_unset_resource_config demo_world_BA 0 (.of_shim 0 .buffer_ram)) 0
        (.of_shim 0 .buffer_ram)
      = pka_dev_unset_resource_config demo_world_BA 0 (.of_shim 0 .buffer_ram) :=
  ⟨rfl, configure_release_restores demo_env demo_world_B demo_world_BA 6 0
    (.of_shim 0 .buffer_ram) 0x1000 0x100 PKA_DEV_RES_TYPE_REG "A" (by decide)
    demo_world_B_reachable
    (by
      intro q hq
      have hq1 : q = .of_shim 0 .master_prog_ram := by
        have h : demo_world_B.pka_gbl_res_tbl 0 =
            { res_tbl := [some (.of_shim 0 .master_prog_ram), none, none, none, none, none],
              res_cnt := 1 } := by decide
        have h0 : (demo_world_B.shim 0).shim_id = 0 := rfl
        rw [h0, h] at hq
        simpa using hq
      subst hq1
      decide)
    rfl⟩

/-! ## C3 -/

/-- C4 (fails on the code): configure A (base 0x1000), configure B (base
0x2000), release A.  In the state reached B is mapped with base 0x2000 and sits
in slot 1, slot 0 is NULL and `res_cnt` is 1.  Configuring the unmapped C with
base 0x2000 then makes `pka_dev_get_resource_ioaddr` read `res_ptr->base`
through the NULL pointer of slot 0: the call has no result, and C does not get
the mapped address of B. -/
theorem configure_sharer_after_release_faults :
    pka_dev_set_resource_config demo_env demo_world 0 (.of_shim 0 .buffer_ram)
        0x1000 0x100 PKA_DEV_RES_TYPE_REG "A" = some (0, demo_world_A) ∧
    pka_dev_set_resource_config demo_env demo_world_A 0 (.of_shim 0 .master_prog_ram)
        0x2000 0x100 PKA_DEV_RES_TYPE_REG "B" = some (0, demo_world_AB) ∧
    pka_dev_unset_resource_config demo_world_AB 0 (.of_shim 0 .buffer_ram)
        = demo_world_AB_relA ∧
    TblReachable 6 demo_world_AB_relA.pka_gbl_res_tbl ∧
    demo_world_AB_relA.res (.of_shim 0 .master_prog_ram) =
      { base := 0x2000, size := 0x100, type := PKA_DEV_RES_TYPE_REG,
        status := PKA_DEV_RES_STATUS_MAPPED, name := "B", ioaddr := 0x80002000 } ∧
    (demo_world_AB_relA.res (.of_shim 0 .master_seq_ctrl)).status
      = PKA_DEV_RES_STATUS_UNMAPPED ∧
    demo_world_AB_relA.pka_gbl_res_tbl 0 =
      { res_tbl := [none, some (.of_shim 0 .master_prog_ram), none, none, none, none],
        res_cnt := 1 } ∧
    pka_dev_get_resource_ioaddr demo_world_AB_relA.res demo_world_AB_relA.pka_gbl_res_tbl
        0x2000 0 = none ∧
    pka_dev_set_resource_config demo_env demo_world_AB_relA 0 (.of_shim 0 .master_seq_ctrl)
        0x2000 0x100 PKA_DEV_RES_TYPE_REG "C" = none := by
  refine ⟨rfl, rfl, rfl, ?_, by decide, by decide, by decide, by decide, rfl⟩
  exact TblReachable.put _ demo_world_AB.res (.of_shim 0 .buffer_ram) 0
    (TblReachable.add _ (.of_shim 0 .master_prog_ram) 0
      (TblReachable.add _ (.of_shim 0 .buffer_ram) 0 TblReachable.init))

/-! ## C5 -/

/-- C5: on a resource whose status is mapped, `pka_dev_set_resource_config`
returns `-EPERM` and the whole state (every field of the resource, the
resource table, the history of outside calls) is unchanged. -/
theorem configure_mapped_eperm (env : Env) (w : World) (shim : Nat) (res_ptr : res_ptr_t)
    (res_base res_size : Nat) (res_type : pka_dev_res_type_t) (res_name : String)
    (h : (w.res res_ptr).status = PKA_DEV_RES_STATUS_MAPPED) :
    pka_dev_set_resource_config env w shim res_ptr res_base res_size res_type res_name
      = some (-EPERM, w) := by
  simp [pka_dev_set_resource_config, h]

/-- Witness of C5: A is mapped in the scenario and is configured again with
other values. -/
theorem configure_mapped_eperm_witness :
    (demo_world_A.res (.of_shim 0 .buffer_ram)).status = PKA_DEV_RES_STATUS_MAPPED ∧
    pka_dev_set_resource_config demo_env demo_world_A 0 (.of_shim 0 .buffer_ram)
      0x5000 0x200 PKA_DEV_RES_TYPE_MEM "other" = some (-EPERM, demo_world_A) :=
  ⟨by decide, configure_mapped_eperm demo_env demo_world_A 0 (.of_shim 0 .buffer_ram)
    0x5000 0x200 PKA_DEV_RES_TYPE_MEM "other" (by decide)⟩

/-! ## Frame lemmas for `pka_dev_set_resource_config` -/

theorem and_then_zero (w : World) (k : World → Option (Int × World)) :
    and_then (some (0, w)) k = k w := by
  simp [and_then]

theorem and_then_nonzero (r : Int) (w : World) (k : World → Option (Int × World))
    (h : r ≠ 0) : and_then (some (r, w)) k = some (r, w) := by
  simp [and_then, h]

theorem set_resource_config_register_shim (w : World) (shim_id : Nat) (res_ptr : res_ptr_t) :
    (set_resource_config_register w shim_id res_ptr).2.shim = w.shim := by
  unfold set_resource_config_register
  simp only
  split
  · rfl
  · split <;> rfl

theorem set_resource_config_shim (env : Env) (w w1 : World) (shim : Nat) (res_ptr : res_ptr_t)
    (res_base res_size : Nat) (res_type : pka_dev_res_type_t) (res_name : String) (ret : Int)
    (h : pka_dev_set_resource_config env w shim res_ptr res_base res_size res_type res_name
      = some (ret, w1)) : w1.shim = w.shim := by
  unfold pka_dev_set_resource_config at h
  split at h
  · simp only [Option.some.injEq, Prod.mk.injEq] at h
    rw [← h.2]
  · simp only at h
    split at h
    · simp at h
    · split at h
      · split at h
        · simp only [Option.some.injEq, Prod.mk.injEq] at h
          rw [← h.2]
        · simp only [Option.some.injEq] at h
          have h2 := congrArg (fun x => x.2.shim) h
          simp only [set_resource_config_register_shim] at h2
          exact h2.symm
      · simp only [Option.some.injEq] at h
        have h2 := congrArg (fun x => x.2.shim) h
        simp only [set_resource_config_register_shim] at h2
        exact h2.symm

theorem set_resource_config_register_ok (w w1 : World) (shim_id : Nat) (res_ptr : res_ptr_t)
    (h : set_resource_config_register w shim_id res_ptr = (0, w1)) :
    (w.pka_gbl_res_tbl shim_id).res_cnt < (w.pka_gbl_res_tbl shim_id).res_tbl.length ∧
    w1.res = Function.update w.res res_ptr
      { w.res res_ptr with status := PKA_DEV_RES_STATUS_MAPPED } ∧
    w1.pka_gbl_res_tbl = Function.update w.pka_gbl_res_tbl shim_id
      { res_tbl := (w.pka_gbl_res_tbl shim_id).res_tbl.set
          (w.pka_gbl_res_tbl shim_id).res_cnt (some res_ptr),
        res_cnt := ((w.pka_gbl_res_tbl shim_id).res_cnt + 1) % 256 } := by
  unfold set_resource_config_register pka_dev_add_resource at h
  simp only at h
  split at h
  · simp [ENOMEM] at h
  · split at h
    · simp [ENOMEM] at h
    · rename_i hlen
      simp only [ne_eq, not_true_eq_false, if_false, Prod.mk.injEq, true_and] at h
      subst h
      exact ⟨by omega, rfl, rfl⟩

/-- What a successful `pka_dev_set_resource_config` does to the resource
structures and to the table: the resource is mapped, no other resource
changes, and the pointer is stored at index `res_cnt` of the shim's table. -/
theorem set_resource_config_ok (env : Env) (w w1 : World) (shim : Nat) (res_ptr : res_ptr_t)
    (res_base res_size : Nat) (res_type : pka_dev_res_type_t) (res_name : String)
    (h : pka_dev_set_resource_config env w shim res_ptr res_base res_size res_type res_name
      = some (0, w1)) :
    (w.pka_gbl_res_tbl (w.shim shim).shim_id).res_cnt
      < (w.pka_gbl_res_tbl (w.shim shim).shim_id).res_tbl.length ∧
    (w1.res res_ptr).status = PKA_DEV_RES_STATUS_MAPPED ∧
    (∀ q, q ≠ res_ptr → w1.res q = w.res q) ∧
    w1.pka_gbl_res_tbl = Function.update w.pka_gbl_res_tbl (w.shim shim).shim_id
      { res_tbl := (w.pka_gbl_res_tbl (w.shim shim).shim_id).res_tbl.set
          (w.pka_gbl_res_tbl (w.shim shim).shim_id).res_cnt (some res_ptr),
        res_cnt := ((w.pka_gbl_res_tbl (w.shim shim).shim_id).res_cnt + 1) % 256 } := by
  unfold pka_dev_set_resource_config at h
  split at h
  · simp [EPERM] at h
  · simp only at h
    split at h
    · simp at h
    · split at h
      · split at h
        · simp [EPERM] at h
        · simp only [Option.some.injEq] at h
          obtain ⟨h1, h2, h3⟩ := set_resource_config_register_ok _ _ _ _ h
          refine ⟨h1, by simp [h2], ?_, h3⟩
          intro q hq
          simp [h2, Function.update_noteq hq]
      · simp only [Option.some.injEq] at h
        obtain ⟨h1, h2, h3⟩ := set_resource_config_register_ok _ _ _ _ h
        refine ⟨h1, by simp [h2], ?_, h3⟩
        intro q hq
        simp [h2, Function.update_noteq hq]

/-! ## C6 -/

/-- C6: `pka_dev_create_shim` on a shim whose status is not undefined changes
nothing; it returns 0 when the status is created and `-EPERM` when it is
initialized, running, stopped or finalized. -/
theorem create_shim_not_undefined (K : Consts) (env : Env) (w : World)
    (shim shim_id shim_base shim_size split : Nat)
    (h : (w.shim shim).status ≠ PKA_SHIM_STATUS_UNDEFINED) :
    pka_dev_create_shim K env w shim shim_id shim_base shim_size split =
      some (if (w.shim shim).status = PKA_SHIM_STATUS_CREATED then 0 else -EPERM, w) := by
  unfold pka_dev_create_shim
  by_cases hc : (w.shim shim).status = PKA_SHIM_STATUS_CREATED
  · simp [hc]
  · simp [hc, h]

/-- Witness of C6: the created shim of the scenario (result 0) and the same
shim after `pka_dev_init_shim`, status initialized (result `-EPERM`). -/
theorem create_shim_not_undefined_witness :
    (demo_created.shim 1).status = PKA_SHIM_STATUS_CREATED ∧
    pka_dev_create_shim demo_consts demo_env demo_created 1 3 0x5000000 0x40000 1
      = some (0, demo_created) ∧
    (demo_inited.shim 1).status = PKA_SHIM_STATUS_INITIALIZED ∧
    pka_dev_create_shim demo_consts demo_env demo_inited 1 3 0x5000000 0x40000 1
      = some (-EPERM, demo_inited) :=
  ⟨by decide,
   create_shim_not_undefined demo_consts demo_env demo_created 1 3 0x5000000 0x40000 1
     (by decide),
   by decide,
   create_shim_not_undefined demo_consts demo_env demo_inited 1 3 0x5000000 0x40000 1
     (by decide)⟩

/-! ## C7 -/

theorem create_shim_config_shim (K : Consts) (env : Env) (w w1 : World) (shim : Nat)
    (f : shim_res_field) (ret : Int) (h : create_shim_config K env w shim f = some (ret, w1)) :
    w1.shim = w.shim := by
  cases f <;> exact set_resource_config_shim env w w1 shim _ _ _ _ _ ret h

/-- One successful mapping step of `pka_dev_create_shim`. -/
theorem create_shim_config_ok (K : Consts) (env : Env) (w w1 : World) (shim shim_id : Nat)
    (f : shim_res_field) (hid : (w.shim shim).shim_id = shim_id)
    (hcap : (w.pka_gbl_res_tbl shim_id).res_tbl.length ≤ 255)
    (h : create_shim_config K env w shim f = some (0, w1)) :
    w1.shim = w.shim ∧
    (w1.res (.of_shim shim f)).status = PKA_DEV_RES_STATUS_MAPPED ∧
    (∀ q, q ≠ .of_shim shim f → w1.res q = w.res q) ∧
    (w1.pka_gbl_res_tbl shim_id).res_cnt = (w.pka_gbl_res_tbl shim_id).res_cnt + 1 ∧
    (w1.pka_gbl_res_tbl shim_id).res_tbl.length = (w.pka_gbl_res_tbl shim_id).res_tbl.length ∧
    (w1.pka_gbl_res_tbl shim_id).res_tbl[(w.pka_gbl_res_tbl shim_id).res_cnt]?
      = some (some (.of_shim shim f)) ∧
    (∀ j, j ≠ (w.pka_gbl_res_tbl shim_id).res_cnt →
      (w1.pka_gbl_res_tbl shim_id).res_tbl[j]? = (w.pka_gbl_res_tbl shim_id).res_tbl[j]?) := by
  have hshim := create_shim_config_shim K env w w1 shim f 0 h
  have hok : (w.pka_gbl_res_tbl (w.shim shim).shim_id).res_cnt
        < (w.pka_gbl_res_tbl (w.shim shim).shim_id).res_tbl.length ∧
      (w1.res (.of_shim shim f)).status = PKA_DEV_RES_STATUS_MAPPED ∧
      (∀ q, q ≠ .of_shim shim f → w1.res q = w.res q) ∧
      w1.pka_gbl_res_tbl = Function.update w.pka_gbl_res_tbl (w.shim shim).shim_id
        { res_tbl := (w.pka_gbl_res_tbl (w.shim shim).shim_id).res_tbl.set
            (w.pka_gbl_res_tbl (w.shim shim).shim_id).res_cnt (some (.of_shim shim f)),
          res_cnt := ((w.pka_gbl_res_tbl (w.shim shim).shim_id).res_cnt + 1) % 256 } := by
    cases f <;> exact set_resource_config_ok env w w1 shim _ _ _ _ _ h
  rw [hid] at hok
  obtain ⟨hlt, hst, hfr, htbl⟩ := hok
  have hmod : ((w.pka_gbl_res_tbl shim_id).res_cnt + 1) % 256
      = (w.pka_gbl_res_tbl shim_id).res_cnt + 1 := by omega
  refine ⟨hshim, hst, hfr, ?_, ?_, ?_, ?_⟩
  · simp [htbl, hmod]
  · simp [htbl]
  · simp [htbl, List.getElem?_set, hlt]
  · intro j hj
    simp [htbl, List.getElem?_set, Ne.symm hj]

/-- C7: for an undefined shim and a valid id (the ring array allocated, the
table of the shim with at most 255 slots), with `w0` the state in which the
first mapping is attempted: if the mapping of buffer RAM, master-program RAM,
master-sequencer registers, interrupt-controller registers or TRNG registers
returns `r ≠ 0` after the earlier ones returned 0, `pka_dev_create_shim` returns
`r` (with the state that mapping left) and the status is still undefined; if
all five return 0, it returns 0, the status is created, the five resources
are mapped, and they sit in the table slots `c .. c + 4` in that order, `c`
being the count before the call, the count becoming `c + 5`. -/
theorem create_shim_mappings (K : Consts) (env : Env) (w : World)
    (shim shim_id shim_base shim_size split : Nat)
    (hst : (w.shim shim).status = PKA_SHIM_STATUS_UNDEFINED)
    (hid : shim_id ≤ K.PKA_MAX_NUM_IO_BLOCKS - 1)
    (halloc : env.kzalloc w.trace ≠ 0)
    (hcap : (w.pka_gbl_res_tbl shim_id).res_tbl.length ≤ 255) :
    let w0 := create_shim_params K w shim shim_id shim_base shim_size split (env.kzalloc w.trace)
    let run := pka_dev_create_shim K env w shim shim_id shim_base shim_size split
    let c := (w.pka_gbl_res_tbl shim_id).res_cnt
    (∀ r w1, create_shim_config K env w0 shim .buffer_ram = some (r, w1) → r ≠ 0 →
      run = some (r, w1) ∧ (w1.shim shim).status = PKA_SHIM_STATUS_UNDEFINED) ∧
    (∀ w1, create_shim_config K env w0 shim .buffer_ram = some (0, w1) →
    (∀ r w2, create_shim_config K env w1 shim .master_prog_ram = some (r, w2) → r ≠ 0 →
      run = some (r, w2) ∧ (w2.shim shim).status = PKA_SHIM_STATUS_UNDEFINED) ∧
    (∀ w2, create_shim_config K env w1 shim .master_prog_ram = some (0, w2) →
    (∀ r w3, create_shim_config K env w2 shim .master_seq_ctrl = some (r, w3) → r ≠ 0 →
      run = some (r, w3) ∧ (w3.shim shim).status = PKA_SHIM_STATUS_UNDEFINED) ∧
    (∀ w3, create_shim_config K env w2 shim .master_seq_ctrl = some (0, w3) →
    (∀ r w4, create_shim_config K env w3 shim .aic_csr = some (r, w4) → r ≠ 0 →
      run = some (r, w4) ∧ (w4.shim shim).status = PKA_SHIM_STATUS_UNDEFINED) ∧
    (∀ w4, create_shim_config K env w3 shim .aic_csr = some (0, w4) →
    (∀ r w5, create_shim_config K env w4 shim .trng_csr = some (r, w5) → r ≠ 0 →
      run = some (r, w5) ∧ (w5.shim shim).status = PKA_SHIM_STATUS_UNDEFINED) ∧
    (∀ w5, create_shim_config K env w4 shim .trng_csr = some (0, w5) →
      run = some (0, create_shim_done w5 shim) ∧
      ((create_shim_done w5 shim).shim shim).status = PKA_SHIM_STATUS_CREATED ∧
      (∀ f, ((create_shim_done w5 shim).res (.of_shim shim f)).status
        = PKA_DEV_RES_STATUS_MAPPED) ∧
      ((create_shim_done w5 shim).pka_gbl_res_tbl shim_id).res_cnt = c + 5 ∧
      ((create_shim_done w5 shim).pka_gbl_res_tbl shim_id).res_tbl[c]?
        = some (some (.of_shim shim .buffer_ram)) ∧
      ((create_shim_done w5 shim).pka_gbl_res_tbl shim_id).res_tbl[c + 1]?
        = some (some (.of_shim shim .master_prog_ram)) ∧
      ((create_shim_done w5 shim).pka_gbl_res_tbl shim_id).res_tbl[c + 2]?
        = some (some (.of_shim shim .master_seq_ctrl)) ∧
      ((create_shim_done w5 shim).pka_gbl_res_tbl shim_id).res_tbl[c + 3]?
        = some (some (.of_shim shim .aic_csr)) ∧
      ((create_shim_done w5 shim).pka_gbl_res_tbl shim_id).res_tbl[c + 4]?
        = some (some (.of_shim shim .trng_csr))))))) := by
  intro w0 run c
  have hrun : run = create_shim_resources K env w0 shim := by
    simp only [run, pka_dev_create_shim, hst, halloc, if_false, ne_eq, not_true_eq_false,
      not_lt.2 hid]
    simp
  have hs0 : (w0.shim shim).status = PKA_SHIM_STATUS_UNDEFINED := by
    simp [w0, create_shim_params, hst]
  have hi0 : (w0.shim shim).shim_id = shim_id := by simp [w0, create_shim_params]
  have ht0 : w0.pka_gbl_res_tbl = w.pka_gbl_res_tbl := rfl
  have hc0 : (w0.pka_gbl_res_tbl shim_id).res_tbl.length ≤ 255 := by rw [ht0]; exact hcap
  refine ⟨?_, ?_⟩
  · intro r w1 h1 hr
    refine ⟨?_, ?_⟩
    · rw [hrun, create_shim_resources, h1, and_then_nonzero _ _ _ hr]
    · rw [create_shim_config_shim K env w0 w1 shim _ r h1]; exact hs0
  intro w1 h1
  obtain ⟨a1, b1, f1, n1, l1, s1, o1⟩ := create_shim_config_ok K env w0 w1 shim shim_id _ hi0 hc0 h1
  refine ⟨?_, ?_⟩
  · intro r w2 h2 hr
    refine ⟨?_, ?_⟩
    · rw [hrun, create_shim_resources, h1, and_then_zero, h2, and_then_nonzero _ _ _ hr]
    · rw [create_shim_config_shim K env w1 w2 shim _ r h2, a1]; exact hs0
  intro w2 h2
  obtain ⟨a2, b2, f2, n2, l2, s2, o2⟩ := create_shim_config_ok K env w1 w2 shim shim_id _
    (by rw [a1]; exact hi0) (by omega) h2
  refine ⟨?_, ?_⟩
  · intro r w3 h3 hr
    refine ⟨?_, ?_⟩
    · rw [hrun, create_shim_resources, h1, and_then_zero, h2, and_then_zero, h3,
        and_then_nonzero _ _ _ hr]
    · rw [create_shim_config_shim K env w2 w3 shim _ r h3, a2, a1]; exact hs0
  intro w3 h3
  obtain ⟨a3, b3, f3, n3, l3, s3, o3⟩ := create_shim_config_ok K env w2 w3 shim shim_id _
    (by rw [a2, a1]; exact hi0) (by omega) h3
  refine ⟨?_, ?_⟩
  · intro r w4 h4 hr
    refine ⟨?_, ?_⟩
    · rw [hrun, create_shim_resources, h1, and_then_zero, h2, and_then_zero, h3, and_then_zero,
        h4, and_then_nonzero _ _ _ hr]
    · rw [create_shim_config_shim K env w3 w4 shim _ r h4, a3, a2, a1]; exact hs0
  intro w4 h4
  obtain ⟨a4, b4, f4, n4, l4, s4, o4⟩ := create_shim_config_ok K env w3 w4 shim shim_id _
    (by rw [a3, a2, a1]; exact hi0) (by omega) h4
  refine ⟨?_, ?_⟩
  · intro r w5 h5 hr
    refine ⟨?_, ?_⟩
    · rw [hrun, create_shim_resources, h1, and_then_zero, h2, and_then_zero, h3, and_then_zero,
        h4, and_then_zero, h5, and_then_nonzero _ _ _ hr]
    · rw [create_shim_config_shim K env w4 w5 shim _ r h5, a4, a3, a2, a1]; exact hs0
  intro w5 h5
  obtain ⟨_, b5, f5, n5, l5, s5, o5⟩ := create_shim_config_ok K env w4 w5 shim shim_id _
    (by rw [a4, a3, a2, a1]; exact hi0) (by omega) h5
  have hres : (create_shim_done w5 shim).res = w5.res := rfl
  have htbl : (create_shim_done w5 shim).pka_gbl_res_tbl = w5.pka_gbl_res_tbl := rfl
  have hc : (w0.pka_gbl_res_tbl shim_id).res_cnt = c := rfl
  rw [hres, htbl]
  refine ⟨?_, by simp [create_shim_done], ?_, by omega, ?_, ?_, ?_, ?_, ?_⟩
  · rw [hrun, create_shim_resources, h1, and_then_zero, h2, and_then_zero, h3, and_then_zero,
      h4, and_then_zero, h5, and_then_zero]
  · intro f
    cases f
    · rw [f5 _ (by simp), f4 _ (by simp), f3 _ (by simp), f2 _ (by simp)]; exact b1
    · rw [f5 _ (by simp), f4 _ (by simp), f3 _ (by simp)]; exact b2
    · rw [f5 _ (by simp), f4 _ (by simp)]; exact b3
    · rw [f5 _ (by simp)]; exact b4
    · exact b5
  · rw [o5 _ (by omega), o4 _ (by omega), o3 _ (by omega), o2 _ (by omega), ← hc]; exact s1
  · rw [o5 _ (by omega), o4 _ (by omega), o3 _ (by omega)]
    have : c + 1 = (w1.pka_gbl_res_tbl shim_id).res_cnt := by omega
    rw [this]; exact s2
  · rw [o5 _ (by omega), o4 _ (by omega)]
    have : c + 2 = (w2.pka_gbl_res_tbl shim_id).res_cnt := by omega
    rw [this]; exact s3
  · rw [o5 _ (by omega)]
    have : c + 3 = (w3.pka_gbl_res_tbl shim_id).res_cnt := by omega
    rw [this]; exact s4
  · have : c + 4 = (w4.pka_gbl_res_tbl shim_id).res_cnt := by omega
    rw [this]; exact s5

/-- Witness of C7: the shim at address 1 of the scenario, id 0, empty six-slot
table.  In `demo_env` all five mappings succeed; in `demo_env_no_aic` the
fourth one fails with `-EPERM`. -/
theorem create_shim_mappings_witness :
    (pka_dev_create_shim demo_consts demo_env demo_world 1 0 0x2000000 0x40000 0
        = some (0, create_shim_done demo_c5 1) ∧
      ((create_shim_done demo_c5 1).shim 1).status = PKA_SHIM_STATUS_CREATED ∧
      (∀ f, ((create_shim_done demo_c5 1).res (.of_shim 1 f)).status
        = PKA_DEV_RES_STATUS_MAPPED) ∧
      ((create_shim_done demo_c5 1).pka_gbl_res_tbl 0).res_cnt = 5 ∧
      ((create_shim_done demo_c5 1).pka_gbl_res_tbl 0).res_tbl[0]?
        = some (some (.of_shim 1 .buffer_ram)) ∧
      ((create_shim_done demo_c5 1).pka_gbl_res_tbl 0).res_tbl[1]?
        = some (some (.of_shim 1 .master_prog_ram)) ∧
      ((create_shim_done demo_c5 1).pka_gbl_res_tbl 0).res_tbl[2]?
        = some (some (.of_shim 1 .master_seq_ctrl)) ∧
      ((create_shim_done demo_c5 1).pka_gbl_res_tbl 0).res_tbl[3]?
        = some (some (.of_shim 1 .aic_csr)) ∧
      ((create_shim_done demo_c5 1).pka_gbl_res_tbl 0).res_tbl[4]?
        = some (some (.of_shim 1 .trng_csr))) ∧
    (pka_dev_create_shim demo_consts demo_env_no_aic demo_world 1 0 0x2000000 0x40000 0
        = some (-EPERM, demo_c4_failed) ∧
      (demo_c4_failed.shim 1).status = PKA_SHIM_STATUS_UNDEFINED) :=
  ⟨((((((create_shim_mappings demo_consts demo_env demo_world 1 0 0x2000000 0x40000 0
      (by decide) (by decide) (by decide) (by decide)).2 demo_c1 rfl).2 demo_c2 rfl).2
      demo_c3 rfl).2 demo_c4 rfl).2 demo_c5 rfl),
   ((((create_shim_mappings demo_consts demo_env_no_aic demo_world 1 0 0x2000000 0x40000 0
      (by decide) (by decide) (by decide) (by decide)).2 demo_c1 rfl).2 demo_c2 rfl).2
      demo_c3 rfl).1 (-EPERM) demo_c4_failed rfl (by decide)⟩

/-! ## C9 -/

theorem int32_of_small (x : Int) (h0 : 0 ≤ x) (h1 : x < 2 ^ 31) : int32 x = x := by
  unfold int32
  omega

theorem image_off_eq (i : Nat) (h : i * 8 < 2 ^ 31) : image_off i = 8 * i := by
  unfold image_off BYTES_PER_DOUBLE_WORD
  have h1 : int32 ((i : Int) * (8 : Nat)) = (i : Int) * 8 := by
    apply int32_of_small <;> push_cast <;> omega
  rw [h1]
  omega

theorem load_image_write_fold (ioaddr : Nat) (data_buf : Nat → Nat) (l : List Nat) (w : World) :
    l.foldl (fun w i => pka_dev_io_write w ioaddr (image_off i) (image_word data_buf i)) w =
      { w with trace := w.trace ++
          l.map (fun i => Event.pka_mmio_write (ioaddr + image_off i) (image_word data_buf i)) }
    := by
  induction l generalizing w with
  | nil => simp
  | cons i l ih =>
    rw [List.foldl_cons, ih]
    simp [pka_dev_io_write]

theorem load_image_verify_fold (env : Env) (ioaddr : Nat) (data_buf : Nat → Nat)
    (l : List Nat) (m0 : Int) (w : World) (h0 : 0 ≤ m0) (hb : m0 + l.length < 2 ^ 31) :
    ∃ (rd : List Nat) (k : Nat), rd.length = l.length ∧ k ≤ l.length ∧
      (k = 0 ↔ rd = l.map (image_word data_buf)) ∧
      l.foldl
        (fun (acc : Int × World) i =>
          let rd := pka_dev_io_read env acc.2 ioaddr (image_off i)
          (if rd.1 ≠ image_word data_buf i then int32 (acc.1 + 1) else acc.1, rd.2))
        (m0, w) =
      (m0 + k,
        { w with
          trace := w.trace ++
            List.zipWith (fun i r => Event.pka_mmio_read (ioaddr + image_off i) r) l rd }) := by
  induction l generalizing m0 w with
  | nil => exact ⟨[], 0, by simp⟩
  | cons i l ih =>
    simp only [List.length_cons, Nat.cast_add, Nat.cast_one] at hb
    rw [List.foldl_cons]
    by_cases hmis : (pka_dev_io_read env w ioaddr (image_off i)).1 ≠ image_word data_buf i
    · have hwrap : int32 (m0 + 1) = m0 + 1 := int32_of_small _ (by omega) (by omega)
      obtain ⟨rd, k, h1, h2, h3, h4⟩ := ih (m0 + 1) (pka_dev_io_read env w ioaddr (image_off i)).2
        (by omega) (by omega)
      refine ⟨(pka_dev_io_read env w ioaddr (image_off i)).1 :: rd, k + 1, by simp [h1],
        by simp [h2], ?_, ?_⟩
      · simp only [Nat.add_one_ne_zero, List.map_cons, List.cons.injEq, false_iff, not_and]
        intro h
        exact absurd h hmis
      · simp only [hmis, if_true, hwrap, ne_eq, not_false_eq_true]
        rw [h4]
        simp only [pka_dev_io_read, List.zipWith_cons_cons, List.append_assoc,
          List.singleton_append, Nat.cast_add, Nat.cast_one, Prod.mk.injEq, and_true]
        omega
    · obtain ⟨rd, k, h1, h2, h3, h4⟩ := ih m0 (pka_dev_io_read env w ioaddr (image_off i)).2
        h0 (by omega)
      refine ⟨(pka_dev_io_read env w ioaddr (image_off i)).1 :: rd, k, by simp [h1],
        by simp only [List.length_cons]; omega, ?_, ?_⟩
      · rw [h3]
        simp only [ne_eq, not_not] at hmis
        simp [hmis]
      · simp only [hmis, if_false]
        rw [h4]
        simp [pka_dev_io_read]

theorem zipWith_congr_mem (f g : Nat → Nat → Event) (l rd : List Nat)
    (h : ∀ i ∈ l, ∀ r, f i r = g i r) : List.zipWith f l rd = List.zipWith g l rd := by
  induction l generalizing rd with
  | nil => simp
  | cons i l ih =>
    cases rd with
    | nil => simp
    | cons r rd =>
      simp only [List.zipWith_cons_cons, List.cons.injEq]
      exact ⟨h i (by simp) r, ih rd (fun j hj => h j (List.mem_cons_of_mem _ hj))⟩

theorem eq_map_range_iff (f : Nat → Nat) (n : Nat) (rd : List Nat) (hlen : rd.length = n) :
    rd = (List.range n).map f ↔ ∀ i, i < n → rd[i]? = some (f i) := by
  constructor
  · rintro rfl i hi
    simp [List.getElem?_map, List.getElem?_range hi]
  · intro h
    apply List.ext_getElem?
    intro i
    by_cases hi : i < n
    · rw [h i hi]
      simp [List.getElem?_map, List.getElem?_range hi]
    · rw [List.getElem?_eq_none (by omega), List.getElem?_eq_none (by simp; omega)]

/-- C9: for a mapped memory resource and an image of `size` words that passes
the size check (with `8 * size` below `2 ^ 31`, the range in which the `int`
index arithmetic of the loops is exact), `pka_dev_load_image` makes exactly
these outside calls: the writes of word `i` (zero-extended) at `ioaddr + 8 * i`
for `i = 0 .. size - 1`, then the reads at `ioaddr + 8 * i`, whose results are
`rd`.  It returns 0 if and only if every `rd[i]` equals word `i`, and
`-EAGAIN` otherwise. -/
theorem load_image_verifies (env : Env) (w : World) (res_ptr : res_ptr_t) (data_buf : Nat → Nat)
    (size : Nat)
    (hmap : (w.res res_ptr).status = PKA_DEV_RES_STATUS_MAPPED)
    (hmem : (w.res res_ptr).type = PKA_DEV_RES_TYPE_MEM)
    (hfit : ¬ (w.res res_ptr).size < size)
    (hint : size * 8 < 2 ^ 31) :
    ∃ rd : List Nat, rd.length = size ∧
      (pka_dev_load_image env w res_ptr data_buf size).2 =
        { w with
          trace := w.trace ++
            (List.range size).map (fun i =>
              Event.pka_mmio_write ((w.res res_ptr).ioaddr + 8 * i) (data_buf i % 2 ^ 32)) ++
            List.zipWith (fun i r => Event.pka_mmio_read ((w.res res_ptr).ioaddr + 8 * i) r)
              (List.range size) rd } ∧
      ((pka_dev_load_image env w res_ptr data_buf size).1 = 0 ↔
        ∀ i, i < size → rd[i]? = some (data_buf i % 2 ^ 32)) ∧
      ((pka_dev_load_image env w res_ptr data_buf size).1 ≠ 0 →
        (pka_dev_load_image env w res_ptr data_buf size).1 = -EAGAIN) := by
  obtain ⟨rd, k, h1, h2, h3, h4⟩ := load_image_verify_fold env (w.res res_ptr).ioaddr data_buf
    (List.range size) 0 (load_image_write w (w.res res_ptr).ioaddr data_buf size) (le_refl 0)
    (by simp only [List.length_range]; omega)
  simp only [List.length_range] at h1 h2
  have hoff : ∀ i ∈ List.range size, image_off i = 8 * i := by
    intro i hi
    exact image_off_eq i (by have := List.mem_range.1 hi; omega)
  have hw : (List.range size).map (fun i =>
        Event.pka_mmio_write ((w.res res_ptr).ioaddr + image_off i) (image_word data_buf i)) =
      (List.range size).map (fun i =>
        Event.pka_mmio_write ((w.res res_ptr).ioaddr + 8 * i) (data_buf i % 2 ^ 32)) := by
    apply List.map_congr_left
    intro i hi
    rw [hoff i hi, image_word]
  have hr : List.zipWith
        (fun i r => Event.pka_mmio_read ((w.res res_ptr).ioaddr + image_off i) r)
        (List.range size) rd =
      List.zipWith (fun i r => Event.pka_mmio_read ((w.res res_ptr).ioaddr + 8 * i) r)
        (List.range size) rd := by
    apply zipWith_congr_mem
    intro i hi r
    rw [hoff i hi]
  have hv : load_image_verify env (load_image_write w (w.res res_ptr).ioaddr data_buf size)
      (w.res res_ptr).ioaddr data_buf size = _ := h4
  have hval : pka_dev_load_image env w res_ptr data_buf size =
      (if (k : Int) > 0 then -EAGAIN else 0,
        { w with
          trace := w.trace ++
            (List.range size).map (fun i =>
              Event.pka_mmio_write ((w.res res_ptr).ioaddr + 8 * i) (data_buf i % 2 ^ 32)) ++
            List.zipWith (fun i r => Event.pka_mmio_read ((w.res res_ptr).ioaddr + 8 * i) r)
              (List.range size) rd }) := by
    unfold pka_dev_load_image
    simp only [hmap, hmem, ne_eq, not_true_eq_false, or_self, if_false, hfit, hv, zero_add]
    unfold load_image_write
    rw [load_image_write_fold, hw, hr]
    split <;> rfl
  have hiff := eq_map_range_iff (fun i => data_buf i % 2 ^ 32) size rd h1
  have h3' : k = 0 ↔ rd = (List.range size).map (fun i => data_buf i % 2 ^ 32) := h3
  refine ⟨rd, h1, ?_, ?_, ?_⟩
  · rw [hval]
  · rw [hval, ← hiff, ← h3']
    by_cases hk : k = 0
    · simp [hk]
    · have : (k : Int) > 0 := by omega
      simp [hk, this, EAGAIN]
  · rw [hval]
    by_cases hk : k = 0
    · simp [hk]
    · have : (k : Int) > 0 := by omega
      simp [this]

/-- Witness of C9: the two-word image `[0x11, 0x22]` loaded into the buffer RAM
of the created shim of the scenario; with a device that reads back what was
written the result is 0, with a memory array that reads 0 it is `-EAGAIN`. -/
theorem load_image_verifies_witness :
    (∃ rd : List Nat, rd.length = 2 ∧
      (pka_dev_load_image demo_env demo_created (.of_shim 1 .buffer_ram)
          (image_buf [0x11, 0x22]) 2).2 =
        { demo_created with
          trace := demo_created.trace ++
            (List.range 2).map (fun i =>
              Event.pka_mmio_write ((demo_created.res (.of_shim 1 .buffer_ram)).ioaddr + 8 * i)
                (image_buf [0x11, 0x22] i % 2 ^ 32)) ++
            List.zipWith
              (fun i r =>
                Event.pka_mmio_read ((demo_created.res (.of_shim 1 .buffer_ram)).ioaddr + 8 * i) r)
              (List.range 2) rd } ∧
      ((pka_dev_load_image demo_env demo_created (.of_shim 1 .buffer_ram)
          (image_buf [0x11, 0x22]) 2).1 = 0 ↔
        ∀ i, i < 2 → rd[i]? = some (image_buf [0x11, 0x22] i % 2 ^ 32)) ∧
      ((pka_dev_load_image demo_env demo_created (.of_shim 1 .buffer_ram)
          (image_buf [0x11, 0x22]) 2).1 ≠ 0 →
        (pka_dev_load_image demo_env demo_created (.of_shim 1 .buffer_ram)
          (image_buf [0x11, 0x22]) 2).1 = -EAGAIN)) ∧
    (pka_dev_load_image demo_env demo_created (.of_shim 1 .buffer_ram)
      (image_buf [0x11, 0x22]) 2).1 = 0 ∧
    (pka_dev_load_image demo_env_dead_ram demo_created (.of_shim 1 .buffer_ram)
      (image_buf [0x11, 0x22]) 2).1 = -EAGAIN ∧
    (pka_dev_load_image demo_env_dead_ram demo_created (.of_shim 1 .buffer_ram)
      (image_buf [0x11, 0x22]) 2).2.trace = demo_created.trace ++
        [Event.pka_mmio_write 0x82000000 0x11, Event.pka_mmio_write 0x82000008 0x22,
         Event.pka_mmio_read 0x82000000 0, Event.pka_mmio_read 0x82000008 0] :=
  ⟨load_image_verifies demo_env demo_created (.of_shim 1 .buffer_ram) (image_buf [0x11, 0x22]) 2
    (by decide) (by decide) (by decide) (by decide), by decide, by decide, by decide⟩

/-! ## C10 -/

/-- C10 (fails on the code): resource A is a mapped memory resource of 16
bytes and the image has 8 words, 32 bytes.  `pka_dev_load_image` compares the
resource size with the word count (`16 < 8` is false), so it does not return
`-EINVAL`: it writes the 8 words at offsets 0, 8, .., 56, reads them back and
returns 0. -/
theorem load_image_oversized_accepted :
    demo_world_small.res (.of_shim 0 .buffer_ram) =
      { base := 0x1000, size := 16, type := PKA_DEV_RES_TYPE_MEM,
        status := PKA_DEV_RES_STATUS_MAPPED, name := "A", ioaddr := 0x80001000 } ∧
    (demo_world_small.res (.of_shim 0 .buffer_ram)).size < BYTES_PER_WORD * 8 ∧
    (pka_dev_load_image demo_env demo_world_small (.of_shim 0 .buffer_ram)
      (image_buf [1, 2, 3, 4, 5, 6, 7, 8]) 8).1 = 0 ∧
    (pka_dev_load_image demo_env demo_world_small (.of_shim 0 .buffer_ram)
      (image_buf [1, 2, 3, 4, 5, 6, 7, 8]) 8).1 ≠ -EINVAL ∧
    (pka_dev_load_image demo_env demo_world_small (.of_shim 0 .buffer_ram)
      (image_buf [1, 2, 3, 4, 5, 6, 7, 8]) 8).2.trace = demo_world_small.trace ++
        [Event.pka_mmio_write 0x80001000 1, Event.pka_mmio_write 0x80001008 2,
         Event.pka_mmio_write 0x80001010 3, Event.pka_mmio_write 0x80001018 4,
         Event.pka_mmio_write 0x80001020 5, Event.pka_mmio_write 0x80001028 6,
         Event.pka_mmio_write 0x80001030 7, Event.pka_mmio_write 0x80001038 8,
         Event.pka_mmio_read 0x80001000 1, Event.pka_mmio_read 0x80001008 2,
         Event.pka_mmio_read 0x80001010 3, Event.pka_mmio_read 0x80001018 4,
         Event.pka_mmio_read 0x80001020 5, Event.pka_mmio_read 0x80001028 6,
         Event.pka_mmio_read 0x80001030 7, Event.pka_mmio_read 0x80001038 8] := by
  refine ⟨by decide, by decide, by decide, by decide, by decide⟩

/-! ## C8 -/

/-- C8 (fails on the code): the created shim of the scenario is initialised on
hardware whose TRNG clock never comes on.  The interrupt-controller
configuration, the farm-image load, the master-sequencer bring-up and the
ring-options write all return 0 and `pka_dev_config_trng` returns `-EAGAIN`.
`pka_dev_init_shim` then clears the TRNG flag and sets the busy-ring count to 0
and the status to initialized, but it returns the `-EAGAIN` of the TRNG call,
not 0; `__pka_dev_register_shim`, run from the start in the same environment,
therefore takes its failure path (release, delete, free) and returns NULL. -/
theorem init_shim_returns_trng_error :
    (demo_created.shim 1).status = PKA_SHIM_STATUS_CREATED ∧
    pka_dev_config_aic_interrupts demo_consts demo_created (.of_shim 1 .aic_csr)
      = (0, demo_i1) ∧
    pka_dev_load_image demo_env_no_trng_clk demo_i1 (.of_shim 1 .buffer_ram)
      (image_buf demo_consts.farm_image_data_buf) demo_consts.farm_image_data_buf.length
      = (0, demo_i2) ∧
    pka_dev_config_master_seq_controller demo_consts demo_env_no_trng_clk 8 demo_i2 1
      (.of_shim 1 .master_seq_ctrl) = some (0, demo_i3) ∧
    pka_dev_config_ring_options demo_consts demo_i3 (.of_shim 1 .buffer_ram)
      (demo_i3.shim 1).rings_num (demo_i3.shim 1).ring_priority = (0, demo_i4) ∧
    pka_dev_config_trng demo_consts demo_env_no_trng_clk 8 demo_i5 (.of_shim 1 .aic_csr)
      (.of_shim 1 .trng_csr) = some (-EAGAIN, demo_i6) ∧
    pka_dev_init_shim demo_consts demo_env_no_trng_clk 8 demo_created 1
      = some (-EAGAIN, demo_inited) ∧
    demo_inited.shim 1 =
      { shim_id := 0, base := 0x2000000, size := 0x40000, window_ram_split := 2,
        ring_type := 1, ring_priority := 0, status := PKA_SHIM_STATUS_INITIALIZED,
        rings := 0x1000, rings_num := 4, busy_ring_num := 0,
        trng_enabled := demo_consts.PKA_SHIM_TRNG_DISABLED, trng_err_cycle := 0 } ∧
    pka_dev_has_trng demo_consts demo_inited 1 = false ∧
    ∃ w, __pka_dev_register_shim demo_consts demo_env_no_trng_clk 8 demo_world 0 0x2000000
      0x40000 = some (0, w) := by
  refine ⟨by decide, rfl, rfl, rfl, rfl, rfl, rfl, by decide, by decide, ⟨_, rfl⟩⟩

/-! ## C11 -/

theorem size_type_word_eq (in_order hds d : Nat) (h1 : in_order ≤ 1) (h2 : hds ≤ 1023)
    (h3 : d ≤ 65535) :
    ring_size_type_val in_order hds (d + 1) = 2 ^ 31 * in_order + (2 ^ 18 * hds + d) := by
  have e1 : in_order &&& 0x0001 = in_order := by
    have := Nat.and_pow_two_sub_one_eq_mod in_order 1
    simp only [Nat.pow_one, Nat.add_one_sub_one] at this
    rw [this]; omega
  have e2 : hds &&& 0x03FF = hds := by
    have := Nat.and_pow_two_sub_one_eq_mod hds 10
    norm_num at this
    rw [this]; omega
  have e3 : ((d + 1 + (2 ^ 32 - 1)) % 2 ^ 32) &&& 0xFFFF = d := by
    have := Nat.and_pow_two_sub_one_eq_mod ((d + 1 + (2 ^ 32 - 1)) % 2 ^ 32) 16
    norm_num at this
    norm_num
    rw [this]; omega
  unfold ring_size_type_val
  rw [e1, e2, e3, Nat.shiftLeft_eq, Nat.shiftLeft_eq]
  have m1 : in_order * 2 ^ 31 % 2 ^ 32 = 2 ^ 31 * in_order := by omega
  have m2 : hds * 2 ^ 18 % 2 ^ 32 = 2 ^ 18 * hds := by omega
  rw [m1, m2, Nat.or_assoc, ← Nat.mul_add_lt_is_or (by omega) hds,
    ← Nat.mul_add_lt_is_or (by omega) in_order]

/-- C11, counterexample: with in-order flag 0, host descriptor size 1024 (it
fits bits 18..28) and descriptor-count-minus-one 0, the packed word is 0, and
unpacking bits 28..18 gives 0, not 1024: the code masks the host descriptor
size with `0x03FF`, ten bits. -/
theorem size_type_word_loses_1024 :
    ¬ (((ring_size_type_val 0 1024 (0 + 1)) >>> 31) &&& 1 = 0 ∧
       ((ring_size_type_val 0 1024 (0 + 1)) >>> 18) &&& 0x7FF = 1024 ∧
       (ring_size_type_val 0 1024 (0 + 1)) &&& 0xFFFF = 0) := by
  decide

/-- C11, amended: for every in-order flag in {0, 1}, every host descriptor
size from 0 to 1023 (the ten bits the code keeps) and every
descriptor-count-minus-one `d` from 0 to 65535, the size/type word packed by
`pka_dev_set_ring_info` (from the count `d + 1`), unpacked as bit 31, bits
28..18 and bits 15..0, gives back the three values. -/
theorem size_type_word_roundtrip (in_order hds d : Nat) (h1 : in_order ≤ 1)
    (h2 : hds ≤ 1023) (h3 : d ≤ 65535) :
    ((ring_size_type_val in_order hds (d + 1)) >>> 31) &&& 1 = in_order ∧
    ((ring_size_type_val in_order hds (d + 1)) >>> 18) &&& 0x7FF = hds ∧
    (ring_size_type_val in_order hds (d + 1)) &&& 0xFFFF = d := by
  rw [size_type_word_eq in_order hds d h1 h2 h3]
  have a2 := Nat.and_pow_two_sub_one_eq_mod ((2 ^ 31 * in_order + (2 ^ 18 * hds + d)) >>> 18) 11
  have a3 := Nat.and_pow_two_sub_one_eq_mod (2 ^ 31 * in_order + (2 ^ 18 * hds + d)) 16
  norm_num at a2 a3
  norm_num
  rw [a2, a3, Nat.shiftRight_eq_div_pow, Nat.shiftRight_eq_div_pow]
  refine ⟨by omega, by omega, by omega⟩

/-- Witness of C11 (amended): in-order ring, 16-word descriptors, 16
descriptors. -/
theorem size_type_word_roundtrip_witness :
    ((ring_size_type_val 1 16 (15 + 1)) >>> 31) &&& 1 = 1 ∧
    ((ring_size_type_val 1 16 (15 + 1)) >>> 18) &&& 0x7FF = 16 ∧
    (ring_size_type_val 1 16 (15 + 1)) &&& 0xFFFF = 15 :=
  size_type_word_roundtrip 1 16 15 (by decide) (by decide) (by decide)

/-! ## C12 -/

theorem wrap32_mod (x wsz : Nat) (h : wsz ∣ 2 ^ 32 ∨ x < 2 ^ 32) :
    (x % 2 ^ 32) % wsz = x % wsz := by
  rcases h with h | h
  · exact Nat.mod_mod_of_dvd x h
  · rw [Nat.mod_eq_of_lt h]

theorem partition_ring_info_eq (K : Consts) (b wsz t : Nat) (hK : partition_consts_ok K)
    (hwrap : wsz ∣ 2 ^ 32 ∨
      b + K.PKA_WINDOW_RAM_DATA_MEM_SIZE +
        (K.PKA_WINDOW_RAM_RING_MEM_SIZE / 2) / K.CMD_DESC_SIZE * K.CMD_DESC_SIZE < 2 ^ 32) :
    partition_num_cmd_desc K = (K.PKA_WINDOW_RAM_RING_MEM_SIZE / 2) / K.CMD_DESC_SIZE ∧
    partition_ring_info K b wsz t =
      { cmmd_base := (b + K.PKA_WINDOW_RAM_DATA_MEM_SIZE) % wsz,
        rslt_base := (b + K.PKA_WINDOW_RAM_DATA_MEM_SIZE +
          (K.PKA_WINDOW_RAM_RING_MEM_SIZE / 2) / K.CMD_DESC_SIZE * K.CMD_DESC_SIZE) % wsz,
        size := (K.PKA_WINDOW_RAM_RING_MEM_SIZE / 2) / K.CMD_DESC_SIZE - 1,
        host_desc_size := K.CMD_DESC_SIZE / BYTES_PER_WORD,
        in_order := t,
        cmmd_rd_ptr := 0, rslt_wr_ptr := 0, cmmd_rd_stats := 0, rslt_wr_stats := 0 } := by
  obtain ⟨r32, d32, cpos, n1, n16, h16⟩ := hK
  have e1 : (K.PKA_WINDOW_RAM_RING_MEM_SIZE / 2) % 2 ^ 32 = K.PKA_WINDOW_RAM_RING_MEM_SIZE / 2 :=
    Nat.mod_eq_of_lt r32
  have e2 : ((K.PKA_WINDOW_RAM_RING_MEM_SIZE / 2) / K.CMD_DESC_SIZE) % 2 ^ 16
      = (K.PKA_WINDOW_RAM_RING_MEM_SIZE / 2) / K.CMD_DESC_SIZE := Nat.mod_eq_of_lt n16
  have e3 : (K.CMD_DESC_SIZE / BYTES_PER_WORD) % 2 ^ 16 = K.CMD_DESC_SIZE / BYTES_PER_WORD :=
    Nat.mod_eq_of_lt h16
  have hle : (K.PKA_WINDOW_RAM_RING_MEM_SIZE / 2) / K.CMD_DESC_SIZE * K.CMD_DESC_SIZE
      ≤ K.PKA_WINDOW_RAM_RING_MEM_SIZE / 2 := Nat.div_mul_le_self _ _
  refine ⟨by unfold partition_num_cmd_desc; rw [e1, e2], ?_⟩
  unfold partition_ring_info PKA_RING_MEM_ADDR
  simp only [e1, e2, e3]
  generalize (K.PKA_WINDOW_RAM_RING_MEM_SIZE / 2) / K.CMD_DESC_SIZE = n at *
  generalize n * K.CMD_DESC_SIZE = nc at *
  generalize K.PKA_WINDOW_RAM_DATA_MEM_SIZE = D at *
  have c1 : (b % 2 ^ 32 + D % 2 ^ 32) % 2 ^ 32 = (b + D) % 2 ^ 32 := by omega
  have c2 : ((b + D) % 2 ^ 32 + nc % 2 ^ 32) % 2 ^ 32 = (b + D + nc) % 2 ^ 32 := by omega
  have w1 : ((b + D) % 2 ^ 32) % wsz = (b + D) % wsz :=
    wrap32_mod _ _ (by rcases hwrap with h | h; exact Or.inl h; exact Or.inr (by omega))
  have w2 : ((b + D + nc) % 2 ^ 32) % wsz = (b + D + nc) % wsz := wrap32_mod _ _ hwrap
  have s1 : (n + (2 ^ 16 - 1)) % 2 ^ 16 = n - 1 := by omega
  rw [c1, c2, w1, w2, s1]

/-- C12: for a ring at a valid address with its shim and geometry record set,
constants that fit the C types of the locals, and a window of base `b` and size
`wsz` (with `wsz` a divisor of `2 ^ 32`, or no 32-bit overflow of
`b + data size + n * descriptor size`): if the ring's status is initialized,
`pka_dev_partition_mem` returns 0, stores the descriptor count
`n = (ring memory / 2) / descriptor size` in the ring and fills the geometry
record with command base `(b + data size) mod wsz`, result base
`(b + data size + n * descriptor size) mod wsz`, size `n - 1`, host descriptor
size `descriptor size / 4`, the shim's ring type and zero pointers and
statistics, the status staying initialized; if the status is not initialized
it returns `-EPERM` and changes nothing. -/
theorem partition_mem_geometry (K : Consts) (w : World) (ring : Nat) (hring : ring ≠ 0)
    (hshim : (w.ring ring).shim ≠ 0) (hinfo : (w.ring ring).ring_info ≠ 0)
    (hK : partition_consts_ok K)
    (hwrap : (w.res (.of_ring ring .window_ram)).size ∣ 2 ^ 32 ∨
      (w.res (.of_ring ring .window_ram)).base + K.PKA_WINDOW_RAM_DATA_MEM_SIZE +
        (K.PKA_WINDOW_RAM_RING_MEM_SIZE / 2) / K.CMD_DESC_SIZE * K.CMD_DESC_SIZE < 2 ^ 32) :
    ((w.ring ring).status = PKA_DEV_RING_STATUS_INITIALIZED →
      ∃ w1, pka_dev_partition_mem K w ring = some (0, w1) ∧
        (w1.ring ring).num_cmd_desc = (K.PKA_WINDOW_RAM_RING_MEM_SIZE / 2) / K.CMD_DESC_SIZE ∧
        w1.ring_info (w.ring ring).ring_info =
          { cmmd_base :=
              ((w.res (.of_ring ring .window_ram)).base + K.PKA_WINDOW_RAM_DATA_MEM_SIZE) %
                (w.res (.of_ring ring .window_ram)).size,
            rslt_base :=
              ((w.res (.of_ring ring .window_ram)).base + K.PKA_WINDOW_RAM_DATA_MEM_SIZE +
                (K.PKA_WINDOW_RAM_RING_MEM_SIZE / 2) / K.CMD_DESC_SIZE * K.CMD_DESC_SIZE) %
                (w.res (.of_ring ring .window_ram)).size,
            size := (K.PKA_WINDOW_RAM_RING_MEM_SIZE / 2) / K.CMD_DESC_SIZE - 1,
            host_desc_size := K.CMD_DESC_SIZE / BYTES_PER_WORD,
            in_order := (w.shim (w.ring ring).shim).ring_type,
            cmmd_rd_ptr := 0, rslt_wr_ptr := 0, cmmd_rd_stats := 0, rslt_wr_stats := 0 } ∧
        (w1.ring ring).status = PKA_DEV_RING_STATUS_INITIALIZED ∧
        (w1.ring ring).ring_info = (w.ring ring).ring_info) ∧
    ((w.ring ring).status ≠ PKA_DEV_RING_STATUS_INITIALIZED →
      pka_dev_partition_mem K w ring = some (-EPERM, w)) := by
  obtain ⟨hn, hrec⟩ := partition_ring_info_eq K (w.res (.of_ring ring .window_ram)).base
    (w.res (.of_ring ring .window_ram)).size (w.shim (w.ring ring).shim).ring_type hK hwrap
  refine ⟨?_, ?_⟩
  · intro hst
    simp only [pka_dev_partition_mem, hring, hshim, hinfo, hst, if_false, ne_eq,
      not_true_eq_false, or_self]
    refine ⟨_, rfl, ?_, ?_, ?_, ?_⟩
    · simp [hn]
    · simp [hrec]
    · simp [hst]
    · simp
  · intro hst
    simp [pka_dev_partition_mem, hring, hst]

/-- Witness of C12: ring 0 of the scenario (structure at `0x35000`, 16 KiB
window at `0x10000`) in initialized status, and the same ring once opened
(busy); at the reference sizes (2 KiB ring memory, 64-byte descriptors) the
count is 16, the command ring is at offset `0x3800` and the result ring at
offset `0x3C00` of the window. -/
theorem partition_mem_geometry_witness :
    (∃ w1, pka_dev_partition_mem demo_consts demo_rings2 0x35000 = some (0, w1) ∧
      (w1.ring 0x35000).num_cmd_desc = 16 ∧
      w1.ring_info 0x36000 =
        { cmmd_base := 0x3800, rslt_base := 0x3C00, size := 15, host_desc_size := 16,
          in_order := 1, cmmd_rd_ptr := 0, rslt_wr_ptr := 0, cmmd_rd_stats := 0,
          rslt_wr_stats := 0 } ∧
      (w1.ring 0x35000).status = PKA_DEV_RING_STATUS_INITIALIZED ∧
      (w1.ring 0x35000).ring_info = 0x36000) ∧
    pka_dev_partition_mem demo_consts demo_open1 0x35000 = some (-EPERM, demo_open1) :=
  ⟨(partition_mem_geometry demo_consts demo_rings2 0x35000 (by decide) (by decide) (by decide)
      (by decide) (Or.inl (by decide))).1 (by decide),
   (partition_mem_geometry demo_consts demo_open1 0x35000 (by decide) (by decide) (by decide)
      (by decide) (Or.inl (by decide))).2 (by decide)⟩

/-! ## Lemmas on `pka_dev_set_ring_info` -/

/-- The state left by a successful `pka_dev_set_ring_info`. -/
theorem set_ring_info_success (K : Consts) (w : World) (ring : Nat) (hring : ring ≠ 0)
    (hshim : (w.ring ring).shim ≠ 0)
    (hs : (w.shim (w.ring ring).shim).status = PKA_SHIM_STATUS_INITIALIZED ∨
      (w.shim (w.ring ring).shim).status = PKA_SHIM_STATUS_RUNNING ∨
      (w.shim (w.ring ring).shim).status = PKA_SHIM_STATUS_STOPPED)
    (hr : (w.ring ring).status = PKA_DEV_RING_STATUS_INITIALIZED)
    (hinfo : (w.ring ring).ring_info ≠ 0)
    (hm : (w.res (.of_shim (w.ring ring).shim .buffer_ram)).status = PKA_DEV_RES_STATUS_MAPPED)
    (ht : (w.res (.of_shim (w.ring ring).shim .buffer_ram)).type = PKA_DEV_RES_TYPE_MEM) :
    pka_dev_set_ring_info K w ring = some (0, { w with
      ring := Function.update w.ring ring
        { w.ring ring with
          num_cmd_desc := partition_num_cmd_desc K,
          status := PKA_DEV_RING_STATUS_READY },
      ring_info := Function.update w.ring_info (w.ring ring).ring_info
        (partition_ring_info K (w.res (.of_ring ring .window_ram)).base
          (w.res (.of_ring ring .window_ram)).size (w.shim (w.ring ring).shim).ring_type),
      trace := w.trace ++
        [Event.pka_mmio_write
          ((w.res (.of_shim (w.ring ring).shim .buffer_ram)).ioaddr +
            ring_info_word_off K (w.res (.of_shim (w.ring ring).shim .buffer_ram)).base
              (shim_ring_slot K (w.ring ring).ring_id % 2 ^ 8) K.RING_CMMD_BASE_0_ADDR)
          ((partition_ring_info K (w.res (.of_ring ring .window_ram)).base
            (w.res (.of_ring ring .window_ram)).size
            (w.shim (w.ring ring).shim).ring_type).cmmd_base % 2 ^ 32),
         Event.pka_mmio_write
          ((w.res (.of_shim (w.ring ring).shim .buffer_ram)).ioaddr +
            ring_info_word_off K (w.res (.of_shim (w.ring ring).shim .buffer_ram)).base
              (shim_ring_slot K (w.ring ring).ring_id % 2 ^ 8) K.RING_RSLT_BASE_0_ADDR)
          ((partition_ring_info K (w.res (.of_ring ring .window_ram)).base
            (w.res (.of_ring ring .window_ram)).size
            (w.shim (w.ring ring).shim).ring_type).rslt_base % 2 ^ 32),
         Event.pka_mmio_write
          ((w.res (.of_shim (w.ring ring).shim .buffer_ram)).ioaddr +
            ring_info_word_off K (w.res (.of_shim (w.ring ring).shim .buffer_ram)).base
              (shim_ring_slot K (w.ring ring).ring_id % 2 ^ 8) K.RING_SIZE_TYPE_0_ADDR)
          (ring_size_type_val
            (partition_ring_info K (w.res (.of_ring ring .window_ram)).base
              (w.res (.of_ring ring .window_ram)).size
              (w.shim (w.ring ring).shim).ring_type).in_order
            (partition_ring_info K (w.res (.of_ring ring .window_ram)).base
              (w.res (.of_ring ring .window_ram)).size
              (w.shim (w.ring ring).shim).ring_type).host_desc_size
            (partition_num_cmd_desc K)),
         Event.pka_mmio_write
          ((w.res (.of_shim (w.ring ring).shim .buffer_ram)).ioaddr +
            ring_info_word_off K (w.res (.of_shim (w.ring ring).shim .buffer_ram)).base
              (shim_ring_slot K (w.ring ring).ring_id % 2 ^ 8) K.RING_RW_PTRS_0_ADDR) 0,
         Event.pka_mmio_write
          ((w.res (.of_shim (w.ring ring).shim .buffer_ram)).ioaddr +
            ring_info_word_off K (w.res (.of_shim (w.ring ring).shim .buffer_ram)).base
              (shim_ring_slot K (w.ring ring).ring_id % 2 ^ 8) K.RING_RW_STAT_0_ADDR) 0] }) := by
  have hs2 : ¬ ((w.shim (w.ring ring).shim).status ≠ PKA_SHIM_STATUS_INITIALIZED ∧
      (w.shim (w.ring ring).shim).status ≠ PKA_SHIM_STATUS_RUNNING ∧
      (w.shim (w.ring ring).shim).status ≠ PKA_SHIM_STATUS_STOPPED) := by
    rintro ⟨a, b, c⟩
    rcases hs with h | h | h
    · exact a h
    · exact b h
    · exact c h
  simp only [pka_dev_set_ring_info, pka_dev_partition_mem, pka_dev_write_ring_info,
    pka_dev_io_write, and_then, hring, hshim, hs2, hr, hinfo, hm, ht, if_false, ne_eq,
    not_true_eq_false, or_self, Function.update_apply, Function.update_idem,
    if_true, List.append_assoc, List.singleton_append, List.cons_append, List.nil_append]

/-- What a successful `pka_dev_set_ring_info` tells about the state it was
called in. -/
theorem set_ring_info_ok_cond (K : Consts) (w w2 : World) (ring : Nat)
    (h : pka_dev_set_ring_info K w ring = some (0, w2)) :
    ring ≠ 0 ∧ (w.ring ring).shim ≠ 0 ∧
    ((w.shim (w.ring ring).shim).status = PKA_SHIM_STATUS_INITIALIZED ∨
      (w.shim (w.ring ring).shim).status = PKA_SHIM_STATUS_RUNNING ∨
      (w.shim (w.ring ring).shim).status = PKA_SHIM_STATUS_STOPPED) ∧
    (w.ring ring).status = PKA_DEV_RING_STATUS_INITIALIZED ∧
    (w.ring ring).ring_info ≠ 0 ∧
    (w.res (.of_shim (w.ring ring).shim .buffer_ram)).status = PKA_DEV_RES_STATUS_MAPPED ∧
    (w.res (.of_shim (w.ring ring).shim .buffer_ram)).type = PKA_DEV_RES_TYPE_MEM := by
  have hE : EPERM ≠ 0 := by decide
  unfold pka_dev_set_ring_info at h
  by_cases hring : ring = 0
  · simp [hring] at h
  by_cases hshim : (w.ring ring).shim = 0
  · simp [hring, hshim] at h
  by_cases hr : (w.ring ring).status = PKA_DEV_RING_STATUS_INITIALIZED
  swap
  · simp [hring, hshim, hr, hE] at h
  by_cases hs : (w.shim (w.ring ring).shim).status = PKA_SHIM_STATUS_INITIALIZED ∨
      (w.shim (w.ring ring).shim).status = PKA_SHIM_STATUS_RUNNING ∨
      (w.shim (w.ring ring).shim).status = PKA_SHIM_STATUS_STOPPED
  swap
  · simp only [not_or] at hs
    simp [hring, hshim, hs.1, hs.2.1, hs.2.2, hE] at h
  have hs2 : ¬ ((w.shim (w.ring ring).shim).status ≠ PKA_SHIM_STATUS_INITIALIZED ∧
      (w.shim (w.ring ring).shim).status ≠ PKA_SHIM_STATUS_RUNNING ∧
      (w.shim (w.ring ring).shim).status ≠ PKA_SHIM_STATUS_STOPPED) := by
    rintro ⟨a, b, c⟩
    rcases hs with h | h | h
    · exact a h
    · exact b h
    · exact c h
  by_cases hinfo : (w.ring ring).ring_info = 0
  · simp [hring, hshim, hr, hs2, pka_dev_partition_mem, hinfo, and_then] at h
  by_cases hm : (w.res (.of_shim (w.ring ring).shim .buffer_ram)).status =
      PKA_DEV_RES_STATUS_MAPPED ∧
      (w.res (.of_shim (w.ring ring).shim .buffer_ram)).type = PKA_DEV_RES_TYPE_MEM
  · exact ⟨hring, hshim, hs, hr, hinfo, hm.1, hm.2⟩
  · exfalso
    have hm2 : (w.res (.of_shim (w.ring ring).shim .buffer_ram)).status ≠
        PKA_DEV_RES_STATUS_MAPPED ∨
        (w.res (.of_shim (w.ring ring).shim .buffer_ram)).type ≠ PKA_DEV_RES_TYPE_MEM := by
      by_contra hc
      simp only [not_or, not_not] at hc
      exact hm hc
    simp only [pka_dev_partition_mem, pka_dev_write_ring_info,
      and_then, hring, hshim, hs2, hr, hinfo, hm2, if_false, if_true, ne_eq,
      not_true_eq_false, or_self, Function.update_same, Option.some.injEq, Prod.mk.injEq,
      false_or, neg_eq_zero, hE, not_false_eq_true] at h
    exact h.1

/-! ## C13 -/

theorem ring_info_word_off_eq (K : Consts) (base id addr : Nat)
    (h0 : 0 < K.PKA_MAX_NUM_IO_BLOCK_RINGS) (h8 : K.PKA_MAX_NUM_IO_BLOCK_RINGS ≤ 2 ^ 8)
    (ha : addr + (K.PKA_MAX_NUM_IO_BLOCK_RINGS - 1) * K.PKA_RING_WORDS_SPACING < 2 ^ 32) :
    ring_info_word_off K base (shim_ring_slot K id % 2 ^ 8) addr =
      pka_dev_get_word_offset base
        (addr + id % K.PKA_MAX_NUM_IO_BLOCK_RINGS * K.PKA_RING_WORDS_SPACING)
        K.PKA_BUFFER_RAM_SIZE := by
  unfold ring_info_word_off shim_ring_slot
  have hs : id % K.PKA_MAX_NUM_IO_BLOCK_RINGS < K.PKA_MAX_NUM_IO_BLOCK_RINGS :=
    Nat.mod_lt _ h0
  have hs8 : id % K.PKA_MAX_NUM_IO_BLOCK_RINGS % 2 ^ 8 = id % K.PKA_MAX_NUM_IO_BLOCK_RINGS :=
    Nat.mod_eq_of_lt (by omega)
  have hle : id % K.PKA_MAX_NUM_IO_BLOCK_RINGS * K.PKA_RING_WORDS_SPACING ≤
      (K.PKA_MAX_NUM_IO_BLOCK_RINGS - 1) * K.PKA_RING_WORDS_SPACING :=
    Nat.mul_le_mul_right _ (by omega)
  rw [hs8, Nat.mod_eq_of_lt (by omega : id % K.PKA_MAX_NUM_IO_BLOCK_RINGS *
    K.PKA_RING_WORDS_SPACING < 2 ^ 32), Nat.mod_eq_of_lt (by omega)]

theorem partition_ring_info_lt (K : Consts) (b wsz t : Nat) :
    (partition_ring_info K b wsz t).cmmd_base < 2 ^ 32 ∧
    (partition_ring_info K b wsz t).rslt_base < 2 ^ 32 := by
  unfold partition_ring_info PKA_RING_MEM_ADDR
  refine ⟨lt_of_le_of_lt (Nat.mod_le _ _) (Nat.mod_lt _ (by decide)),
    lt_of_le_of_lt (Nat.mod_le _ _) (Nat.mod_lt _ (by decide))⟩

/-- C13: after a successful `pka_dev_set_ring_info` on a ring with slot
`s = ring id mod rings per block` (constants within the C types of the
locals), the calls that left the driver are exactly five writes into the
shim's buffer RAM, at the word offsets
`pka_dev_get_word_offset (buffer base) (field address + s * ring-words spacing)
(buffer-RAM size)` of the command-base, result-base, size/type,
read/write-pointer and statistics fields, with the values: the command-ring
base and the result-ring base of the geometry record, the size/type word packed
from the record, 0 and 0; and the ring's status is ready. -/
theorem set_ring_info_buffer_words (K : Consts) (w w1 : World) (ring : Nat)
    (hK : ring_words_consts_ok K)
    (h : pka_dev_set_ring_info K w ring = some (0, w1)) :
    w1.trace = w.trace ++
      [Event.pka_mmio_write
        ((w.res (.of_shim (w.ring ring).shim .buffer_ram)).ioaddr +
          pka_dev_get_word_offset (w.res (.of_shim (w.ring ring).shim .buffer_ram)).base
            (K.RING_CMMD_BASE_0_ADDR +
              (w.ring ring).ring_id % K.PKA_MAX_NUM_IO_BLOCK_RINGS * K.PKA_RING_WORDS_SPACING)
            K.PKA_BUFFER_RAM_SIZE)
        (w1.ring_info (w1.ring ring).ring_info).cmmd_base,
       Event.pka_mmio_write
        ((w.res (.of_shim (w.ring ring).shim .buffer_ram)).ioaddr +
          pka_dev_get_word_offset (w.res (.of_shim (w.ring ring).shim .buffer_ram)).base
            (K.RING_RSLT_BASE_0_ADDR +
              (w.ring ring).ring_id % K.PKA_MAX_NUM_IO_BLOCK_RINGS * K.PKA_RING_WORDS_SPACING)
            K.PKA_BUFFER_RAM_SIZE)
        (w1.ring_info (w1.ring ring).ring_info).rslt_base,
       Event.pka_mmio_write
        ((w.res (.of_shim (w.ring ring).shim .buffer_ram)).ioaddr +
          pka_dev_get_word_offset (w.res (.of_shim (w.ring ring).shim .buffer_ram)).base
            (K.RING_SIZE_TYPE_0_ADDR +
              (w.ring ring).ring_id % K.PKA_MAX_NUM_IO_BLOCK_RINGS * K.PKA_RING_WORDS_SPACING)
            K.PKA_BUFFER_RAM_SIZE)
        (ring_size_type_val (w1.ring_info (w1.ring ring).ring_info).in_order
          (w1.ring_info (w1.ring ring).ring_info).host_desc_size (w1.ring ring).num_cmd_desc),
       Event.pka_mmio_write
        ((w.res (.of_shim (w.ring ring).shim .buffer_ram)).ioaddr +
          pka_dev_get_word_offset (w.res (.of_shim (w.ring ring).shim .buffer_ram)).base
            (K.RING_RW_PTRS_0_ADDR +
              (w.ring ring).ring_id % K.PKA_MAX_NUM_IO_BLOCK_RINGS * K.PKA_RING_WORDS_SPACING)
            K.PKA_BUFFER_RAM_SIZE) 0,
       Event.pka_mmio_write
        ((w.res (.of_shim (w.ring ring).shim .buffer_ram)).ioaddr +
          pka_dev_get_word_offset (w.res (.of_shim (w.ring ring).shim .buffer_ram)).base
            (K.RING_RW_STAT_0_ADDR +
              (w.ring ring).ring_id % K.PKA_MAX_NUM_IO_BLOCK_RINGS * K.PKA_RING_WORDS_SPACING)
            K.PKA_BUFFER_RAM_SIZE) 0] ∧
    (w1.ring ring).status = PKA_DEV_RING_STATUS_READY := by
  obtain ⟨hring, hshim, hs, hr, hinfo, hm, ht⟩ := set_ring_info_ok_cond K w w1 ring h
  obtain ⟨h0, h8, a1, a2, a3, a4, a5⟩ := hK
  rw [set_ring_info_success K w ring hring hshim hs hr hinfo hm ht] at h
  have hw := (Prod.mk.inj (Option.some.inj h)).2
  subst hw
  obtain ⟨c1, c2⟩ := partition_ring_info_lt K (w.res (.of_ring ring .window_ram)).base
    (w.res (.of_ring ring .window_ram)).size (w.shim (w.ring ring).shim).ring_type
  simp only [Function.update_apply, if_true, ring_info_word_off_eq K _ _ _ h0 h8 a1,
    ring_info_word_off_eq K _ _ _ h0 h8 a2, ring_info_word_off_eq K _ _ _ h0 h8 a3,
    ring_info_word_off_eq K _ _ _ h0 h8 a4, ring_info_word_off_eq K _ _ _ h0 h8 a5,
    Nat.mod_eq_of_lt c1, Nat.mod_eq_of_lt c2, and_self]

/-- Witness of C13: ring 1 of the scenario (slot 1, spacing `0x40`, buffer RAM
mapped at `0x82000000`) gets its five words at `0x40`, `0x50`, `0x60`, `0x68`
and `0x70` of the buffer RAM. -/
theorem set_ring_info_buffer_words_witness :
    pka_dev_set_ring_info demo_consts demo_rings2 0x37000 = some (0, demo_ready2) ∧
    (demo_ready2.trace = demo_rings2.trace ++
      [Event.pka_mmio_write 0x82000040 0x3800,
       Event.pka_mmio_write 0x82000050 0x3C00,
       Event.pka_mmio_write 0x82000060 0x8040000F,
       Event.pka_mmio_write 0x82000068 0,
       Event.pka_mmio_write 0x82000070 0] ∧
     (demo_ready2.ring 0x37000).status = PKA_DEV_RING_STATUS_READY) :=
  ⟨rfl, set_ring_info_buffer_words demo_consts demo_rings2 demo_ready2 0x37000 (by decide) rfl⟩

/-! ## C14 -/

/-- C14: for a ring at a valid address with its shim and geometry record set
and the shim's buffer RAM mapped as memory, `pka_dev_set_ring_info` returns 0
if and only if the shim's status is initialized, running or stopped and the
ring's status is initialized; in every other state it returns `-EPERM` and the
whole driver state (so the ring's status, its geometry record and the buffer
RAM, no write being made) is unchanged. -/
theorem set_ring_info_succeeds_iff (K : Consts) (w : World) (ring : Nat) (hring : ring ≠ 0)
    (hshim : (w.ring ring).shim ≠ 0) (hinfo : (w.ring ring).ring_info ≠ 0)
    (hm : (w.res (.of_shim (w.ring ring).shim .buffer_ram)).status = PKA_DEV_RES_STATUS_MAPPED)
    (ht : (w.res (.of_shim (w.ring ring).shim .buffer_ram)).type = PKA_DEV_RES_TYPE_MEM) :
    ((∃ w1, pka_dev_set_ring_info K w ring = some (0, w1)) ↔
      (((w.shim (w.ring ring).shim).status = PKA_SHIM_STATUS_INITIALIZED ∨
        (w.shim (w.ring ring).shim).status = PKA_SHIM_STATUS_RUNNING ∨
        (w.shim (w.ring ring).shim).status = PKA_SHIM_STATUS_STOPPED) ∧
       (w.ring ring).status = PKA_DEV_RING_STATUS_INITIALIZED)) ∧
    (¬ (((w.shim (w.ring ring).shim).status = PKA_SHIM_STATUS_INITIALIZED ∨
        (w.shim (w.ring ring).shim).status = PKA_SHIM_STATUS_RUNNING ∨
        (w.shim (w.ring ring).shim).status = PKA_SHIM_STATUS_STOPPED) ∧
       (w.ring ring).status = PKA_DEV_RING_STATUS_INITIALIZED) →
      pka_dev_set_ring_info K w ring = some (-EPERM, w)) := by
  refine ⟨⟨?_, ?_⟩, ?_⟩
  · rintro ⟨w1, h⟩
    obtain ⟨_, _, hs, hr, _⟩ := set_ring_info_ok_cond K w w1 ring h
    exact ⟨hs, hr⟩
  · rintro ⟨hs, hr⟩
    exact ⟨_, set_ring_info_success K w ring hring hshim hs hr hinfo hm ht⟩
  · intro hn
    have hc : ((w.shim (w.ring ring).shim).status ≠ PKA_SHIM_STATUS_INITIALIZED ∧
        (w.shim (w.ring ring).shim).status ≠ PKA_SHIM_STATUS_RUNNING ∧
        (w.shim (w.ring ring).shim).status ≠ PKA_SHIM_STATUS_STOPPED) ∨
        (w.ring ring).status ≠ PKA_DEV_RING_STATUS_INITIALIZED := by
      by_contra hc
      simp only [not_or, not_and_or, ne_eq, not_not] at hc
      exact hn hc
    simp only [pka_dev_set_ring_info, hring, hshim, hc, if_true, if_false]

/-- Witness of C14: in the scenario, ring 1 (initialized, shim initialized) is
accepted, and ring 0 once opened (busy, shim running) is refused with the state
unchanged. -/
theorem set_ring_info_succeeds_iff_witness :
    (∃ w1, pka_dev_set_ring_info demo_consts demo_rings2 0x37000 = some (0, w1)) ∧
    pka_dev_set_ring_info demo_consts demo_open1 0x35000 = some (-EPERM, demo_open1) :=
  ⟨(set_ring_info_succeeds_iff demo_consts demo_rings2 0x37000 (by decide) (by decide)
      (by decide) (by decide) (by decide)).1.2 (by decide),
   (set_ring_info_succeeds_iff demo_consts demo_open1 0x35000 (by decide) (by decide)
      (by decide) (by decide) (by decide)).2 (by decide)⟩

/-! ## C15 -/

/-- C15: `pka_dev_init_ring` on a ring (at a valid address) whose status is
not undefined returns `-EPERM`, and on an undefined ring with an id above
`PKA_MAX_NUM_RINGS - 1` returns `-EINVAL`, the state (so the ring and the ring
bank of the shim) being unchanged in both cases; on an undefined ring with a
valid id, a shim with a ring bank of at least `PKA_MAX_NUM_IO_BLOCK_RINGS`
slots and a successful allocation of the geometry record it returns 0, sets
the status to initialized, records the id and the shim, stores the ring in the
bank slot `id mod PKA_MAX_NUM_IO_BLOCK_RINGS` and leaves the other slots as
they were. -/
theorem init_ring_contract (K : Consts) (env : Env) (w : World) (ring ring_id shim : Nat)
    (hring : ring ≠ 0) :
    ((w.ring ring).status ≠ PKA_DEV_RING_STATUS_UNDEFINED →
      pka_dev_init_ring K env w ring ring_id shim = some (-EPERM, w)) ∧
    ((w.ring ring).status = PKA_DEV_RING_STATUS_UNDEFINED →
      K.PKA_MAX_NUM_RINGS - 1 < ring_id →
      pka_dev_init_ring K env w ring ring_id shim = some (-EINVAL, w)) ∧
    ((w.ring ring).status = PKA_DEV_RING_STATUS_UNDEFINED →
      ring_id ≤ K.PKA_MAX_NUM_RINGS - 1 → shim ≠ 0 → (w.shim shim).rings ≠ 0 →
      0 < K.PKA_MAX_NUM_IO_BLOCK_RINGS →
      K.PKA_MAX_NUM_IO_BLOCK_RINGS ≤ (w.ring_bank (w.shim shim).rings).length →
      env.kzalloc w.trace ≠ 0 →
      ∃ w1, pka_dev_init_ring K env w ring ring_id shim = some (0, w1) ∧
        (w1.ring ring).status = PKA_DEV_RING_STATUS_INITIALIZED ∧
        (w1.ring ring).ring_id = ring_id ∧
        (w1.ring ring).shim = shim ∧
        w1.shim = w.shim ∧
        (w1.ring_bank (w.shim shim).rings)[ring_id % K.PKA_MAX_NUM_IO_BLOCK_RINGS]? =
          some ring ∧
        ∀ i, i ≠ ring_id % K.PKA_MAX_NUM_IO_BLOCK_RINGS →
          (w1.ring_bank (w.shim shim).rings)[i]? = (w.ring_bank (w.shim shim).rings)[i]?) := by
  refine ⟨?_, ?_, ?_⟩
  · intro h
    simp only [pka_dev_init_ring, hring, h, if_false, if_true, ne_eq, not_false_eq_true]
  · intro h hid
    simp only [pka_dev_init_ring, hring, h, hid, gt_iff_lt, if_false, if_true, ne_eq,
      not_true_eq_false]
  · intro h hid hshim hrings h0 hlen hk
    have hid2 : ¬ (K.PKA_MAX_NUM_RINGS - 1 < ring_id) := by omega
    have hslot : ring_id % K.PKA_MAX_NUM_IO_BLOCK_RINGS <
        (w.ring_bank (w.shim shim).rings).length :=
      lt_of_lt_of_le (Nat.mod_lt _ h0) hlen
    simp only [pka_dev_init_ring, hring, h, hid2, hshim, hrings, hk, gt_iff_lt, if_false,
      ne_eq, not_true_eq_false, shim_ring_slot]
    refine ⟨_, rfl, ?_, ?_, ?_, ?_, ?_, ?_⟩
    · simp
    · simp
    · simp
    · rfl
    · simp [List.getElem?_set, hslot]
    · intro i hi
      simp [List.getElem?_set, Ne.symm hi]

/-- Witness of C15: in the scenario with shim 0 registered and no ring yet, the
ring structure at address 7 is undefined and `demo_env` allocates; with id 5 it
lands in slot 1 of the four-slot bank. -/
theorem init_ring_contract_witness :
    pka_dev_init_ring demo_consts demo_env demo_rings1 0x35000 5 0x1000 =
      some (-EPERM, demo_rings1) ∧
    pka_dev_init_ring demo_consts demo_env demo_shim_world 7 32 0x1000 =
      some (-EINVAL, demo_shim_world) ∧
    ∃ w1, pka_dev_init_ring demo_consts demo_env demo_shim_world 7 5 0x1000 = some (0, w1) ∧
      (w1.ring 7).status = PKA_DEV_RING_STATUS_INITIALIZED ∧
      (w1.ring 7).ring_id = 5 ∧
      (w1.ring 7).shim = 0x1000 ∧
      w1.shim = demo_shim_world.shim ∧
      (w1.ring_bank 0x2000)[1]? = some 7 ∧
      ∀ i, i ≠ 1 → (w1.ring_bank 0x2000)[i]? = (demo_shim_world.ring_bank 0x2000)[i]? :=
  ⟨(init_ring_contract demo_consts demo_env demo_rings1 0x35000 5 0x1000 (by decide)).1
      (by decide),
   (init_ring_contract demo_consts demo_env demo_shim_world 7 32 0x1000 (by decide)).2.1
      (by decide) (by decide),
   (init_ring_contract demo_consts demo_env demo_shim_world 7 5 0x1000 (by decide)).2.2
      (by decide) (by decide) (by decide) (by decide) (by decide) (by decide) (by decide)⟩

/-! ## C16 -/

/-- One successful `__pka_dev_open_ring`: what it returns and what it leaves. -/
theorem open_ring_step (K : Consts) (w : World) (ring_id r s : Nat)
    (hcnt : w.pka_gbl_config.dev_rings_cnt ≠ 0)
    (hg : pka_dev_get_ring w ring_id = r) (hring : r ≠ 0)
    (hsr : (w.ring r).shim = s) (hshim : s ≠ 0)
    (hs : (w.shim s).status = PKA_SHIM_STATUS_INITIALIZED ∨
      (w.shim s).status = PKA_SHIM_STATUS_RUNNING ∨
      (w.shim s).status = PKA_SHIM_STATUS_STOPPED)
    (hr : (w.ring r).status = PKA_DEV_RING_STATUS_INITIALIZED)
    (hinfo : (w.ring r).ring_info ≠ 0)
    (hm : (w.res (.of_shim s .buffer_ram)).status = PKA_DEV_RES_STATUS_MAPPED)
    (ht : (w.res (.of_shim s .buffer_ram)).type = PKA_DEV_RES_TYPE_MEM) :
    ∃ w1, __pka_dev_open_ring K w ring_id = some (0, w1) ∧
      w1.pka_gbl_config = w.pka_gbl_config ∧ w1.res = w.res ∧
      (w1.ring r).status = PKA_DEV_RING_STATUS_BUSY ∧
      (w1.ring r).shim = s ∧
      (w1.ring r).ring_info = (w.ring r).ring_info ∧
      (∀ q, q ≠ r → w1.ring q = w.ring q) ∧
      (w1.shim s).status =
        (if (w.shim s).busy_ring_num = 0 then PKA_SHIM_STATUS_RUNNING
        else (w.shim s).status) ∧
      (w1.shim s).busy_ring_num = ((w.shim s).busy_ring_num + 1) % 2 ^ 32 := by
  subst hg
  subst hsr
  have hs2 : ¬ ((w.shim (w.ring (pka_dev_get_ring w ring_id)).shim).status =
        PKA_SHIM_STATUS_UNDEFINED ∨
      (w.shim (w.ring (pka_dev_get_ring w ring_id)).shim).status = PKA_SHIM_STATUS_CREATED ∨
      (w.shim (w.ring (pka_dev_get_ring w ring_id)).shim).status =
        PKA_SHIM_STATUS_FINALIZED) := by
    rcases hs with h | h | h <;> simp [h]
  simp only [__pka_dev_open_ring, hcnt, hring, hshim, hs2, hr, if_false, ne_eq,
    not_true_eq_false, or_self,
    set_ring_info_success K w _ hring hshim hs hr hinfo hm ht]
  refine ⟨_, rfl, rfl, rfl, ?_, ?_, ?_, ?_, ?_, ?_⟩
  · simp
  · simp
  · simp
  · intro r hne
    simp [Function.update_apply, hne]
  · simp
  · simp

/-- One successful `__pka_dev_close_ring`: what it returns and what it leaves. -/
theorem close_ring_step (w : World) (ring_id r s : Nat)
    (hcnt : w.pka_gbl_config.dev_rings_cnt ≠ 0)
    (hg : pka_dev_get_ring w ring_id = r) (hring : r ≠ 0)
    (hsr : (w.ring r).shim = s) (hshim : s ≠ 0)
    (hb : (w.ring r).status = PKA_DEV_RING_STATUS_BUSY) :
    (__pka_dev_close_ring w ring_id).1 = 0 ∧
    (__pka_dev_close_ring w ring_id).2.pka_gbl_config = w.pka_gbl_config ∧
    (__pka_dev_close_ring w ring_id).2.res = w.res ∧
    ((__pka_dev_close_ring w ring_id).2.ring r).status = PKA_DEV_RING_STATUS_INITIALIZED ∧
    ((__pka_dev_close_ring w ring_id).2.ring r).shim = s ∧
    (∀ q, q ≠ r → (__pka_dev_close_ring w ring_id).2.ring q = w.ring q) ∧
    ((__pka_dev_close_ring w ring_id).2.shim s).status =
      (if ((w.shim s).busy_ring_num + (2 ^ 32 - 1)) % 2 ^ 32 = 0 then PKA_SHIM_STATUS_STOPPED
      else (w.shim s).status) ∧
    ((__pka_dev_close_ring w ring_id).2.shim s).busy_ring_num =
      ((w.shim s).busy_ring_num + (2 ^ 32 - 1)) % 2 ^ 32 := by
  subst hg
  subst hsr
  refine ⟨?_, ?_, ?_, ?_, ?_, ?_, ?_, ?_⟩
  · simp [__pka_dev_close_ring, hcnt, hring, hshim, hb]
  · simp [__pka_dev_close_ring, hcnt, hring, hshim, hb]
  · simp [__pka_dev_close_ring, hcnt, hring, hshim, hb]
  · simp [__pka_dev_close_ring, hcnt, hring, hshim, hb]
  · simp [__pka_dev_close_ring, hcnt, hring, hshim, hb]
  · intro r hne
    simp [__pka_dev_close_ring, hcnt, hring, hshim, hb, Function.update_apply, hne]
  · simp [__pka_dev_close_ring, hcnt, hring, hshim, hb]
  · simp [__pka_dev_close_ring, hcnt, hring, hshim, hb]

/-- Two successive closes of two busy rings `ra` (id `ia`) and `rb` (id `ib`)
of a running shim with busy count 2. -/
theorem close_two_steps (w : World) (ia ib ra rb s : Nat)
    (hcnt : w.pka_gbl_config.dev_rings_cnt ≠ 0)
    (hga : pka_dev_get_ring w ia = ra) (hgb : pka_dev_get_ring w ib = rb)
    (ha0 : ra ≠ 0) (hb0 : rb ≠ 0) (hne : ra ≠ rb)
    (hsa : (w.ring ra).shim = s) (hsb : (w.ring rb).shim = s) (hs0 : s ≠ 0)
    (hst : (w.shim s).status = PKA_SHIM_STATUS_RUNNING) (hbusy : (w.shim s).busy_ring_num = 2)
    (hba : (w.ring ra).status = PKA_DEV_RING_STATUS_BUSY)
    (hbb : (w.ring rb).status = PKA_DEV_RING_STATUS_BUSY) :
    (__pka_dev_close_ring w ia).1 = 0 ∧
    ((__pka_dev_close_ring w ia).2.shim s).status = PKA_SHIM_STATUS_RUNNING ∧
    ((__pka_dev_close_ring w ia).2.shim s).busy_ring_num = 1 ∧
    ((__pka_dev_close_ring w ia).2.ring ra).status = PKA_DEV_RING_STATUS_INITIALIZED ∧
    ((__pka_dev_close_ring w ia).2.ring rb).status = PKA_DEV_RING_STATUS_BUSY ∧
    (__pka_dev_close_ring (__pka_dev_close_ring w ia).2 ib).1 = 0 ∧
    ((__pka_dev_close_ring (__pka_dev_close_ring w ia).2 ib).2.shim s).status =
      PKA_SHIM_STATUS_STOPPED ∧
    ((__pka_dev_close_ring (__pka_dev_close_ring w ia).2 ib).2.shim s).busy_ring_num = 0 ∧
    ((__pka_dev_close_ring (__pka_dev_close_ring w ia).2 ib).2.ring ra).status =
      PKA_DEV_RING_STATUS_INITIALIZED ∧
    ((__pka_dev_close_ring (__pka_dev_close_ring w ia).2 ib).2.ring rb).status =
      PKA_DEV_RING_STATUS_INITIALIZED := by
  obtain ⟨c1, c2, _, c4, _, c6, c7, c8⟩ :=
    close_ring_step w ia ra s hcnt hga ha0 hsa hs0 hba
  rw [hbusy] at c7 c8
  have c7b : ((__pka_dev_close_ring w ia).2.shim s).status = PKA_SHIM_STATUS_RUNNING := by
    rw [c7, hst]; rfl
  have c8b : ((__pka_dev_close_ring w ia).2.shim s).busy_ring_num = 1 := by
    rw [c8]; rfl
  have crb := c6 rb (Ne.symm hne)
  have hcnt2 : (__pka_dev_close_ring w ia).2.pka_gbl_config.dev_rings_cnt ≠ 0 := by
    rw [c2]; exact hcnt
  have hgb2 : pka_dev_get_ring (__pka_dev_close_ring w ia).2 ib = rb := by
    unfold pka_dev_get_ring; rw [c2]; exact hgb
  obtain ⟨d1, _, _, d4, _, d6, d7, d8⟩ :=
    close_ring_step (__pka_dev_close_ring w ia).2 ib rb s hcnt2 hgb2 hb0
      (by rw [crb]; exact hsb) hs0 (by rw [crb]; exact hbb)
  rw [c8b] at d7 d8
  refine ⟨c1, c7b, c8b, c4, by rw [crb]; exact hbb, d1, by rw [d7]; rfl, by rw [d8]; rfl,
    by rw [d6 ra hne]; exact c4, d4⟩

/-- C16: from an initialized shim with busy-ring count 0 and two distinct
registered rings of it in initialized status (geometry records allocated,
buffer RAM mapped as memory), `__pka_dev_open_ring` of the first returns 0 and
sets the shim status to running and the count to 1, the ring being busy;
opening the second returns 0 and keeps the shim running with count 2, both
rings busy; then, in either order, `__pka_dev_close_ring` of one of them
returns 0 and keeps the shim running with count 1, the closed ring initialized
and the other busy, and closing the other returns 0 and sets the shim status to
stopped and the count to 0, both rings initialized. -/
theorem open_close_accounting (K : Consts) (w : World) (id1 id2 r1 r2 s : Nat)
    (hcnt : w.pka_gbl_config.dev_rings_cnt ≠ 0)
    (hg1 : pka_dev_get_ring w id1 = r1) (hg2 : pka_dev_get_ring w id2 = r2)
    (h10 : r1 ≠ 0) (h20 : r2 ≠ 0) (hne : r1 ≠ r2)
    (hs1 : (w.ring r1).shim = s) (hs2 : (w.ring r2).shim = s) (hs0 : s ≠ 0)
    (hst : (w.shim s).status = PKA_SHIM_STATUS_INITIALIZED)
    (hbusy : (w.shim s).busy_ring_num = 0)
    (hr1 : (w.ring r1).status = PKA_DEV_RING_STATUS_INITIALIZED)
    (hr2 : (w.ring r2).status = PKA_DEV_RING_STATUS_INITIALIZED)
    (hi1 : (w.ring r1).ring_info ≠ 0) (hi2 : (w.ring r2).ring_info ≠ 0)
    (hm : (w.res (.of_shim s .buffer_ram)).status = PKA_DEV_RES_STATUS_MAPPED)
    (ht : (w.res (.of_shim s .buffer_ram)).type = PKA_DEV_RES_TYPE_MEM) :
    ∃ w1 w2,
      __pka_dev_open_ring K w id1 = some (0, w1) ∧
      (w1.shim s).status = PKA_SHIM_STATUS_RUNNING ∧ (w1.shim s).busy_ring_num = 1 ∧
      (w1.ring r1).status = PKA_DEV_RING_STATUS_BUSY ∧
      __pka_dev_open_ring K w1 id2 = some (0, w2) ∧
      (w2.shim s).status = PKA_SHIM_STATUS_RUNNING ∧ (w2.shim s).busy_ring_num = 2 ∧
      (w2.ring r1).status = PKA_DEV_RING_STATUS_BUSY ∧
      (w2.ring r2).status = PKA_DEV_RING_STATUS_BUSY ∧
      ((__pka_dev_close_ring w2 id1).1 = 0 ∧
        ((__pka_dev_close_ring w2 id1).2.shim s).status = PKA_SHIM_STATUS_RUNNING ∧
        ((__pka_dev_close_ring w2 id1).2.shim s).busy_ring_num = 1 ∧
        ((__pka_dev_close_ring w2 id1).2.ring r1).status = PKA_DEV_RING_STATUS_INITIALIZED ∧
        ((__pka_dev_close_ring w2 id1).2.ring r2).status = PKA_DEV_RING_STATUS_BUSY ∧
        (__pka_dev_close_ring (__pka_dev_close_ring w2 id1).2 id2).1 = 0 ∧
        ((__pka_dev_close_ring (__pka_dev_close_ring w2 id1).2 id2).2.shim s).status =
          PKA_SHIM_STATUS_STOPPED ∧
        ((__pka_dev_close_ring (__pka_dev_close_ring w2 id1).2 id2).2.shim s).busy_ring_num
          = 0 ∧
        ((__pka_dev_close_ring (__pka_dev_close_ring w2 id1).2 id2).2.ring r1).status =
          PKA_DEV_RING_STATUS_INITIALIZED ∧
        ((__pka_dev_close_ring (__pka_dev_close_ring w2 id1).2 id2).2.ring r2).status =
          PKA_DEV_RING_STATUS_INITIALIZED) ∧
      ((__pka_dev_close_ring w2 id2).1 = 0 ∧
        ((__pka_dev_close_ring w2 id2).2.shim s).status = PKA_SHIM_STATUS_RUNNING ∧
        ((__pka_dev_close_ring w2 id2).2.shim s).busy_ring_num = 1 ∧
        ((__pka_dev_close_ring w2 id2).2.ring r2).status = PKA_DEV_RING_STATUS_INITIALIZED ∧
        ((__pka_dev_close_ring w2 id2).2.ring r1).status = PKA_DEV_RING_STATUS_BUSY ∧
        (__pka_dev_close_ring (__pka_dev_close_ring w2 id2).2 id1).1 = 0 ∧
        ((__pka_dev_close_ring (__pka_dev_close_ring w2 id2).2 id1).2.shim s).status =
          PKA_SHIM_STATUS_STOPPED ∧
        ((__pka_dev_close_ring (__pka_dev_close_ring w2 id2).2 id1).2.shim s).busy_ring_num
          = 0 ∧
        ((__pka_dev_close_ring (__pka_dev_close_ring w2 id2).2 id1).2.ring r2).status =
          PKA_DEV_RING_STATUS_INITIALIZED ∧
        ((__pka_dev_close_ring (__pka_dev_close_ring w2 id2).2 id1).2.ring r1).status =
          PKA_DEV_RING_STATUS_INITIALIZED) := by
  obtain ⟨w1, o1, cfg1, res1, b1, sh1, _, fr1, st1, bz1⟩ :=
    open_ring_step K w id1 r1 s hcnt hg1 h10 hs1 hs0 (Or.inl hst) hr1 hi1 hm ht
  rw [hbusy] at st1 bz1
  have st1b : (w1.shim s).status = PKA_SHIM_STATUS_RUNNING := by rw [st1]; rfl
  have bz1b : (w1.shim s).busy_ring_num = 1 := by rw [bz1]; rfl
  have r2w1 := fr1 r2 (Ne.symm hne)
  have hcnt1 : w1.pka_gbl_config.dev_rings_cnt ≠ 0 := by rw [cfg1]; exact hcnt
  have hg2w1 : pka_dev_get_ring w1 id2 = r2 := by
    unfold pka_dev_get_ring; rw [cfg1]; exact hg2
  have hg1w1 : pka_dev_get_ring w1 id1 = r1 := by
    unfold pka_dev_get_ring; rw [cfg1]; exact hg1
  obtain ⟨w2, o2, cfg2, _, b2, sh2, _, fr2, st2, bz2⟩ :=
    open_ring_step K w1 id2 r2 s hcnt1 hg2w1 h20 (by rw [r2w1]; exact hs2) hs0
      (Or.inr (Or.inl st1b)) (by rw [r2w1]; exact hr2) (by rw [r2w1]; exact hi2)
      (by rw [res1]; exact hm) (by rw [res1]; exact ht)
  rw [bz1b] at st2 bz2
  have st2b : (w2.shim s).status = PKA_SHIM_STATUS_RUNNING := by rw [st2, st1b]; rfl
  have bz2b : (w2.shim s).busy_ring_num = 2 := by rw [bz2]; rfl
  have r1w2 := fr2 r1 hne
  have hcnt2 : w2.pka_gbl_config.dev_rings_cnt ≠ 0 := by rw [cfg2]; exact hcnt1
  have hg1w2 : pka_dev_get_ring w2 id1 = r1 := by
    unfold pka_dev_get_ring; rw [cfg2]; exact hg1w1
  have hg2w2 : pka_dev_get_ring w2 id2 = r2 := by
    unfold pka_dev_get_ring; rw [cfg2]; exact hg2w1
  have b1w2 : (w2.ring r1).status = PKA_DEV_RING_STATUS_BUSY := by rw [r1w2]; exact b1
  have s1w2 : (w2.ring r1).shim = s := by rw [r1w2]; exact sh1
  exact ⟨w1, w2, o1, st1b, bz1b, b1, o2, st2b, bz2b, b1w2, b2,
    close_two_steps w2 id1 id2 r1 r2 s hcnt2 hg1w2 hg2w2 h10 h20 hne s1w2 sh2 hs0 st2b bz2b
      b1w2 b2,
    close_two_steps w2 id2 id1 r2 r1 s hcnt2 hg2w2 hg1w2 h20 h10 (Ne.symm hne) sh2 s1w2 hs0
      st2b bz2b b2 b1w2⟩

/-- Witness of C16: rings 0 and 1 (structures at `0x35000` and `0x37000`) of
the shim at `0x1000` in the scenario with two registered rings. -/
theorem open_close_accounting_witness :
    ∃ w1 w2,
      __pka_dev_open_ring demo_consts demo_rings2 0 = some (0, w1) ∧
      (w1.shim 0x1000).status = PKA_SHIM_STATUS_RUNNING ∧ (w1.shim 0x1000).busy_ring_num = 1 ∧
      (w1.ring 0x35000).status = PKA_DEV_RING_STATUS_BUSY ∧
      __pka_dev_open_ring demo_consts w1 1 = some (0, w2) ∧
      (w2.shim 0x1000).status = PKA_SHIM_STATUS_RUNNING ∧ (w2.shim 0x1000).busy_ring_num = 2 ∧
      (w2.ring 0x35000).status = PKA_DEV_RING_STATUS_BUSY ∧
      (w2.ring 0x37000).status = PKA_DEV_RING_STATUS_BUSY ∧
      ((__pka_dev_close_ring w2 0).1 = 0 ∧
        ((__pka_dev_close_ring w2 0).2.shim 0x1000).status = PKA_SHIM_STATUS_RUNNING ∧
        ((__pka_dev_close_ring w2 0).2.shim 0x1000).busy_ring_num = 1 ∧
        ((__pka_dev_close_ring w2 0).2.ring 0x35000).status = PKA_DEV_RING_STATUS_INITIALIZED ∧
        ((__pka_dev_close_ring w2 0).2.ring 0x37000).status = PKA_DEV_RING_STATUS_BUSY ∧
        (__pka_dev_close_ring (__pka_dev_close_ring w2 0).2 1).1 = 0 ∧
        ((__pka_dev_close_ring (__pka_dev_close_ring w2 0).2 1).2.shim 0x1000).status =
          PKA_SHIM_STATUS_STOPPED ∧
        ((__pka_dev_close_ring (__pka_dev_close_ring w2 0).2 1).2.shim 0x1000).busy_ring_num
          = 0 ∧
        ((__pka_dev_close_ring (__pka_dev_close_ring w2 0).2 1).2.ring 0x35000).status =
          PKA_DEV_RING_STATUS_INITIALIZED ∧
        ((__pka_dev_close_ring (__pka_dev_close_ring w2 0).2 1).2.ring 0x37000).status =
          PKA_DEV_RING_STATUS_INITIALIZED) ∧
      ((__pka_dev_close_ring w2 1).1 = 0 ∧
        ((__pka_dev_close_ring w2 1).2.shim 0x1000).status = PKA_SHIM_STATUS_RUNNING ∧
        ((__pka_dev_close_ring w2 1).2.shim 0x1000).busy_ring_num = 1 ∧
        ((__pka_dev_close_ring w2 1).2.ring 0x37000).status = PKA_DEV_RING_STATUS_INITIALIZED ∧
        ((__pka_dev_close_ring w2 1).2.ring 0x35000).status = PKA_DEV_RING_STATUS_BUSY ∧
        (__pka_dev_close_ring (__pka_dev_close_ring w2 1).2 0).1 = 0 ∧
        ((__pka_dev_close_ring (__pka_dev_close_ring w2 1).2 0).2.shim 0x1000).status =
          PKA_SHIM_STATUS_STOPPED ∧
        ((__pka_dev_close_ring (__pka_dev_close_ring w2 1).2 0).2.shim 0x1000).busy_ring_num
          = 0 ∧
        ((__pka_dev_close_ring (__pka_dev_close_ring w2 1).2 0).2.ring 0x37000).status =
          PKA_DEV_RING_STATUS_INITIALIZED ∧
        ((__pka_dev_close_ring (__pka_dev_close_ring w2 1).2 0).2.ring 0x35000).status =
          PKA_DEV_RING_STATUS_INITIALIZED) :=
  open_close_accounting demo_consts demo_rings2 0 1 0x35000 0x37000 0x1000 (by decide) (by decide)
    (by decide) (by decide) (by decide) (by decide) (by decide) (by decide) (by decide)
    (by decide) (by decide) (by decide) (by decide) (by decide) (by decide) (by decide)
    (by decide)

/-! ## Frame lemmas for `pka_dev_unset_resource_config` -/

theorem unset_resource_config_frame (w : World) (shim : Nat) (p : res_ptr_t) :
    (pka_dev_unset_resource_config w shim p).shim = w.shim ∧
    (pka_dev_unset_resource_config w shim p).ring = w.ring ∧
    (pka_dev_unset_resource_config w shim p).ring_bank = w.ring_bank ∧
    (pka_dev_unset_resource_config w shim p).ring_info = w.ring_info ∧
    (pka_dev_unset_resource_config w shim p).pka_gbl_config = w.pka_gbl_config := by
  unfold pka_dev_unset_resource_config
  by_cases h1 : (w.res p).status = PKA_DEV_RES_STATUS_MAPPED
  · by_cases h2 : (w.res p).ioaddr = 0
    · simp [h1, h2]
    · by_cases h3 : (pka_dev_put_resource w.res w.pka_gbl_res_tbl p (w.shim shim).shim_id).1
          = -EBUSY
      · simp [h1, h2, h3]
      · simp [h1, h2, h3]
  · simp [h1]

theorem unset_resource_config_res (w : World) (shim : Nat) (p : res_ptr_t) :
    ((pka_dev_unset_resource_config w shim p).res p).status = PKA_DEV_RES_STATUS_UNMAPPED ∧
    ∀ q, q ≠ p → (pka_dev_unset_resource_config w shim p).res q = w.res q := by
  unfold pka_dev_unset_resource_config
  by_cases h1 : (w.res p).status = PKA_DEV_RES_STATUS_MAPPED
  · by_cases h2 : (w.res p).ioaddr = 0
    · simp only [h1, h2, ne_eq, not_true_eq_false, if_true, if_false, Function.update_same,
        true_and]
      intro q hq
      exact Function.update_noteq hq _ _
    · by_cases h3 : (pka_dev_put_resource w.res w.pka_gbl_res_tbl p (w.shim shim).shim_id).1
          = -EBUSY
      · simp only [h1, h2, h3, ne_eq, not_true_eq_false, if_true, if_false,
          Function.update_same, true_and]
        intro q hq
        exact Function.update_noteq hq _ _
      · simp only [h1, h2, h3, ne_eq, not_true_eq_false, not_false_eq_true, if_true, if_false,
          Function.update_same, true_and]
        intro q hq
        exact Function.update_noteq hq _ _
  · simp only [h1, ne_eq, not_false_eq_true, if_true, implies_true, and_true]
    cases hst : (w.res p).status
    · rfl
    · exact absurd hst h1

/-! ## C17 -/

/-- C17: `pka_dev_release_ring` on a ring at a valid address returns 0 and
changes nothing when the ring is undefined; returns `-EBUSY` when the ring is
busy and, for a ring neither undefined nor busy, `-EPERM` when the owning shim
is running, the state (so the ring and the shim) being unchanged in both cases;
otherwise (ring bank of at least `PKA_MAX_NUM_IO_BLOCK_RINGS` slots) it returns
0, sets the ring's status to undefined, stores NULL in the bank slot
`id mod PKA_MAX_NUM_IO_BLOCK_RINGS`, leaves the other slots, and decrements the
`uint32_t` ring count of the shim by one, the shim's status staying as it
was. -/
theorem release_ring_contract (K : Consts) (w : World) (ring : Nat) (hring : ring ≠ 0) :
    ((w.ring ring).status = PKA_DEV_RING_STATUS_UNDEFINED →
      pka_dev_release_ring K w ring = some (0, w)) ∧
    ((w.ring ring).status = PKA_DEV_RING_STATUS_BUSY →
      pka_dev_release_ring K w ring = some (-EBUSY, w)) ∧
    ((w.ring ring).status ≠ PKA_DEV_RING_STATUS_UNDEFINED →
      (w.ring ring).status ≠ PKA_DEV_RING_STATUS_BUSY → (w.ring ring).shim ≠ 0 →
      (w.shim (w.ring ring).shim).status = PKA_SHIM_STATUS_RUNNING →
      pka_dev_release_ring K w ring = some (-EPERM, w)) ∧
    ((w.ring ring).status ≠ PKA_DEV_RING_STATUS_UNDEFINED →
      (w.ring ring).status ≠ PKA_DEV_RING_STATUS_BUSY → (w.ring ring).shim ≠ 0 →
      (w.shim (w.ring ring).shim).status ≠ PKA_SHIM_STATUS_RUNNING →
      (w.shim (w.ring ring).shim).rings ≠ 0 →
      0 < K.PKA_MAX_NUM_IO_BLOCK_RINGS →
      K.PKA_MAX_NUM_IO_BLOCK_RINGS ≤
        (w.ring_bank (w.shim (w.ring ring).shim).rings).length →
      ∃ w1, pka_dev_release_ring K w ring = some (0, w1) ∧
        (w1.ring ring).status = PKA_DEV_RING_STATUS_UNDEFINED ∧
        (w1.ring_bank (w.shim (w.ring ring).shim).rings)[
          (w.ring ring).ring_id % K.PKA_MAX_NUM_IO_BLOCK_RINGS]? = some 0 ∧
        (∀ i, i ≠ (w.ring ring).ring_id % K.PKA_MAX_NUM_IO_BLOCK_RINGS →
          (w1.ring_bank (w.shim (w.ring ring).shim).rings)[i]? =
            (w.ring_bank (w.shim (w.ring ring).shim).rings)[i]?) ∧
        (w1.shim (w.ring ring).shim).rings_num =
          ((w.shim (w.ring ring).shim).rings_num + (2 ^ 32 - 1)) % 2 ^ 32 ∧
        (w1.shim (w.ring ring).shim).status = (w.shim (w.ring ring).shim).status) := by
  refine ⟨?_, ?_, ?_, ?_⟩
  · intro h
    simp only [pka_dev_release_ring, hring, h, if_false, if_true]
  · intro h
    simp [pka_dev_release_ring, hring, h]
  · intro h1 h2 h3 h4
    simp only [pka_dev_release_ring, hring, h1, h2, h3, h4, if_false, if_true]
  · intro h1 h2 h3 h4 h5 h0 hlen
    obtain ⟨f1, f2, f3, _, _⟩ := unset_resource_config_frame w (w.ring ring).shim
      (.of_ring ring .info_words)
    obtain ⟨g1, g2, g3, _, _⟩ := unset_resource_config_frame
      (pka_dev_unset_resource_config w (w.ring ring).shim (.of_ring ring .info_words))
      (w.ring ring).shim (.of_ring ring .counters)
    obtain ⟨k1, k2, k3, _, _⟩ := unset_resource_config_frame
      (pka_dev_unset_resource_config
        (pka_dev_unset_resource_config w (w.ring ring).shim (.of_ring ring .info_words))
        (w.ring ring).shim (.of_ring ring .counters))
      (w.ring ring).shim (.of_ring ring .window_ram)
    have hslot : (w.ring ring).ring_id % K.PKA_MAX_NUM_IO_BLOCK_RINGS <
        (w.ring_bank (w.shim (w.ring ring).shim).rings).length :=
      lt_of_lt_of_le (Nat.mod_lt _ h0) hlen
    simp only [pka_dev_release_ring, hring, h1, h2, h3, h4, if_false, k1, k2, k3, g1, g2, g3,
      f1, f2, f3, h5]
    refine ⟨_, rfl, ?_, ?_, ?_, ?_, ?_⟩
    · simp
    · simp [List.getElem?_set, hslot]
    · intro i hi
      simp [List.getElem?_set, Ne.symm hi]
    · simp
    · simp

/-- Witness of C17: in the scenario, the ring structure at address 7 is
undefined; ring 0 once opened is busy; ring 1 is then initialized under a
running shim; and ring 1 before any open is released, its slot 1 cleared and
the count going from 4 to 3. -/
theorem release_ring_contract_witness :
    pka_dev_release_ring demo_consts demo_rings2 7 = some (0, demo_rings2) ∧
    pka_dev_release_ring demo_consts demo_open1 0x35000 = some (-EBUSY, demo_open1) ∧
    pka_dev_release_ring demo_consts demo_open1 0x37000 = some (-EPERM, demo_open1) ∧
    ∃ w1, pka_dev_release_ring demo_consts demo_rings2 0x37000 = some (0, w1) ∧
      (w1.ring 0x37000).status = PKA_DEV_RING_STATUS_UNDEFINED ∧
      (w1.ring_bank 0x2000)[1]? = some 0 ∧
      (∀ i, i ≠ 1 → (w1.ring_bank 0x2000)[i]? = (demo_rings2.ring_bank 0x2000)[i]?) ∧
      (w1.shim 0x1000).rings_num = 3 ∧
      (w1.shim 0x1000).status = PKA_SHIM_STATUS_INITIALIZED :=
  ⟨(release_ring_contract demo_consts demo_rings2 7 (by decide)).1 (by decide),
   (release_ring_contract demo_consts demo_open1 0x35000 (by decide)).2.1 (by decide),
   (release_ring_contract demo_consts demo_open1 0x37000 (by decide)).2.2.1 (by decide)
     (by decide) (by decide) (by decide),
   (release_ring_contract demo_consts demo_rings2 0x37000 (by decide)).2.2.2 (by decide)
     (by decide) (by decide) (by decide) (by decide) (by decide) (by decide)⟩

/-! ## C18 -/

/-- The state left by a `pka_dev_release_ring` that goes through. -/
theorem release_ring_step (K : Consts) (w : World) (ring : Nat) (hring : ring ≠ 0)
    (h1 : (w.ring ring).status ≠ PKA_DEV_RING_STATUS_UNDEFINED)
    (h2 : (w.ring ring).status ≠ PKA_DEV_RING_STATUS_BUSY)
    (h3 : (w.ring ring).shim ≠ 0)
    (h4 : (w.shim (w.ring ring).shim).status ≠ PKA_SHIM_STATUS_RUNNING)
    (h5 : (w.shim (w.ring ring).shim).rings ≠ 0) :
    ∃ w1, pka_dev_release_ring K w ring = some (0, w1) ∧
      w1.ring = Function.update w.ring ring
        { w.ring ring with status := PKA_DEV_RING_STATUS_UNDEFINED } ∧
      w1.ring_bank = Function.update w.ring_bank (w.shim (w.ring ring).shim).rings
        ((w.ring_bank (w.shim (w.ring ring).shim).rings).set
          ((w.ring ring).ring_id % K.PKA_MAX_NUM_IO_BLOCK_RINGS) 0) ∧
      w1.shim = Function.update w.shim (w.ring ring).shim
        { w.shim (w.ring ring).shim with
          rings_num := ((w.shim (w.ring ring).shim).rings_num + (2 ^ 32 - 1)) % 2 ^ 32 } ∧
      w1.pka_gbl_config = w.pka_gbl_config := by
  obtain ⟨f1, f2, f3, _, f5⟩ := unset_resource_config_frame w (w.ring ring).shim
    (.of_ring ring .info_words)
  obtain ⟨g1, g2, g3, _, g5⟩ := unset_resource_config_frame
    (pka_dev_unset_resource_config w (w.ring ring).shim (.of_ring ring .info_words))
    (w.ring ring).shim (.of_ring ring .counters)
  obtain ⟨k1, k2, k3, _, k5⟩ := unset_resource_config_frame
    (pka_dev_unset_resource_config
      (pka_dev_unset_resource_config w (w.ring ring).shim (.of_ring ring .info_words))
      (w.ring ring).shim (.of_ring ring .counters))
    (w.ring ring).shim (.of_ring ring .window_ram)
  simp only [pka_dev_release_ring, hring, h1, h2, h3, h4, if_false, k1, k2, k3, g1, g2, g3,
    f1, f2, f3, h5]
  refine ⟨_, rfl, rfl, rfl, rfl, ?_⟩
  simp only [k5, g5, f5]

/-- The defect of the loop of `pka_dev_release_shim`, for a shim with four
slots: with the bank holding the rings `r0 r1 r2 r3` (the first two in their
own slots 0 and 1, neither undefined nor busy), the call returns 0 and
finalizes the shim after releasing `r0` and `r1` only. -/
theorem release_shim_four (K : Consts) (w : World) (s r0 r1 r2 r3 : Nat)
    (hK : K.PKA_MAX_NUM_IO_BLOCK_RINGS = 4)
    (hst : (w.shim s).status = PKA_SHIM_STATUS_INITIALIZED ∨
      (w.shim s).status = PKA_SHIM_STATUS_STOPPED)
    (hcnt : w.pka_gbl_config.dev_rings_cnt ≠ 0) (hs0 : s ≠ 0)
    (hrings : (w.shim s).rings ≠ 0) (hnum : (w.shim s).rings_num = 4)
    (hbank : w.ring_bank (w.shim s).rings = [r0, r1, r2, r3])
    (h0 : r0 ≠ 0) (h1 : r1 ≠ 0) (h01 : r0 ≠ r1) (h20 : r2 ≠ r0) (h21 : r2 ≠ r1)
    (h30 : r3 ≠ r0) (h31 : r3 ≠ r1)
    (hr0 : (w.ring r0).status = PKA_DEV_RING_STATUS_INITIALIZED)
    (hr1 : (w.ring r1).status = PKA_DEV_RING_STATUS_INITIALIZED)
    (hsh0 : (w.ring r0).shim = s) (hsh1 : (w.ring r1).shim = s)
    (hid0 : (w.ring r0).ring_id % 4 = 0) (hid1 : (w.ring r1).ring_id % 4 = 1) :
    ∃ w1, pka_dev_release_shim K w s = some (0, w1) ∧
      (w1.shim s).status = PKA_SHIM_STATUS_FINALIZED ∧
      (w1.shim s).rings_num = 2 ∧
      w1.ring_bank (w.shim s).rings = [0, 0, r2, r3] ∧
      (w1.ring r0).status = PKA_DEV_RING_STATUS_UNDEFINED ∧
      (w1.ring r1).status = PKA_DEV_RING_STATUS_UNDEFINED ∧
      w1.ring r2 = w.ring r2 ∧ w1.ring r3 = w.ring r3 := by
  have hnr : (w.shim s).status ≠ PKA_SHIM_STATUS_RUNNING := by
    rcases hst with h | h <;> simp [h]
  have hgood : ¬ ((w.shim s).status ≠ PKA_SHIM_STATUS_INITIALIZED ∧
      (w.shim s).status ≠ PKA_SHIM_STATUS_STOPPED) := by
    rcases hst with h | h <;> simp [h]
  obtain ⟨wa, ea, ringa, banka, shima, _⟩ := release_ring_step K w r0 h0
    (by rw [hr0]; decide) (by rw [hr0]; decide) (by rw [hsh0]; exact hs0)
    (by rw [hsh0]; exact hnr) (by rw [hsh0]; exact hrings)
  rw [hsh0, hK, hid0, hbank] at banka
  rw [hsh0, hnum] at shima
  have was : wa.shim s = { w.shim s with rings_num := 3 } := by
    rw [shima, Function.update_same]
    rfl
  have war1 : wa.ring r1 = w.ring r1 := by
    rw [ringa, Function.update_noteq (Ne.symm h01)]
  have wab : wa.ring_bank (w.shim s).rings = [0, r1, r2, r3] := by
    rw [banka, Function.update_same]; rfl
  obtain ⟨wb, eb, ringb, bankb, shimb, _⟩ := release_ring_step K wa r1 h1
    (by rw [war1, hr1]; decide) (by rw [war1, hr1]; decide) (by rw [war1, hsh1]; exact hs0)
    (by rw [war1, hsh1, was]; exact hnr) (by rw [war1, hsh1, was]; exact hrings)
  rw [war1, hsh1, hK, hid1, was] at bankb
  rw [war1, hsh1, was] at shimb
  simp only [] at bankb shimb
  rw [wab] at bankb
  have wbs : wb.shim s = { w.shim s with rings_num := 2 } := by
    rw [shimb, Function.update_same]
    rfl
  have wbb : wb.ring_bank (w.shim s).rings = [0, 0, r2, r3] := by
    rw [bankb, Function.update_same]; rfl
  have loop : release_shim_rings K s 4 0 w = some (0, wb) := by
    show release_shim_rings K s (3 + 1) 0 w = some (0, wb)
    rw [release_shim_rings, if_pos (by rw [hnum]; exact (by decide : 0 < 4)), if_neg hrings, hbank]
    show and_then (pka_dev_release_ring K w r0) _ = _
    rw [ea, and_then_zero]
    show release_shim_rings K s (2 + 1) 1 wa = some (0, wb)
    rw [release_shim_rings, if_pos (by rw [was]; exact (by decide : 1 < 3)), was, if_neg hrings, wab]
    show and_then (pka_dev_release_ring K wa r1) _ = _
    rw [eb, and_then_zero]
    show release_shim_rings K s (1 + 1) 2 wb = some (0, wb)
    rw [release_shim_rings, if_neg (by rw [wbs]; exact (by decide : ¬ 2 < 2))]
  unfold pka_dev_release_shim
  rw [if_neg hgood, if_pos hcnt, hnum, loop, and_then_zero]
  refine ⟨_, rfl, ?_, ?_, ?_, ?_, ?_, ?_, ?_⟩
  · simp
  · simp [wbs]
  · exact wbb
  · show (wb.ring r0).status = _
    rw [ringb, Function.update_noteq h01, ringa, Function.update_same]
  · show (wb.ring r1).status = _
    rw [ringb, Function.update_same]
  · show wb.ring r2 = _
    rw [ringb, Function.update_noteq h21, ringa, Function.update_noteq h20]
  · show wb.ring r3 = _
    rw [ringb, Function.update_noteq h31, ringa, Function.update_noteq h30]

/-- C18, evaluation of the code: the shim of the scenario is initialized, its
four bank slots hold the four registered rings, none busy; `pka_dev_release_shim`
returns 0 and sets the status to finalized, but the loop bound `shim->rings_num`
shrinks with every released ring, so only slots 0 and 1 are visited: the rings
of slots 2 and 3 are still initialized and still in the bank. -/
theorem release_shim_skips_rings :
    (demo_rings4.shim 0x1000).status = PKA_SHIM_STATUS_INITIALIZED ∧
    demo_rings4.pka_gbl_config.dev_rings_cnt = 4 ∧
    demo_rings4.ring_bank (demo_rings4.shim 0x1000).rings =
      [0x35000, 0x37000, 0x39000, 0x3B000] ∧
    [0x35000, 0x37000, 0x39000, 0x3B000].map (fun r => (demo_rings4.ring r).status) =
      [PKA_DEV_RING_STATUS_INITIALIZED, PKA_DEV_RING_STATUS_INITIALIZED,
       PKA_DEV_RING_STATUS_INITIALIZED, PKA_DEV_RING_STATUS_INITIALIZED] ∧
    ∃ w1, pka_dev_release_shim demo_consts demo_rings4 0x1000 = some (0, w1) ∧
      (w1.shim 0x1000).status = PKA_SHIM_STATUS_FINALIZED ∧
      (w1.shim 0x1000).rings_num = 2 ∧
      w1.ring_bank (demo_rings4.shim 0x1000).rings = [0, 0, 0x39000, 0x3B000] ∧
      (w1.ring 0x35000).status = PKA_DEV_RING_STATUS_UNDEFINED ∧
      (w1.ring 0x37000).status = PKA_DEV_RING_STATUS_UNDEFINED ∧
      w1.ring 0x39000 = demo_rings4.ring 0x39000 ∧
      w1.ring 0x3B000 = demo_rings4.ring 0x3B000 :=
  ⟨by decide, by decide, by decide, by decide,
    release_shim_four demo_consts demo_rings4 0x1000 0x35000 0x37000 0x39000 0x3B000 rfl
      (Or.inl (by decide)) (by decide) (by decide) (by decide) (by decide) (by decide)
      (by decide) (by decide) (by decide) (by decide) (by decide) (by decide) (by decide)
      (by decide) (by decide) (by decide) (by decide) (by decide) (by decide)⟩

/-! ## C19 -/

/-- C19: `pka_dev_delete_shim` from finalized or created status returns 0,
leaves each of the five fixed resources with status unmapped (whatever the
resource table says about sharers) and sets the shim's status to undefined;
from initialized, running or stopped status it returns `-EPERM` and changes
nothing. -/
theorem delete_shim_contract (w : World) (shim : Nat) :
    ((w.shim shim).status = PKA_SHIM_STATUS_FINALIZED ∨
      (w.shim shim).status = PKA_SHIM_STATUS_CREATED →
      (pka_dev_delete_shim w shim).1 = 0 ∧
      (∀ f, ((pka_dev_delete_shim w shim).2.res (.of_shim shim f)).status =
        PKA_DEV_RES_STATUS_UNMAPPED) ∧
      ((pka_dev_delete_shim w shim).2.shim shim).status = PKA_SHIM_STATUS_UNDEFINED) ∧
    ((w.shim shim).status = PKA_SHIM_STATUS_INITIALIZED ∨
      (w.shim shim).status = PKA_SHIM_STATUS_RUNNING ∨
      (w.shim shim).status = PKA_SHIM_STATUS_STOPPED →
      pka_dev_delete_shim w shim = (-EPERM, w)) := by
  refine ⟨?_, ?_⟩
  · intro h
    have hu : (w.shim shim).status ≠ PKA_SHIM_STATUS_UNDEFINED := by
      rcases h with h | h <;> simp [h]
    have hc : ¬ ((w.shim shim).status ≠ PKA_SHIM_STATUS_FINALIZED ∧
        (w.shim shim).status ≠ PKA_SHIM_STATUS_CREATED) := by
      rcases h with h | h <;> simp [h]
    simp only [pka_dev_delete_shim, hu, hc, if_false, Function.update_same, true_and]
    refine ⟨?_, trivial⟩
    intro f
    cases f
    · rw [(unset_resource_config_res _ shim _).2 _ (by simp),
        (unset_resource_config_res _ shim _).2 _ (by simp),
        (unset_resource_config_res _ shim _).2 _ (by simp),
        (unset_resource_config_res _ shim _).2 _ (by simp)]
      exact (unset_resource_config_res _ shim _).1
    · rw [(unset_resource_config_res _ shim _).2 _ (by simp),
        (unset_resource_config_res _ shim _).2 _ (by simp),
        (unset_resource_config_res _ shim _).2 _ (by simp)]
      exact (unset_resource_config_res _ shim _).1
    · rw [(unset_resource_config_res _ shim _).2 _ (by simp),
        (unset_resource_config_res _ shim _).2 _ (by simp)]
      exact (unset_resource_config_res _ shim _).1
    · rw [(unset_resource_config_res _ shim _).2 _ (by simp)]
      exact (unset_resource_config_res _ shim _).1
    · exact (unset_resource_config_res _ shim _).1
  · intro h
    have hu : (w.shim shim).status ≠ PKA_SHIM_STATUS_UNDEFINED := by
      rcases h with h | h | h <;> simp [h]
    have hc : (w.shim shim).status ≠ PKA_SHIM_STATUS_FINALIZED ∧
        (w.shim shim).status ≠ PKA_SHIM_STATUS_CREATED := by
      rcases h with h | h | h <;> simp [h]
    unfold pka_dev_delete_shim
    rw [if_neg hu, if_pos hc]

/-- Witness of C19: the created shim at address 1 of the scenario is deleted,
and the initialized shim at `0x1000` is refused. -/
theorem delete_shim_contract_witness :
    ((pka_dev_delete_shim demo_created 1).1 = 0 ∧
      (∀ f, ((pka_dev_delete_shim demo_created 1).2.res (.of_shim 1 f)).status =
        PKA_DEV_RES_STATUS_UNMAPPED) ∧
      ((pka_dev_delete_shim demo_created 1).2.shim 1).status = PKA_SHIM_STATUS_UNDEFINED) ∧
    pka_dev_delete_shim demo_shim_world 0x1000 = (-EPERM, demo_shim_world) :=
  ⟨(delete_shim_contract demo_created 1).1 (Or.inr (by decide)),
   (delete_shim_contract demo_shim_world 0x1000).2 (Or.inl (by decide))⟩

/-! ## C20 -/

/-- C20: for every count that is not a multiple of `PKA_TRNG_OUTPUT_CNT`,
`pka_dev_trng_read` returns `-EINVAL` with the buffer and the state unchanged
(no register read or write is made and `trng_err_cycle` is not touched); for
count 0 and non-NULL `shim` and `data` it returns 0, again with the buffer and
the state unchanged. -/
theorem trng_read_count_check (K : Consts) (env : Env) (fuel : Nat) (w : World)
    (shim data_ptr : Nat) (data : Nat → Nat) (cnt : Nat) :
    (cnt % K.PKA_TRNG_OUTPUT_CNT ≠ 0 →
      pka_dev_trng_read K env fuel w shim data_ptr data cnt = some (-EINVAL, data, w)) ∧
    (cnt = 0 → shim ≠ 0 → data_ptr ≠ 0 →
      pka_dev_trng_read K env fuel w shim data_ptr data cnt = some (0, data, w)) := by
  refine ⟨?_, ?_⟩
  · intro h
    simp only [pka_dev_trng_read, h, ne_eq, not_false_eq_true, or_true, if_true]
  · intro h hs hd
    subst h
    simp only [pka_dev_trng_read, hs, hd, Nat.zero_mod, ne_eq, not_true_eq_false, or_self,
      if_false, if_true]

/-- Witness of C20: with four output registers, count 6 is refused and count 0
returns at once, on the registered shim of the scenario. -/
theorem trng_read_count_check_witness :
    pka_dev_trng_read demo_consts demo_env 8 demo_shim_world 0x1000 0x9000 (fun _ => 0) 6 =
      some (-EINVAL, fun _ => 0, demo_shim_world) ∧
    pka_dev_trng_read demo_consts demo_env 8 demo_shim_world 0x1000 0x9000 (fun _ => 0) 0 =
      some (0, fun _ => 0, demo_shim_world) :=
  ⟨(trng_read_count_check demo_consts demo_env 8 demo_shim_world 0x1000 0x9000 (fun _ => 0)
      6).1 (by decide),
   (trng_read_count_check demo_consts demo_env 8 demo_shim_world 0x1000 0x9000 (fun _ => 0)
      0).2 rfl (by decide) (by decide)⟩

/-! ## Frame lemmas for the MMIO helpers -/

@[simp] theorem io_write_shim (w : World) (a o v : Nat) :
    (pka_dev_io_write w a o v).shim = w.shim := rfl

@[simp] theorem io_write_res (w : World) (a o v : Nat) :
    (pka_dev_io_write w a o v).res = w.res := rfl

@[simp] theorem io_write_trace (w : World) (a o v : Nat) :
    (pka_dev_io_write w a o v).trace = w.trace ++ [Event.pka_mmio_write (a + o) v] := rfl

@[simp] theorem io_read_shim (env : Env) (w : World) (a o : Nat) :
    (pka_dev_io_read env w a o).2.shim = w.shim := rfl

@[simp] theorem io_read_res (env : Env) (w : World) (a o : Nat) :
    (pka_dev_io_read env w a o).2.res = w.res := rfl

@[simp] theorem io_read_trace (env : Env) (w : World) (a o : Nat) :
    (pka_dev_io_read env w a o).2.trace =
      w.trace ++ [Event.pka_mmio_read (a + o) (pka_dev_io_read env w a o).1] := rfl

theorem writes_at_append (a : Nat) (l1 l2 : List Event) :
    writes_at a (l1 ++ l2) = writes_at a l1 ++ writes_at a l2 := by
  simp [writes_at, List.filter_append]

@[simp] theorem writes_at_io_read (env : Env) (w : World) (a o c : Nat) :
    writes_at c (pka_dev_io_read env w a o).2.trace = writes_at c w.trace := by
  simp [writes_at_append, writes_at]

theorem writes_at_io_write_ne (w : World) (a o v c : Nat) (h : o ≠ c) :
    writes_at (a + c) (pka_dev_io_write w a o v).trace = writes_at (a + c) w.trace := by
  simp [writes_at_append, writes_at, h]

@[simp] theorem writes_at_io_write_eq (w : World) (a o v : Nat) :
    writes_at (a + o) (pka_dev_io_write w a o v).trace =
      writes_at (a + o) w.trace ++ [Event.pka_mmio_write (a + o) v] := by
  simp [writes_at_append, writes_at]

/-! ## C21 -/

/-- The re-enabling of the FROs and the reset of the error do not touch the
shim, the resources or the control register. -/
theorem trng_reenable_fros_frame (K : Consts) (env : Env) (w : World) (p : res_ptr_t) (m : Nat)
    (h1 : pka_dev_get_register_offset K (w.res p).base K.TRNG_FRODETUNE_ADDR ≠
      pka_dev_get_register_offset K (w.res p).base K.TRNG_CONTROL_ADDR)
    (h2 : pka_dev_get_register_offset K (w.res p).base K.TRNG_FROENABLE_ADDR ≠
      pka_dev_get_register_offset K (w.res p).base K.TRNG_CONTROL_ADDR) :
    (trng_reenable_fros K env w p m).shim = w.shim ∧
    (trng_reenable_fros K env w p m).res = w.res ∧
    writes_at ((w.res p).ioaddr + pka_dev_get_register_offset K (w.res p).base K.TRNG_CONTROL_ADDR)
      (trng_reenable_fros K env w p m).trace =
    writes_at ((w.res p).ioaddr + pka_dev_get_register_offset K (w.res p).base K.TRNG_CONTROL_ADDR)
      w.trace := by
  unfold trng_reenable_fros
  refine ⟨rfl, rfl, ?_⟩
  simp only []
  rw [writes_at_io_write_ne _ _ _ _ _ h2, writes_at_io_write_ne _ _ _ _ _ h1, writes_at_io_read]

/-- The function `pka_dev_trng_shutdown_oflo` in terms of its blocks. -/
theorem trng_shutdown_oflo_blocks (K : Consts) (env : Env) (w : World) (p : res_ptr_t)
    (shim : Nat) :
    pka_dev_trng_shutdown_oflo K env w p shim =
      if (pka_dev_io_read env w (w.res p).ioaddr
          (pka_dev_get_register_offset K (w.res p).base K.TRNG_STATUS_ADDR)).1 &&&
          K.PKA_TRNG_STATUS_SHUTDOWN_OFLO = 0 then
        (true, (pka_dev_io_read env w (w.res p).ioaddr
          (pka_dev_get_register_offset K (w.res p).base K.TRNG_STATUS_ADDR)).2)
      else if ((oflo_reset_error K env
            (oflo_cycle_read env (pka_dev_io_read env w (w.res p).ioaddr
              (pka_dev_get_register_offset K (w.res p).base K.TRNG_STATUS_ADDR)).2).2 p (w.res p)).shim
              shim).trng_err_cycle ≠ 0 ∧
          ((oflo_cycle_read env (pka_dev_io_read env w (w.res p).ioaddr
              (pka_dev_get_register_offset K (w.res p).base K.TRNG_STATUS_ADDR)).2).1 +
            (2 ^ 64 - ((oflo_reset_error K env
              (oflo_cycle_read env (pka_dev_io_read env w (w.res p).ioaddr
                (pka_dev_get_register_offset K (w.res p).base K.TRNG_STATUS_ADDR)).2).2 p (w.res p)).shim
                shim).trng_err_cycle)) % 2 ^ 64 < 1000000000 then
        (false, oflo_disable K env
          (oflo_reset_error K env
            (oflo_cycle_read env (pka_dev_io_read env w (w.res p).ioaddr
              (pka_dev_get_register_offset K (w.res p).base K.TRNG_STATUS_ADDR)).2).2 p (w.res p)) (w.res p))
      else
        (true, { oflo_reset_error K env
            (oflo_cycle_read env (pka_dev_io_read env w (w.res p).ioaddr
              (pka_dev_get_register_offset K (w.res p).base K.TRNG_STATUS_ADDR)).2).2 p (w.res p) with
          shim := Function.update (oflo_reset_error K env
              (oflo_cycle_read env (pka_dev_io_read env w (w.res p).ioaddr
                (pka_dev_get_register_offset K (w.res p).base K.TRNG_STATUS_ADDR)).2).2 p (w.res p)).shim
            shim
            { (oflo_reset_error K env
                (oflo_cycle_read env (pka_dev_io_read env w (w.res p).ioaddr
                  (pka_dev_get_register_offset K (w.res p).base K.TRNG_STATUS_ADDR)).2).2 p (w.res p)).shim
                shim with
              trng_err_cycle :=
                (oflo_cycle_read env (pka_dev_io_read env w (w.res p).ioaddr
                  (pka_dev_get_register_offset K (w.res p).base
                    K.TRNG_STATUS_ADDR)).2).1 } }) := rfl

/-- The reset of the error touches neither the shim nor the resources nor
the control register. -/
theorem oflo_reset_error_frame (K : Consts) (env : Env) (w : World) (p : res_ptr_t)
    (r : pka_dev_res_t) (hr : w.res p = r) (hap : trng_control_apart K r.base) :
    (oflo_reset_error K env w p r).shim = w.shim ∧
    (oflo_reset_error K env w p r).res = w.res ∧
    writes_at (r.ioaddr + pka_dev_get_register_offset K r.base K.TRNG_CONTROL_ADDR)
      (oflo_reset_error K env w p r).trace =
    writes_at (r.ioaddr + pka_dev_get_register_offset K r.base K.TRNG_CONTROL_ADDR) w.trace := by
  subst hr
  obtain ⟨a1, a2, a3, a4, a5⟩ := hap
  unfold oflo_reset_error
  simp only []
  by_cases hst : (pka_dev_io_read env w (w.res p).ioaddr
      (pka_dev_get_register_offset K (w.res p).base K.TRNG_ALARMSTOP_ADDR)).1 = 0
  · simp only [hst, ne_eq, not_true_eq_false, if_false, io_write_shim, io_write_res,
      io_read_shim, io_read_res, true_and]
    rw [writes_at_io_write_ne _ _ _ _ _ a5, writes_at_io_write_ne _ _ _ _ _ a4,
      writes_at_io_write_ne _ _ _ _ _ a3, writes_at_io_read]
  · obtain ⟨f1, f2, f3⟩ := trng_reenable_fros_frame K env
      (pka_dev_io_read env w (w.res p).ioaddr
        (pka_dev_get_register_offset K (w.res p).base K.TRNG_ALARMSTOP_ADDR)).2 p
      (pka_dev_io_read env w (w.res p).ioaddr
        (pka_dev_get_register_offset K (w.res p).base K.TRNG_ALARMSTOP_ADDR)).1 a1 a2
    simp only [hst, ne_eq, not_false_eq_true, if_true, io_write_shim, io_write_res, f1, f2,
      io_read_shim, io_read_res, true_and]
    rw [writes_at_io_write_ne _ _ _ _ _ a5, writes_at_io_write_ne _ _ _ _ _ a4,
      writes_at_io_write_ne _ _ _ _ _ a3]
    simp only [io_read_res] at f3
    rw [f3, writes_at_io_read]

/-- What the disabling block does. -/
theorem oflo_disable_frame (K : Consts) (env : Env) (w : World) (r : pka_dev_res_t) :
    (oflo_disable K env w r).shim = w.shim ∧
    (oflo_disable K env w r).res = w.res ∧
    writes_at (r.ioaddr + pka_dev_get_register_offset K r.base K.TRNG_CONTROL_ADDR)
      (oflo_disable K env w r).trace =
    writes_at (r.ioaddr + pka_dev_get_register_offset K r.base K.TRNG_CONTROL_ADDR) w.trace ++
      [Event.pka_mmio_write
        (r.ioaddr + pka_dev_get_register_offset K r.base K.TRNG_CONTROL_ADDR)
        ((pka_dev_io_read env w r.ioaddr
          (pka_dev_get_register_offset K r.base K.TRNG_CONTROL_ADDR)).1 &&&
          (2 ^ 64 - 1 - K.PKA_TRNG_CONTROL_REG_VAL))] := by
  unfold oflo_disable
  refine ⟨rfl, rfl, ?_⟩
  simp only []
  rw [writes_at_io_write_eq, writes_at_io_read]

/-- A flagged overflow check that finds no recorded fault, or a recorded fault
outside the window: the fault time is recorded, the control register is not
written and the check reports success. -/
theorem trng_oflo_record (K : Consts) (env : Env) (w : World) (p : res_ptr_t) (shim t : Nat)
    (hs : (pka_dev_io_read env w (w.res p).ioaddr
      (pka_dev_get_register_offset K (w.res p).base K.TRNG_STATUS_ADDR)).1 &&&
        K.PKA_TRNG_STATUS_SHUTDOWN_OFLO ≠ 0)
    (ht : env.get_cycles (pka_dev_io_read env w (w.res p).ioaddr
      (pka_dev_get_register_offset K (w.res p).base K.TRNG_STATUS_ADDR)).2.trace % 2 ^ 64 = t)
    (he : (w.shim shim).trng_err_cycle = 0 ∨
      ¬ ((t + (2 ^ 64 - (w.shim shim).trng_err_cycle)) % 2 ^ 64 < 1000000000))
    (hap : trng_control_apart K (w.res p).base) :
    (pka_dev_trng_shutdown_oflo K env w p shim).1 = true ∧
    (pka_dev_trng_shutdown_oflo K env w p shim).2.res = w.res ∧
    (pka_dev_trng_shutdown_oflo K env w p shim).2.shim =
      Function.update w.shim shim { w.shim shim with trng_err_cycle := t } ∧
    writes_at ((w.res p).ioaddr + pka_dev_get_register_offset K (w.res p).base K.TRNG_CONTROL_ADDR)
      (pka_dev_trng_shutdown_oflo K env w p shim).2.trace =
    writes_at ((w.res p).ioaddr + pka_dev_get_register_offset K (w.res p).base K.TRNG_CONTROL_ADDR)
      w.trace := by
  obtain ⟨f1, f2, f3⟩ := oflo_reset_error_frame K env
    (oflo_cycle_read env (pka_dev_io_read env w (w.res p).ioaddr
      (pka_dev_get_register_offset K (w.res p).base K.TRNG_STATUS_ADDR)).2).2 p (w.res p) rfl hap
  have ht2 : (oflo_cycle_read env (pka_dev_io_read env w (w.res p).ioaddr
      (pka_dev_get_register_offset K (w.res p).base K.TRNG_STATUS_ADDR)).2).1 = t := ht
  have hc : ¬ ((w.shim shim).trng_err_cycle ≠ 0 ∧
      (t + (2 ^ 64 - (w.shim shim).trng_err_cycle)) % 2 ^ 64 < 1000000000) := by
    rintro ⟨h1, h2⟩
    rcases he with h | h
    · exact h1 h
    · exact h h2
  rw [trng_shutdown_oflo_blocks, if_neg hs]
  change (oflo_reset_error K env _ p (w.res p)).shim = w.shim at f1
  change (oflo_reset_error K env _ p (w.res p)).res = w.res at f2
  change writes_at _ (oflo_reset_error K env _ p (w.res p)).trace = writes_at _
    (w.trace ++ [Event.pka_mmio_read _ _] ++ [Event.get_cycles _]) at f3
  rw [f1, ht2, if_neg hc]
  refine ⟨rfl, f2, rfl, ?_⟩
  show writes_at _ (oflo_reset_error K env _ p (w.res p)).trace = _
  rw [f3, writes_at_append, writes_at_append]
  simp [writes_at]

/-- A flagged overflow check that finds a recorded fault within the window:
the control register is read and written back with the bits of
`PKA_TRNG_CONTROL_REG_VAL` cleared, and the check reports failure. -/
theorem trng_oflo_again (K : Consts) (env : Env) (w : World) (p : res_ptr_t) (shim t : Nat)
    (hs : (pka_dev_io_read env w (w.res p).ioaddr
      (pka_dev_get_register_offset K (w.res p).base K.TRNG_STATUS_ADDR)).1 &&&
        K.PKA_TRNG_STATUS_SHUTDOWN_OFLO ≠ 0)
    (ht : env.get_cycles (pka_dev_io_read env w (w.res p).ioaddr
      (pka_dev_get_register_offset K (w.res p).base K.TRNG_STATUS_ADDR)).2.trace % 2 ^ 64 = t)
    (he : (w.shim shim).trng_err_cycle ≠ 0 ∧
      (t + (2 ^ 64 - (w.shim shim).trng_err_cycle)) % 2 ^ 64 < 1000000000)
    (hap : trng_control_apart K (w.res p).base) :
    (pka_dev_trng_shutdown_oflo K env w p shim).1 = false ∧
    (pka_dev_trng_shutdown_oflo K env w p shim).2.shim = w.shim ∧
    ∃ v, writes_at
        ((w.res p).ioaddr + pka_dev_get_register_offset K (w.res p).base K.TRNG_CONTROL_ADDR)
        (pka_dev_trng_shutdown_oflo K env w p shim).2.trace =
      writes_at
        ((w.res p).ioaddr + pka_dev_get_register_offset K (w.res p).base K.TRNG_CONTROL_ADDR)
        w.trace ++
      [Event.pka_mmio_write
        ((w.res p).ioaddr + pka_dev_get_register_offset K (w.res p).base K.TRNG_CONTROL_ADDR)
        (v &&& (2 ^ 64 - 1 - K.PKA_TRNG_CONTROL_REG_VAL))] := by
  obtain ⟨f1, f2, f3⟩ := oflo_reset_error_frame K env
    (oflo_cycle_read env (pka_dev_io_read env w (w.res p).ioaddr
      (pka_dev_get_register_offset K (w.res p).base K.TRNG_STATUS_ADDR)).2).2 p (w.res p) rfl hap
  have ht2 : (oflo_cycle_read env (pka_dev_io_read env w (w.res p).ioaddr
      (pka_dev_get_register_offset K (w.res p).base K.TRNG_STATUS_ADDR)).2).1 = t := ht
  rw [trng_shutdown_oflo_blocks, if_neg hs]
  change (oflo_reset_error K env _ p (w.res p)).shim = w.shim at f1
  change writes_at _ (oflo_reset_error K env _ p (w.res p)).trace = writes_at _
    (w.trace ++ [Event.pka_mmio_read _ _] ++ [Event.get_cycles _]) at f3
  rw [f1, ht2, if_pos he]
  obtain ⟨g1, g2, g3⟩ := oflo_disable_frame K env
    (oflo_reset_error K env
      (oflo_cycle_read env (pka_dev_io_read env w (w.res p).ioaddr
        (pka_dev_get_register_offset K (w.res p).base K.TRNG_STATUS_ADDR)).2).2 p (w.res p))
    (w.res p)
  refine ⟨rfl, ?_, (pka_dev_io_read env
    (oflo_reset_error K env
      (oflo_cycle_read env (pka_dev_io_read env w (w.res p).ioaddr
        (pka_dev_get_register_offset K (w.res p).base K.TRNG_STATUS_ADDR)).2).2 p (w.res p))
    (w.res p).ioaddr (pka_dev_get_register_offset K (w.res p).base K.TRNG_CONTROL_ADDR)).1, ?_⟩
  · show (oflo_disable K env _ (w.res p)).shim = w.shim
    rw [g1, f1]
  · show writes_at _ (oflo_disable K env _ (w.res p)).trace = _
    rw [g3, f3, writes_at_append, writes_at_append]
    simp [writes_at]

/-- C21, counterexample: the first flagged check reads the cycle counter at 0
and the second at 5, with no fault recorded before.  The first check stores 0
as the fault time, which is also the value for no fault recorded, so the second
check reports success, does not write the control register at `0x90000028`, and
`pka_dev_trng_read` returns 0 instead of `-EWOULDBLOCK`. -/
theorem trng_fault_at_cycle_zero :
    (demo_trng_world.shim 1).trng_err_cycle = 0 ∧
    (demo_oflo1 0 5).1 = true ∧
    ((demo_oflo1 0 5).2.shim 1).trng_err_cycle = 0 ∧
    (demo_oflo2 0 5).1 = true ∧
    writes_at 0x90000028 (demo_oflo2 0 5).2.trace = [] ∧
    (demo_oflo2 0 5).2.trace.filter
        (fun e => match e with
          | Event.get_cycles _ => true
          | Event.pka_mmio_read 0x90000020 _ => true
          | _ => false) =
      [Event.pka_mmio_read 0x90000020 3, Event.get_cycles 0,
       Event.pka_mmio_read 0x90000020 3, Event.get_cycles 5] ∧
    (pka_dev_trng_read demo_consts (oflo_env 0 5) 4 (demo_oflo1 0 5).2 1 0x9000 (fun _ => 0)
      4).map (fun x => x.1) = some 0 := by
  refine ⟨by decide, by decide, by decide, by decide, by decide, by decide, by decide⟩

/-- C21, amended: two consecutive overflow checks on the shim `shim`, the
first from a state with no fault recorded, both reading the shutdown-overflow
bit in the status register, with cycle-counter readings `t1` and `t2`.  The
first check records `t1` as the fault time, does not write the control register
and reports success.  If `t1` is not 0, `t1 <= t2` and `t2 - t1 < 10 ^ 9`, the
second check writes the control register once, with the bits of
`PKA_TRNG_CONTROL_REG_VAL` cleared in the value it read there, and reports
failure, so that `pka_dev_trng_read` (non-zero count, a multiple of
`PKA_TRNG_OUTPUT_CNT`, register block mapped) making that second check returns
`-EWOULDBLOCK`. -/
theorem trng_fault_window (K : Consts) (env : Env) (w : World) (shim t1 t2 fuel data_ptr : Nat)
    (data : Nat → Nat) (cnt : Nat)
    (he : (w.shim shim).trng_err_cycle = 0)
    (hs1 : (pka_dev_io_read env w (w.res (.of_shim shim .trng_csr)).ioaddr
      (pka_dev_get_register_offset K (w.res (.of_shim shim .trng_csr)).base
        K.TRNG_STATUS_ADDR)).1 &&& K.PKA_TRNG_STATUS_SHUTDOWN_OFLO ≠ 0)
    (hc1 : env.get_cycles (pka_dev_io_read env w (w.res (.of_shim shim .trng_csr)).ioaddr
      (pka_dev_get_register_offset K (w.res (.of_shim shim .trng_csr)).base
        K.TRNG_STATUS_ADDR)).2.trace % 2 ^ 64 = t1)
    (hs2 : (pka_dev_io_read env
      (pka_dev_trng_shutdown_oflo K env w (.of_shim shim .trng_csr) shim).2
      (w.res (.of_shim shim .trng_csr)).ioaddr
      (pka_dev_get_register_offset K (w.res (.of_shim shim .trng_csr)).base
        K.TRNG_STATUS_ADDR)).1 &&& K.PKA_TRNG_STATUS_SHUTDOWN_OFLO ≠ 0)
    (hc2 : env.get_cycles (pka_dev_io_read env
      (pka_dev_trng_shutdown_oflo K env w (.of_shim shim .trng_csr) shim).2
      (w.res (.of_shim shim .trng_csr)).ioaddr
      (pka_dev_get_register_offset K (w.res (.of_shim shim .trng_csr)).base
        K.TRNG_STATUS_ADDR)).2.trace % 2 ^ 64 = t2)
    (hap : trng_control_apart K (w.res (.of_shim shim .trng_csr)).base) :
    ((pka_dev_trng_shutdown_oflo K env w (.of_shim shim .trng_csr) shim).1 = true ∧
      ((pka_dev_trng_shutdown_oflo K env w (.of_shim shim .trng_csr) shim).2.shim
        shim).trng_err_cycle = t1 ∧
      writes_at ((w.res (.of_shim shim .trng_csr)).ioaddr +
          pka_dev_get_register_offset K (w.res (.of_shim shim .trng_csr)).base
            K.TRNG_CONTROL_ADDR)
        (pka_dev_trng_shutdown_oflo K env w (.of_shim shim .trng_csr) shim).2.trace =
      writes_at ((w.res (.of_shim shim .trng_csr)).ioaddr +
          pka_dev_get_register_offset K (w.res (.of_shim shim .trng_csr)).base
            K.TRNG_CONTROL_ADDR) w.trace) ∧
    (0 < t1 → t1 ≤ t2 → t2 - t1 < 1000000000 →
      (pka_dev_trng_shutdown_oflo K env
        (pka_dev_trng_shutdown_oflo K env w (.of_shim shim .trng_csr) shim).2
        (.of_shim shim .trng_csr) shim).1 = false ∧
      (∃ v, writes_at ((w.res (.of_shim shim .trng_csr)).ioaddr +
            pka_dev_get_register_offset K (w.res (.of_shim shim .trng_csr)).base
              K.TRNG_CONTROL_ADDR)
          (pka_dev_trng_shutdown_oflo K env
            (pka_dev_trng_shutdown_oflo K env w (.of_shim shim .trng_csr) shim).2
            (.of_shim shim .trng_csr) shim).2.trace =
        writes_at ((w.res (.of_shim shim .trng_csr)).ioaddr +
            pka_dev_get_register_offset K (w.res (.of_shim shim .trng_csr)).base
              K.TRNG_CONTROL_ADDR) w.trace ++
          [Event.pka_mmio_write
            ((w.res (.of_shim shim .trng_csr)).ioaddr +
              pka_dev_get_register_offset K (w.res (.of_shim shim .trng_csr)).base
                K.TRNG_CONTROL_ADDR)
            (v &&& (2 ^ 64 - 1 - K.PKA_TRNG_CONTROL_REG_VAL))]) ∧
      (shim ≠ 0 → data_ptr ≠ 0 → cnt ≠ 0 → cnt % K.PKA_TRNG_OUTPUT_CNT = 0 →
        (w.res (.of_shim shim .trng_csr)).status = PKA_DEV_RES_STATUS_MAPPED →
        (w.res (.of_shim shim .trng_csr)).type = PKA_DEV_RES_TYPE_REG →
        pka_dev_trng_read K env fuel
          (pka_dev_trng_shutdown_oflo K env w (.of_shim shim .trng_csr) shim).2
          shim data_ptr data cnt =
        some (-EWOULDBLOCK, data,
          (pka_dev_trng_shutdown_oflo K env
            (pka_dev_trng_shutdown_oflo K env w (.of_shim shim .trng_csr) shim).2
            (.of_shim shim .trng_csr) shim).2))) := by
  obtain ⟨a1, a2, a3, a4⟩ := trng_oflo_record K env w (.of_shim shim .trng_csr) shim t1 hs1 hc1
    (Or.inl he) hap
  have herr : ((pka_dev_trng_shutdown_oflo K env w (.of_shim shim .trng_csr) shim).2.shim
      shim).trng_err_cycle = t1 := by
    rw [a3, Function.update_same]
  refine ⟨⟨a1, herr, a4⟩, ?_⟩
  intro h0 h12 hwin
  have ht1 : t1 < 2 ^ 64 := by rw [← hc1]; exact Nat.mod_lt _ (by decide)
  have ht2 : t2 < 2 ^ 64 := by rw [← hc2]; exact Nat.mod_lt _ (by decide)
  have hw : (t2 + (2 ^ 64 - t1)) % 2 ^ 64 < 1000000000 := by omega
  obtain ⟨b1, _, v, b3⟩ := trng_oflo_again K env
    (pka_dev_trng_shutdown_oflo K env w (.of_shim shim .trng_csr) shim).2
    (.of_shim shim .trng_csr) shim t2 (by rw [a2]; exact hs2) (by rw [a2]; exact hc2)
    (by rw [herr]; exact ⟨by omega, hw⟩) (by rw [a2]; exact hap)
  rw [a2, a4] at b3
  refine ⟨b1, ⟨v, b3⟩, ?_⟩
  intro hshim hdata hcnt hmul hm hty
  have hcond : ¬ (shim = 0 ∨ data_ptr = 0 ∨ cnt % K.PKA_TRNG_OUTPUT_CNT ≠ 0) := by
    simp [hshim, hdata, hmul]
  unfold pka_dev_trng_read
  rw [if_neg hcond, if_neg hcnt]
  simp only [a2, hm, hty, ne_eq, not_true_eq_false, or_self, if_false, b1, if_true]

/-- Witness of C21 (amended): the scenario with counter readings 7 and 9. -/
theorem trng_fault_window_witness :
    ((demo_oflo1 7 9).1 = true ∧ ((demo_oflo1 7 9).2.shim 1).trng_err_cycle = 7 ∧
      writes_at 0x90000028 (demo_oflo1 7 9).2.trace = writes_at 0x90000028 demo_trng_world.trace) ∧
    (demo_oflo2 7 9).1 = false ∧
    (∃ v, writes_at 0x90000028 (demo_oflo2 7 9).2.trace =
      writes_at 0x90000028 demo_trng_world.trace ++
        [Event.pka_mmio_write 0x90000028 (v &&& (2 ^ 64 - 1 - 0x1400))]) ∧
    pka_dev_trng_read demo_consts (oflo_env 7 9) 4 (demo_oflo1 7 9).2 1 0x9000 (fun _ => 0) 4 =
      some (-EWOULDBLOCK, fun _ => 0, (demo_oflo2 7 9).2) :=
  have h := trng_fault_window demo_consts (oflo_env 7 9) demo_trng_world 1 7 9 4 0x9000
    (fun _ => 0) 4 (by decide) (by decide) (by decide) (by decide) (by decide) (by decide)
  have h2 := h.2 (by decide) (by decide) (by decide)
  ⟨h.1, h2.1, h2.2.1,
    h2.2.2 (by decide) (by decide) (by decide) (by decide) (by decide) (by decide)⟩

/-! ## C22 -/

theorem shiftLeft_and_shiftLeft (a b i : Nat) : (a <<< i) &&& (b <<< i) = (a &&& b) <<< i := by
  apply Nat.eq_of_testBit_eq
  intro j
  simp only [Nat.testBit_and, Nat.testBit_shiftLeft]
  cases decide (j ≥ i) <;> simp

/-- The ring-options word as a sum of its three bytes. -/
theorem ring_options_word_eq (p x s : Nat) (hp : p < 256) (hx : x < 256) (hs : s < 256) :
    (p &&& 0xff) ||| (((x <<< 8) % 2 ^ 32) &&& 0xff00) ||| ((s <<< 24) &&& 0xff000000) =
      2 ^ 24 * s + (2 ^ 8 * x + p) := by
  have e1 : p &&& 0xff = p := by
    have := Nat.and_pow_two_sub_one_eq_mod p 8
    norm_num at this
    rw [this]; omega
  have e2 : ((x <<< 8) % 2 ^ 32) &&& 0xff00 = 2 ^ 8 * x := by
    have h1 : (x <<< 8) % 2 ^ 32 = x <<< 8 := by
      rw [Nat.shiftLeft_eq]; omega
    have h2 : (0xff00 : Nat) = 0xff <<< 8 := by decide
    have h3 : x &&& 0xff = x := by
      have := Nat.and_pow_two_sub_one_eq_mod x 8
      norm_num at this
      rw [this]; omega
    rw [h1, h2, shiftLeft_and_shiftLeft, h3, Nat.shiftLeft_eq, Nat.mul_comm]
  have e3 : (s <<< 24) &&& 0xff000000 = 2 ^ 24 * s := by
    have h2 : (0xff000000 : Nat) = 0xff <<< 24 := by decide
    have h3 : s &&& 0xff = s := by
      have := Nat.and_pow_two_sub_one_eq_mod s 8
      norm_num at this
      rw [this]; omega
    rw [h2, shiftLeft_and_shiftLeft, h3, Nat.shiftLeft_eq, Nat.mul_comm]
  rw [e1, e2, e3, Nat.or_comm p, ← Nat.mul_add_lt_is_or (by omega) x, Nat.or_comm,
    ← Nat.mul_add_lt_is_or (by omega) s]

/-- C22: with the buffer RAM mapped as memory, an 8-bit ring priority `p`, a
ring count `n` with `1 <= n <= PKA_MAX_NUM_RINGS` (at most 256 rings, so that
`n - 1` is a byte) and a signature constant that is a byte,
`pka_dev_config_ring_options` returns 0 and makes one write, at the word offset
of `PKA_RING_OPTIONS_ADDR` in the buffer RAM, of a word whose byte 0 is `p`,
byte 1 is `n - 1`, byte 2 is 0, byte 3 is the signature byte, and whose higher
bits are 0; for `n = 0` or `n` above `PKA_MAX_NUM_RINGS` it returns `-EINVAL`
and the state (so the history of writes) is unchanged. -/
theorem ring_options_word_bytes (K : Consts) (w : World) (buffer_ram_ptr : res_ptr_t)
    (n p : Nat)
    (hm : (w.res buffer_ram_ptr).status = PKA_DEV_RES_STATUS_MAPPED)
    (ht : (w.res buffer_ram_ptr).type = PKA_DEV_RES_TYPE_MEM) :
    (p < 256 → 1 ≤ n → n ≤ K.PKA_MAX_NUM_RINGS → K.PKA_MAX_NUM_RINGS ≤ 256 →
      K.PKA_RING_OPTIONS_SIGNATURE_BYTE < 256 →
      ∃ word, pka_dev_config_ring_options K w buffer_ram_ptr n p =
          (0, { w with trace := w.trace ++
            [Event.pka_mmio_write
              ((w.res buffer_ram_ptr).ioaddr +
                pka_dev_get_word_offset (w.res buffer_ram_ptr).base K.PKA_RING_OPTIONS_ADDR
                  K.PKA_BUFFER_RAM_SIZE) word] }) ∧
        word &&& 0xff = p ∧
        (word >>> 8) &&& 0xff = n - 1 ∧
        (word >>> 16) &&& 0xff = 0 ∧
        (word >>> 24) &&& 0xff = K.PKA_RING_OPTIONS_SIGNATURE_BYTE ∧
        word >>> 32 = 0) ∧
    (n = 0 ∨ K.PKA_MAX_NUM_RINGS < n →
      pka_dev_config_ring_options K w buffer_ram_ptr n p = (-EINVAL, w)) := by
  have hc : ¬ ((w.res buffer_ram_ptr).status ≠ PKA_DEV_RES_STATUS_MAPPED ∨
      (w.res buffer_ram_ptr).type ≠ PKA_DEV_RES_TYPE_MEM) := by
    simp [hm, ht]
  refine ⟨?_, ?_⟩
  · intro hp h1 hn hmax hsig
    have hr : ¬ (n > K.PKA_MAX_NUM_RINGS ∨ n < 1) := by omega
    refine ⟨2 ^ 24 * K.PKA_RING_OPTIONS_SIGNATURE_BYTE + (2 ^ 8 * (n - 1) + p), ?_, ?_⟩
    · unfold pka_dev_config_ring_options
      simp only []
      rw [if_neg hc, if_neg hr, ring_options_word_eq p (n - 1) _ hp (by omega) hsig]
      rfl
    · have b0 := Nat.and_pow_two_sub_one_eq_mod
        (2 ^ 24 * K.PKA_RING_OPTIONS_SIGNATURE_BYTE + (2 ^ 8 * (n - 1) + p)) 8
      have b1 := Nat.and_pow_two_sub_one_eq_mod
        ((2 ^ 24 * K.PKA_RING_OPTIONS_SIGNATURE_BYTE + (2 ^ 8 * (n - 1) + p)) >>> 8) 8
      have b2 := Nat.and_pow_two_sub_one_eq_mod
        ((2 ^ 24 * K.PKA_RING_OPTIONS_SIGNATURE_BYTE + (2 ^ 8 * (n - 1) + p)) >>> 16) 8
      have b3 := Nat.and_pow_two_sub_one_eq_mod
        ((2 ^ 24 * K.PKA_RING_OPTIONS_SIGNATURE_BYTE + (2 ^ 8 * (n - 1) + p)) >>> 24) 8
      norm_num at b0 b1 b2 b3
      norm_num
      rw [b0, b1, b2, b3]
      simp only [Nat.shiftRight_eq_div_pow]
      refine ⟨by omega, by omega, by omega, by omega, by omega⟩
  · intro h
    have hr : n > K.PKA_MAX_NUM_RINGS ∨ n < 1 := by omega
    unfold pka_dev_config_ring_options
    simp only []
    rw [if_neg hc, if_pos hr]

/-- Witness of C22: priority 5 and 4 rings on the created shim of the scenario
(signature byte `0x46`). -/
theorem ring_options_word_bytes_witness :
    (∃ word, pka_dev_config_ring_options demo_consts demo_created (.of_shim 1 .buffer_ram) 4 5 =
        (0, { demo_created with trace := demo_created.trace ++
          [Event.pka_mmio_write
            ((demo_created.res (.of_shim 1 .buffer_ram)).ioaddr +
              pka_dev_get_word_offset (demo_created.res (.of_shim 1 .buffer_ram)).base 0x07FF8
                0x4000) word] }) ∧
      word &&& 0xff = 5 ∧ (word >>> 8) &&& 0xff = 4 - 1 ∧ (word >>> 16) &&& 0xff = 0 ∧
      (word >>> 24) &&& 0xff = 0x46 ∧ word >>> 32 = 0) ∧
    pka_dev_config_ring_options demo_consts demo_created (.of_shim 1 .buffer_ram) 33 5 =
      (-EINVAL, demo_created) :=
  ⟨(ring_options_word_bytes demo_consts demo_created (.of_shim 1 .buffer_ram) 4 5 (by decide)
      (by decide)).1 (by decide) (by decide) (by decide) (by decide) (by decide),
   (ring_options_word_bytes demo_consts demo_created (.of_shim 1 .buffer_ram) 33 5 (by decide)
      (by decide)).2 (Or.inr (by decide))⟩

/-! ## C23 -/

/-- The 64-bit mask `~(2 ^ k - 1)` aligns down to a multiple of `2 ^ k`. -/
theorem and_not_mask_eq (x k : Nat) (hx : x < 2 ^ 64) (hk : k < 64) :
    x &&& (2 ^ 64 - 1 - (2 ^ k + (2 ^ 64 - 1)) % 2 ^ 64) = x / 2 ^ k * 2 ^ k := by
  have hpos : 1 ≤ 2 ^ k := Nat.one_le_two_pow
  have hle : 2 ^ k ≤ 2 ^ 63 := Nat.pow_le_pow_right (by decide) (by omega)
  have hm : 2 ^ 64 - 1 - (2 ^ k + (2 ^ 64 - 1)) % 2 ^ 64 = 2 ^ 64 - (2 ^ k - 1 + 1) := by
    omega
  rw [hm]
  apply Nat.eq_of_testBit_eq
  intro i
  rw [Nat.testBit_and, Nat.testBit_two_pow_sub_succ (by omega), Nat.testBit_two_pow_sub_one,
    Nat.mul_comm, Nat.testBit_mul_pow_two, ← Nat.shiftRight_eq_div_pow, Nat.testBit_shiftRight]
  by_cases h1 : i < k
  · have h2 : ¬ (i ≥ k) := by omega
    simp [h1, h2]
  · have h2 : i ≥ k := by omega
    have h3 : k + (i - k) = i := by omega
    by_cases h4 : i < 64
    · simp [h1, h2, h3, h4]
    · have h5 : x.testBit i = false :=
        Nat.testBit_lt_two_pow (lt_of_lt_of_le hx (Nat.pow_le_pow_right (by decide) (by omega)))
      simp [h1, h2, h3, h4, h5]

/-- C23: when the `ioctl` succeeds, for a window size that is a power of two
(below `2 ^ 64`) and a geometry record whose command-ring base, descriptor byte
size and operand end fit the `uint32_t` locals, `pka_dev_get_ring_info` returns
0 and the ring descriptor has the command and result ring bases of the record,
index cursors, counters and mask 0, descriptor size
`host_desc_size * BYTES_PER_WORD`, descriptor count `size + 1`, operand base
the command-ring base aligned down to the window size, and operand end the
operand base plus `PKA_WINDOW_RAM_DATA_MEM_SIZE`. -/
theorem get_ring_info_descriptor (K : Consts) (hw : pka_dev_hw_ring_info_t)
    (ring_info_ptr : Nat) (ring_info : pka_ring_info_t) (k : Nat)
    (hptr : ring_info_ptr ≠ 0) (hk : ring_info.mem_size = 2 ^ k) (hk64 : k < 64)
    (hb : hw.cmmd_base < 2 ^ 32) (hd : hw.host_desc_size * BYTES_PER_WORD < 2 ^ 32)
    (hop : hw.cmmd_base / ring_info.mem_size * ring_info.mem_size +
      K.PKA_WINDOW_RAM_DATA_MEM_SIZE < 2 ^ 32) :
    (pka_dev_get_ring_info K 0 hw ring_info_ptr ring_info).1 = 0 ∧
    (pka_dev_get_ring_info K 0 hw ring_info_ptr ring_info).2.ring_desc =
      { cmd_ring_base := hw.cmmd_base,
        rslt_ring_base := hw.rslt_base,
        cmd_idx := 0,
        rslt_idx := 0,
        desc_size := hw.host_desc_size * BYTES_PER_WORD,
        num_descs := hw.size + 1,
        cmd_desc_cnt := 0,
        rslt_desc_cnt := 0,
        cmd_desc_mask := 0,
        operands_base := hw.cmmd_base / ring_info.mem_size * ring_info.mem_size,
        operands_end := hw.cmmd_base / ring_info.mem_size * ring_info.mem_size +
          K.PKA_WINDOW_RAM_DATA_MEM_SIZE } := by
  have hx : hw.cmmd_base < 2 ^ 64 := lt_trans hb (by decide)
  have hal := and_not_mask_eq hw.cmmd_base k hx hk64
  have hle : hw.cmmd_base / 2 ^ k * 2 ^ k ≤ hw.cmmd_base := Nat.div_mul_le_self _ _
  rw [hk] at hop ⊢
  unfold pka_dev_get_ring_info
  simp only [hptr, if_false, ne_eq, not_true_eq_false, true_and, hk, hal]
  have e1 : hw.host_desc_size * BYTES_PER_WORD % 2 ^ 32 = hw.host_desc_size * BYTES_PER_WORD :=
    Nat.mod_eq_of_lt hd
  have e2 : hw.cmmd_base / 2 ^ k * 2 ^ k % 2 ^ 32 = hw.cmmd_base / 2 ^ k * 2 ^ k :=
    Nat.mod_eq_of_lt (by omega)
  have e3 : (hw.cmmd_base / 2 ^ k * 2 ^ k + K.PKA_WINDOW_RAM_DATA_MEM_SIZE % 2 ^ 32) % 2 ^ 32 =
      hw.cmmd_base / 2 ^ k * 2 ^ k + K.PKA_WINDOW_RAM_DATA_MEM_SIZE := by
    omega
  rw [e1, e2, e3]

/-- Witness of C23: the geometry record of C12 read through a 16 KiB window;
the descriptors are 64 bytes, there are 16 of them, and the operand region is
`[0, 0x3800)`. -/
theorem get_ring_info_descriptor_witness :
    (pka_dev_get_ring_info demo_consts 0
      { cmmd_base := 0x3800, rslt_base := 0x3C00, size := 15, host_desc_size := 16,
        in_order := 1, cmmd_rd_ptr := 0, rslt_wr_ptr := 0, cmmd_rd_stats := 0,
        rslt_wr_stats := 0 }
      0x7000 { fd := 3, ring_id := 0, mem_size := 0x4000,
               ring_desc := ⟨0, 0, 0, 0, 0, 0, 0, 0, 0, 0, 0⟩ }).1 = 0 ∧
    (pka_dev_get_ring_info demo_consts 0
      { cmmd_base := 0x3800, rslt_base := 0x3C00, size := 15, host_desc_size := 16,
        in_order := 1, cmmd_rd_ptr := 0, rslt_wr_ptr := 0, cmmd_rd_stats := 0,
        rslt_wr_stats := 0 }
      0x7000 { fd := 3, ring_id := 0, mem_size := 0x4000,
               ring_desc := ⟨0, 0, 0, 0, 0, 0, 0, 0, 0, 0, 0⟩ }).2.ring_desc =
      { cmd_ring_base := 0x3800, rslt_ring_base := 0x3C00, cmd_idx := 0, rslt_idx := 0,
        desc_size := 16 * BYTES_PER_WORD, num_descs := 15 + 1, cmd_desc_cnt := 0,
        rslt_desc_cnt := 0, cmd_desc_mask := 0,
        operands_base := 0x3800 / 0x4000 * 0x4000,
        operands_end := 0x3800 / 0x4000 * 0x4000 + 0x3800 } :=
  get_ring_info_descriptor demo_consts
    { cmmd_base := 0x3800, rslt_base := 0x3C00, size := 15, host_desc_size := 16,
      in_order := 1, cmmd_rd_ptr := 0, rslt_wr_ptr := 0, cmmd_rd_stats := 0,
      rslt_wr_stats := 0 }
    0x7000 { fd := 3, ring_id := 0, mem_size := 0x4000,
             ring_desc := ⟨0, 0, 0, 0, 0, 0, 0, 0, 0, 0, 0⟩ } 14
    (by decide) (by decide) (by decide) (by decide) (by decide) (by decide)

/-! ## C24 -/

/-- The slice that `pka_dev_init_ring` stores in `ring->resources.window_ram`. -/
theorem init_ring_window_slice (K : Consts) (env : Env) (w w1 : World) (ring ring_id shim : Nat)
    (h : pka_dev_init_ring K env w ring ring_id shim = some (0, w1)) :
    (w1.res (.of_ring ring .window_ram)).base =
      init_ring_mem_base K (w.shim shim).window_ram_split
        (ring_id % K.PKA_MAX_NUM_IO_BLOCK_RINGS) ∧
    (w1.res (.of_ring ring .window_ram)).size =
      init_ring_mem_size K (w.shim shim).window_ram_split := by
  unfold pka_dev_init_ring at h
  by_cases h1 : ring = 0
  · simp [h1] at h
  by_cases h2 : (w.ring ring).status = PKA_DEV_RING_STATUS_UNDEFINED
  swap
  · have hE : EPERM ≠ 0 := by decide
    simp [h1, h2, hE] at h
  by_cases h3 : ring_id > K.PKA_MAX_NUM_RINGS - 1
  · have hE : EINVAL ≠ 0 := by decide
    simp [h1, h2, h3, hE] at h
  by_cases h4 : shim = 0
  · simp [h1, h2, h3, h4] at h
  by_cases h5 : (w.shim shim).rings = 0
  · simp [h1, h2, h3, h4, h5] at h
  by_cases h6 : env.kzalloc w.trace = 0
  · have hE : ENOMEM ≠ 0 := by decide
    simp [h1, h2, h3, h4, h5, h6, hE] at h
  simp only [h1, h2, h3, h4, h5, h6, if_false, ne_eq, not_true_eq_false, Option.some.injEq,
    Prod.mk.injEq, true_and] at h
  subst h
  simp [init_ring_resources, shim_ring_slot]

/-- The slices of two different slots do not overlap. -/
theorem init_ring_mem_disjoint (K : Consts) (split s1 s2 : Nat)
    (hK : ring_mem_consts_ok K split)
    (h2 : s2 < K.PKA_MAX_NUM_IO_BLOCK_RINGS) (hlt : s1 < s2) :
    init_ring_mem_base K split s1 + init_ring_mem_size K split ≤ init_ring_mem_base K split s2 := by
  obtain ⟨h0, hK⟩ := hK
  unfold init_ring_mem_base init_ring_mem_size
  by_cases hs : split = K.PKA_SHIM_WINDOW_RAM_SPLIT_ENABLED
  · simp only [hs, if_true] at hK ⊢
    obtain ⟨c1, c2, c3⟩ := hK
    have m1 : (s1 + 1) * K.PKA_RING_MEM_1_SPACING ≤ s2 * K.PKA_RING_MEM_1_SPACING :=
      Nat.mul_le_mul_right _ hlt
    have m2 : s2 * K.PKA_RING_MEM_1_SPACING ≤
        (K.PKA_MAX_NUM_IO_BLOCK_RINGS - 1) * K.PKA_RING_MEM_1_SPACING :=
      Nat.mul_le_mul_right _ (by omega)
    rw [Nat.add_mul, Nat.one_mul] at m1
    omega
  · simp only [hs, if_false] at hK ⊢
    obtain ⟨c1, c2, c3⟩ := hK
    have m1 : (s1 + 1) * K.PKA_RING_MEM_0_SPACING ≤ s2 * K.PKA_RING_MEM_0_SPACING :=
      Nat.mul_le_mul_right _ hlt
    have m2 : s2 * K.PKA_RING_MEM_0_SPACING ≤
        (K.PKA_MAX_NUM_IO_BLOCK_RINGS - 1) * K.PKA_RING_MEM_0_SPACING :=
      Nat.mul_le_mul_right _ (by omega)
    rw [Nat.add_mul, Nat.one_mul] at m1
    omega

/-- C24: two successful `pka_dev_init_ring` calls for rings of one shim (the
same split mode at both calls), with layout constants that fit the `uint32_t`
locals and a per-slot spacing of the selected layout at least the slice size:
the two window-RAM slices have the same size; if the ids give different slots
(`id mod PKA_MAX_NUM_IO_BLOCK_RINGS`) the ranges `[base, base + size)` do not
overlap, and if they give the same slot the slices are the same. -/
theorem init_ring_slices_disjoint (K : Consts) (enva envb : Env) (wa wa1 wb wb1 : World)
    (ra rb ida idb shim : Nat)
    (ha : pka_dev_init_ring K enva wa ra ida shim = some (0, wa1))
    (hb : pka_dev_init_ring K envb wb rb idb shim = some (0, wb1))
    (hsplit : (wb.shim shim).window_ram_split = (wa.shim shim).window_ram_split)
    (hK : ring_mem_consts_ok K (wa.shim shim).window_ram_split) :
    (wa1.res (.of_ring ra .window_ram)).size = (wb1.res (.of_ring rb .window_ram)).size ∧
    (ida % K.PKA_MAX_NUM_IO_BLOCK_RINGS ≠ idb % K.PKA_MAX_NUM_IO_BLOCK_RINGS →
      (wa1.res (.of_ring ra .window_ram)).base + (wa1.res (.of_ring ra .window_ram)).size ≤
          (wb1.res (.of_ring rb .window_ram)).base ∨
      (wb1.res (.of_ring rb .window_ram)).base + (wb1.res (.of_ring rb .window_ram)).size ≤
          (wa1.res (.of_ring ra .window_ram)).base) ∧
    (ida % K.PKA_MAX_NUM_IO_BLOCK_RINGS = idb % K.PKA_MAX_NUM_IO_BLOCK_RINGS →
      (wa1.res (.of_ring ra .window_ram)).base = (wb1.res (.of_ring rb .window_ram)).base) := by
  obtain ⟨a1, a2⟩ := init_ring_window_slice K enva wa wa1 ra ida shim ha
  obtain ⟨b1, b2⟩ := init_ring_window_slice K envb wb wb1 rb idb shim hb
  rw [hsplit] at b1 b2
  rw [a1, a2, b1, b2]
  have hsa : ida % K.PKA_MAX_NUM_IO_BLOCK_RINGS < K.PKA_MAX_NUM_IO_BLOCK_RINGS :=
    Nat.mod_lt _ hK.1
  have hsb : idb % K.PKA_MAX_NUM_IO_BLOCK_RINGS < K.PKA_MAX_NUM_IO_BLOCK_RINGS :=
    Nat.mod_lt _ hK.1
  refine ⟨rfl, ?_, ?_⟩
  · intro hne
    rcases Nat.lt_or_gt_of_ne hne with hlt | hgt
    · exact Or.inl (init_ring_mem_disjoint K _ _ _ hK hsb hlt)
    · exact Or.inr (init_ring_mem_disjoint K _ _ _ hK hsa hgt)
  · intro heq
    rw [heq]

/-- Witness of C24: ring ids 5 and 2 (slots 1 and 2) and ids 5 and 1 (slot 1
both) on the registered shim of the scenario: slices `[0x14000, 0x18000)` and
`[0x18000, 0x1C000)`. -/
theorem init_ring_slices_disjoint_witness :
    ((world_of (pka_dev_init_ring demo_consts demo_env demo_shim_world 7 5 0x1000)
        demo_world).res (.of_ring 7 .window_ram)).size =
      ((world_of (pka_dev_init_ring demo_consts demo_env demo_shim_world 9 2 0x1000)
        demo_world).res (.of_ring 9 .window_ram)).size ∧
    (((world_of (pka_dev_init_ring demo_consts demo_env demo_shim_world 7 5 0x1000)
          demo_world).res (.of_ring 7 .window_ram)).base +
        ((world_of (pka_dev_init_ring demo_consts demo_env demo_shim_world 7 5 0x1000)
          demo_world).res (.of_ring 7 .window_ram)).size ≤
        ((world_of (pka_dev_init_ring demo_consts demo_env demo_shim_world 9 2 0x1000)
          demo_world).res (.of_ring 9 .window_ram)).base ∨
      ((world_of (pka_dev_init_ring demo_consts demo_env demo_shim_world 9 2 0x1000)
          demo_world).res (.of_ring 9 .window_ram)).base +
        ((world_of (pka_dev_init_ring demo_consts demo_env demo_shim_world 9 2 0x1000)
          demo_world).res (.of_ring 9 .window_ram)).size ≤
        ((world_of (pka_dev_init_ring demo_consts demo_env demo_shim_world 7 5 0x1000)
          demo_world).res (.of_ring 7 .window_ram)).base) ∧
    ((world_of (pka_dev_init_ring demo_consts demo_env demo_shim_world 7 5 0x1000)
        demo_world).res (.of_ring 7 .window_ram)).base =
      ((world_of (pka_dev_init_ring demo_consts demo_env demo_shim_world 9 1 0x1000)
        demo_world).res (.of_ring 9 .window_ram)).base :=
  have h52 := init_ring_slices_disjoint demo_consts demo_env demo_env demo_shim_world
    (world_of (pka_dev_init_ring demo_consts demo_env demo_shim_world 7 5 0x1000) demo_world)
    demo_shim_world
    (world_of (pka_dev_init_ring demo_consts demo_env demo_shim_world 9 2 0x1000) demo_world)
    7 9 5 2 0x1000 rfl rfl rfl (by decide)
  have h51 := init_ring_slices_disjoint demo_consts demo_env demo_env demo_shim_world
    (world_of (pka_dev_init_ring demo_consts demo_env demo_shim_world 7 5 0x1000) demo_world)
    demo_shim_world
    (world_of (pka_dev_init_ring demo_consts demo_env demo_shim_world 9 1 0x1000) demo_world)
    7 9 5 1 0x1000 rfl rfl rfl (by decide)
  ⟨h52.1, h52.2.1 (by decide), h51.2.2 (by decide)⟩

/-! ## C25 -/

/-- What a successful `pka_dev_partition_mem` tells about the state it was
called in, and the state it leaves. -/
theorem partition_mem_ok (K : Consts) (w w1 : World) (ring : Nat)
    (h : pka_dev_partition_mem K w ring = some (0, w1)) :
    ring ≠ 0 ∧ (w.ring ring).shim ≠ 0 ∧
    (w.ring ring).status = PKA_DEV_RING_STATUS_INITIALIZED ∧ (w.ring ring).ring_info ≠ 0 ∧
    w1 = { w with
      ring := Function.update w.ring ring
        { w.ring ring with num_cmd_desc := partition_num_cmd_desc K },
      ring_info := Function.update w.ring_info (w.ring ring).ring_info
        (partition_ring_info K (w.res (.of_ring ring .window_ram)).base
          (w.res (.of_ring ring .window_ram)).size
          (w.shim (w.ring ring).shim).ring_type) } := by
  have hE : EPERM ≠ 0 := by decide
  unfold pka_dev_partition_mem at h
  by_cases h1 : ring = 0
  · simp [h1] at h
  by_cases h2 : (w.ring ring).shim = 0
  · simp [h1, h2, hE] at h
  by_cases h3 : (w.ring ring).status = PKA_DEV_RING_STATUS_INITIALIZED
  swap
  · simp [h1, h2, h3, hE] at h
  by_cases h4 : (w.ring ring).ring_info = 0
  · simp [h1, h2, h3, h4] at h
  have h23 : ¬ ((w.ring ring).shim = 0 ∨
      (w.ring ring).status ≠ PKA_DEV_RING_STATUS_INITIALIZED) := by
    simp [h2, h3]
  rw [if_neg h1, if_neg h23, if_neg h4] at h
  exact ⟨h1, h2, h3, h4, ((Prod.mk.inj (Option.some.inj h)).2).symm⟩

/-- C25: for a ring in initialized status (valid address, shim and geometry
record set) `pka_dev_partition_mem` returns 0, and run again on the state it
left it returns 0 and leaves exactly that state; and two successful runs, on
rings with equal window base, window size and ring type of the shim, store
equal geometry records and equal descriptor counts. -/
theorem partition_mem_idempotent (K : Consts) (w : World) (ring : Nat) (hring : ring ≠ 0)
    (hshim : (w.ring ring).shim ≠ 0) (hinfo : (w.ring ring).ring_info ≠ 0)
    (hst : (w.ring ring).status = PKA_DEV_RING_STATUS_INITIALIZED) :
    (∃ w1, pka_dev_partition_mem K w ring = some (0, w1) ∧
      pka_dev_partition_mem K w1 ring = some (0, w1)) ∧
    (∀ (wb wa1 wb1 : World) (rb : Nat),
      pka_dev_partition_mem K w ring = some (0, wa1) →
      pka_dev_partition_mem K wb rb = some (0, wb1) →
      (wb.res (.of_ring rb .window_ram)).base = (w.res (.of_ring ring .window_ram)).base →
      (wb.res (.of_ring rb .window_ram)).size = (w.res (.of_ring ring .window_ram)).size →
      (wb.shim (wb.ring rb).shim).ring_type = (w.shim (w.ring ring).shim).ring_type →
      wb1.ring_info (wb1.ring rb).ring_info = wa1.ring_info (wa1.ring ring).ring_info ∧
      (wb1.ring rb).num_cmd_desc = (wa1.ring ring).num_cmd_desc) := by
  refine ⟨?_, ?_⟩
  · have h23 : ¬ ((w.ring ring).shim = 0 ∨
        (w.ring ring).status ≠ PKA_DEV_RING_STATUS_INITIALIZED) := by
      simp [hshim, hst]
    refine ⟨_, by unfold pka_dev_partition_mem; rw [if_neg hring, if_neg h23, if_neg hinfo], ?_⟩
    unfold pka_dev_partition_mem
    simp only [Function.update_same, hring, hshim, hst, hinfo, if_false, ne_eq,
      not_true_eq_false, or_self, Function.update_idem]
  · intro wb wa1 wb1 rb ha hb e1 e2 e3
    obtain ⟨_, _, _, _, ea⟩ := partition_mem_ok K w wa1 ring ha
    obtain ⟨_, _, _, _, eb⟩ := partition_mem_ok K wb wb1 rb hb
    subst ea
    subst eb
    simp only [Function.update_apply, if_true, e1, e2, e3, and_self]

/-- Witness of C25: ring 0 of the scenario, in the state with one registered
ring and in the state with two: same window and ring type, so the two runs
store equal geometry records and descriptor counts. -/
theorem partition_mem_idempotent_witness :
    (∃ w1, pka_dev_partition_mem demo_consts demo_rings2 0x35000 = some (0, w1) ∧
      pka_dev_partition_mem demo_consts w1 0x35000 = some (0, w1)) ∧
    (∃ wa1 wb1,
      pka_dev_partition_mem demo_consts demo_rings2 0x35000 = some (0, wa1) ∧
      pka_dev_partition_mem demo_consts demo_rings1 0x35000 = some (0, wb1) ∧
      wb1.ring_info (wb1.ring 0x35000).ring_info = wa1.ring_info (wa1.ring 0x35000).ring_info ∧
      (wb1.ring 0x35000).num_cmd_desc = (wa1.ring 0x35000).num_cmd_desc) :=
  have h := partition_mem_idempotent demo_consts demo_rings2 0x35000 (by decide) (by decide)
    (by decide) (by decide)
  have hb := partition_mem_idempotent demo_consts demo_rings1 0x35000 (by decide) (by decide)
    (by decide) (by decide)
  ⟨h.1, h.1.elim fun wa1 ha => hb.1.elim fun wb1 hb1 =>
    ⟨wa1, wb1, ha.1, hb1.1,
      h.2 demo_rings1 wa1 wb1 0x35000 ha.1 hb1.1 (by decide) (by decide) (by decide)⟩⟩

/-! ## C26 -/

/-- `pka_dev_unregister_ring` on a busy ring: the release error comes back, but
the registry entry is already NULL and the count already decremented. -/
theorem unregister_ring_busy (K : Consts) (w : World) (ring : Nat) (hring : ring ≠ 0)
    (hb : (w.ring ring).status = PKA_DEV_RING_STATUS_BUSY) :
    pka_dev_unregister_ring K w ring =
      some (-EBUSY, { w with
        pka_gbl_config :=
          { w.pka_gbl_config with
            dev_rings := Function.update w.pka_gbl_config.dev_rings (w.ring ring).ring_id 0,
            dev_rings_cnt := (w.pka_gbl_config.dev_rings_cnt + (2 ^ 32 - 1)) % 2 ^ 32 } }) := by
  have hE : (-EBUSY : Int) ≠ 0 := by decide
  simp only [pka_dev_unregister_ring, __pka_dev_unregister_ring, pka_dev_release_ring, hring,
    hb, if_false, if_true, and_then, hE, ne_eq, not_false_eq_true]
  simp
  decide

/-- C26, evaluation of the code: ring 0 of the scenario is open (busy) and
registered as entry 0 of two; `pka_dev_unregister_ring` returns `-EBUSY`, and in
the state it leaves the registry entry 0 is NULL and the count is 1. -/
theorem unregister_busy_ring_clears_registry :
    (demo_open1.ring 0x35000).status = PKA_DEV_RING_STATUS_BUSY ∧
    demo_open1.pka_gbl_config.dev_rings 0 = 0x35000 ∧
    demo_open1.pka_gbl_config.dev_rings_cnt = 2 ∧
    ∃ w1, pka_dev_unregister_ring demo_consts demo_open1 0x35000 = some (-EBUSY, w1) ∧
      w1.pka_gbl_config.dev_rings 0 = 0 ∧
      w1.pka_gbl_config.dev_rings_cnt = 1 :=
  ⟨by decide, by decide, by decide, _,
    unregister_ring_busy demo_consts demo_open1 0x35000 (by decide) (by decide),
    by decide, by decide⟩

/-! ## C28 -/

/-- C28, evaluation of the code: in the scenario ring 0 is open (shim running,
busy count 1) and ring 1 is initialized, not busy.  `__pka_dev_close_ring` on
ring 1 returns 0, brings the busy count to 0 and sets the shim status to
stopped, while ring 0 is still busy: the test is
`shim->status != RUNNING && ring->status != BUSY`, which lets through every
ring of a running shim. -/
theorem close_idle_ring_of_running_shim :
    (demo_open1.shim 0x1000).status = PKA_SHIM_STATUS_RUNNING ∧
    (demo_open1.shim 0x1000).busy_ring_num = 1 ∧
    (demo_open1.ring 0x35000).status = PKA_DEV_RING_STATUS_BUSY ∧
    (demo_open1.ring 0x37000).status = PKA_DEV_RING_STATUS_INITIALIZED ∧
    demo_open1_close2.1 = 0 ∧
    (demo_open1_close2.2.shim 0x1000).busy_ring_num = 0 ∧
    (demo_open1_close2.2.shim 0x1000).status = PKA_SHIM_STATUS_STOPPED ∧
    (demo_open1_close2.2.ring 0x35000).status = PKA_DEV_RING_STATUS_BUSY := by
  refine ⟨by decide, by decide, by decide, by decide, by decide, by decide, by decide,
    by decide⟩

/-! ## C29 -/

/-- C29, evaluation of the code: `pka_dev_trng_read` of 20 bytes (five words,
`PKA_TRNG_OUTPUT_CNT = 4`) on a device that always shows the ready bit returns
0 after these calls: the status read of the overflow check; for word 0 the
acknowledge, the deadline, one status read (ready), the deadline test and the
read of output register 0; for words 1, 2, 3 only the deadline and the read of
the output register; for word 4 the acknowledge of the second cycle, the
deadline and the read of output register 0.  No status register read is made
while words 1 to 4 are handled, not even after the second acknowledge:
`trng_ready` still holds the value read for word 0, so the
`while (trng_ready == 0)` loop is not entered again. -/
theorem trng_read_second_word_unpolled :
    (pka_dev_trng_read demo_consts ready_env 4 demo_trng_world 1 0x9000 (fun _ => 0) 20).map
        (fun x => (x.1, x.2.2.trace)) =
      some (0,
        [Event.pka_mmio_read 0x90000020 1,
         Event.pka_mmio_write 0x90000020 1,
         Event.get_cycles 2,
         Event.pka_mmio_read 0x90000020 1,
         Event.get_cycles 4,
         Event.pka_mmio_read 0x90000000 0xABCD,
         Event.get_cycles 6,
         Event.pka_mmio_read 0x90000008 0xABCD,
         Event.get_cycles 8,
         Event.pka_mmio_read 0x90000010 0xABCD,
         Event.get_cycles 10,
         Event.pka_mmio_read 0x90000018 0xABCD,
         Event.pka_mmio_write 0x90000020 1,
         Event.get_cycles 13,
         Event.pka_mmio_read 0x90000000 0xABCD]) := by
  decide

/-! ## C27 -/

theorem timer_done_trace (env : Env) (w : World) (timer : Nat) :
    (pka_dev_timer_done env w timer).2.trace.length = w.trace.length + 1 ∧
    ((pka_dev_timer_done env w timer).1 = true ↔ timer ≤ env.get_cycles w.trace % 2 ^ 64) := by
  simp [pka_dev_timer_done]

theorem io_read_trace_length (env : Env) (w : World) (a o : Nat) :
    (pka_dev_io_read env w a o).2.trace.length = w.trace.length + 1 := by
  simp [pka_dev_io_read]

/-- The loop `poll_bit` ends within `fuel + 1` iterations when the cycle
counter is at or past the deadline for every history of at least `N` calls (up
to the longest one the loop can produce). -/
theorem poll_bit_terminates (env : Env) (mem_ptr mem_off mask timer N : Nat) :
    ∀ (fuel : Nat) (w : World),
      (∀ tr : List Event, N ≤ tr.length → tr.length ≤ w.trace.length + 2 * fuel + 1 →
        timer ≤ env.get_cycles tr % 2 ^ 64) →
      N ≤ w.trace.length + 2 * fuel + 1 →
      ∃ r, poll_bit env mem_ptr mem_off mask timer (fuel + 1) w = some r := by
  intro fuel
  induction fuel with
  | zero =>
    intro w hev hN
    have hd : (pka_dev_timer_done env (pka_dev_io_read env w mem_ptr mem_off).2 timer).1 = true :=
      (timer_done_trace env _ timer).2.2
        (hev _ (by have := io_read_trace_length env w mem_ptr mem_off; omega)
          (by have := io_read_trace_length env w mem_ptr mem_off; omega))
    rw [poll_bit]
    simp only [hd, if_true]
    exact ⟨_, rfl⟩
  | succ fuel ih =>
    intro w hev hN
    rw [poll_bit]
    split
    · exact ⟨_, rfl⟩
    · split
      · exact ⟨_, rfl⟩
      · have hl : (pka_dev_timer_done env (pka_dev_io_read env w mem_ptr mem_off).2
            timer).2.trace.length = w.trace.length + 2 := by
          rw [(timer_done_trace env _ timer).1, io_read_trace_length]
        exact ih _ (fun tr h1 h2 => hev tr h1 (by rw [hl] at h2; omega)) (by rw [hl]; omega)

/-- The loop `trng_wait_ready` ends within `fuel + 1` iterations under the same
condition, whatever `trng_ready` holds at entry. -/
theorem trng_wait_ready_terminates (K : Consts) (env : Env) (mem_ptr mem_off timer N : Nat) :
    ∀ (fuel ready : Nat) (w : World),
      (∀ tr : List Event, N ≤ tr.length → tr.length ≤ w.trace.length + 2 * fuel + 1 →
        timer ≤ env.get_cycles tr % 2 ^ 64) →
      N ≤ w.trace.length + 2 * fuel + 1 →
      ∃ r, trng_wait_ready K env mem_ptr mem_off timer (fuel + 1) ready w = some r := by
  intro fuel
  induction fuel with
  | zero =>
    intro ready w hev hN
    have hd : (pka_dev_timer_done env (pka_dev_io_read env w mem_ptr mem_off).2 timer).1 = true :=
      (timer_done_trace env _ timer).2.2
        (hev _ (by have := io_read_trace_length env w mem_ptr mem_off; omega)
          (by have := io_read_trace_length env w mem_ptr mem_off; omega))
    rw [trng_wait_ready]
    simp only [hd, if_true]
    split
    · exact ⟨_, rfl⟩
    · exact ⟨_, rfl⟩
  | succ fuel ih =>
    intro ready w hev hN
    rw [trng_wait_ready]
    split
    · exact ⟨_, rfl⟩
    · simp only []
      split
      · exact ⟨_, rfl⟩
      · have hl : (pka_dev_timer_done env (pka_dev_io_read env w mem_ptr mem_off).2
            timer).2.trace.length = w.trace.length + 2 := by
          rw [(timer_done_trace env _ timer).1, io_read_trace_length]
        exact ih _ _ (fun tr h1 h2 => hev tr h1 (by rw [hl] at h2; omega)) (by rw [hl]; omega)

/-- C27: `poll_bit` is the loop of `pka_dev_config_master_seq_controller`
(master IRQ) and of `pka_dev_config_trng_clk` (TRNG clock), `trng_wait_ready`
the loop of `pka_dev_trng_read`.  In an iteration whose cycle-counter reading
is at or past the deadline, `poll_bit` ends with the timeout result (`false`,
returned as `-EAGAIN`) and `trng_wait_ready`, entered with `trng_ready = 0`,
ends with the timeout result (`none`, returned as `-EBUSY`), whatever the
register showed.  And when the cycle counter is at or past the deadline for
every history of at least `N` calls, both loops end within `fuel + 1`
iterations as soon as `N <= calls made before + 2 * fuel + 1`. -/
theorem poll_loops_terminate (K : Consts) (env : Env) (mem_ptr mem_off mask timer N fuel : Nat)
    (ready : Nat) (w : World) :
    (timer ≤ env.get_cycles (pka_dev_io_read env w mem_ptr mem_off).2.trace % 2 ^ 64 →
      poll_bit env mem_ptr mem_off mask timer (fuel + 1) w =
        some (false, (pka_dev_timer_done env (pka_dev_io_read env w mem_ptr mem_off).2 timer).2) ∧
      trng_wait_ready K env mem_ptr mem_off timer (fuel + 1) 0 w =
        some (none, (pka_dev_timer_done env (pka_dev_io_read env w mem_ptr mem_off).2 timer).2)) ∧
    ((∀ tr : List Event, N ≤ tr.length → tr.length ≤ w.trace.length + 2 * fuel + 1 →
        timer ≤ env.get_cycles tr % 2 ^ 64) →
      N ≤ w.trace.length + 2 * fuel + 1 →
      (∃ r, poll_bit env mem_ptr mem_off mask timer (fuel + 1) w = some r) ∧
      (∃ r, trng_wait_ready K env mem_ptr mem_off timer (fuel + 1) ready w = some r)) := by
  refine ⟨?_, ?_⟩
  · intro h
    have hd : (pka_dev_timer_done env (pka_dev_io_read env w mem_ptr mem_off).2 timer).1 = true :=
      (timer_done_trace env _ timer).2.2 h
    refine ⟨?_, ?_⟩
    · rw [poll_bit]
      simp only [hd, if_true]
    · rw [trng_wait_ready]
      simp only [hd, if_true, ne_eq, not_true_eq_false, if_false]
  · intro hev hN
    exact ⟨poll_bit_terminates env mem_ptr mem_off mask timer N fuel w hev hN,
      trng_wait_ready_terminates K env mem_ptr mem_off timer N fuel ready w hev hN⟩

/-- Witness of C27: a device on which no bit ever shows, with a cycle counter
that advances by 100000 per call.  With deadline 50000 the first iteration
(reading 100000) ends both loops with the timeout result; with deadline
300000 the counter is past the deadline from the third call on, and three
iterations are enough for both loops to end. -/
theorem poll_loops_terminate_witness :
    (poll_bit dead_env 0x90000000 0x20 1 50000 (2 + 1) demo_trng_world =
        some (false, (pka_dev_timer_done dead_env
          (pka_dev_io_read dead_env demo_trng_world 0x90000000 0x20).2 50000).2) ∧
      trng_wait_ready demo_consts dead_env 0x90000000 0x20 50000 (2 + 1) 0 demo_trng_world =
        some (none, (pka_dev_timer_done dead_env
          (pka_dev_io_read dead_env demo_trng_world 0x90000000 0x20).2 50000).2)) ∧
    ((∃ r, poll_bit dead_env 0x90000000 0x20 1 300000 (2 + 1) demo_trng_world = some r) ∧
      (∃ r, trng_wait_ready demo_consts dead_env 0x90000000 0x20 300000 (2 + 1) 0
        demo_trng_world = some r)) :=
  ⟨(poll_loops_terminate demo_consts dead_env 0x90000000 0x20 1 50000 3 2 0 demo_trng_world).1
      (by decide),
   (poll_loops_terminate demo_consts dead_env 0x90000000 0x20 1 300000 3 2 0 demo_trng_world).2
      (fun tr h1 h2 => by
        have h3 : tr.length ≤ 5 := h2
        have h4 : 100000 * tr.length < 2 ^ 64 := by omega
        show 300000 ≤ (100000 * tr.length) % 2 ^ 64
        rw [Nat.mod_eq_of_lt h4]
        omega)
      (by decide)⟩

/-! ## C30 -/

theorem mem_tbl_entries (w : World) (i : Nat) (p : res_ptr_t) :
    p ∈ tbl_entries w i ↔ some p ∈ (w.pka_gbl_res_tbl i).res_tbl := by
  simp [tbl_entries, List.mem_filterMap]

/-- The 64-bit `PAGE_MASK` clears the bits below `PAGE_SHIFT`. -/
theorem and_page_mask (K : Consts) (x : Nat) (hx : x < 2 ^ 64) (hs : K.PAGE_SHIFT < 64) :
    x &&& K.PAGE_MASK = x / 2 ^ K.PAGE_SHIFT * 2 ^ K.PAGE_SHIFT := by
  have h := and_not_mask_eq x K.PAGE_SHIFT hx hs
  have hpos : 1 ≤ 2 ^ K.PAGE_SHIFT := Nat.one_le_two_pow
  have hle : 2 ^ K.PAGE_SHIFT ≤ 2 ^ 63 := Nat.pow_le_pow_right (by decide) (by omega)
  have hm : 2 ^ 64 - 1 - (2 ^ K.PAGE_SHIFT + (2 ^ 64 - 1)) % 2 ^ 64 = K.PAGE_MASK := by
    unfold Consts.PAGE_MASK
    omega
  rw [hm] at h
  exact h

/-- The register offset is the sum modulo the page size. -/
theorem register_offset_eq_mod (K : Consts) (base reg_addr : Nat) (hs : K.PAGE_SHIFT < 64) :
    pka_dev_get_register_offset K base reg_addr = (base + reg_addr) % 2 ^ K.PAGE_SHIFT := by
  unfold pka_dev_get_register_offset Consts.NOT_PAGE_MASK
  rw [Nat.and_pow_two_sub_one_eq_mod]
  exact Nat.mod_mod_of_dvd _ (Nat.pow_dvd_pow 2 (by omega))

/-- The word offset is the sum modulo a power-of-two memory size. -/
theorem word_offset_eq_mod (mem_base word_addr k : Nat) (hk : k < 64) :
    pka_dev_get_word_offset mem_base word_addr (2 ^ k) = (mem_base + word_addr) % 2 ^ k := by
  have hpos : 1 ≤ 2 ^ k := Nat.one_le_two_pow
  have hle : 2 ^ k ≤ 2 ^ 63 := Nat.pow_le_pow_right (by decide) (by omega)
  have hm : (2 ^ k + (2 ^ 64 - 1)) % 2 ^ 64 = 2 ^ k - 1 := by omega
  unfold pka_dev_get_word_offset
  rw [hm, Nat.and_pow_two_sub_one_eq_mod]
  exact Nat.mod_mod_of_dvd _ (Nat.pow_dvd_pow 2 (by omega))

/-- C39: for a page-aligned shim base and a register address `a` (pages of
`2 ^ PAGE_SHIFT` bytes, `PAGE_SHIFT < 64`), the page base computed by
`pka_dev_get_register_base(shim base, a)` plus the offset computed by
`pka_dev_get_register_offset(page base, a)` is the 64-bit sum `shim base + a`
(the sum itself when it fits 64 bits), the offset is below the page size, and
`pka_dev_get_word_offset` is below a memory size that is a power of two. -/
theorem register_base_plus_offset (K : Consts) (base a : Nat) (hs : K.PAGE_SHIFT < 64)
    (hb : base % K.PAGE_SIZE = 0) :
    pka_dev_get_register_base K base a +
        pka_dev_get_register_offset K (pka_dev_get_register_base K base a) a =
      (base + a) % 2 ^ 64 ∧
    (base + a < 2 ^ 64 →
      pka_dev_get_register_base K base a +
        pka_dev_get_register_offset K (pka_dev_get_register_base K base a) a = base + a) ∧
    pka_dev_get_register_offset K (pka_dev_get_register_base K base a) a < K.PAGE_SIZE ∧
    ∀ mem_base word_addr k, k < 64 →
      pka_dev_get_word_offset mem_base word_addr (2 ^ k) < 2 ^ k := by
  have hpos : 0 < 2 ^ K.PAGE_SHIFT := Nat.two_pow_pos _
  have hdvd : 2 ^ K.PAGE_SHIFT ∣ 2 ^ 64 := Nat.pow_dvd_pow 2 (by omega)
  have hx : (base + a) % 2 ^ 64 < 2 ^ 64 := Nat.mod_lt _ (by decide)
  have hpb : pka_dev_get_register_base K base a =
      (base + a) % 2 ^ 64 / 2 ^ K.PAGE_SHIFT * 2 ^ K.PAGE_SHIFT := by
    unfold pka_dev_get_register_base
    exact and_page_mask K _ hx hs
  have hoff : pka_dev_get_register_offset K (pka_dev_get_register_base K base a) a =
      (base + a) % 2 ^ 64 % 2 ^ K.PAGE_SHIFT := by
    rw [register_offset_eq_mod K _ _ hs, hpb, Nat.mod_mod_of_dvd _ hdvd,
      Nat.add_comm, Nat.add_mul_mod_self_right]
    unfold Consts.PAGE_SIZE at hb
    rw [Nat.add_mod base a, hb, Nat.zero_add, Nat.mod_mod]
  have hsum : pka_dev_get_register_base K base a +
      pka_dev_get_register_offset K (pka_dev_get_register_base K base a) a =
      (base + a) % 2 ^ 64 := by
    rw [hoff, hpb]
    exact Nat.div_add_mod' _ _
  refine ⟨hsum, fun h => ?_, ?_, fun mem_base word_addr k hk => ?_⟩
  · rw [hsum, Nat.mod_eq_of_lt h]
  · rw [hoff]
    exact Nat.mod_lt _ hpos
  · rw [word_offset_eq_mod _ _ _ hk]
    exact Nat.mod_lt _ (Nat.two_pow_pos _)

/-- Witness of C39: shim base `0x2000000`, the master sequencer control
address `0x27F90`, 4 KiB pages. -/
theorem register_base_plus_offset_witness :
    pka_dev_get_register_base demo_consts 0x2000000 0x27F90 = 0x2027000 ∧
    pka_dev_get_register_offset demo_consts 0x2027000 0x27F90 = 0xF90 ∧
    pka_dev_get_register_base demo_consts 0x2000000 0x27F90 +
        pka_dev_get_register_offset demo_consts
          (pka_dev_get_register_base demo_consts 0x2000000 0x27F90) 0x27F90 =
      0x2000000 + 0x27F90 ∧
    pka_dev_get_word_offset 0x2000000 0x07FF8 (2 ^ 14) < 2 ^ 14 :=
  ⟨by decide, by decide,
    (register_base_plus_offset demo_consts 0x2000000 0x27F90 (by decide) (by decide)).2.1
      (by decide),
    (register_base_plus_offset demo_consts 0x2000000 0x27F90 (by decide) (by decide)).2.2.2
      0x2000000 0x07FF8 14 (by decide)⟩

/-! ## C33 -/

/-- The ring bases stored by `pka_dev_partition_mem`, in terms of the data
region and the ring size. -/
theorem partition_ring_info_regions (K : Consts) (b wsz t : Nat) :
    (partition_ring_info K b wsz t).cmmd_base =
      PKA_RING_MEM_ADDR (((partition_data_mem K b).1 + (partition_data_mem K b).2) % 2 ^ 32)
        wsz ∧
    (partition_ring_info K b wsz t).rslt_base =
      PKA_RING_MEM_ADDR
        ((((partition_data_mem K b).1 + (partition_data_mem K b).2) % 2 ^ 32 +
          partition_desc_ring_size K) % 2 ^ 32) wsz :=
  ⟨rfl, rfl⟩

/-- `pka_dev_partition_mem` on a ring in initialized status. -/
theorem partition_mem_on_ready_ring (K : Consts) (w : World) (ring : Nat) (hring : ring ≠ 0)
    (hshim : (w.ring ring).shim ≠ 0) (hinfo : (w.ring ring).ring_info ≠ 0)
    (hst : (w.ring ring).status = PKA_DEV_RING_STATUS_INITIALIZED) :
    pka_dev_partition_mem K w ring = some (0, { w with
      ring := Function.update w.ring ring
        { w.ring ring with num_cmd_desc := partition_num_cmd_desc K },
      ring_info := Function.update w.ring_info (w.ring ring).ring_info
        (partition_ring_info K (w.res (.of_ring ring .window_ram)).base
          (w.res (.of_ring ring .window_ram)).size
          (w.shim (w.ring ring).shim).ring_type) }) := by
  have h23 : ¬ ((w.ring ring).shim = 0 ∨
      (w.ring ring).status ≠ PKA_DEV_RING_STATUS_INITIALIZED) := by
    simp [hshim, hst]
  unfold pka_dev_partition_mem
  rw [if_neg hring, if_neg h23, if_neg hinfo]

/-- The state left by a successful `pka_dev_partition_mem`: descriptor count
and geometry record of the ring. -/
theorem partition_mem_result (K : Consts) (w : World) (ring : Nat) (hring : ring ≠ 0)
    (hshim : (w.ring ring).shim ≠ 0) (hinfo : (w.ring ring).ring_info ≠ 0)
    (hst : (w.ring ring).status = PKA_DEV_RING_STATUS_INITIALIZED) :
    ∃ w1, pka_dev_partition_mem K w ring = some (0, w1) ∧
      (w1.ring ring).num_cmd_desc = partition_num_cmd_desc K ∧
      w1.ring_info (w1.ring ring).ring_info =
        partition_ring_info K (w.res (.of_ring ring .window_ram)).base
          (w.res (.of_ring ring .window_ram)).size (w.shim (w.ring ring).shim).ring_type := by
  refine ⟨_, partition_mem_on_ready_ring K w ring hring hshim hinfo hst, ?_, ?_⟩
  · simp only [Function.update_same]
  · simp only [Function.update_apply, if_true]

/-- C33: at the reference sizes (2 KiB of ring memory, that is 1 KiB per ring,
14 KiB of data memory, 64-byte descriptors) and for a 16 KiB window whose base
is a multiple of 16 KiB, `pka_dev_partition_mem` on an initialized ring returns
0 and gives 16 descriptors per ring, a data region of `0x3800` bytes at window
offset 0, a command ring of `0x400` bytes at offset `0x3800` and a result ring
of `0x400` bytes at offset `0x3C00`; an offset is in the window exactly when it
is in one of the three regions, and the regions follow each other without
overlap. -/
theorem partition_reference_layout (K : Consts) (w : World) (ring : Nat) (hring : ring ≠ 0)
    (hshim : (w.ring ring).shim ≠ 0) (hinfo : (w.ring ring).ring_info ≠ 0)
    (hst : (w.ring ring).status = PKA_DEV_RING_STATUS_INITIALIZED)
    (hR : K.PKA_WINDOW_RAM_RING_MEM_SIZE = 0x800) (hD : K.PKA_WINDOW_RAM_DATA_MEM_SIZE = 0x3800)
    (hC : K.CMD_DESC_SIZE = 64)
    (hsz : (w.res (.of_ring ring .window_ram)).size = 0x4000)
    (hb : (w.res (.of_ring ring .window_ram)).base % 0x4000 = 0) :
    ∃ w1, pka_dev_partition_mem K w ring = some (0, w1) ∧
      (w1.ring ring).num_cmd_desc = 16 ∧
      (w1.ring_info (w1.ring ring).ring_info).size = 15 ∧
      (partition_data_mem K (w.res (.of_ring ring .window_ram)).base).1 % 0x4000 = 0 ∧
      (partition_data_mem K (w.res (.of_ring ring .window_ram)).base).2 = 0x3800 ∧
      (w1.ring_info (w1.ring ring).ring_info).cmmd_base = 0x3800 ∧
      (w1.ring_info (w1.ring ring).ring_info).rslt_base = 0x3C00 ∧
      partition_desc_ring_size K = 0x400 ∧
      (∀ off, off < 0x4000 ↔
        ((partition_data_mem K (w.res (.of_ring ring .window_ram)).base).1 % 0x4000 ≤ off ∧
          off < (partition_data_mem K (w.res (.of_ring ring .window_ram)).base).1 % 0x4000 +
            (partition_data_mem K (w.res (.of_ring ring .window_ram)).base).2) ∨
        ((w1.ring_info (w1.ring ring).ring_info).cmmd_base ≤ off ∧
          off < (w1.ring_info (w1.ring ring).ring_info).cmmd_base +
            partition_desc_ring_size K) ∨
        ((w1.ring_info (w1.ring ring).ring_info).rslt_base ≤ off ∧
          off < (w1.ring_info (w1.ring ring).ring_info).rslt_base +
            partition_desc_ring_size K)) ∧
      (partition_data_mem K (w.res (.of_ring ring .window_ram)).base).1 % 0x4000 +
          (partition_data_mem K (w.res (.of_ring ring .window_ram)).base).2 ≤
        (w1.ring_info (w1.ring ring).ring_info).cmmd_base ∧
      (w1.ring_info (w1.ring ring).ring_info).cmmd_base + partition_desc_ring_size K ≤
        (w1.ring_info (w1.ring ring).ring_info).rslt_base := by
  obtain ⟨w1, h1, hn, hinf⟩ := partition_mem_result K w ring hring hshim hinfo hst
  have hK : partition_consts_ok K := by
    unfold partition_consts_ok
    rw [hR, hD, hC]
    decide
  obtain ⟨en, er⟩ := partition_ring_info_eq K (w.res (.of_ring ring .window_ram)).base 0x4000
    (w.shim (w.ring ring).shim).ring_type hK (Or.inl (by decide))
  simp only [hR, hD, hC] at en er
  have e16 : (0x800 / 2 / 64 : Nat) = 16 := by decide
  simp only [e16] at en er
  rw [hsz, er] at hinf
  have ed1 : (partition_data_mem K (w.res (.of_ring ring .window_ram)).base).1 % 0x4000 = 0 := by
    show (w.res (.of_ring ring .window_ram)).base % 2 ^ 32 % 0x4000 = 0
    omega
  have ed2 : (partition_data_mem K (w.res (.of_ring ring .window_ram)).base).2 = 0x3800 := by
    show K.PKA_WINDOW_RAM_DATA_MEM_SIZE % 2 ^ 32 = 0x3800
    rw [hD]
    decide
  have es : partition_desc_ring_size K = 0x400 := by
    unfold partition_desc_ring_size
    rw [en, hC]
    decide
  have ec : ((w.res (.of_ring ring .window_ram)).base + 0x3800) % 0x4000 = 0x3800 := by omega
  have erb : ((w.res (.of_ring ring .window_ram)).base + 0x3800 + 16 * 64) % 0x4000 = 0x3C00 := by
    omega
  refine ⟨w1, h1, by rw [hn, en], ?_, ed1, ed2, ?_, ?_, es, ?_, ?_, ?_⟩
  · rw [hinf]
  · rw [hinf]
    exact ec
  · rw [hinf]
    exact erb
  · intro off
    rw [hinf, ed1, ed2, es]
    simp only [ec, erb]
    omega
  · rw [hinf, ed1, ed2]
    simp only [ec]
    omega
  · rw [hinf, es]
    simp only [ec, erb]
    omega

/-- Witness of C33: ring 0 of the scenario, whose window has base `0x10000`
and size `0x4000` and whose constants are the reference sizes. -/
theorem partition_reference_layout_witness :
    (demo_rings1.res (.of_ring 0x35000 .window_ram)).base = 0x10000 ∧
    (demo_rings1.res (.of_ring 0x35000 .window_ram)).size = 0x4000 ∧
    ∃ w1, pka_dev_partition_mem demo_consts demo_rings1 0x35000 = some (0, w1) ∧
      (w1.ring 0x35000).num_cmd_desc = 16 ∧
      (w1.ring_info (w1.ring 0x35000).ring_info).cmmd_base = 0x3800 ∧
      (w1.ring_info (w1.ring 0x35000).ring_info).rslt_base = 0x3C00 :=
  ⟨by decide, by decide,
    (partition_reference_layout demo_consts demo_rings1 0x35000 (by decide) (by decide)
      (by decide) (by decide) rfl rfl rfl (by decide) (by decide)).imp
      fun _ h => ⟨h.1, h.2.1, h.2.2.2.2.2.1, h.2.2.2.2.2.2.1⟩⟩

/-! ## C34 -/

/-- The result of `pka_dev_get_ring_info` when the `ioctl` succeeds. -/
theorem get_ring_info_ok (K : Consts) (hw : pka_dev_hw_ring_info_t) (ring_info_ptr : Nat)
    (ring_info : pka_ring_info_t) (hptr : ring_info_ptr ≠ 0) :
    (pka_dev_get_ring_info K 0 hw ring_info_ptr ring_info).1 = 0 ∧
    (pka_dev_get_ring_info K 0 hw ring_info_ptr ring_info).2.ring_desc =
      { cmd_ring_base := hw.cmmd_base,
        rslt_ring_base := hw.rslt_base,
        cmd_idx := 0,
        rslt_idx := 0,
        desc_size := (hw.host_desc_size * BYTES_PER_WORD) % 2 ^ 32,
        num_descs := hw.size + 1,
        cmd_desc_cnt := 0,
        rslt_desc_cnt := 0,
        cmd_desc_mask := 0,
        operands_base :=
          (hw.cmmd_base &&&
            (2 ^ 64 - 1 - (ring_info.mem_size + (2 ^ 64 - 1)) % 2 ^ 64)) % 2 ^ 32,
        operands_end :=
          ((hw.cmmd_base &&&
            (2 ^ 64 - 1 - (ring_info.mem_size + (2 ^ 64 - 1)) % 2 ^ 64)) % 2 ^ 32 +
            K.PKA_WINDOW_RAM_DATA_MEM_SIZE % 2 ^ 32) % 2 ^ 32 } := by
  unfold pka_dev_get_ring_info
  simp [hptr]

/-- C34: for a ring in initialized status whose window has a base that is a
multiple of its size `2 ^ k` (`k <= 32`), with constants that fit the C types
of the locals, a descriptor size that is a multiple of the word size, and a
window that holds the data memory and the ring memory,
`pka_dev_partition_mem` returns 0 and the descriptor that
`pka_dev_get_ring_info` derives from the geometry record it stored, with
`mem_size` the window size, has descriptor size `CMD_DESC_SIZE`, descriptor
count the `num_cmd_desc` of the ring, and operand end equal to the command-ring
base; the operand region ends at or before the start of both descriptor
rings. -/
theorem ring_desc_matches_partition (K : Consts) (w : World) (ring k ring_info_ptr : Nat)
    (ring_info : pka_ring_info_t) (hring : ring ≠ 0)
    (hshim : (w.ring ring).shim ≠ 0) (hinfo : (w.ring ring).ring_info ≠ 0)
    (hst : (w.ring ring).status = PKA_DEV_RING_STATUS_INITIALIZED)
    (hK : partition_consts_ok K) (hword : K.CMD_DESC_SIZE % BYTES_PER_WORD = 0)
    (hk : k ≤ 32) (hsz : (w.res (.of_ring ring .window_ram)).size = 2 ^ k)
    (hb : (w.res (.of_ring ring .window_ram)).base % 2 ^ k = 0)
    (hfit : K.PKA_WINDOW_RAM_DATA_MEM_SIZE + K.PKA_WINDOW_RAM_RING_MEM_SIZE ≤ 2 ^ k)
    (hptr : ring_info_ptr ≠ 0) (hmem : ring_info.mem_size = 2 ^ k) :
    ∃ w1, pka_dev_partition_mem K w ring = some (0, w1) ∧
      (pka_dev_get_ring_info K 0 (w1.ring_info (w1.ring ring).ring_info) ring_info_ptr
        ring_info).1 = 0 ∧
      (pka_dev_get_ring_info K 0 (w1.ring_info (w1.ring ring).ring_info) ring_info_ptr
        ring_info).2.ring_desc.desc_size = K.CMD_DESC_SIZE ∧
      (pka_dev_get_ring_info K 0 (w1.ring_info (w1.ring ring).ring_info) ring_info_ptr
        ring_info).2.ring_desc.num_descs = (w1.ring ring).num_cmd_desc ∧
      (pka_dev_get_ring_info K 0 (w1.ring_info (w1.ring ring).ring_info) ring_info_ptr
        ring_info).2.ring_desc.operands_end =
        (pka_dev_get_ring_info K 0 (w1.ring_info (w1.ring ring).ring_info) ring_info_ptr
          ring_info).2.ring_desc.cmd_ring_base ∧
      (pka_dev_get_ring_info K 0 (w1.ring_info (w1.ring ring).ring_info) ring_info_ptr
        ring_info).2.ring_desc.operands_base ≤
        (pka_dev_get_ring_info K 0 (w1.ring_info (w1.ring ring).ring_info) ring_info_ptr
          ring_info).2.ring_desc.operands_end ∧
      (pka_dev_get_ring_info K 0 (w1.ring_info (w1.ring ring).ring_info) ring_info_ptr
        ring_info).2.ring_desc.operands_end ≤
        (pka_dev_get_ring_info K 0 (w1.ring_info (w1.ring ring).ring_info) ring_info_ptr
          ring_info).2.ring_desc.rslt_ring_base := by
  obtain ⟨w1, h1, hn, hinf⟩ := partition_mem_result K w ring hring hshim hinfo hst
  obtain ⟨en, er⟩ := partition_ring_info_eq K (w.res (.of_ring ring .window_ram)).base (2 ^ k)
    (w.shim (w.ring ring).shim).ring_type hK (Or.inl (Nat.pow_dvd_pow 2 hk))
  obtain ⟨g1, g2⟩ := get_ring_info_ok K (w1.ring_info (w1.ring ring).ring_info) ring_info_ptr
    ring_info hptr
  obtain ⟨r32, d32, cpos, n1, n16, h16⟩ := hK
  rw [hsz, er] at hinf
  rw [hinf] at g1 g2
  have hle : (K.PKA_WINDOW_RAM_RING_MEM_SIZE / 2) / K.CMD_DESC_SIZE * K.CMD_DESC_SIZE
      ≤ K.PKA_WINDOW_RAM_RING_MEM_SIZE / 2 := Nat.div_mul_le_self _ _
  have hpos : 1 ≤ (K.PKA_WINDOW_RAM_RING_MEM_SIZE / 2) / K.CMD_DESC_SIZE * K.CMD_DESC_SIZE :=
    Nat.mul_pos n1 cpos
  generalize hnc : (K.PKA_WINDOW_RAM_RING_MEM_SIZE / 2) / K.CMD_DESC_SIZE * K.CMD_DESC_SIZE = nc
    at *
  have hk32 : 2 ^ k ≤ 2 ^ 32 := Nat.pow_le_pow_right (by decide) hk
  have hDlt : K.PKA_WINDOW_RAM_DATA_MEM_SIZE < 2 ^ k := by omega
  have ec : ((w.res (.of_ring ring .window_ram)).base + K.PKA_WINDOW_RAM_DATA_MEM_SIZE) % 2 ^ k =
      K.PKA_WINDOW_RAM_DATA_MEM_SIZE := by
    rw [Nat.add_mod, hb, Nat.zero_add, Nat.mod_mod, Nat.mod_eq_of_lt hDlt]
  have erb : ((w.res (.of_ring ring .window_ram)).base + K.PKA_WINDOW_RAM_DATA_MEM_SIZE + nc) %
      2 ^ k = K.PKA_WINDOW_RAM_DATA_MEM_SIZE + nc := by
    rw [Nat.add_assoc, Nat.add_mod, hb, Nat.zero_add, Nat.mod_mod, Nat.mod_eq_of_lt (by omega)]
  have hmask := and_not_mask_eq K.PKA_WINDOW_RAM_DATA_MEM_SIZE k (by omega) (by omega)
  rw [Nat.div_eq_of_lt hDlt, Nat.zero_mul] at hmask
  have hdesc : K.CMD_DESC_SIZE / BYTES_PER_WORD * BYTES_PER_WORD % 2 ^ 32 = K.CMD_DESC_SIZE := by
    have : K.CMD_DESC_SIZE / BYTES_PER_WORD * BYTES_PER_WORD = K.CMD_DESC_SIZE :=
      Nat.div_mul_cancel (Nat.dvd_of_mod_eq_zero hword)
    rw [this]
    have h4 : K.CMD_DESC_SIZE / BYTES_PER_WORD * 4 = K.CMD_DESC_SIZE := this
    omega
  simp only [ec, erb] at hinf g1
  simp only [ec, erb, hmem, hmask, hdesc] at g2
  refine ⟨w1, h1, ?_⟩
  rw [hinf]
  refine ⟨g1, ?_, ?_, ?_, ?_, ?_⟩
  · rw [g2]
  · rw [g2, hn, en]
    dsimp only
    omega
  · rw [g2]
    dsimp only
    omega
  · rw [g2]
    dsimp only
    omega
  · rw [g2]
    dsimp only
    omega

/-- Witness of C34: ring 0 of the scenario (window base `0x10000`, size
`2 ^ 14`) read through `demo_ring_info`. -/
theorem ring_desc_matches_partition_witness :
    ∃ w1, pka_dev_partition_mem demo_consts demo_rings1 0x35000 = some (0, w1) ∧
      (pka_dev_get_ring_info demo_consts 0 (w1.ring_info (w1.ring 0x35000).ring_info) 0x7000
        demo_ring_info).2.ring_desc.desc_size = 64 ∧
      (pka_dev_get_ring_info demo_consts 0 (w1.ring_info (w1.ring 0x35000).ring_info) 0x7000
        demo_ring_info).2.ring_desc.num_descs = (w1.ring 0x35000).num_cmd_desc ∧
      (pka_dev_get_ring_info demo_consts 0 (w1.ring_info (w1.ring 0x35000).ring_info) 0x7000
        demo_ring_info).2.ring_desc.operands_end =
        (pka_dev_get_ring_info demo_consts 0 (w1.ring_info (w1.ring 0x35000).ring_info) 0x7000
          demo_ring_info).2.ring_desc.cmd_ring_base :=
  (ring_desc_matches_partition demo_consts demo_rings1 0x35000 14 0x7000 demo_ring_info
    (by decide) (by decide) (by decide) (by decide) (by decide) (by decide) (by decide)
    (by decide) (by decide) (by decide) (by decide) (by decide)).imp
    fun _ h => ⟨h.1, h.2.2.1, h.2.2.2.1, h.2.2.2.2.1⟩

/-! ## C31 -/

/-- C31, evaluation of the code.  First: resource A is unmapped, the
reservation succeeds and `ioremap_nocache` returns NULL;
`pka_dev_set_resource_config` returns `-ENOMEM` after releasing the region, the
table is unchanged, and the status of A is mapped.  Second: the two-slot table
of shim 0 is full (A at base `0x1000`, B); configuring the unmapped C with the
base of A takes A's `ioaddr`, makes no reservation, fails in
`pka_dev_add_resource` and returns `-ENOMEM` after `release_mem_region` on the
region of A: C is left with status mapped, and the reservation of the region
of A, which is still mapped, is no longer held. -/
theorem configure_failure_leaves_mapped :
    (demo_world.res (.of_shim 0 .buffer_ram)).status = PKA_DEV_RES_STATUS_UNMAPPED ∧
    (pka_dev_set_resource_config demo_env_no_ioremap demo_world 0 (.of_shim 0 .buffer_ram)
        0x1000 0x100 PKA_DEV_RES_TYPE_REG "A").map
        (fun x => (x.1, (x.2.res (.of_shim 0 .buffer_ram)).status,
          decide (x.2.pka_gbl_res_tbl 0 = demo_world.pka_gbl_res_tbl 0), x.2.trace)) =
      some (-ENOMEM, PKA_DEV_RES_STATUS_MAPPED, true,
        [Event.request_mem_region 0x1000 0x100 "A" true,
         Event.ioremap_nocache 0x1000 0x100 0,
         Event.release_mem_region 0x1000 0x100]) ∧
    (demo_world_full.res (.of_shim 0 .master_seq_ctrl)).status = PKA_DEV_RES_STATUS_UNMAPPED ∧
    demo_world_full.pka_gbl_res_tbl 0 =
      { res_tbl := [some (.of_shim 0 .buffer_ram), some (.of_shim 0 .master_prog_ram)],
        res_cnt := 2 } ∧
    reservations demo_world_full.trace = [(0x1000, 0x100), (0x2000, 0x100)] ∧
    (pka_dev_set_resource_config demo_env demo_world_full 0 (.of_shim 0 .master_seq_ctrl)
        0x1000 0x100 PKA_DEV_RES_TYPE_REG "C").map
        (fun x => (x.1, (x.2.res (.of_shim 0 .master_seq_ctrl)).status,
          (x.2.res (.of_shim 0 .buffer_ram)).status)) =
      some (-ENOMEM, PKA_DEV_RES_STATUS_MAPPED, PKA_DEV_RES_STATUS_MAPPED) ∧
    (pka_dev_set_resource_config demo_env demo_world_full 0 (.of_shim 0 .master_seq_ctrl)
        0x1000 0x100 PKA_DEV_RES_TYPE_REG "C").map
        (fun x => (decide (x.2.pka_gbl_res_tbl 0 = demo_world_full.pka_gbl_res_tbl 0),
          reservations x.2.trace)) =
      some (true, [(0x2000, 0x100)]) := by
  refine ⟨by decide, by decide, by decide, by decide, by decide, by decide, by decide⟩

/-! ## C35 -/

/-- C35, evaluation of the code: resource A is a mapped memory resource of 16
bytes and the image has 3 words.  The size test `res_ptr->size < size` compares
the 16 bytes with the word count 3 and passes; `pka_dev_load_image` returns 0
after writing and reading the slot of word 2 at byte offset 16, and
`8 * 2 + 8 = 24` is more than the 16 bytes of the resource. -/
theorem load_image_slot_past_resource :
    (demo_world_small.res (.of_shim 0 .buffer_ram)).status = PKA_DEV_RES_STATUS_MAPPED ∧
    (demo_world_small.res (.of_shim 0 .buffer_ram)).type = PKA_DEV_RES_TYPE_MEM ∧
    (demo_world_small.res (.of_shim 0 .buffer_ram)).size = 16 ∧
    (demo_world_small.res (.of_shim 0 .buffer_ram)).ioaddr = 0x80001000 ∧
    (pka_dev_load_image demo_env demo_world_small (.of_shim 0 .buffer_ram)
      (image_buf [1, 2, 3]) 3).1 = 0 ∧
    (pka_dev_load_image demo_env demo_world_small (.of_shim 0 .buffer_ram)
      (image_buf [1, 2, 3]) 3).2.trace = demo_world_small.trace ++
        [Event.pka_mmio_write 0x80001000 1, Event.pka_mmio_write 0x80001008 2,
         Event.pka_mmio_write (0x80001000 + 8 * 2) 3,
         Event.pka_mmio_read 0x80001000 1, Event.pka_mmio_read 0x80001008 2,
         Event.pka_mmio_read (0x80001000 + 8 * 2) 3] ∧
    ¬ (8 * 2 + 8 ≤ (demo_world_small.res (.of_shim 0 .buffer_ram)).size) := by
  refine ⟨by decide, by decide, by decide, by decide, by decide, by decide, by decide⟩

/-! ## C36 -/

/-- C36, evaluation of the code: the reservation for the fourth resource
(`PKA_AIC_CSR`) fails.  `pka_dev_create_shim` returns `-EPERM` with the shim
status still undefined, the first three resources with status mapped and
their three pointers in the table of shim 0, which was empty.
`__pka_dev_register_shim` then calls `pka_dev_delete_shim`, which returns at
once for a shim whose status is undefined, and frees the shim (at `0x1000`):
it returns NULL and the table still holds the three pointers into the freed
structure, whose resources still have status mapped. -/
theorem create_shim_failure_keeps_mappings :
    tbl_entries demo_world 0 = [] ∧
    (pka_dev_create_shim demo_consts demo_env_no_aic demo_world 1 0 0x2000000 0x40000 0).map
        (fun x => (x.1, (x.2.shim 1).status, tbl_entries x.2 0)) =
      some (-EPERM, PKA_SHIM_STATUS_UNDEFINED,
        [.of_shim 1 .buffer_ram, .of_shim 1 .master_prog_ram, .of_shim 1 .master_seq_ctrl]) ∧
    (pka_dev_create_shim demo_consts demo_env_no_aic demo_world 1 0 0x2000000 0x40000 0).map
        (fun x => ((x.2.res (.of_shim 1 .buffer_ram)).status,
          (x.2.res (.of_shim 1 .master_prog_ram)).status,
          (x.2.res (.of_shim 1 .master_seq_ctrl)).status)) =
      some (PKA_DEV_RES_STATUS_MAPPED, PKA_DEV_RES_STATUS_MAPPED, PKA_DEV_RES_STATUS_MAPPED) ∧
    (__pka_dev_register_shim demo_consts demo_env_no_aic 8 demo_world 0 0x2000000 0x40000).map
        (fun x => (x.1, (x.2.res (.of_shim 0x1000 .buffer_ram)).status,
          tbl_entries x.2 0, x.2.trace.getLast?)) =
      some (0, PKA_DEV_RES_STATUS_MAPPED,
        [.of_shim 0x1000 .buffer_ram, .of_shim 0x1000 .master_prog_ram,
         .of_shim 0x1000 .master_seq_ctrl],
        some (Event.kfree 0x1000)) := by
  refine ⟨by decide, by decide, by decide, by decide⟩

/-! ## C32 -/

/-- What a successful `pka_dev_init_ring` leaves. -/
theorem init_ring_ok (K : Consts) (env : Env) (w w1 : World) (ring ring_id shim : Nat)
    (h : pka_dev_init_ring K env w ring ring_id shim = some (0, w1)) :
    w1.res = init_ring_resources K w ring shim (shim_ring_slot K ring_id) ∧
    w1.pka_gbl_res_tbl = w.pka_gbl_res_tbl ∧
    (w1.ring ring).status = PKA_DEV_RING_STATUS_INITIALIZED ∧
    (w1.ring ring).ring_info = env.kzalloc w.trace ∧
    env.kzalloc w.trace ≠ 0 ∧
    w1.trace = w.trace ++ [Event.kzalloc (env.kzalloc w.trace)] := by
  unfold pka_dev_init_ring at h
  by_cases h1 : ring = 0
  · simp [h1] at h
  by_cases h2 : (w.ring ring).status = PKA_DEV_RING_STATUS_UNDEFINED
  swap
  · have hE : EPERM ≠ 0 := by decide
    simp [h1, h2, hE] at h
  by_cases h3 : ring_id > K.PKA_MAX_NUM_RINGS - 1
  · have hE : EINVAL ≠ 0 := by decide
    simp [h1, h2, h3, hE] at h
  by_cases h4 : shim = 0
  · simp [h1, h2, h3, h4] at h
  by_cases h5 : (w.shim shim).rings = 0
  · simp [h1, h2, h3, h4, h5] at h
  by_cases h6 : env.kzalloc w.trace = 0
  · have hE : ENOMEM ≠ 0 := by decide
    simp [h1, h2, h3, h4, h5, h6, hE] at h
  simp only [h1, h2, h3, h4, h5, h6, if_false, ne_eq, not_true_eq_false, Option.some.injEq,
    Prod.mk.injEq, true_and] at h
  subst h
  refine ⟨rfl, rfl, ?_, ?_, h6, rfl⟩
  · simp
  · simp

/-- `pka_dev_init_ring` stores status unmapped in the three resources of the
ring. -/
theorem init_ring_resources_unmapped (K : Consts) (w : World) (ring shim slot : Nat)
    (f : ring_res_field) :
    (init_ring_resources K w ring shim slot (.of_ring ring f)).status =
      PKA_DEV_RES_STATUS_UNMAPPED := by
  cases f <;> simp [init_ring_resources]

/-- C32, counterexample: ring 0 is registered on shim 0 of the scenario.
`pka_dev_register_ring` returns the new ring (at `0x35000`); its three
resources have status unmapped, and the table of shim 0 holds the five
resources of the shim and none of the ring. -/
theorem register_ring_not_mapped :
    (pka_dev_register_ring demo_consts demo_env demo_shim_world 0 0).map
        (fun x => (x.1, (x.2.res (.of_ring 0x35000 .info_words)).status,
          (x.2.res (.of_ring 0x35000 .counters)).status,
          (x.2.res (.of_ring 0x35000 .window_ram)).status)) =
      some (0x35000, PKA_DEV_RES_STATUS_UNMAPPED, PKA_DEV_RES_STATUS_UNMAPPED,
        PKA_DEV_RES_STATUS_UNMAPPED) ∧
    (pka_dev_register_ring demo_consts demo_env demo_shim_world 0 0).map
        (fun x => tbl_entries x.2 0) =
      some [.of_shim 0x1000 .buffer_ram, .of_shim 0x1000 .master_prog_ram,
        .of_shim 0x1000 .master_seq_ctrl, .of_shim 0x1000 .aic_csr, .of_shim 0x1000 .trng_csr] := by
  refine ⟨by decide, by decide⟩

/-- C32, amended: after a successful `pka_dev_register_ring` (a ring is
returned) the three resources of the ring have status unmapped and the names
`PKA_RING_INFO`, `PKA_RING_CNTRS`, `PKA_RING_WINDOW`, the resource tables are
as before the call, the ring is initialized with its geometry record
allocated, and the only outside calls made are the two allocations (no
reservation and no mapping).  Each of the three resource structures is given
in full: base (slot offset plus the address constant, in the `uint32_t`
locals of `pka_dev_init_ring`; for the window the base of the layout selected
by the split mode of the shim), size, type (memory, register, memory), status
unmapped, name, and the NULL `ioaddr` of the zeroed allocation. -/
theorem register_ring_leaves_unmapped (K : Consts) (env : Env) (w w1 : World)
    (ring_id shim_id ring : Nat)
    (h : pka_dev_register_ring K env w ring_id shim_id = some (ring, w1)) (hr : ring ≠ 0) :
    (∀ f, (w1.res (.of_ring ring f)).status = PKA_DEV_RES_STATUS_UNMAPPED) ∧
    (w1.res (.of_ring ring .info_words)).name = "PKA_RING_INFO" ∧
    (w1.res (.of_ring ring .counters)).name = "PKA_RING_CNTRS" ∧
    (w1.res (.of_ring ring .window_ram)).name = "PKA_RING_WINDOW" ∧
    w1.pka_gbl_res_tbl = w.pka_gbl_res_tbl ∧
    (w1.ring ring).status = PKA_DEV_RING_STATUS_INITIALIZED ∧
    (w1.ring ring).ring_info ≠ 0 ∧
    w1.trace = w.trace ++ [Event.kzalloc ring, Event.kzalloc (w1.ring ring).ring_info] ∧
    w1.res (.of_ring ring .info_words) =
      { base := ((shim_ring_slot K ring_id * K.PKA_RING_WORDS_SPACING) % 2 ^ 32 +
          K.PKA_RING_WORDS_ADDR) % 2 ^ 32,
        size := K.PKA_RING_WORDS_SIZE, type := PKA_DEV_RES_TYPE_MEM,
        status := PKA_DEV_RES_STATUS_UNMAPPED, name := "PKA_RING_INFO", ioaddr := 0 } ∧
    w1.res (.of_ring ring .counters) =
      { base := ((shim_ring_slot K ring_id * K.PKA_RING_CNTRS_SPACING) % 2 ^ 32 +
          K.PKA_RING_CNTRS_ADDR) % 2 ^ 32,
        size := K.PKA_RING_CNTRS_SIZE, type := PKA_DEV_RES_TYPE_REG,
        status := PKA_DEV_RES_STATUS_UNMAPPED, name := "PKA_RING_CNTRS", ioaddr := 0 } ∧
    w1.res (.of_ring ring .window_ram) =
      { base := init_ring_mem_base K (w.shim (pka_dev_get_shim w shim_id)).window_ram_split
          (shim_ring_slot K ring_id),
        size := init_ring_mem_size K (w.shim (pka_dev_get_shim w shim_id)).window_ram_split,
        type := PKA_DEV_RES_TYPE_MEM,
        status := PKA_DEV_RES_STATUS_UNMAPPED, name := "PKA_RING_WINDOW", ioaddr := 0 } := by
  unfold pka_dev_register_ring at h
  cases hreg : __pka_dev_register_ring K env w ring_id shim_id with
  | none => simp [hreg] at h
  | some p =>
    obtain ⟨r, w2⟩ := p
    simp only [hreg] at h
    by_cases hr0 : r = 0
    · simp [hr0] at h
      exact absurd h.1.symm hr
    simp only [hr0, if_false, Option.some.injEq, Prod.mk.injEq] at h
    obtain ⟨hrr, hw⟩ := h
    subst hrr
    unfold __pka_dev_register_ring at hreg
    by_cases hs : pka_dev_get_shim w shim_id = 0
    · simp [hs] at hreg
      exact absurd hreg.1.symm hr0
    by_cases hk : env.kzalloc w.trace = 0
    · simp [hs, hk] at hreg
      exact absurd hreg.1.symm hr0
    simp only [hs, hk, if_false] at hreg
    split at hreg
    · simp at hreg
    · rename_i ret w3 hinit
      by_cases hret : ret = 0
      swap
      · simp only [hret, ne_eq, not_false_eq_true, if_true] at hreg
        split at hreg
        · simp at hreg
        · simp at hreg
          exact absurd hreg.1.symm hr0
      subst hret
      simp only [ne_eq, not_true_eq_false, if_false, Option.some.injEq, Prod.mk.injEq] at hreg
      obtain ⟨hk2, hw3⟩ := hreg
      subst hw3
      subst hk2
      obtain ⟨i1, i2, i3, i4, i5, i6⟩ := init_ring_ok K env _ _ _ _ _ hinit
      subst hw
      simp only [] at i2 i6 ⊢
      refine ⟨fun f => ?_, ?_, ?_, ?_, i2, i3, ?_, ?_, ?_, ?_, ?_⟩
      · rw [i1]
        exact init_ring_resources_unmapped _ _ _ _ _ f
      · rw [i1]
        simp [init_ring_resources]
      · rw [i1]
        simp [init_ring_resources]
      · rw [i1]
        simp [init_ring_resources]
      · rw [i4]
        exact i5
      · rw [i6, i4]
        simp
      · rw [i1]
        simp [init_ring_resources, zero_res]
      · rw [i1]
        simp [init_ring_resources, zero_res]
      · rw [i1]
        simp [init_ring_resources, zero_res]

/-- Witness of C32 (amended): the registration of ring 0 on shim 0 of the
scenario. -/
theorem register_ring_leaves_unmapped_witness :
    pka_dev_register_ring demo_consts demo_env demo_shim_world 0 0 =
      some (0x35000, demo_rings1) ∧
    (∀ f, (demo_rings1.res (.of_ring 0x35000 f)).status = PKA_DEV_RES_STATUS_UNMAPPED) ∧
    demo_rings1.pka_gbl_res_tbl = demo_shim_world.pka_gbl_res_tbl ∧
    (demo_rings1.ring 0x35000).status = PKA_DEV_RING_STATUS_INITIALIZED ∧
    demo_rings1.trace = demo_shim_world.trace ++
      [Event.kzalloc 0x35000, Event.kzalloc (demo_rings1.ring 0x35000).ring_info] ∧
    demo_rings1.res (.of_ring 0x35000 .info_words) =
      { base := ((shim_ring_slot demo_consts 0 * demo_consts.PKA_RING_WORDS_SPACING) % 2 ^ 32 +
          demo_consts.PKA_RING_WORDS_ADDR) % 2 ^ 32,
        size := demo_consts.PKA_RING_WORDS_SIZE, type := PKA_DEV_RES_TYPE_MEM,
        status := PKA_DEV_RES_STATUS_UNMAPPED, name := "PKA_RING_INFO", ioaddr := 0 } ∧
    demo_rings1.res (.of_ring 0x35000 .counters) =
      { base := 0x80080, size := 0x2000, type := PKA_DEV_RES_TYPE_REG,
        status := PKA_DEV_RES_STATUS_UNMAPPED, name := "PKA_RING_CNTRS", ioaddr := 0 } ∧
    demo_rings1.res (.of_ring 0x35000 .window_ram) =
      { base := 0x10000, size := 0x4000, type := PKA_DEV_RES_TYPE_MEM,
        status := PKA_DEV_RES_STATUS_UNMAPPED, name := "PKA_RING_WINDOW", ioaddr := 0 } :=
  have h := register_ring_leaves_unmapped demo_consts demo_env demo_shim_world demo_rings1 0 0
    0x35000 rfl (by decide)
  ⟨rfl, h.1, h.2.2.2.2.1, h.2.2.2.2.2.1, h.2.2.2.2.2.2.2.1, h.2.2.2.2.2.2.2.2.1,
    h.2.2.2.2.2.2.2.2.2.1, h.2.2.2.2.2.2.2.2.2.2⟩

/-! ## C37 -/

/-- The loop test of `pka_dev_has_avail_ring` holds for every value of
`errors` when no ring is requested. -/
theorem has_avail_ring_cond_zero (K : Consts) (errors : Nat) :
    has_avail_ring_cond K errors 0 = true := by
  simp [has_avail_ring_cond]

/-- The loop test of `pka_dev_has_avail_ring` for a request of at least one
ring. -/
theorem has_avail_ring_cond_iff (K : Consts) (errors rings_num : Nat)
    (hM : K.PKA_MAX_NUM_RINGS < 2 ^ 32) (he : errors ≤ K.PKA_MAX_NUM_RINGS) :
    has_avail_ring_cond K errors rings_num = true ↔
      rings_num ≤ K.PKA_MAX_NUM_RINGS - errors := by
  unfold has_avail_ring_cond
  rw [decide_eq_true_iff]
  have h1 : (K.PKA_MAX_NUM_RINGS % 2 ^ 32 + (2 ^ 32 - errors % 2 ^ 32)) % 2 ^ 32 =
      K.PKA_MAX_NUM_RINGS - errors := by omega
  rw [h1]

theorem open_attempts_append (l1 l2 : List ring_call) :
    open_attempts (l1 ++ l2) = open_attempts l1 + open_attempts l2 := by
  simp [open_attempts, List.countP_append]

/-- With no ring requested and every attempt failing, no amount of fuel lets
`pka_dev_has_avail_ring` return. -/
theorem has_avail_ring_zero_loops (K : Consts) (be : ring_backend) (ring_info_ptr : Nat)
    (hfail : ∀ tr id, be.open_ring tr id ≠ 0 ∨
      be.mmap_ring (tr ++ [ring_call.open_ring id (be.open_ring tr id)]) id ≠ 0) :
    ∀ (fuel errors : Nat) (s : avail_state),
      pka_dev_has_avail_ring K be ring_info_ptr 0 fuel errors s = none := by
  intro fuel
  induction fuel with
  | zero =>
    intro errors s
    simp [pka_dev_has_avail_ring, has_avail_ring_cond_zero]
  | succ fuel ih =>
    intro errors s
    unfold pka_dev_has_avail_ring
    rw [has_avail_ring_cond_zero, if_pos rfl]
    by_cases hp : ring_info_ptr = 0
    · rw [if_pos hp]
    rw [if_neg hp]
    simp only []
    by_cases ho : be.open_ring s.calls (has_avail_ring_next K s.next_ring_id).1 = 0
    · rcases hfail s.calls (has_avail_ring_next K s.next_ring_id).1 with h | h
      · exact absurd ho h
      · rw [if_neg (by simpa using ho), if_pos h]
        exact ih _ _
    · rw [if_pos ho]
      exact ih _ _

/-- With at least one ring requested and every attempt failing,
`pka_dev_has_avail_ring` returns false after the attempts that bring `errors`
to `PKA_MAX_NUM_RINGS - rings_num + 1`. -/
theorem has_avail_ring_gives_up (K : Consts) (be : ring_backend) (ring_info_ptr rings_num : Nat)
    (hp : ring_info_ptr ≠ 0) (hM : K.PKA_MAX_NUM_RINGS < 2 ^ 32) (h1 : 1 ≤ rings_num)
    (hfail : ∀ tr id, be.open_ring tr id ≠ 0 ∨
      be.mmap_ring (tr ++ [ring_call.open_ring id (be.open_ring tr id)]) id ≠ 0) :
    ∀ (d fuel errors : Nat) (s : avail_state),
      errors + d = K.PKA_MAX_NUM_RINGS + 1 - rings_num → rings_num ≤ K.PKA_MAX_NUM_RINGS + 1 →
      d ≤ fuel →
      ∃ s1, pka_dev_has_avail_ring K be ring_info_ptr rings_num fuel errors s = some (false, s1) ∧
        open_attempts s1.calls = open_attempts s.calls + d := by
  intro d
  induction d with
  | zero =>
    intro fuel errors s he hr _
    have hc : has_avail_ring_cond K errors rings_num = false := by
      rw [Bool.eq_false_iff, ne_eq, has_avail_ring_cond_iff K errors rings_num hM (by omega)]
      omega
    refine ⟨s, ?_, rfl⟩
    cases fuel <;> simp [pka_dev_has_avail_ring, hc]
  | succ d ih =>
    intro fuel errors s he hr hf
    have hc : has_avail_ring_cond K errors rings_num = true := by
      rw [has_avail_ring_cond_iff K errors rings_num hM (by omega)]
      omega
    obtain ⟨fuel, rfl⟩ : ∃ f, fuel = f + 1 := ⟨fuel - 1, by omega⟩
    have he1 : (errors + 1) % 2 ^ 32 = errors + 1 := Nat.mod_eq_of_lt (by omega)
    unfold pka_dev_has_avail_ring
    rw [hc, if_pos rfl, if_neg hp]
    simp only []
    by_cases ho : be.open_ring s.calls (has_avail_ring_next K s.next_ring_id).1 = 0
    · rcases hfail s.calls (has_avail_ring_next K s.next_ring_id).1 with h | h
      · exact absurd ho h
      · rw [if_neg (by simpa using ho), if_pos h, he1]
        obtain ⟨s1, e1, e2⟩ := ih fuel (errors + 1) _ (by omega) hr (by omega)
        refine ⟨s1, e1, ?_⟩
        rw [e2]
        simp only [open_attempts_append]
        simp [open_attempts]
        omega
    · rw [if_pos ho, he1]
      obtain ⟨s1, e1, e2⟩ := ih fuel (errors + 1) _ (by omega) hr (by omega)
      refine ⟨s1, e1, ?_⟩
      rw [e2]
      simp only [open_attempts_append]
      simp [open_attempts]
      omega

/-- C37, evaluation of the code: with `rings_num = 0` the loop test
`(PKA_MAX_NUM_RINGS - errors) >= rings_num` compares an unsigned value with 0
and holds whatever `errors` is.  On a backend where no ring can be opened,
`pka_dev_has_avail_ring` does not return, whatever the number of iterations
allowed, the constants, the value of `errors` and the state it starts from. -/
theorem has_avail_ring_zero_never_returns (K : Consts) (fuel errors : Nat) (s : avail_state) :
    pka_dev_has_avail_ring K closed_backend 0x7000 0 fuel errors s = none :=
  has_avail_ring_zero_loops K closed_backend 0x7000 (fun _ _ => Or.inl (show (-EWOULDBLOCK : Int) ≠ 0 by decide))
    fuel errors s

/-! ## C38 -/

@[simp] theorem timer_done_res (env : Env) (w : World) (t : Nat) :
    (pka_dev_timer_done env w t).2.res = w.res := rfl

@[simp] theorem timer_start_res (env : Env) (w : World) (u : Nat) :
    (pka_dev_timer_start env w u).2.res = w.res := rfl

theorem timer_done_trace_eq (env : Env) (w : World) (t : Nat) :
    (pka_dev_timer_done env w t).2.trace =
      w.trace ++ [Event.get_cycles (env.get_cycles w.trace % 2 ^ 64)] := rfl

theorem timer_start_trace_eq (env : Env) (w : World) (u : Nat) :
    (pka_dev_timer_start env w u).2.trace =
      w.trace ++ [Event.get_cycles (env.get_cycles w.trace % 2 ^ 64)] := rfl

/-- The polling loop of `pka_dev_trng_read`, when it is left with the ready
value, has only read the status register and the cycle counter. -/
theorem trng_wait_ready_polls (K : Consts) (env : Env) (mem_ptr mem_off timer : Nat) :
    ∀ (fuel ready : Nat) (w w2 : World) (v : Nat),
      trng_wait_ready K env mem_ptr mem_off timer fuel ready w = some (some v, w2) →
      w2.res = w.res ∧
      ∃ polls, w2.trace = w.trace ++ polls ∧
        polls.all (trng_poll_call (mem_ptr + mem_off)) = true := by
  intro fuel
  induction fuel with
  | zero =>
    intro ready w w2 v h
    rw [trng_wait_ready] at h
    split at h
    · simp only [Option.some.injEq, Prod.mk.injEq] at h
      obtain ⟨_, rfl⟩ := h
      exact ⟨rfl, [], by simp, rfl⟩
    · simp at h
  | succ fuel ih =>
    intro ready w w2 v h
    rw [trng_wait_ready] at h
    split at h
    · simp only [Option.some.injEq, Prod.mk.injEq] at h
      obtain ⟨_, rfl⟩ := h
      exact ⟨rfl, [], by simp, rfl⟩
    · simp only [] at h
      split at h
      · simp at h
      · obtain ⟨h1, polls, h2, h3⟩ := ih _ _ _ _ h
        refine ⟨by rw [h1]; rfl,
          Event.pka_mmio_read (mem_ptr + mem_off) (pka_dev_io_read env w mem_ptr mem_off).1 ::
            Event.get_cycles
              (env.get_cycles (pka_dev_io_read env w mem_ptr mem_off).2.trace % 2 ^ 64) :: polls,
          ?_, ?_⟩
        · rw [h2, timer_done_trace_eq, io_read_trace]
          simp
        · simp [trng_poll_call, h3]

/-- Polling calls are neither register writes nor reads of an output
register. -/
theorem trng_polls_filter (K : Consts) (r : pka_dev_res_t) (polls : List Event)
    (hap : trng_output_apart K r.base)
    (h : polls.all (trng_poll_call
      (r.ioaddr + pka_dev_get_register_offset K r.base K.TRNG_STATUS_ADDR)) = true) :
    polls.filter (trng_word_call K r) = [] := by
  rw [List.filter_eq_nil_iff]
  intro e he
  have hp := List.all_eq_true.1 h e he
  cases e <;> simp [trng_poll_call, trng_word_call] at hp ⊢
  rename_i a v
  intro idx hidx
  rw [hp]
  unfold trng_output_addr
  rw [Nat.mod_eq_of_lt hidx]
  intro hc
  exact hap idx hidx (Nat.add_left_cancel hc)

theorem trng_expected_calls_congr (K : Consts) (r : pka_dev_res_t) (vals vals1 : Nat → Nat) :
    ∀ (n i : Nat), (∀ j, i ≤ j → j < i + n → vals j = vals1 j) →
      trng_expected_calls K r vals n i = trng_expected_calls K r vals1 n i := by
  intro n
  induction n with
  | zero => intro i _; rfl
  | succ n ih =>
    intro i h
    unfold trng_expected_calls
    rw [h i (Nat.le_refl _) (by omega), ih (i + 1) (fun j h1 h2 => h j (by omega) (by omega))]

/-- The read of the output register of word `i` is a word call. -/
theorem trng_word_call_output (K : Consts) (r : pka_dev_res_t) (i v : Nat)
    (hN : 0 < K.PKA_TRNG_OUTPUT_CNT) :
    trng_word_call K r (Event.pka_mmio_read (trng_output_addr K r i) v) = true := by
  simp only [trng_word_call, List.any_eq_true, List.mem_range, decide_eq_true_eq]
  refine ⟨i % K.PKA_TRNG_OUTPUT_CNT, Nat.mod_lt _ hN, ?_⟩
  unfold trng_output_addr
  rw [Nat.mod_mod]

/-- The word loop of `pka_dev_trng_read`, when it ends with 0: the register
writes and output-register reads it made are those the words call for, and the
buffer holds the low 32 bits of the values read. -/
theorem trng_read_words_calls (K : Consts) (env : Env) (fuel : Nat) (p : res_ptr_t)
    (hN0 : 0 < K.PKA_TRNG_OUTPUT_CNT) (hN : K.PKA_TRNG_OUTPUT_CNT ≤ 256) :
    ∀ (n i ready : Nat) (data : Nat → Nat) (w : World) (data1 : Nat → Nat) (w1 : World),
      trng_output_apart K (w.res p).base →
      trng_read_words K env fuel p n i ready data w = some (0, data1, w1) →
      w1.res = w.res ∧
      ∃ (vals : Nat → Nat) (suffix : List Event),
        w1.trace = w.trace ++ suffix ∧
        suffix.filter (trng_word_call K (w.res p)) = trng_expected_calls K (w.res p) vals n i ∧
        ∀ j, data1 j = if i ≤ j ∧ j < i + n then vals j % 2 ^ 32 else data j := by
  intro n
  induction n with
  | zero =>
    intro i ready data w data1 w1 _ h
    rw [trng_read_words] at h
    simp only [Option.some.injEq, Prod.mk.injEq, true_and] at h
    obtain ⟨rfl, rfl⟩ := h
    refine ⟨rfl, fun _ => 0, [], by simp, rfl, fun j => ?_⟩
    rw [if_neg (by omega)]
  | succ n ih =>
    intro i ready data w data1 w1 hap h
    have hmod : i % K.PKA_TRNG_OUTPUT_CNT % 2 ^ 8 = i % K.PKA_TRNG_OUTPUT_CNT :=
      Nat.mod_eq_of_lt (lt_of_lt_of_le (Nat.mod_lt _ hN0) hN)
    have core : ∀ (wa : World), wa.res = w.res → ∀ (rv : Nat) (w2 : World),
        trng_wait_ready K env (w.res p).ioaddr
          (pka_dev_get_register_offset K (w.res p).base K.TRNG_STATUS_ADDR)
          (pka_dev_timer_start env wa 1000000).1 fuel ready
          (pka_dev_timer_start env wa 1000000).2 = some (some rv, w2) →
        trng_read_words K env fuel p n (i + 1) rv
          (Function.update data i
            ((pka_dev_io_read env w2 (w.res p).ioaddr
              (pka_dev_get_register_offset K (w.res p).base
                (K.TRNG_OUTPUT_0_ADDR + i % K.PKA_TRNG_OUTPUT_CNT * 0x8))).1 % 2 ^ 32))
          (pka_dev_io_read env w2 (w.res p).ioaddr
            (pka_dev_get_register_offset K (w.res p).base
              (K.TRNG_OUTPUT_0_ADDR + i % K.PKA_TRNG_OUTPUT_CNT * 0x8))).2 =
          some (0, data1, w1) →
        w1.res = w.res ∧
        ∃ (vals : Nat → Nat) (suffix : List Event),
          w1.trace = wa.trace ++ suffix ∧
          suffix.filter (trng_word_call K (w.res p)) =
            [Event.pka_mmio_read (trng_output_addr K (w.res p) i) (vals i)] ++
              trng_expected_calls K (w.res p) vals n (i + 1) ∧
          ∀ j, data1 j = if i ≤ j ∧ j < i + (n + 1) then vals j % 2 ^ 32 else data j := by
      intro wa hwa rv w2 hwait hrec
      obtain ⟨p1, polls, p2, p3⟩ := trng_wait_ready_polls K env _ _ _ _ _ _ _ _ hwait
      have hres2 : w2.res = w.res := by rw [p1, timer_start_res, hwa]
      have hap2 : trng_output_apart K
          (((pka_dev_io_read env w2 (w.res p).ioaddr
            (pka_dev_get_register_offset K (w.res p).base
              (K.TRNG_OUTPUT_0_ADDR + i % K.PKA_TRNG_OUTPUT_CNT * 0x8))).2.res p).base) := by
        rw [io_read_res, hres2]
        exact hap
      obtain ⟨q1, vals, suffix, q2, q3, q4⟩ := ih _ _ _ _ _ _ hap2 hrec
      rw [io_read_res, hres2] at q1 q3
      refine ⟨q1,
        Function.update vals i
          (pka_dev_io_read env w2 (w.res p).ioaddr
            (pka_dev_get_register_offset K (w.res p).base
              (K.TRNG_OUTPUT_0_ADDR + i % K.PKA_TRNG_OUTPUT_CNT * 0x8))).1,
        Event.get_cycles (env.get_cycles wa.trace % 2 ^ 64) :: (polls ++
          (Event.pka_mmio_read (trng_output_addr K (w.res p) i)
            (pka_dev_io_read env w2 (w.res p).ioaddr
              (pka_dev_get_register_offset K (w.res p).base
                (K.TRNG_OUTPUT_0_ADDR + i % K.PKA_TRNG_OUTPUT_CNT * 0x8))).1 :: suffix)),
        ?_, ?_, ?_⟩
      · rw [q2, io_read_trace, p2, timer_start_trace_eq]
        simp [trng_output_addr]
      · rw [List.filter_cons_of_neg (by simp [trng_word_call]), List.filter_append,
          trng_polls_filter K (w.res p) polls hap p3, List.nil_append,
          List.filter_cons_of_pos (trng_word_call_output K (w.res p) i _ hN0), q3,
          Function.update_same,
          trng_expected_calls_congr K (w.res p) (Function.update vals i _) vals n (i + 1)
            (fun j h1 _ => Function.update_noteq (by omega) _ _)]
        rfl
      · intro j
        rw [q4 j]
        by_cases hj : j = i
        · subst hj
          rw [if_neg (by omega), if_pos (by omega), Function.update_same, Function.update_same]
        · rw [Function.update_noteq hj, Function.update_noteq hj]
          by_cases hr : i + 1 ≤ j ∧ j < i + 1 + n
          · rw [if_pos hr, if_pos (by omega)]
          · rw [if_neg hr, if_neg (by omega)]
    rw [trng_read_words] at h
    simp only [hmod] at h
    by_cases hz : i % K.PKA_TRNG_OUTPUT_CNT = 0
    · simp only [hz, if_true] at h
      split at h
      · simp at h
      · have hE : EBUSY ≠ 0 := by decide
        simp [hE] at h
      · rename_i rv w2 hwait
        rw [← hz] at h
        obtain ⟨c1, vals, suffix, c2, c3, c4⟩ := core _ (io_write_res _ _ _ _) rv w2 hwait h
        refine ⟨c1, vals, trng_ack_event K (w.res p) :: suffix, ?_, ?_, c4⟩
        · rw [c2, io_write_trace]
          simp [trng_ack_event]
        · rw [List.filter_cons_of_pos (by simp [trng_ack_event, trng_word_call]), c3,
            trng_expected_calls, if_pos hz]
          simp
    · simp only [hz, if_false] at h
      split at h
      · simp at h
      · have hE : EBUSY ≠ 0 := by decide
        simp [hE] at h
      · rename_i rv w2 hwait
        obtain ⟨c1, vals, suffix, c2, c3, c4⟩ := core w rfl rv w2 hwait h
        refine ⟨c1, vals, suffix, c2, ?_, c4⟩
        rw [c3, trng_expected_calls, if_neg hz]
        simp

theorem trng_reenable_fros_res (K : Consts) (env : Env) (w : World) (p : res_ptr_t) (m : Nat) :
    (trng_reenable_fros K env w p m).res = w.res := by
  unfold trng_reenable_fros
  rfl

theorem oflo_reset_error_res (K : Consts) (env : Env) (w : World) (p : res_ptr_t)
    (r : pka_dev_res_t) : (oflo_reset_error K env w p r).res = w.res := by
  unfold oflo_reset_error
  simp only []
  split
  · simp only [io_write_res, trng_reenable_fros_res, io_read_res]
  · simp only [io_write_res, io_read_res]

/-- The overflow check does not change the resource structures. -/
theorem trng_shutdown_oflo_res (K : Consts) (env : Env) (w : World) (p : res_ptr_t)
    (shim : Nat) : (pka_dev_trng_shutdown_oflo K env w p shim).2.res = w.res := by
  rw [trng_shutdown_oflo_blocks]
  split
  · rfl
  · split
    · show (oflo_disable K env _ _).res = _
      rw [(oflo_disable_frame K env _ _).2.1, oflo_reset_error_res]
      rfl
    · show (oflo_reset_error K env _ _ _).res = _
      rw [oflo_reset_error_res]
      rfl

/-- The calls that the words `i, .., i + n - 1` call for hold `n` register
reads and one register write per start of an output cycle. -/
theorem trng_expected_calls_counts (K : Consts) (r : pka_dev_res_t) (vals : Nat → Nat) :
    ∀ (n i : Nat),
      (trng_expected_calls K r vals n i).countP is_mmio_read = n ∧
      (trng_expected_calls K r vals n i).countP (fun e => decide (e = trng_ack_event K r)) =
        trng_cycle_starts K n i := by
  intro n
  induction n with
  | zero => intro i; exact ⟨rfl, rfl⟩
  | succ n ih =>
    intro i
    obtain ⟨h1, h2⟩ := ih (i + 1)
    rw [trng_expected_calls, trng_cycle_starts]
    by_cases hz : i % K.PKA_TRNG_OUTPUT_CNT = 0
    · simp only [hz, if_true, List.countP_append, h1, h2]
      simp [is_mmio_read, trng_ack_event, List.countP_cons]
      omega
    · simp only [hz, if_false, List.countP_append, h1, h2]
      simp [is_mmio_read, trng_ack_event, List.countP_cons]
      omega

/-- C38: a `pka_dev_trng_read` that returns 0 (output count between 1 and 256,
status register apart from the output registers).  With count 0 nothing is
called and nothing changes.  With a count `c` that is not 0, after the overflow
check, the register writes and the reads of output registers are, in this
order, those of the words `0, .., (c >> 2) - 1`: for word `i` the ready
acknowledge when `i mod PKA_TRNG_OUTPUT_CNT = 0`, then one read at
`TRNG_OUTPUT_0_ADDR + 8 * (i mod PKA_TRNG_OUTPUT_CNT)`; there are `c >> 2`
such reads and one acknowledge per start of an output cycle; buffer entry `i`
below `c >> 2` holds the low 32 bits of the value read for word `i`, and the
other entries are unchanged. -/
theorem trng_read_words_exact (K : Consts) (env : Env) (fuel : Nat) (w : World)
    (shim data_ptr : Nat) (data : Nat → Nat) (cnt : Nat) (data1 : Nat → Nat) (w1 : World)
    (hN0 : 0 < K.PKA_TRNG_OUTPUT_CNT) (hN : K.PKA_TRNG_OUTPUT_CNT ≤ 256)
    (hap : trng_output_apart K (w.res (.of_shim shim .trng_csr)).base)
    (h : pka_dev_trng_read K env fuel w shim data_ptr data cnt = some (0, data1, w1)) :
    (cnt = 0 → data1 = data ∧ w1.trace = w.trace) ∧
    (cnt ≠ 0 →
      ∃ (vals : Nat → Nat) (suffix : List Event),
        w1.trace =
          (pka_dev_trng_shutdown_oflo K env w (.of_shim shim .trng_csr) shim).2.trace ++ suffix ∧
        suffix.filter (trng_word_call K (w.res (.of_shim shim .trng_csr))) =
          trng_expected_calls K (w.res (.of_shim shim .trng_csr)) vals (cnt >>> 2) 0 ∧
        (suffix.filter (trng_word_call K (w.res (.of_shim shim .trng_csr)))).countP
          is_mmio_read = cnt >>> 2 ∧
        (suffix.filter (trng_word_call K (w.res (.of_shim shim .trng_csr)))).countP
          (fun e => decide (e = trng_ack_event K (w.res (.of_shim shim .trng_csr)))) =
          trng_cycle_starts K (cnt >>> 2) 0 ∧
        ∀ j, data1 j = if j < cnt >>> 2 then vals j % 2 ^ 32 else data j) := by
  have hE1 : EINVAL ≠ 0 := by decide
  have hE2 : EPERM ≠ 0 := by decide
  have hE3 : EWOULDBLOCK ≠ 0 := by decide
  unfold pka_dev_trng_read at h
  by_cases c1 : shim = 0 ∨ data_ptr = 0 ∨ cnt % K.PKA_TRNG_OUTPUT_CNT ≠ 0
  · rw [if_pos c1] at h
    simp [hE1] at h
  rw [if_neg c1] at h
  by_cases c2 : cnt = 0
  · rw [if_pos c2] at h
    simp only [Option.some.injEq, Prod.mk.injEq, true_and] at h
    obtain ⟨rfl, rfl⟩ := h
    exact ⟨fun _ => ⟨rfl, rfl⟩, fun hc => absurd c2 hc⟩
  rw [if_neg c2] at h
  simp only [] at h
  by_cases c3 : (w.res (.of_shim shim .trng_csr)).status ≠ PKA_DEV_RES_STATUS_MAPPED ∨
      (w.res (.of_shim shim .trng_csr)).type ≠ PKA_DEV_RES_TYPE_REG
  · rw [if_pos c3] at h
    simp [hE2] at h
  rw [if_neg c3] at h
  by_cases c4 : (pka_dev_trng_shutdown_oflo K env w (.of_shim shim .trng_csr) shim).1 = false
  · rw [if_pos c4] at h
    simp [hE3] at h
  rw [if_neg c4] at h
  refine ⟨fun hc => absurd hc c2, fun _ => ?_⟩
  have hres := trng_shutdown_oflo_res K env w (.of_shim shim .trng_csr) shim
  obtain ⟨_, vals, suffix, q2, q3, q4⟩ := trng_read_words_calls K env fuel _ hN0 hN _ _ _ _ _ _ _
    (by rw [hres]; exact hap) h
  rw [hres] at q3
  obtain ⟨k1, k2⟩ := trng_expected_calls_counts K (w.res (.of_shim shim .trng_csr)) vals
    (cnt >>> 2) 0
  refine ⟨vals, suffix, q2, q3, by rw [q3, k1], by rw [q3, k2], fun j => ?_⟩
  rw [q4 j]
  simp

/-- Witness of C38: the read of 20 bytes (five words) on the device that
always shows the ready bit: five output-register reads, two acknowledges
(words 0 and 4), and the buffer unchanged from entry 5 on. -/
theorem trng_read_words_exact_witness :
    ∃ (data1 : Nat → Nat) (w1 : World),
      pka_dev_trng_read demo_consts ready_env 4 demo_trng_world 1 0x9000 (fun _ => 0) 20 =
        some (0, data1, w1) ∧
      ∃ (vals : Nat → Nat) (suffix : List Event),
        w1.trace =
          (pka_dev_trng_shutdown_oflo demo_consts ready_env demo_trng_world
            (.of_shim 1 .trng_csr) 1).2.trace ++ suffix ∧
        (suffix.filter (trng_word_call demo_consts
          (demo_trng_world.res (.of_shim 1 .trng_csr)))).countP is_mmio_read = 5 ∧
        (suffix.filter (trng_word_call demo_consts
          (demo_trng_world.res (.of_shim 1 .trng_csr)))).countP
          (fun e => decide (e = trng_ack_event demo_consts
            (demo_trng_world.res (.of_shim 1 .trng_csr)))) = 2 ∧
        ∀ j, data1 j = if j < 5 then vals j % 2 ^ 32 else 0 := by
  have hd : (pka_dev_trng_read demo_consts ready_env 4 demo_trng_world 1 0x9000 (fun _ => 0)
      20).map (fun x => x.1) = some 0 := by decide
  cases hr : pka_dev_trng_read demo_consts ready_env 4 demo_trng_world 1 0x9000 (fun _ => 0)
      20 with
  | none =>
    rw [hr] at hd
    simp at hd
  | some x =>
    obtain ⟨ret, data1, w1⟩ := x
    rw [hr] at hd
    simp only [Option.map_some', Option.some.injEq] at hd
    subst hd
    obtain ⟨vals, suffix, a, _, c, d, e⟩ :=
      (trng_read_words_exact demo_consts ready_env 4 demo_trng_world 1 0x9000 (fun _ => 0) 20
        data1 w1 (by decide) (by decide) (by decide) hr).2 (by decide)
    have h2 : trng_cycle_starts demo_consts (20 >>> 2) 0 = 2 := by decide
    rw [h2] at d
    exact ⟨data1, w1, rfl, vals, suffix, a, c, d, e⟩

end PKA
